import Mathlib

set_option maxRecDepth 100000

/-!
Shallow embedding of the Peanut-GB Game Boy emulator core (`peanut_gb.h`),
together with proofs about its memory map, MBC state machines, timers,
interrupt controller, PPU sprite selection and frame loop.

Modelling conventions:
* A C `uint8_t` value is a `Nat`; every store into a `uint8_t` location applies
  `% 256` (the C conversion). 16-bit registers are plain `Nat`s.
* Byte arrays (`wram`, `vram`, `oam`, `hram_io`) are functions `Nat → Nat`,
  updated pointwise by `upd8`.
* Host callbacks (`gb_rom_read`, `gb_cart_ram_read`/`write`, `gb_bootrom_read`)
  are modelled as functions carried in the state; the cart-RAM callbacks are
  assumed to implement a flat byte store (`cart_ram_data`).  The serial RX
  callback is modelled as `Option Nat`: `some b` is a connected peripheral
  whose next received byte is `b`; `none` covers both a NULL callback and a
  `GB_SERIAL_RX_NO_CONNECTION` result (the C code treats the two identically).
* C `while` loops with a data-dependent trip count are modelled by structural
  recursion on an explicit iteration bound; the bound passed at each call site
  provably exceeds the trip count, so the model computes the same fixpoint the
  C loop does.
* Compile-time configuration: `ENABLE_SOUND=0`, `ENABLE_LCD=1`,
  `PEANUT_GB_HIGH_LCD_ACCURACY=1`, `PEANUT_GB_12_COLOUR=0`.
-/

namespace PeanutGB

/-! ## Constants from peanut_gb.h -/

def VBLANK_INTR : Nat := 0x01

def LCDC_INTR : Nat := 0x02

def TIMER_INTR : Nat := 0x04

def SERIAL_INTR : Nat := 0x08

def CONTROL_INTR : Nat := 0x10

def ANY_INTR : Nat := 0x1F

def VRAM_ADDR : Nat := 0x8000

def CART_RAM_ADDR : Nat := 0xA000

def WRAM_0_ADDR : Nat := 0xC000

def WRAM_1_ADDR : Nat := 0xD000

def ECHO_ADDR : Nat := 0xE000

def OAM_ADDR : Nat := 0xFE00

def UNUSED_ADDR : Nat := 0xFEA0

def IO_ADDR : Nat := 0xFF00

def HRAM_ADDR : Nat := 0xFF80

def INTR_EN_ADDR : Nat := 0xFFFF

def ROM_BANK_SIZE : Nat := 0x4000

def CRAM_BANK_SIZE : Nat := 0x2000

def DIV_CYCLES : Nat := 256

def SERIAL_CYCLES : Nat := 4096

def RTC_CYCLES : Nat := 4194304

def SERIAL_SC_TX_START : Nat := 0x80

def SERIAL_SC_CLOCK_SRC : Nat := 0x01

def STAT_LYC_INTR : Nat := 0x40

def STAT_MODE_2_INTR : Nat := 0x20

def STAT_MODE_1_INTR : Nat := 0x10

def STAT_MODE_0_INTR : Nat := 0x08

def STAT_LYC_COINC : Nat := 0x04

def STAT_MODE : Nat := 0x03

def STAT_USER_BITS : Nat := 0xF8

def LCDC_ENABLE : Nat := 0x80

def LCDC_WINDOW_ENABLE : Nat := 0x20

def LCDC_OBJ_SIZE : Nat := 0x04

def LCD_VERT_LINES : Nat := 154

def LCD_HEIGHT : Nat := 144

def LCD_WIDTH : Nat := 160

def LCD_LINE_CYCLES : Nat := 456

def LCD_MODE0_HBLANK_MAX_DRUATION : Nat := 204

def LCD_MODE2_OAM_SCAN_DURATION : Nat := 80

def LCD_MODE2_OAM_SCAN_END : Nat := LCD_MODE2_OAM_SCAN_DURATION

def LCD_MODE3_LCD_DRAW_MIN_DURATION : Nat := 172

def LCD_MODE3_LCD_DRAW_END : Nat := LCD_MODE2_OAM_SCAN_END + LCD_MODE3_LCD_DRAW_MIN_DURATION

def LCD_FRAME_CYCLES : Nat := LCD_LINE_CYCLES * LCD_VERT_LINES

def VBLANK_INTR_ADDR : Nat := 0x0040

def LCDC_INTR_ADDR : Nat := 0x0048

def TIMER_INTR_ADDR : Nat := 0x0050

def SERIAL_INTR_ADDR : Nat := 0x0058

def CONTROL_INTR_ADDR : Nat := 0x0060

def NUM_SPRITES : Nat := 0x28

def MAX_SPRITES_LINE : Nat := 0x0A

def ROM_HEADER_CHECKSUM_LOC : Nat := 0x014D

def IO_JOYP : Nat := 0x00

def IO_SB : Nat := 0x01

def IO_SC : Nat := 0x02

def IO_DIV : Nat := 0x04

def IO_TIMA : Nat := 0x05

def IO_TMA : Nat := 0x06

def IO_TAC : Nat := 0x07

def IO_IF : Nat := 0x0F

def IO_LCDC : Nat := 0x40

def IO_STAT : Nat := 0x41

def IO_SCY : Nat := 0x42

def IO_SCX : Nat := 0x43

def IO_LY : Nat := 0x44

def IO_LYC : Nat := 0x45

def IO_DMA : Nat := 0x46

def IO_BGP : Nat := 0x47

def IO_OBP0 : Nat := 0x48

def IO_OBP1 : Nat := 0x49

def IO_WY : Nat := 0x4A

def IO_WX : Nat := 0x4B

def IO_BOOT : Nat := 0x50

def IO_IE : Nat := 0xFF

def IO_TAC_RATE_MASK : Nat := 0x3

def IO_TAC_ENABLE_MASK : Nat := 0x4

def IO_STAT_MODE_HBLANK : Nat := 0

def IO_STAT_MODE_VBLANK : Nat := 1

def IO_STAT_MODE_OAM_SCAN : Nat := 2

def IO_STAT_MODE_LCD_DRAW : Nat := 3

def OAM_SIZE : Nat := 0x00A0

/-- `TAC_CYCLES[4] = {1024, 16, 64, 256}` from `__gb_step_cpu`. -/
def TAC_CYCLES (i : Nat) : Nat :=
  if i = 0 then 1024 else if i = 1 then 16 else if i = 2 then 64 else 256

/-! ## State -/

/-- `union cart_rtc`: the five RTC registers.  The `bytes[5]` view of the C
union is provided by `cart_rtc.bytes` / `cart_rtc.setByte`. -/
structure cart_rtc where
  sec : Nat
  rmin : Nat
  hour : Nat
  yday : Nat
  high : Nat
deriving DecidableEq

/-- The `bytes[i]` view of `union cart_rtc` (byte order of the `reg` struct). -/
def cart_rtc.bytes (r : cart_rtc) : Nat → Nat
  | 0 => r.sec
  | 1 => r.rmin
  | 2 => r.hour
  | 3 => r.yday
  | _ => r.high

/-- Store into `bytes[i]` of `union cart_rtc` (uint8 store, hence `% 256`). -/
def cart_rtc.setByte (r : cart_rtc) (i v : Nat) : cart_rtc :=
  if i = 0 then { r with sec := v % 256 }
  else if i = 1 then { r with rmin := v % 256 }
  else if i = 2 then { r with hour := v % 256 }
  else if i = 3 then { r with yday := v % 256 }
  else { r with high := v % 256 }

/-- Emulator context `struct gb_s`.  Fields of nested structs (`counter`,
`display`, `direct`, `cpu_reg`) are flattened with a recognisable prefix.
The 16-bit register pairs of `cpu_reg` are single `Nat` fields (the byte
halves are `% 256` / `/ 256` views).  The low nibble of `F` and the pixel
buffers are not observable by any property proved here and the flag bits are
kept as four booleans. -/
structure gb_s where
  gb_rom_read : Nat → Nat
  gb_bootrom_read : Nat → Nat
  has_bootrom : Bool
  cart_ram_data : Nat → Nat
  gb_serial_rx : Option Nat
  gb_halt : Bool
  gb_ime : Bool
  gb_frame : Bool
  lcd_blank : Bool
  cart_is_mbc3O : Bool
  mbc : Int
  cart_ram : Bool
  num_rom_banks_mask : Nat
  num_ram_banks : Nat
  selected_rom_bank : Nat
  cart_ram_bank : Nat
  enable_cart_ram : Bool
  cart_mode_select : Nat
  rtc_latched : cart_rtc
  rtc_real : cart_rtc
  cpu_a : Nat
  cpu_f_z : Bool
  cpu_f_n : Bool
  cpu_f_h : Bool
  cpu_f_c : Bool
  cpu_bc : Nat
  cpu_de : Nat
  cpu_hl : Nat
  cpu_sp : Nat
  cpu_pc : Nat
  counter_lcd : Nat
  counter_div : Nat
  counter_tima : Nat
  counter_serial : Nat
  counter_rtc : Nat
  counter_lcd_off : Nat
  wram : Nat → Nat
  vram : Nat → Nat
  oam : Nat → Nat
  hram_io : Nat → Nat
  display_lcd_draw_line : Bool
  display_bg_palette : Nat → Nat
  display_sp_palette : Nat → Nat
  display_window_clear : Nat
  display_WY : Nat
  display_frame_skip_count : Bool
  display_interlace_count : Bool
  direct_interlace : Bool
  direct_frame_skip : Bool
  direct_joypad : Nat

/-- Pointwise update of a byte array; the stored value is truncated to a byte
as the C `uint8_t` store does. -/
def upd8 (f : Nat → Nat) (i v : Nat) : Nat → Nat :=
  fun a => if a = i then v % 256 else f a

theorem upd8_same (f : Nat → Nat) (i v : Nat) : upd8 f i v i = v % 256 := by
  simp [upd8]

theorem upd8_ne (f : Nat → Nat) {a i : Nat} (v : Nat) (h : a ≠ i) :
    upd8 f i v a = f a := by
  simp [upd8, h]

/-! Field-update helpers (C assignments `gb->field = v;`).  Using one small
function per field keeps the elaborated terms linear in the number of
sequential assignments. -/

def setHram (s : gb_s) (v : Nat → Nat) : gb_s := { s with hram_io := v }

def setWram (s : gb_s) (v : Nat → Nat) : gb_s := { s with wram := v }

def setVram (s : gb_s) (v : Nat → Nat) : gb_s := { s with vram := v }

def setOam (s : gb_s) (v : Nat → Nat) : gb_s := { s with oam := v }

def setCartRamData (s : gb_s) (v : Nat → Nat) : gb_s := { s with cart_ram_data := v }

def setHalt (s : gb_s) (v : Bool) : gb_s := { s with gb_halt := v }

def setIme (s : gb_s) (v : Bool) : gb_s := { s with gb_ime := v }

def setFrame (s : gb_s) (v : Bool) : gb_s := { s with gb_frame := v }

def setLcdBlank (s : gb_s) (v : Bool) : gb_s := { s with lcd_blank := v }

def setMbc3O (s : gb_s) (v : Bool) : gb_s := { s with cart_is_mbc3O := v }

def setMbc (s : gb_s) (v : Int) : gb_s := { s with mbc := v }

def setCartRamFlag (s : gb_s) (v : Bool) : gb_s := { s with cart_ram := v }

def setNumRomBanksMask (s : gb_s) (v : Nat) : gb_s := { s with num_rom_banks_mask := v }

def setNumRamBanks (s : gb_s) (v : Nat) : gb_s := { s with num_ram_banks := v }

def setSelectedRomBank (s : gb_s) (v : Nat) : gb_s := { s with selected_rom_bank := v }

def setCartRamBank (s : gb_s) (v : Nat) : gb_s := { s with cart_ram_bank := v }

def setEnableCartRam (s : gb_s) (v : Bool) : gb_s := { s with enable_cart_ram := v }

def setCartModeSelect (s : gb_s) (v : Nat) : gb_s := { s with cart_mode_select := v }

def setRtcLatched (s : gb_s) (v : cart_rtc) : gb_s := { s with rtc_latched := v }

def setRtcReal (s : gb_s) (v : cart_rtc) : gb_s := { s with rtc_real := v }

def setCpuA (s : gb_s) (v : Nat) : gb_s := { s with cpu_a := v }

def setCpuF (s : gb_s) (z n h c : Bool) : gb_s :=
  { s with cpu_f_z := z, cpu_f_n := n, cpu_f_h := h, cpu_f_c := c }

def setCpuBC (s : gb_s) (v : Nat) : gb_s := { s with cpu_bc := v }

def setCpuDE (s : gb_s) (v : Nat) : gb_s := { s with cpu_de := v }

def setCpuHL (s : gb_s) (v : Nat) : gb_s := { s with cpu_hl := v }

def setCpuSP (s : gb_s) (v : Nat) : gb_s := { s with cpu_sp := v }

def setCpuPC (s : gb_s) (v : Nat) : gb_s := { s with cpu_pc := v }

def setCounterLcd (s : gb_s) (v : Nat) : gb_s := { s with counter_lcd := v }

def setCounterDiv (s : gb_s) (v : Nat) : gb_s := { s with counter_div := v }

def setCounterTima (s : gb_s) (v : Nat) : gb_s := { s with counter_tima := v }

def setCounterSerial (s : gb_s) (v : Nat) : gb_s := { s with counter_serial := v }

def setCounterRtc (s : gb_s) (v : Nat) : gb_s := { s with counter_rtc := v }

def setCounterLcdOff (s : gb_s) (v : Nat) : gb_s := { s with counter_lcd_off := v }

def setDispDrawLine (s : gb_s) (v : Bool) : gb_s := { s with display_lcd_draw_line := v }

def setDispBgPalette (s : gb_s) (v : Nat → Nat) : gb_s := { s with display_bg_palette := v }

def setDispSpPalette (s : gb_s) (v : Nat → Nat) : gb_s := { s with display_sp_palette := v }

def setDispWindowClear (s : gb_s) (v : Nat) : gb_s := { s with display_window_clear := v }

def setDispWY (s : gb_s) (v : Nat) : gb_s := { s with display_WY := v }

def setDispFrameSkipCount (s : gb_s) (v : Bool) : gb_s := { s with display_frame_skip_count := v }

def setDispInterlaceCount (s : gb_s) (v : Bool) : gb_s := { s with display_interlace_count := v }

def setDirectJoypad (s : gb_s) (v : Nat) : gb_s := { s with direct_joypad := v }

def setRomRead (s : gb_s) (v : Nat → Nat) : gb_s := { s with gb_rom_read := v }

def setSerialRxConn (s : gb_s) (v : Option Nat) : gb_s := { s with gb_serial_rx := v }

def setHasBootrom (s : gb_s) (v : Bool) : gb_s := { s with has_bootrom := v }

/-! Projection lemmas for the field-update helpers (all `rfl`). -/

@[simp] theorem setHram_gb_rom_read (s : gb_s) (v : Nat → Nat) : (setHram s v).gb_rom_read = s.gb_rom_read := rfl

@[simp] theorem setHram_gb_bootrom_read (s : gb_s) (v : Nat → Nat) : (setHram s v).gb_bootrom_read = s.gb_bootrom_read := rfl

@[simp] theorem setHram_has_bootrom (s : gb_s) (v : Nat → Nat) : (setHram s v).has_bootrom = s.has_bootrom := rfl

@[simp] theorem setHram_cart_ram_data (s : gb_s) (v : Nat → Nat) : (setHram s v).cart_ram_data = s.cart_ram_data := rfl

@[simp] theorem setHram_gb_serial_rx (s : gb_s) (v : Nat → Nat) : (setHram s v).gb_serial_rx = s.gb_serial_rx := rfl

@[simp] theorem setHram_gb_halt (s : gb_s) (v : Nat → Nat) : (setHram s v).gb_halt = s.gb_halt := rfl

@[simp] theorem setHram_gb_ime (s : gb_s) (v : Nat → Nat) : (setHram s v).gb_ime = s.gb_ime := rfl

@[simp] theorem setHram_gb_frame (s : gb_s) (v : Nat → Nat) : (setHram s v).gb_frame = s.gb_frame := rfl

@[simp] theorem setHram_lcd_blank (s : gb_s) (v : Nat → Nat) : (setHram s v).lcd_blank = s.lcd_blank := rfl

@[simp] theorem setHram_cart_is_mbc3O (s : gb_s) (v : Nat → Nat) : (setHram s v).cart_is_mbc3O = s.cart_is_mbc3O := rfl

@[simp] theorem setHram_mbc (s : gb_s) (v : Nat → Nat) : (setHram s v).mbc = s.mbc := rfl

@[simp] theorem setHram_cart_ram (s : gb_s) (v : Nat → Nat) : (setHram s v).cart_ram = s.cart_ram := rfl

@[simp] theorem setHram_num_rom_banks_mask (s : gb_s) (v : Nat → Nat) : (setHram s v).num_rom_banks_mask = s.num_rom_banks_mask := rfl

@[simp] theorem setHram_num_ram_banks (s : gb_s) (v : Nat → Nat) : (setHram s v).num_ram_banks = s.num_ram_banks := rfl

@[simp] theorem setHram_selected_rom_bank (s : gb_s) (v : Nat → Nat) : (setHram s v).selected_rom_bank = s.selected_rom_bank := rfl

@[simp] theorem setHram_cart_ram_bank (s : gb_s) (v : Nat → Nat) : (setHram s v).cart_ram_bank = s.cart_ram_bank := rfl

@[simp] theorem setHram_enable_cart_ram (s : gb_s) (v : Nat → Nat) : (setHram s v).enable_cart_ram = s.enable_cart_ram := rfl

@[simp] theorem setHram_cart_mode_select (s : gb_s) (v : Nat → Nat) : (setHram s v).cart_mode_select = s.cart_mode_select := rfl

@[simp] theorem setHram_rtc_latched (s : gb_s) (v : Nat → Nat) : (setHram s v).rtc_latched = s.rtc_latched := rfl

@[simp] theorem setHram_rtc_real (s : gb_s) (v : Nat → Nat) : (setHram s v).rtc_real = s.rtc_real := rfl

@[simp] theorem setHram_cpu_a (s : gb_s) (v : Nat → Nat) : (setHram s v).cpu_a = s.cpu_a := rfl

@[simp] theorem setHram_cpu_f_z (s : gb_s) (v : Nat → Nat) : (setHram s v).cpu_f_z = s.cpu_f_z := rfl

@[simp] theorem setHram_cpu_f_n (s : gb_s) (v : Nat → Nat) : (setHram s v).cpu_f_n = s.cpu_f_n := rfl

@[simp] theorem setHram_cpu_f_h (s : gb_s) (v : Nat → Nat) : (setHram s v).cpu_f_h = s.cpu_f_h := rfl

@[simp] theorem setHram_cpu_f_c (s : gb_s) (v : Nat → Nat) : (setHram s v).cpu_f_c = s.cpu_f_c := rfl

@[simp] theorem setHram_cpu_bc (s : gb_s) (v : Nat → Nat) : (setHram s v).cpu_bc = s.cpu_bc := rfl

@[simp] theorem setHram_cpu_de (s : gb_s) (v : Nat → Nat) : (setHram s v).cpu_de = s.cpu_de := rfl

@[simp] theorem setHram_cpu_hl (s : gb_s) (v : Nat → Nat) : (setHram s v).cpu_hl = s.cpu_hl := rfl

@[simp] theorem setHram_cpu_sp (s : gb_s) (v : Nat → Nat) : (setHram s v).cpu_sp = s.cpu_sp := rfl

@[simp] theorem setHram_cpu_pc (s : gb_s) (v : Nat → Nat) : (setHram s v).cpu_pc = s.cpu_pc := rfl

@[simp] theorem setHram_counter_lcd (s : gb_s) (v : Nat → Nat) : (setHram s v).counter_lcd = s.counter_lcd := rfl

@[simp] theorem setHram_counter_div (s : gb_s) (v : Nat → Nat) : (setHram s v).counter_div = s.counter_div := rfl

@[simp] theorem setHram_counter_tima (s : gb_s) (v : Nat → Nat) : (setHram s v).counter_tima = s.counter_tima := rfl

@[simp] theorem setHram_counter_serial (s : gb_s) (v : Nat → Nat) : (setHram s v).counter_serial = s.counter_serial := rfl

@[simp] theorem setHram_counter_rtc (s : gb_s) (v : Nat → Nat) : (setHram s v).counter_rtc = s.counter_rtc := rfl

@[simp] theorem setHram_counter_lcd_off (s : gb_s) (v : Nat → Nat) : (setHram s v).counter_lcd_off = s.counter_lcd_off := rfl

@[simp] theorem setHram_wram (s : gb_s) (v : Nat → Nat) : (setHram s v).wram = s.wram := rfl

@[simp] theorem setHram_vram (s : gb_s) (v : Nat → Nat) : (setHram s v).vram = s.vram := rfl

@[simp] theorem setHram_oam (s : gb_s) (v : Nat → Nat) : (setHram s v).oam = s.oam := rfl

@[simp] theorem setHram_hram_io (s : gb_s) (v : Nat → Nat) : (setHram s v).hram_io = v := rfl

@[simp] theorem setHram_display_lcd_draw_line (s : gb_s) (v : Nat → Nat) : (setHram s v).display_lcd_draw_line = s.display_lcd_draw_line := rfl

@[simp] theorem setHram_display_bg_palette (s : gb_s) (v : Nat → Nat) : (setHram s v).display_bg_palette = s.display_bg_palette := rfl

@[simp] theorem setHram_display_sp_palette (s : gb_s) (v : Nat → Nat) : (setHram s v).display_sp_palette = s.display_sp_palette := rfl

@[simp] theorem setHram_display_window_clear (s : gb_s) (v : Nat → Nat) : (setHram s v).display_window_clear = s.display_window_clear := rfl

@[simp] theorem setHram_display_WY (s : gb_s) (v : Nat → Nat) : (setHram s v).display_WY = s.display_WY := rfl

@[simp] theorem setHram_display_frame_skip_count (s : gb_s) (v : Nat → Nat) : (setHram s v).display_frame_skip_count = s.display_frame_skip_count := rfl

@[simp] theorem setHram_display_interlace_count (s : gb_s) (v : Nat → Nat) : (setHram s v).display_interlace_count = s.display_interlace_count := rfl

@[simp] theorem setHram_direct_interlace (s : gb_s) (v : Nat → Nat) : (setHram s v).direct_interlace = s.direct_interlace := rfl

@[simp] theorem setHram_direct_frame_skip (s : gb_s) (v : Nat → Nat) : (setHram s v).direct_frame_skip = s.direct_frame_skip := rfl

@[simp] theorem setHram_direct_joypad (s : gb_s) (v : Nat → Nat) : (setHram s v).direct_joypad = s.direct_joypad := rfl

@[simp] theorem setWram_gb_rom_read (s : gb_s) (v : Nat → Nat) : (setWram s v).gb_rom_read = s.gb_rom_read := rfl

@[simp] theorem setWram_gb_bootrom_read (s : gb_s) (v : Nat → Nat) : (setWram s v).gb_bootrom_read = s.gb_bootrom_read := rfl

@[simp] theorem setWram_has_bootrom (s : gb_s) (v : Nat → Nat) : (setWram s v).has_bootrom = s.has_bootrom := rfl

@[simp] theorem setWram_cart_ram_data (s : gb_s) (v : Nat → Nat) : (setWram s v).cart_ram_data = s.cart_ram_data := rfl

@[simp] theorem setWram_gb_serial_rx (s : gb_s) (v : Nat → Nat) : (setWram s v).gb_serial_rx = s.gb_serial_rx := rfl

@[simp] theorem setWram_gb_halt (s : gb_s) (v : Nat → Nat) : (setWram s v).gb_halt = s.gb_halt := rfl

@[simp] theorem setWram_gb_ime (s : gb_s) (v : Nat → Nat) : (setWram s v).gb_ime = s.gb_ime := rfl

@[simp] theorem setWram_gb_frame (s : gb_s) (v : Nat → Nat) : (setWram s v).gb_frame = s.gb_frame := rfl

@[simp] theorem setWram_lcd_blank (s : gb_s) (v : Nat → Nat) : (setWram s v).lcd_blank = s.lcd_blank := rfl

@[simp] theorem setWram_cart_is_mbc3O (s : gb_s) (v : Nat → Nat) : (setWram s v).cart_is_mbc3O = s.cart_is_mbc3O := rfl

@[simp] theorem setWram_mbc (s : gb_s) (v : Nat → Nat) : (setWram s v).mbc = s.mbc := rfl

@[simp] theorem setWram_cart_ram (s : gb_s) (v : Nat → Nat) : (setWram s v).cart_ram = s.cart_ram := rfl

@[simp] theorem setWram_num_rom_banks_mask (s : gb_s) (v : Nat → Nat) : (setWram s v).num_rom_banks_mask = s.num_rom_banks_mask := rfl

@[simp] theorem setWram_num_ram_banks (s : gb_s) (v : Nat → Nat) : (setWram s v).num_ram_banks = s.num_ram_banks := rfl

@[simp] theorem setWram_selected_rom_bank (s : gb_s) (v : Nat → Nat) : (setWram s v).selected_rom_bank = s.selected_rom_bank := rfl

@[simp] theorem setWram_cart_ram_bank (s : gb_s) (v : Nat → Nat) : (setWram s v).cart_ram_bank = s.cart_ram_bank := rfl

@[simp] theorem setWram_enable_cart_ram (s : gb_s) (v : Nat → Nat) : (setWram s v).enable_cart_ram = s.enable_cart_ram := rfl

@[simp] theorem setWram_cart_mode_select (s : gb_s) (v : Nat → Nat) : (setWram s v).cart_mode_select = s.cart_mode_select := rfl

@[simp] theorem setWram_rtc_latched (s : gb_s) (v : Nat → Nat) : (setWram s v).rtc_latched = s.rtc_latched := rfl

@[simp] theorem setWram_rtc_real (s : gb_s) (v : Nat → Nat) : (setWram s v).rtc_real = s.rtc_real := rfl

@[simp] theorem setWram_cpu_a (s : gb_s) (v : Nat → Nat) : (setWram s v).cpu_a = s.cpu_a := rfl

@[simp] theorem setWram_cpu_f_z (s : gb_s) (v : Nat → Nat) : (setWram s v).cpu_f_z = s.cpu_f_z := rfl

@[simp] theorem setWram_cpu_f_n (s : gb_s) (v : Nat → Nat) : (setWram s v).cpu_f_n = s.cpu_f_n := rfl

@[simp] theorem setWram_cpu_f_h (s : gb_s) (v : Nat → Nat) : (setWram s v).cpu_f_h = s.cpu_f_h := rfl

@[simp] theorem setWram_cpu_f_c (s : gb_s) (v : Nat → Nat) : (setWram s v).cpu_f_c = s.cpu_f_c := rfl

@[simp] theorem setWram_cpu_bc (s : gb_s) (v : Nat → Nat) : (setWram s v).cpu_bc = s.cpu_bc := rfl

@[simp] theorem setWram_cpu_de (s : gb_s) (v : Nat → Nat) : (setWram s v).cpu_de = s.cpu_de := rfl

@[simp] theorem setWram_cpu_hl (s : gb_s) (v : Nat → Nat) : (setWram s v).cpu_hl = s.cpu_hl := rfl

@[simp] theorem setWram_cpu_sp (s : gb_s) (v : Nat → Nat) : (setWram s v).cpu_sp = s.cpu_sp := rfl

@[simp] theorem setWram_cpu_pc (s : gb_s) (v : Nat → Nat) : (setWram s v).cpu_pc = s.cpu_pc := rfl

@[simp] theorem setWram_counter_lcd (s : gb_s) (v : Nat → Nat) : (setWram s v).counter_lcd = s.counter_lcd := rfl

@[simp] theorem setWram_counter_div (s : gb_s) (v : Nat → Nat) : (setWram s v).counter_div = s.counter_div := rfl

@[simp] theorem setWram_counter_tima (s : gb_s) (v : Nat → Nat) : (setWram s v).counter_tima = s.counter_tima := rfl

@[simp] theorem setWram_counter_serial (s : gb_s) (v : Nat → Nat) : (setWram s v).counter_serial = s.counter_serial := rfl

@[simp] theorem setWram_counter_rtc (s : gb_s) (v : Nat → Nat) : (setWram s v).counter_rtc = s.counter_rtc := rfl

@[simp] theorem setWram_counter_lcd_off (s : gb_s) (v : Nat → Nat) : (setWram s v).counter_lcd_off = s.counter_lcd_off := rfl

@[simp] theorem setWram_wram (s : gb_s) (v : Nat → Nat) : (setWram s v).wram = v := rfl

@[simp] theorem setWram_vram (s : gb_s) (v : Nat → Nat) : (setWram s v).vram = s.vram := rfl

@[simp] theorem setWram_oam (s : gb_s) (v : Nat → Nat) : (setWram s v).oam = s.oam := rfl

@[simp] theorem setWram_hram_io (s : gb_s) (v : Nat → Nat) : (setWram s v).hram_io = s.hram_io := rfl

@[simp] theorem setWram_display_lcd_draw_line (s : gb_s) (v : Nat → Nat) : (setWram s v).display_lcd_draw_line = s.display_lcd_draw_line := rfl

@[simp] theorem setWram_display_bg_palette (s : gb_s) (v : Nat → Nat) : (setWram s v).display_bg_palette = s.display_bg_palette := rfl

@[simp] theorem setWram_display_sp_palette (s : gb_s) (v : Nat → Nat) : (setWram s v).display_sp_palette = s.display_sp_palette := rfl

@[simp] theorem setWram_display_window_clear (s : gb_s) (v : Nat → Nat) : (setWram s v).display_window_clear = s.display_window_clear := rfl

@[simp] theorem setWram_display_WY (s : gb_s) (v : Nat → Nat) : (setWram s v).display_WY = s.display_WY := rfl

@[simp] theorem setWram_display_frame_skip_count (s : gb_s) (v : Nat → Nat) : (setWram s v).display_frame_skip_count = s.display_frame_skip_count := rfl

@[simp] theorem setWram_display_interlace_count (s : gb_s) (v : Nat → Nat) : (setWram s v).display_interlace_count = s.display_interlace_count := rfl

@[simp] theorem setWram_direct_interlace (s : gb_s) (v : Nat → Nat) : (setWram s v).direct_interlace = s.direct_interlace := rfl

@[simp] theorem setWram_direct_frame_skip (s : gb_s) (v : Nat → Nat) : (setWram s v).direct_frame_skip = s.direct_frame_skip := rfl

@[simp] theorem setWram_direct_joypad (s : gb_s) (v : Nat → Nat) : (setWram s v).direct_joypad = s.direct_joypad := rfl

@[simp] theorem setVram_gb_rom_read (s : gb_s) (v : Nat → Nat) : (setVram s v).gb_rom_read = s.gb_rom_read := rfl

@[simp] theorem setVram_gb_bootrom_read (s : gb_s) (v : Nat → Nat) : (setVram s v).gb_bootrom_read = s.gb_bootrom_read := rfl

@[simp] theorem setVram_has_bootrom (s : gb_s) (v : Nat → Nat) : (setVram s v).has_bootrom = s.has_bootrom := rfl

@[simp] theorem setVram_cart_ram_data (s : gb_s) (v : Nat → Nat) : (setVram s v).cart_ram_data = s.cart_ram_data := rfl

@[simp] theorem setVram_gb_serial_rx (s : gb_s) (v : Nat → Nat) : (setVram s v).gb_serial_rx = s.gb_serial_rx := rfl

@[simp] theorem setVram_gb_halt (s : gb_s) (v : Nat → Nat) : (setVram s v).gb_halt = s.gb_halt := rfl

@[simp] theorem setVram_gb_ime (s : gb_s) (v : Nat → Nat) : (setVram s v).gb_ime = s.gb_ime := rfl

@[simp] theorem setVram_gb_frame (s : gb_s) (v : Nat → Nat) : (setVram s v).gb_frame = s.gb_frame := rfl

@[simp] theorem setVram_lcd_blank (s : gb_s) (v : Nat → Nat) : (setVram s v).lcd_blank = s.lcd_blank := rfl

@[simp] theorem setVram_cart_is_mbc3O (s : gb_s) (v : Nat → Nat) : (setVram s v).cart_is_mbc3O = s.cart_is_mbc3O := rfl

@[simp] theorem setVram_mbc (s : gb_s) (v : Nat → Nat) : (setVram s v).mbc = s.mbc := rfl

@[simp] theorem setVram_cart_ram (s : gb_s) (v : Nat → Nat) : (setVram s v).cart_ram = s.cart_ram := rfl

@[simp] theorem setVram_num_rom_banks_mask (s : gb_s) (v : Nat → Nat) : (setVram s v).num_rom_banks_mask = s.num_rom_banks_mask := rfl

@[simp] theorem setVram_num_ram_banks (s : gb_s) (v : Nat → Nat) : (setVram s v).num_ram_banks = s.num_ram_banks := rfl

@[simp] theorem setVram_selected_rom_bank (s : gb_s) (v : Nat → Nat) : (setVram s v).selected_rom_bank = s.selected_rom_bank := rfl

@[simp] theorem setVram_cart_ram_bank (s : gb_s) (v : Nat → Nat) : (setVram s v).cart_ram_bank = s.cart_ram_bank := rfl

@[simp] theorem setVram_enable_cart_ram (s : gb_s) (v : Nat → Nat) : (setVram s v).enable_cart_ram = s.enable_cart_ram := rfl

@[simp] theorem setVram_cart_mode_select (s : gb_s) (v : Nat → Nat) : (setVram s v).cart_mode_select = s.cart_mode_select := rfl

@[simp] theorem setVram_rtc_latched (s : gb_s) (v : Nat → Nat) : (setVram s v).rtc_latched = s.rtc_latched := rfl

@[simp] theorem setVram_rtc_real (s : gb_s) (v : Nat → Nat) : (setVram s v).rtc_real = s.rtc_real := rfl

@[simp] theorem setVram_cpu_a (s : gb_s) (v : Nat → Nat) : (setVram s v).cpu_a = s.cpu_a := rfl

@[simp] theorem setVram_cpu_f_z (s : gb_s) (v : Nat → Nat) : (setVram s v).cpu_f_z = s.cpu_f_z := rfl

@[simp] theorem setVram_cpu_f_n (s : gb_s) (v : Nat → Nat) : (setVram s v).cpu_f_n = s.cpu_f_n := rfl

@[simp] theorem setVram_cpu_f_h (s : gb_s) (v : Nat → Nat) : (setVram s v).cpu_f_h = s.cpu_f_h := rfl

@[simp] theorem setVram_cpu_f_c (s : gb_s) (v : Nat → Nat) : (setVram s v).cpu_f_c = s.cpu_f_c := rfl

@[simp] theorem setVram_cpu_bc (s : gb_s) (v : Nat → Nat) : (setVram s v).cpu_bc = s.cpu_bc := rfl

@[simp] theorem setVram_cpu_de (s : gb_s) (v : Nat → Nat) : (setVram s v).cpu_de = s.cpu_de := rfl

@[simp] theorem setVram_cpu_hl (s : gb_s) (v : Nat → Nat) : (setVram s v).cpu_hl = s.cpu_hl := rfl

@[simp] theorem setVram_cpu_sp (s : gb_s) (v : Nat → Nat) : (setVram s v).cpu_sp = s.cpu_sp := rfl

@[simp] theorem setVram_cpu_pc (s : gb_s) (v : Nat → Nat) : (setVram s v).cpu_pc = s.cpu_pc := rfl

@[simp] theorem setVram_counter_lcd (s : gb_s) (v : Nat → Nat) : (setVram s v).counter_lcd = s.counter_lcd := rfl

@[simp] theorem setVram_counter_div (s : gb_s) (v : Nat → Nat) : (setVram s v).counter_div = s.counter_div := rfl

@[simp] theorem setVram_counter_tima (s : gb_s) (v : Nat → Nat) : (setVram s v).counter_tima = s.counter_tima := rfl

@[simp] theorem setVram_counter_serial (s : gb_s) (v : Nat → Nat) : (setVram s v).counter_serial = s.counter_serial := rfl

@[simp] theorem setVram_counter_rtc (s : gb_s) (v : Nat → Nat) : (setVram s v).counter_rtc = s.counter_rtc := rfl

@[simp] theorem setVram_counter_lcd_off (s : gb_s) (v : Nat → Nat) : (setVram s v).counter_lcd_off = s.counter_lcd_off := rfl

@[simp] theorem setVram_wram (s : gb_s) (v : Nat → Nat) : (setVram s v).wram = s.wram := rfl

@[simp] theorem setVram_vram (s : gb_s) (v : Nat → Nat) : (setVram s v).vram = v := rfl

@[simp] theorem setVram_oam (s : gb_s) (v : Nat → Nat) : (setVram s v).oam = s.oam := rfl

@[simp] theorem setVram_hram_io (s : gb_s) (v : Nat → Nat) : (setVram s v).hram_io = s.hram_io := rfl

@[simp] theorem setVram_display_lcd_draw_line (s : gb_s) (v : Nat → Nat) : (setVram s v).display_lcd_draw_line = s.display_lcd_draw_line := rfl

@[simp] theorem setVram_display_bg_palette (s : gb_s) (v : Nat → Nat) : (setVram s v).display_bg_palette = s.display_bg_palette := rfl

@[simp] theorem setVram_display_sp_palette (s : gb_s) (v : Nat → Nat) : (setVram s v).display_sp_palette = s.display_sp_palette := rfl

@[simp] theorem setVram_display_window_clear (s : gb_s) (v : Nat → Nat) : (setVram s v).display_window_clear = s.display_window_clear := rfl

@[simp] theorem setVram_display_WY (s : gb_s) (v : Nat → Nat) : (setVram s v).display_WY = s.display_WY := rfl

@[simp] theorem setVram_display_frame_skip_count (s : gb_s) (v : Nat → Nat) : (setVram s v).display_frame_skip_count = s.display_frame_skip_count := rfl

@[simp] theorem setVram_display_interlace_count (s : gb_s) (v : Nat → Nat) : (setVram s v).display_interlace_count = s.display_interlace_count := rfl

@[simp] theorem setVram_direct_interlace (s : gb_s) (v : Nat → Nat) : (setVram s v).direct_interlace = s.direct_interlace := rfl

@[simp] theorem setVram_direct_frame_skip (s : gb_s) (v : Nat → Nat) : (setVram s v).direct_frame_skip = s.direct_frame_skip := rfl

@[simp] theorem setVram_direct_joypad (s : gb_s) (v : Nat → Nat) : (setVram s v).direct_joypad = s.direct_joypad := rfl

@[simp] theorem setOam_gb_rom_read (s : gb_s) (v : Nat → Nat) : (setOam s v).gb_rom_read = s.gb_rom_read := rfl

@[simp] theorem setOam_gb_bootrom_read (s : gb_s) (v : Nat → Nat) : (setOam s v).gb_bootrom_read = s.gb_bootrom_read := rfl

@[simp] theorem setOam_has_bootrom (s : gb_s) (v : Nat → Nat) : (setOam s v).has_bootrom = s.has_bootrom := rfl

@[simp] theorem setOam_cart_ram_data (s : gb_s) (v : Nat → Nat) : (setOam s v).cart_ram_data = s.cart_ram_data := rfl

@[simp] theorem setOam_gb_serial_rx (s : gb_s) (v : Nat → Nat) : (setOam s v).gb_serial_rx = s.gb_serial_rx := rfl

@[simp] theorem setOam_gb_halt (s : gb_s) (v : Nat → Nat) : (setOam s v).gb_halt = s.gb_halt := rfl

@[simp] theorem setOam_gb_ime (s : gb_s) (v : Nat → Nat) : (setOam s v).gb_ime = s.gb_ime := rfl

@[simp] theorem setOam_gb_frame (s : gb_s) (v : Nat → Nat) : (setOam s v).gb_frame = s.gb_frame := rfl

@[simp] theorem setOam_lcd_blank (s : gb_s) (v : Nat → Nat) : (setOam s v).lcd_blank = s.lcd_blank := rfl

@[simp] theorem setOam_cart_is_mbc3O (s : gb_s) (v : Nat → Nat) : (setOam s v).cart_is_mbc3O = s.cart_is_mbc3O := rfl

@[simp] theorem setOam_mbc (s : gb_s) (v : Nat → Nat) : (setOam s v).mbc = s.mbc := rfl

@[simp] theorem setOam_cart_ram (s : gb_s) (v : Nat → Nat) : (setOam s v).cart_ram = s.cart_ram := rfl

@[simp] theorem setOam_num_rom_banks_mask (s : gb_s) (v : Nat → Nat) : (setOam s v).num_rom_banks_mask = s.num_rom_banks_mask := rfl

@[simp] theorem setOam_num_ram_banks (s : gb_s) (v : Nat → Nat) : (setOam s v).num_ram_banks = s.num_ram_banks := rfl

@[simp] theorem setOam_selected_rom_bank (s : gb_s) (v : Nat → Nat) : (setOam s v).selected_rom_bank = s.selected_rom_bank := rfl

@[simp] theorem setOam_cart_ram_bank (s : gb_s) (v : Nat → Nat) : (setOam s v).cart_ram_bank = s.cart_ram_bank := rfl

@[simp] theorem setOam_enable_cart_ram (s : gb_s) (v : Nat → Nat) : (setOam s v).enable_cart_ram = s.enable_cart_ram := rfl

@[simp] theorem setOam_cart_mode_select (s : gb_s) (v : Nat → Nat) : (setOam s v).cart_mode_select = s.cart_mode_select := rfl

@[simp] theorem setOam_rtc_latched (s : gb_s) (v : Nat → Nat) : (setOam s v).rtc_latched = s.rtc_latched := rfl

@[simp] theorem setOam_rtc_real (s : gb_s) (v : Nat → Nat) : (setOam s v).rtc_real = s.rtc_real := rfl

@[simp] theorem setOam_cpu_a (s : gb_s) (v : Nat → Nat) : (setOam s v).cpu_a = s.cpu_a := rfl

@[simp] theorem setOam_cpu_f_z (s : gb_s) (v : Nat → Nat) : (setOam s v).cpu_f_z = s.cpu_f_z := rfl

@[simp] theorem setOam_cpu_f_n (s : gb_s) (v : Nat → Nat) : (setOam s v).cpu_f_n = s.cpu_f_n := rfl

@[simp] theorem setOam_cpu_f_h (s : gb_s) (v : Nat → Nat) : (setOam s v).cpu_f_h = s.cpu_f_h := rfl

@[simp] theorem setOam_cpu_f_c (s : gb_s) (v : Nat → Nat) : (setOam s v).cpu_f_c = s.cpu_f_c := rfl

@[simp] theorem setOam_cpu_bc (s : gb_s) (v : Nat → Nat) : (setOam s v).cpu_bc = s.cpu_bc := rfl

@[simp] theorem setOam_cpu_de (s : gb_s) (v : Nat → Nat) : (setOam s v).cpu_de = s.cpu_de := rfl

@[simp] theorem setOam_cpu_hl (s : gb_s) (v : Nat → Nat) : (setOam s v).cpu_hl = s.cpu_hl := rfl

@[simp] theorem setOam_cpu_sp (s : gb_s) (v : Nat → Nat) : (setOam s v).cpu_sp = s.cpu_sp := rfl

@[simp] theorem setOam_cpu_pc (s : gb_s) (v : Nat → Nat) : (setOam s v).cpu_pc = s.cpu_pc := rfl

@[simp] theorem setOam_counter_lcd (s : gb_s) (v : Nat → Nat) : (setOam s v).counter_lcd = s.counter_lcd := rfl

@[simp] theorem setOam_counter_div (s : gb_s) (v : Nat → Nat) : (setOam s v).counter_div = s.counter_div := rfl

@[simp] theorem setOam_counter_tima (s : gb_s) (v : Nat → Nat) : (setOam s v).counter_tima = s.counter_tima := rfl

@[simp] theorem setOam_counter_serial (s : gb_s) (v : Nat → Nat) : (setOam s v).counter_serial = s.counter_serial := rfl

@[simp] theorem setOam_counter_rtc (s : gb_s) (v : Nat → Nat) : (setOam s v).counter_rtc = s.counter_rtc := rfl

@[simp] theorem setOam_counter_lcd_off (s : gb_s) (v : Nat → Nat) : (setOam s v).counter_lcd_off = s.counter_lcd_off := rfl

@[simp] theorem setOam_wram (s : gb_s) (v : Nat → Nat) : (setOam s v).wram = s.wram := rfl

@[simp] theorem setOam_vram (s : gb_s) (v : Nat → Nat) : (setOam s v).vram = s.vram := rfl

@[simp] theorem setOam_oam (s : gb_s) (v : Nat → Nat) : (setOam s v).oam = v := rfl

@[simp] theorem setOam_hram_io (s : gb_s) (v : Nat → Nat) : (setOam s v).hram_io = s.hram_io := rfl

@[simp] theorem setOam_display_lcd_draw_line (s : gb_s) (v : Nat → Nat) : (setOam s v).display_lcd_draw_line = s.display_lcd_draw_line := rfl

@[simp] theorem setOam_display_bg_palette (s : gb_s) (v : Nat → Nat) : (setOam s v).display_bg_palette = s.display_bg_palette := rfl

@[simp] theorem setOam_display_sp_palette (s : gb_s) (v : Nat → Nat) : (setOam s v).display_sp_palette = s.display_sp_palette := rfl

@[simp] theorem setOam_display_window_clear (s : gb_s) (v : Nat → Nat) : (setOam s v).display_window_clear = s.display_window_clear := rfl

@[simp] theorem setOam_display_WY (s : gb_s) (v : Nat → Nat) : (setOam s v).display_WY = s.display_WY := rfl

@[simp] theorem setOam_display_frame_skip_count (s : gb_s) (v : Nat → Nat) : (setOam s v).display_frame_skip_count = s.display_frame_skip_count := rfl

@[simp] theorem setOam_display_interlace_count (s : gb_s) (v : Nat → Nat) : (setOam s v).display_interlace_count = s.display_interlace_count := rfl

@[simp] theorem setOam_direct_interlace (s : gb_s) (v : Nat → Nat) : (setOam s v).direct_interlace = s.direct_interlace := rfl

@[simp] theorem setOam_direct_frame_skip (s : gb_s) (v : Nat → Nat) : (setOam s v).direct_frame_skip = s.direct_frame_skip := rfl

@[simp] theorem setOam_direct_joypad (s : gb_s) (v : Nat → Nat) : (setOam s v).direct_joypad = s.direct_joypad := rfl

@[simp] theorem setCartRamData_gb_rom_read (s : gb_s) (v : Nat → Nat) : (setCartRamData s v).gb_rom_read = s.gb_rom_read := rfl

@[simp] theorem setCartRamData_gb_bootrom_read (s : gb_s) (v : Nat → Nat) : (setCartRamData s v).gb_bootrom_read = s.gb_bootrom_read := rfl

@[simp] theorem setCartRamData_has_bootrom (s : gb_s) (v : Nat → Nat) : (setCartRamData s v).has_bootrom = s.has_bootrom := rfl

@[simp] theorem setCartRamData_cart_ram_data (s : gb_s) (v : Nat → Nat) : (setCartRamData s v).cart_ram_data = v := rfl

@[simp] theorem setCartRamData_gb_serial_rx (s : gb_s) (v : Nat → Nat) : (setCartRamData s v).gb_serial_rx = s.gb_serial_rx := rfl

@[simp] theorem setCartRamData_gb_halt (s : gb_s) (v : Nat → Nat) : (setCartRamData s v).gb_halt = s.gb_halt := rfl

@[simp] theorem setCartRamData_gb_ime (s : gb_s) (v : Nat → Nat) : (setCartRamData s v).gb_ime = s.gb_ime := rfl

@[simp] theorem setCartRamData_gb_frame (s : gb_s) (v : Nat → Nat) : (setCartRamData s v).gb_frame = s.gb_frame := rfl

@[simp] theorem setCartRamData_lcd_blank (s : gb_s) (v : Nat → Nat) : (setCartRamData s v).lcd_blank = s.lcd_blank := rfl

@[simp] theorem setCartRamData_cart_is_mbc3O (s : gb_s) (v : Nat → Nat) : (setCartRamData s v).cart_is_mbc3O = s.cart_is_mbc3O := rfl

@[simp] theorem setCartRamData_mbc (s : gb_s) (v : Nat → Nat) : (setCartRamData s v).mbc = s.mbc := rfl

@[simp] theorem setCartRamData_cart_ram (s : gb_s) (v : Nat → Nat) : (setCartRamData s v).cart_ram = s.cart_ram := rfl

@[simp] theorem setCartRamData_num_rom_banks_mask (s : gb_s) (v : Nat → Nat) : (setCartRamData s v).num_rom_banks_mask = s.num_rom_banks_mask := rfl

@[simp] theorem setCartRamData_num_ram_banks (s : gb_s) (v : Nat → Nat) : (setCartRamData s v).num_ram_banks = s.num_ram_banks := rfl

@[simp] theorem setCartRamData_selected_rom_bank (s : gb_s) (v : Nat → Nat) : (setCartRamData s v).selected_rom_bank = s.selected_rom_bank := rfl

@[simp] theorem setCartRamData_cart_ram_bank (s : gb_s) (v : Nat → Nat) : (setCartRamData s v).cart_ram_bank = s.cart_ram_bank := rfl

@[simp] theorem setCartRamData_enable_cart_ram (s : gb_s) (v : Nat → Nat) : (setCartRamData s v).enable_cart_ram = s.enable_cart_ram := rfl

@[simp] theorem setCartRamData_cart_mode_select (s : gb_s) (v : Nat → Nat) : (setCartRamData s v).cart_mode_select = s.cart_mode_select := rfl

@[simp] theorem setCartRamData_rtc_latched (s : gb_s) (v : Nat → Nat) : (setCartRamData s v).rtc_latched = s.rtc_latched := rfl

@[simp] theorem setCartRamData_rtc_real (s : gb_s) (v : Nat → Nat) : (setCartRamData s v).rtc_real = s.rtc_real := rfl

@[simp] theorem setCartRamData_cpu_a (s : gb_s) (v : Nat → Nat) : (setCartRamData s v).cpu_a = s.cpu_a := rfl

@[simp] theorem setCartRamData_cpu_f_z (s : gb_s) (v : Nat → Nat) : (setCartRamData s v).cpu_f_z = s.cpu_f_z := rfl

@[simp] theorem setCartRamData_cpu_f_n (s : gb_s) (v : Nat → Nat) : (setCartRamData s v).cpu_f_n = s.cpu_f_n := rfl

@[simp] theorem setCartRamData_cpu_f_h (s : gb_s) (v : Nat → Nat) : (setCartRamData s v).cpu_f_h = s.cpu_f_h := rfl

@[simp] theorem setCartRamData_cpu_f_c (s : gb_s) (v : Nat → Nat) : (setCartRamData s v).cpu_f_c = s.cpu_f_c := rfl

@[simp] theorem setCartRamData_cpu_bc (s : gb_s) (v : Nat → Nat) : (setCartRamData s v).cpu_bc = s.cpu_bc := rfl

@[simp] theorem setCartRamData_cpu_de (s : gb_s) (v : Nat → Nat) : (setCartRamData s v).cpu_de = s.cpu_de := rfl

@[simp] theorem setCartRamData_cpu_hl (s : gb_s) (v : Nat → Nat) : (setCartRamData s v).cpu_hl = s.cpu_hl := rfl

@[simp] theorem setCartRamData_cpu_sp (s : gb_s) (v : Nat → Nat) : (setCartRamData s v).cpu_sp = s.cpu_sp := rfl

@[simp] theorem setCartRamData_cpu_pc (s : gb_s) (v : Nat → Nat) : (setCartRamData s v).cpu_pc = s.cpu_pc := rfl

@[simp] theorem setCartRamData_counter_lcd (s : gb_s) (v : Nat → Nat) : (setCartRamData s v).counter_lcd = s.counter_lcd := rfl

@[simp] theorem setCartRamData_counter_div (s : gb_s) (v : Nat → Nat) : (setCartRamData s v).counter_div = s.counter_div := rfl

@[simp] theorem setCartRamData_counter_tima (s : gb_s) (v : Nat → Nat) : (setCartRamData s v).counter_tima = s.counter_tima := rfl

@[simp] theorem setCartRamData_counter_serial (s : gb_s) (v : Nat → Nat) : (setCartRamData s v).counter_serial = s.counter_serial := rfl

@[simp] theorem setCartRamData_counter_rtc (s : gb_s) (v : Nat → Nat) : (setCartRamData s v).counter_rtc = s.counter_rtc := rfl

@[simp] theorem setCartRamData_counter_lcd_off (s : gb_s) (v : Nat → Nat) : (setCartRamData s v).counter_lcd_off = s.counter_lcd_off := rfl

@[simp] theorem setCartRamData_wram (s : gb_s) (v : Nat → Nat) : (setCartRamData s v).wram = s.wram := rfl

@[simp] theorem setCartRamData_vram (s : gb_s) (v : Nat → Nat) : (setCartRamData s v).vram = s.vram := rfl

@[simp] theorem setCartRamData_oam (s : gb_s) (v : Nat → Nat) : (setCartRamData s v).oam = s.oam := rfl

@[simp] theorem setCartRamData_hram_io (s : gb_s) (v : Nat → Nat) : (setCartRamData s v).hram_io = s.hram_io := rfl

@[simp] theorem setCartRamData_display_lcd_draw_line (s : gb_s) (v : Nat → Nat) : (setCartRamData s v).display_lcd_draw_line = s.display_lcd_draw_line := rfl

@[simp] theorem setCartRamData_display_bg_palette (s : gb_s) (v : Nat → Nat) : (setCartRamData s v).display_bg_palette = s.display_bg_palette := rfl

@[simp] theorem setCartRamData_display_sp_palette (s : gb_s) (v : Nat → Nat) : (setCartRamData s v).display_sp_palette = s.display_sp_palette := rfl

@[simp] theorem setCartRamData_display_window_clear (s : gb_s) (v : Nat → Nat) : (setCartRamData s v).display_window_clear = s.display_window_clear := rfl

@[simp] theorem setCartRamData_display_WY (s : gb_s) (v : Nat → Nat) : (setCartRamData s v).display_WY = s.display_WY := rfl

@[simp] theorem setCartRamData_display_frame_skip_count (s : gb_s) (v : Nat → Nat) : (setCartRamData s v).display_frame_skip_count = s.display_frame_skip_count := rfl

@[simp] theorem setCartRamData_display_interlace_count (s : gb_s) (v : Nat → Nat) : (setCartRamData s v).display_interlace_count = s.display_interlace_count := rfl

@[simp] theorem setCartRamData_direct_interlace (s : gb_s) (v : Nat → Nat) : (setCartRamData s v).direct_interlace = s.direct_interlace := rfl

@[simp] theorem setCartRamData_direct_frame_skip (s : gb_s) (v : Nat → Nat) : (setCartRamData s v).direct_frame_skip = s.direct_frame_skip := rfl

@[simp] theorem setCartRamData_direct_joypad (s : gb_s) (v : Nat → Nat) : (setCartRamData s v).direct_joypad = s.direct_joypad := rfl

@[simp] theorem setHalt_gb_rom_read (s : gb_s) (v : Bool) : (setHalt s v).gb_rom_read = s.gb_rom_read := rfl

@[simp] theorem setHalt_gb_bootrom_read (s : gb_s) (v : Bool) : (setHalt s v).gb_bootrom_read = s.gb_bootrom_read := rfl

@[simp] theorem setHalt_has_bootrom (s : gb_s) (v : Bool) : (setHalt s v).has_bootrom = s.has_bootrom := rfl

@[simp] theorem setHalt_cart_ram_data (s : gb_s) (v : Bool) : (setHalt s v).cart_ram_data = s.cart_ram_data := rfl

@[simp] theorem setHalt_gb_serial_rx (s : gb_s) (v : Bool) : (setHalt s v).gb_serial_rx = s.gb_serial_rx := rfl

@[simp] theorem setHalt_gb_halt (s : gb_s) (v : Bool) : (setHalt s v).gb_halt = v := rfl

@[simp] theorem setHalt_gb_ime (s : gb_s) (v : Bool) : (setHalt s v).gb_ime = s.gb_ime := rfl

@[simp] theorem setHalt_gb_frame (s : gb_s) (v : Bool) : (setHalt s v).gb_frame = s.gb_frame := rfl

@[simp] theorem setHalt_lcd_blank (s : gb_s) (v : Bool) : (setHalt s v).lcd_blank = s.lcd_blank := rfl

@[simp] theorem setHalt_cart_is_mbc3O (s : gb_s) (v : Bool) : (setHalt s v).cart_is_mbc3O = s.cart_is_mbc3O := rfl

@[simp] theorem setHalt_mbc (s : gb_s) (v : Bool) : (setHalt s v).mbc = s.mbc := rfl

@[simp] theorem setHalt_cart_ram (s : gb_s) (v : Bool) : (setHalt s v).cart_ram = s.cart_ram := rfl

@[simp] theorem setHalt_num_rom_banks_mask (s : gb_s) (v : Bool) : (setHalt s v).num_rom_banks_mask = s.num_rom_banks_mask := rfl

@[simp] theorem setHalt_num_ram_banks (s : gb_s) (v : Bool) : (setHalt s v).num_ram_banks = s.num_ram_banks := rfl

@[simp] theorem setHalt_selected_rom_bank (s : gb_s) (v : Bool) : (setHalt s v).selected_rom_bank = s.selected_rom_bank := rfl

@[simp] theorem setHalt_cart_ram_bank (s : gb_s) (v : Bool) : (setHalt s v).cart_ram_bank = s.cart_ram_bank := rfl

@[simp] theorem setHalt_enable_cart_ram (s : gb_s) (v : Bool) : (setHalt s v).enable_cart_ram = s.enable_cart_ram := rfl

@[simp] theorem setHalt_cart_mode_select (s : gb_s) (v : Bool) : (setHalt s v).cart_mode_select = s.cart_mode_select := rfl

@[simp] theorem setHalt_rtc_latched (s : gb_s) (v : Bool) : (setHalt s v).rtc_latched = s.rtc_latched := rfl

@[simp] theorem setHalt_rtc_real (s : gb_s) (v : Bool) : (setHalt s v).rtc_real = s.rtc_real := rfl

@[simp] theorem setHalt_cpu_a (s : gb_s) (v : Bool) : (setHalt s v).cpu_a = s.cpu_a := rfl

@[simp] theorem setHalt_cpu_f_z (s : gb_s) (v : Bool) : (setHalt s v).cpu_f_z = s.cpu_f_z := rfl

@[simp] theorem setHalt_cpu_f_n (s : gb_s) (v : Bool) : (setHalt s v).cpu_f_n = s.cpu_f_n := rfl

@[simp] theorem setHalt_cpu_f_h (s : gb_s) (v : Bool) : (setHalt s v).cpu_f_h = s.cpu_f_h := rfl

@[simp] theorem setHalt_cpu_f_c (s : gb_s) (v : Bool) : (setHalt s v).cpu_f_c = s.cpu_f_c := rfl

@[simp] theorem setHalt_cpu_bc (s : gb_s) (v : Bool) : (setHalt s v).cpu_bc = s.cpu_bc := rfl

@[simp] theorem setHalt_cpu_de (s : gb_s) (v : Bool) : (setHalt s v).cpu_de = s.cpu_de := rfl

@[simp] theorem setHalt_cpu_hl (s : gb_s) (v : Bool) : (setHalt s v).cpu_hl = s.cpu_hl := rfl

@[simp] theorem setHalt_cpu_sp (s : gb_s) (v : Bool) : (setHalt s v).cpu_sp = s.cpu_sp := rfl

@[simp] theorem setHalt_cpu_pc (s : gb_s) (v : Bool) : (setHalt s v).cpu_pc = s.cpu_pc := rfl

@[simp] theorem setHalt_counter_lcd (s : gb_s) (v : Bool) : (setHalt s v).counter_lcd = s.counter_lcd := rfl

@[simp] theorem setHalt_counter_div (s : gb_s) (v : Bool) : (setHalt s v).counter_div = s.counter_div := rfl

@[simp] theorem setHalt_counter_tima (s : gb_s) (v : Bool) : (setHalt s v).counter_tima = s.counter_tima := rfl

@[simp] theorem setHalt_counter_serial (s : gb_s) (v : Bool) : (setHalt s v).counter_serial = s.counter_serial := rfl

@[simp] theorem setHalt_counter_rtc (s : gb_s) (v : Bool) : (setHalt s v).counter_rtc = s.counter_rtc := rfl

@[simp] theorem setHalt_counter_lcd_off (s : gb_s) (v : Bool) : (setHalt s v).counter_lcd_off = s.counter_lcd_off := rfl

@[simp] theorem setHalt_wram (s : gb_s) (v : Bool) : (setHalt s v).wram = s.wram := rfl

@[simp] theorem setHalt_vram (s : gb_s) (v : Bool) : (setHalt s v).vram = s.vram := rfl

@[simp] theorem setHalt_oam (s : gb_s) (v : Bool) : (setHalt s v).oam = s.oam := rfl

@[simp] theorem setHalt_hram_io (s : gb_s) (v : Bool) : (setHalt s v).hram_io = s.hram_io := rfl

@[simp] theorem setHalt_display_lcd_draw_line (s : gb_s) (v : Bool) : (setHalt s v).display_lcd_draw_line = s.display_lcd_draw_line := rfl

@[simp] theorem setHalt_display_bg_palette (s : gb_s) (v : Bool) : (setHalt s v).display_bg_palette = s.display_bg_palette := rfl

@[simp] theorem setHalt_display_sp_palette (s : gb_s) (v : Bool) : (setHalt s v).display_sp_palette = s.display_sp_palette := rfl

@[simp] theorem setHalt_display_window_clear (s : gb_s) (v : Bool) : (setHalt s v).display_window_clear = s.display_window_clear := rfl

@[simp] theorem setHalt_display_WY (s : gb_s) (v : Bool) : (setHalt s v).display_WY = s.display_WY := rfl

@[simp] theorem setHalt_display_frame_skip_count (s : gb_s) (v : Bool) : (setHalt s v).display_frame_skip_count = s.display_frame_skip_count := rfl

@[simp] theorem setHalt_display_interlace_count (s : gb_s) (v : Bool) : (setHalt s v).display_interlace_count = s.display_interlace_count := rfl

@[simp] theorem setHalt_direct_interlace (s : gb_s) (v : Bool) : (setHalt s v).direct_interlace = s.direct_interlace := rfl

@[simp] theorem setHalt_direct_frame_skip (s : gb_s) (v : Bool) : (setHalt s v).direct_frame_skip = s.direct_frame_skip := rfl

@[simp] theorem setHalt_direct_joypad (s : gb_s) (v : Bool) : (setHalt s v).direct_joypad = s.direct_joypad := rfl

@[simp] theorem setIme_gb_rom_read (s : gb_s) (v : Bool) : (setIme s v).gb_rom_read = s.gb_rom_read := rfl

@[simp] theorem setIme_gb_bootrom_read (s : gb_s) (v : Bool) : (setIme s v).gb_bootrom_read = s.gb_bootrom_read := rfl

@[simp] theorem setIme_has_bootrom (s : gb_s) (v : Bool) : (setIme s v).has_bootrom = s.has_bootrom := rfl

@[simp] theorem setIme_cart_ram_data (s : gb_s) (v : Bool) : (setIme s v).cart_ram_data = s.cart_ram_data := rfl

@[simp] theorem setIme_gb_serial_rx (s : gb_s) (v : Bool) : (setIme s v).gb_serial_rx = s.gb_serial_rx := rfl

@[simp] theorem setIme_gb_halt (s : gb_s) (v : Bool) : (setIme s v).gb_halt = s.gb_halt := rfl

@[simp] theorem setIme_gb_ime (s : gb_s) (v : Bool) : (setIme s v).gb_ime = v := rfl

@[simp] theorem setIme_gb_frame (s : gb_s) (v : Bool) : (setIme s v).gb_frame = s.gb_frame := rfl

@[simp] theorem setIme_lcd_blank (s : gb_s) (v : Bool) : (setIme s v).lcd_blank = s.lcd_blank := rfl

@[simp] theorem setIme_cart_is_mbc3O (s : gb_s) (v : Bool) : (setIme s v).cart_is_mbc3O = s.cart_is_mbc3O := rfl

@[simp] theorem setIme_mbc (s : gb_s) (v : Bool) : (setIme s v).mbc = s.mbc := rfl

@[simp] theorem setIme_cart_ram (s : gb_s) (v : Bool) : (setIme s v).cart_ram = s.cart_ram := rfl

@[simp] theorem setIme_num_rom_banks_mask (s : gb_s) (v : Bool) : (setIme s v).num_rom_banks_mask = s.num_rom_banks_mask := rfl

@[simp] theorem setIme_num_ram_banks (s : gb_s) (v : Bool) : (setIme s v).num_ram_banks = s.num_ram_banks := rfl

@[simp] theorem setIme_selected_rom_bank (s : gb_s) (v : Bool) : (setIme s v).selected_rom_bank = s.selected_rom_bank := rfl

@[simp] theorem setIme_cart_ram_bank (s : gb_s) (v : Bool) : (setIme s v).cart_ram_bank = s.cart_ram_bank := rfl

@[simp] theorem setIme_enable_cart_ram (s : gb_s) (v : Bool) : (setIme s v).enable_cart_ram = s.enable_cart_ram := rfl

@[simp] theorem setIme_cart_mode_select (s : gb_s) (v : Bool) : (setIme s v).cart_mode_select = s.cart_mode_select := rfl

@[simp] theorem setIme_rtc_latched (s : gb_s) (v : Bool) : (setIme s v).rtc_latched = s.rtc_latched := rfl

@[simp] theorem setIme_rtc_real (s : gb_s) (v : Bool) : (setIme s v).rtc_real = s.rtc_real := rfl

@[simp] theorem setIme_cpu_a (s : gb_s) (v : Bool) : (setIme s v).cpu_a = s.cpu_a := rfl

@[simp] theorem setIme_cpu_f_z (s : gb_s) (v : Bool) : (setIme s v).cpu_f_z = s.cpu_f_z := rfl

@[simp] theorem setIme_cpu_f_n (s : gb_s) (v : Bool) : (setIme s v).cpu_f_n = s.cpu_f_n := rfl

@[simp] theorem setIme_cpu_f_h (s : gb_s) (v : Bool) : (setIme s v).cpu_f_h = s.cpu_f_h := rfl

@[simp] theorem setIme_cpu_f_c (s : gb_s) (v : Bool) : (setIme s v).cpu_f_c = s.cpu_f_c := rfl

@[simp] theorem setIme_cpu_bc (s : gb_s) (v : Bool) : (setIme s v).cpu_bc = s.cpu_bc := rfl

@[simp] theorem setIme_cpu_de (s : gb_s) (v : Bool) : (setIme s v).cpu_de = s.cpu_de := rfl

@[simp] theorem setIme_cpu_hl (s : gb_s) (v : Bool) : (setIme s v).cpu_hl = s.cpu_hl := rfl

@[simp] theorem setIme_cpu_sp (s : gb_s) (v : Bool) : (setIme s v).cpu_sp = s.cpu_sp := rfl

@[simp] theorem setIme_cpu_pc (s : gb_s) (v : Bool) : (setIme s v).cpu_pc = s.cpu_pc := rfl

@[simp] theorem setIme_counter_lcd (s : gb_s) (v : Bool) : (setIme s v).counter_lcd = s.counter_lcd := rfl

@[simp] theorem setIme_counter_div (s : gb_s) (v : Bool) : (setIme s v).counter_div = s.counter_div := rfl

@[simp] theorem setIme_counter_tima (s : gb_s) (v : Bool) : (setIme s v).counter_tima = s.counter_tima := rfl

@[simp] theorem setIme_counter_serial (s : gb_s) (v : Bool) : (setIme s v).counter_serial = s.counter_serial := rfl

@[simp] theorem setIme_counter_rtc (s : gb_s) (v : Bool) : (setIme s v).counter_rtc = s.counter_rtc := rfl

@[simp] theorem setIme_counter_lcd_off (s : gb_s) (v : Bool) : (setIme s v).counter_lcd_off = s.counter_lcd_off := rfl

@[simp] theorem setIme_wram (s : gb_s) (v : Bool) : (setIme s v).wram = s.wram := rfl

@[simp] theorem setIme_vram (s : gb_s) (v : Bool) : (setIme s v).vram = s.vram := rfl

@[simp] theorem setIme_oam (s : gb_s) (v : Bool) : (setIme s v).oam = s.oam := rfl

@[simp] theorem setIme_hram_io (s : gb_s) (v : Bool) : (setIme s v).hram_io = s.hram_io := rfl

@[simp] theorem setIme_display_lcd_draw_line (s : gb_s) (v : Bool) : (setIme s v).display_lcd_draw_line = s.display_lcd_draw_line := rfl

@[simp] theorem setIme_display_bg_palette (s : gb_s) (v : Bool) : (setIme s v).display_bg_palette = s.display_bg_palette := rfl

@[simp] theorem setIme_display_sp_palette (s : gb_s) (v : Bool) : (setIme s v).display_sp_palette = s.display_sp_palette := rfl

@[simp] theorem setIme_display_window_clear (s : gb_s) (v : Bool) : (setIme s v).display_window_clear = s.display_window_clear := rfl

@[simp] theorem setIme_display_WY (s : gb_s) (v : Bool) : (setIme s v).display_WY = s.display_WY := rfl

@[simp] theorem setIme_display_frame_skip_count (s : gb_s) (v : Bool) : (setIme s v).display_frame_skip_count = s.display_frame_skip_count := rfl

@[simp] theorem setIme_display_interlace_count (s : gb_s) (v : Bool) : (setIme s v).display_interlace_count = s.display_interlace_count := rfl

@[simp] theorem setIme_direct_interlace (s : gb_s) (v : Bool) : (setIme s v).direct_interlace = s.direct_interlace := rfl

@[simp] theorem setIme_direct_frame_skip (s : gb_s) (v : Bool) : (setIme s v).direct_frame_skip = s.direct_frame_skip := rfl

@[simp] theorem setIme_direct_joypad (s : gb_s) (v : Bool) : (setIme s v).direct_joypad = s.direct_joypad := rfl

@[simp] theorem setFrame_gb_rom_read (s : gb_s) (v : Bool) : (setFrame s v).gb_rom_read = s.gb_rom_read := rfl

@[simp] theorem setFrame_gb_bootrom_read (s : gb_s) (v : Bool) : (setFrame s v).gb_bootrom_read = s.gb_bootrom_read := rfl

@[simp] theorem setFrame_has_bootrom (s : gb_s) (v : Bool) : (setFrame s v).has_bootrom = s.has_bootrom := rfl

@[simp] theorem setFrame_cart_ram_data (s : gb_s) (v : Bool) : (setFrame s v).cart_ram_data = s.cart_ram_data := rfl

@[simp] theorem setFrame_gb_serial_rx (s : gb_s) (v : Bool) : (setFrame s v).gb_serial_rx = s.gb_serial_rx := rfl

@[simp] theorem setFrame_gb_halt (s : gb_s) (v : Bool) : (setFrame s v).gb_halt = s.gb_halt := rfl

@[simp] theorem setFrame_gb_ime (s : gb_s) (v : Bool) : (setFrame s v).gb_ime = s.gb_ime := rfl

@[simp] theorem setFrame_gb_frame (s : gb_s) (v : Bool) : (setFrame s v).gb_frame = v := rfl

@[simp] theorem setFrame_lcd_blank (s : gb_s) (v : Bool) : (setFrame s v).lcd_blank = s.lcd_blank := rfl

@[simp] theorem setFrame_cart_is_mbc3O (s : gb_s) (v : Bool) : (setFrame s v).cart_is_mbc3O = s.cart_is_mbc3O := rfl

@[simp] theorem setFrame_mbc (s : gb_s) (v : Bool) : (setFrame s v).mbc = s.mbc := rfl

@[simp] theorem setFrame_cart_ram (s : gb_s) (v : Bool) : (setFrame s v).cart_ram = s.cart_ram := rfl

@[simp] theorem setFrame_num_rom_banks_mask (s : gb_s) (v : Bool) : (setFrame s v).num_rom_banks_mask = s.num_rom_banks_mask := rfl

@[simp] theorem setFrame_num_ram_banks (s : gb_s) (v : Bool) : (setFrame s v).num_ram_banks = s.num_ram_banks := rfl

@[simp] theorem setFrame_selected_rom_bank (s : gb_s) (v : Bool) : (setFrame s v).selected_rom_bank = s.selected_rom_bank := rfl

@[simp] theorem setFrame_cart_ram_bank (s : gb_s) (v : Bool) : (setFrame s v).cart_ram_bank = s.cart_ram_bank := rfl

@[simp] theorem setFrame_enable_cart_ram (s : gb_s) (v : Bool) : (setFrame s v).enable_cart_ram = s.enable_cart_ram := rfl

@[simp] theorem setFrame_cart_mode_select (s : gb_s) (v : Bool) : (setFrame s v).cart_mode_select = s.cart_mode_select := rfl

@[simp] theorem setFrame_rtc_latched (s : gb_s) (v : Bool) : (setFrame s v).rtc_latched = s.rtc_latched := rfl

@[simp] theorem setFrame_rtc_real (s : gb_s) (v : Bool) : (setFrame s v).rtc_real = s.rtc_real := rfl

@[simp] theorem setFrame_cpu_a (s : gb_s) (v : Bool) : (setFrame s v).cpu_a = s.cpu_a := rfl

@[simp] theorem setFrame_cpu_f_z (s : gb_s) (v : Bool) : (setFrame s v).cpu_f_z = s.cpu_f_z := rfl

@[simp] theorem setFrame_cpu_f_n (s : gb_s) (v : Bool) : (setFrame s v).cpu_f_n = s.cpu_f_n := rfl

@[simp] theorem setFrame_cpu_f_h (s : gb_s) (v : Bool) : (setFrame s v).cpu_f_h = s.cpu_f_h := rfl

@[simp] theorem setFrame_cpu_f_c (s : gb_s) (v : Bool) : (setFrame s v).cpu_f_c = s.cpu_f_c := rfl

@[simp] theorem setFrame_cpu_bc (s : gb_s) (v : Bool) : (setFrame s v).cpu_bc = s.cpu_bc := rfl

@[simp] theorem setFrame_cpu_de (s : gb_s) (v : Bool) : (setFrame s v).cpu_de = s.cpu_de := rfl

@[simp] theorem setFrame_cpu_hl (s : gb_s) (v : Bool) : (setFrame s v).cpu_hl = s.cpu_hl := rfl

@[simp] theorem setFrame_cpu_sp (s : gb_s) (v : Bool) : (setFrame s v).cpu_sp = s.cpu_sp := rfl

@[simp] theorem setFrame_cpu_pc (s : gb_s) (v : Bool) : (setFrame s v).cpu_pc = s.cpu_pc := rfl

@[simp] theorem setFrame_counter_lcd (s : gb_s) (v : Bool) : (setFrame s v).counter_lcd = s.counter_lcd := rfl

@[simp] theorem setFrame_counter_div (s : gb_s) (v : Bool) : (setFrame s v).counter_div = s.counter_div := rfl

@[simp] theorem setFrame_counter_tima (s : gb_s) (v : Bool) : (setFrame s v).counter_tima = s.counter_tima := rfl

@[simp] theorem setFrame_counter_serial (s : gb_s) (v : Bool) : (setFrame s v).counter_serial = s.counter_serial := rfl

@[simp] theorem setFrame_counter_rtc (s : gb_s) (v : Bool) : (setFrame s v).counter_rtc = s.counter_rtc := rfl

@[simp] theorem setFrame_counter_lcd_off (s : gb_s) (v : Bool) : (setFrame s v).counter_lcd_off = s.counter_lcd_off := rfl

@[simp] theorem setFrame_wram (s : gb_s) (v : Bool) : (setFrame s v).wram = s.wram := rfl

@[simp] theorem setFrame_vram (s : gb_s) (v : Bool) : (setFrame s v).vram = s.vram := rfl

@[simp] theorem setFrame_oam (s : gb_s) (v : Bool) : (setFrame s v).oam = s.oam := rfl

@[simp] theorem setFrame_hram_io (s : gb_s) (v : Bool) : (setFrame s v).hram_io = s.hram_io := rfl

@[simp] theorem setFrame_display_lcd_draw_line (s : gb_s) (v : Bool) : (setFrame s v).display_lcd_draw_line = s.display_lcd_draw_line := rfl

@[simp] theorem setFrame_display_bg_palette (s : gb_s) (v : Bool) : (setFrame s v).display_bg_palette = s.display_bg_palette := rfl

@[simp] theorem setFrame_display_sp_palette (s : gb_s) (v : Bool) : (setFrame s v).display_sp_palette = s.display_sp_palette := rfl

@[simp] theorem setFrame_display_window_clear (s : gb_s) (v : Bool) : (setFrame s v).display_window_clear = s.display_window_clear := rfl

@[simp] theorem setFrame_display_WY (s : gb_s) (v : Bool) : (setFrame s v).display_WY = s.display_WY := rfl

@[simp] theorem setFrame_display_frame_skip_count (s : gb_s) (v : Bool) : (setFrame s v).display_frame_skip_count = s.display_frame_skip_count := rfl

@[simp] theorem setFrame_display_interlace_count (s : gb_s) (v : Bool) : (setFrame s v).display_interlace_count = s.display_interlace_count := rfl

@[simp] theorem setFrame_direct_interlace (s : gb_s) (v : Bool) : (setFrame s v).direct_interlace = s.direct_interlace := rfl

@[simp] theorem setFrame_direct_frame_skip (s : gb_s) (v : Bool) : (setFrame s v).direct_frame_skip = s.direct_frame_skip := rfl

@[simp] theorem setFrame_direct_joypad (s : gb_s) (v : Bool) : (setFrame s v).direct_joypad = s.direct_joypad := rfl

@[simp] theorem setLcdBlank_gb_rom_read (s : gb_s) (v : Bool) : (setLcdBlank s v).gb_rom_read = s.gb_rom_read := rfl

@[simp] theorem setLcdBlank_gb_bootrom_read (s : gb_s) (v : Bool) : (setLcdBlank s v).gb_bootrom_read = s.gb_bootrom_read := rfl

@[simp] theorem setLcdBlank_has_bootrom (s : gb_s) (v : Bool) : (setLcdBlank s v).has_bootrom = s.has_bootrom := rfl

@[simp] theorem setLcdBlank_cart_ram_data (s : gb_s) (v : Bool) : (setLcdBlank s v).cart_ram_data = s.cart_ram_data := rfl

@[simp] theorem setLcdBlank_gb_serial_rx (s : gb_s) (v : Bool) : (setLcdBlank s v).gb_serial_rx = s.gb_serial_rx := rfl

@[simp] theorem setLcdBlank_gb_halt (s : gb_s) (v : Bool) : (setLcdBlank s v).gb_halt = s.gb_halt := rfl

@[simp] theorem setLcdBlank_gb_ime (s : gb_s) (v : Bool) : (setLcdBlank s v).gb_ime = s.gb_ime := rfl

@[simp] theorem setLcdBlank_gb_frame (s : gb_s) (v : Bool) : (setLcdBlank s v).gb_frame = s.gb_frame := rfl

@[simp] theorem setLcdBlank_lcd_blank (s : gb_s) (v : Bool) : (setLcdBlank s v).lcd_blank = v := rfl

@[simp] theorem setLcdBlank_cart_is_mbc3O (s : gb_s) (v : Bool) : (setLcdBlank s v).cart_is_mbc3O = s.cart_is_mbc3O := rfl

@[simp] theorem setLcdBlank_mbc (s : gb_s) (v : Bool) : (setLcdBlank s v).mbc = s.mbc := rfl

@[simp] theorem setLcdBlank_cart_ram (s : gb_s) (v : Bool) : (setLcdBlank s v).cart_ram = s.cart_ram := rfl

@[simp] theorem setLcdBlank_num_rom_banks_mask (s : gb_s) (v : Bool) : (setLcdBlank s v).num_rom_banks_mask = s.num_rom_banks_mask := rfl

@[simp] theorem setLcdBlank_num_ram_banks (s : gb_s) (v : Bool) : (setLcdBlank s v).num_ram_banks = s.num_ram_banks := rfl

@[simp] theorem setLcdBlank_selected_rom_bank (s : gb_s) (v : Bool) : (setLcdBlank s v).selected_rom_bank = s.selected_rom_bank := rfl

@[simp] theorem setLcdBlank_cart_ram_bank (s : gb_s) (v : Bool) : (setLcdBlank s v).cart_ram_bank = s.cart_ram_bank := rfl

@[simp] theorem setLcdBlank_enable_cart_ram (s : gb_s) (v : Bool) : (setLcdBlank s v).enable_cart_ram = s.enable_cart_ram := rfl

@[simp] theorem setLcdBlank_cart_mode_select (s : gb_s) (v : Bool) : (setLcdBlank s v).cart_mode_select = s.cart_mode_select := rfl

@[simp] theorem setLcdBlank_rtc_latched (s : gb_s) (v : Bool) : (setLcdBlank s v).rtc_latched = s.rtc_latched := rfl

@[simp] theorem setLcdBlank_rtc_real (s : gb_s) (v : Bool) : (setLcdBlank s v).rtc_real = s.rtc_real := rfl

@[simp] theorem setLcdBlank_cpu_a (s : gb_s) (v : Bool) : (setLcdBlank s v).cpu_a = s.cpu_a := rfl

@[simp] theorem setLcdBlank_cpu_f_z (s : gb_s) (v : Bool) : (setLcdBlank s v).cpu_f_z = s.cpu_f_z := rfl

@[simp] theorem setLcdBlank_cpu_f_n (s : gb_s) (v : Bool) : (setLcdBlank s v).cpu_f_n = s.cpu_f_n := rfl

@[simp] theorem setLcdBlank_cpu_f_h (s : gb_s) (v : Bool) : (setLcdBlank s v).cpu_f_h = s.cpu_f_h := rfl

@[simp] theorem setLcdBlank_cpu_f_c (s : gb_s) (v : Bool) : (setLcdBlank s v).cpu_f_c = s.cpu_f_c := rfl

@[simp] theorem setLcdBlank_cpu_bc (s : gb_s) (v : Bool) : (setLcdBlank s v).cpu_bc = s.cpu_bc := rfl

@[simp] theorem setLcdBlank_cpu_de (s : gb_s) (v : Bool) : (setLcdBlank s v).cpu_de = s.cpu_de := rfl

@[simp] theorem setLcdBlank_cpu_hl (s : gb_s) (v : Bool) : (setLcdBlank s v).cpu_hl = s.cpu_hl := rfl

@[simp] theorem setLcdBlank_cpu_sp (s : gb_s) (v : Bool) : (setLcdBlank s v).cpu_sp = s.cpu_sp := rfl

@[simp] theorem setLcdBlank_cpu_pc (s : gb_s) (v : Bool) : (setLcdBlank s v).cpu_pc = s.cpu_pc := rfl

@[simp] theorem setLcdBlank_counter_lcd (s : gb_s) (v : Bool) : (setLcdBlank s v).counter_lcd = s.counter_lcd := rfl

@[simp] theorem setLcdBlank_counter_div (s : gb_s) (v : Bool) : (setLcdBlank s v).counter_div = s.counter_div := rfl

@[simp] theorem setLcdBlank_counter_tima (s : gb_s) (v : Bool) : (setLcdBlank s v).counter_tima = s.counter_tima := rfl

@[simp] theorem setLcdBlank_counter_serial (s : gb_s) (v : Bool) : (setLcdBlank s v).counter_serial = s.counter_serial := rfl

@[simp] theorem setLcdBlank_counter_rtc (s : gb_s) (v : Bool) : (setLcdBlank s v).counter_rtc = s.counter_rtc := rfl

@[simp] theorem setLcdBlank_counter_lcd_off (s : gb_s) (v : Bool) : (setLcdBlank s v).counter_lcd_off = s.counter_lcd_off := rfl

@[simp] theorem setLcdBlank_wram (s : gb_s) (v : Bool) : (setLcdBlank s v).wram = s.wram := rfl

@[simp] theorem setLcdBlank_vram (s : gb_s) (v : Bool) : (setLcdBlank s v).vram = s.vram := rfl

@[simp] theorem setLcdBlank_oam (s : gb_s) (v : Bool) : (setLcdBlank s v).oam = s.oam := rfl

@[simp] theorem setLcdBlank_hram_io (s : gb_s) (v : Bool) : (setLcdBlank s v).hram_io = s.hram_io := rfl

@[simp] theorem setLcdBlank_display_lcd_draw_line (s : gb_s) (v : Bool) : (setLcdBlank s v).display_lcd_draw_line = s.display_lcd_draw_line := rfl

@[simp] theorem setLcdBlank_display_bg_palette (s : gb_s) (v : Bool) : (setLcdBlank s v).display_bg_palette = s.display_bg_palette := rfl

@[simp] theorem setLcdBlank_display_sp_palette (s : gb_s) (v : Bool) : (setLcdBlank s v).display_sp_palette = s.display_sp_palette := rfl

@[simp] theorem setLcdBlank_display_window_clear (s : gb_s) (v : Bool) : (setLcdBlank s v).display_window_clear = s.display_window_clear := rfl

@[simp] theorem setLcdBlank_display_WY (s : gb_s) (v : Bool) : (setLcdBlank s v).display_WY = s.display_WY := rfl

@[simp] theorem setLcdBlank_display_frame_skip_count (s : gb_s) (v : Bool) : (setLcdBlank s v).display_frame_skip_count = s.display_frame_skip_count := rfl

@[simp] theorem setLcdBlank_display_interlace_count (s : gb_s) (v : Bool) : (setLcdBlank s v).display_interlace_count = s.display_interlace_count := rfl

@[simp] theorem setLcdBlank_direct_interlace (s : gb_s) (v : Bool) : (setLcdBlank s v).direct_interlace = s.direct_interlace := rfl

@[simp] theorem setLcdBlank_direct_frame_skip (s : gb_s) (v : Bool) : (setLcdBlank s v).direct_frame_skip = s.direct_frame_skip := rfl

@[simp] theorem setLcdBlank_direct_joypad (s : gb_s) (v : Bool) : (setLcdBlank s v).direct_joypad = s.direct_joypad := rfl

@[simp] theorem setMbc3O_gb_rom_read (s : gb_s) (v : Bool) : (setMbc3O s v).gb_rom_read = s.gb_rom_read := rfl

@[simp] theorem setMbc3O_gb_bootrom_read (s : gb_s) (v : Bool) : (setMbc3O s v).gb_bootrom_read = s.gb_bootrom_read := rfl

@[simp] theorem setMbc3O_has_bootrom (s : gb_s) (v : Bool) : (setMbc3O s v).has_bootrom = s.has_bootrom := rfl

@[simp] theorem setMbc3O_cart_ram_data (s : gb_s) (v : Bool) : (setMbc3O s v).cart_ram_data = s.cart_ram_data := rfl

@[simp] theorem setMbc3O_gb_serial_rx (s : gb_s) (v : Bool) : (setMbc3O s v).gb_serial_rx = s.gb_serial_rx := rfl

@[simp] theorem setMbc3O_gb_halt (s : gb_s) (v : Bool) : (setMbc3O s v).gb_halt = s.gb_halt := rfl

@[simp] theorem setMbc3O_gb_ime (s : gb_s) (v : Bool) : (setMbc3O s v).gb_ime = s.gb_ime := rfl

@[simp] theorem setMbc3O_gb_frame (s : gb_s) (v : Bool) : (setMbc3O s v).gb_frame = s.gb_frame := rfl

@[simp] theorem setMbc3O_lcd_blank (s : gb_s) (v : Bool) : (setMbc3O s v).lcd_blank = s.lcd_blank := rfl

@[simp] theorem setMbc3O_cart_is_mbc3O (s : gb_s) (v : Bool) : (setMbc3O s v).cart_is_mbc3O = v := rfl

@[simp] theorem setMbc3O_mbc (s : gb_s) (v : Bool) : (setMbc3O s v).mbc = s.mbc := rfl

@[simp] theorem setMbc3O_cart_ram (s : gb_s) (v : Bool) : (setMbc3O s v).cart_ram = s.cart_ram := rfl

@[simp] theorem setMbc3O_num_rom_banks_mask (s : gb_s) (v : Bool) : (setMbc3O s v).num_rom_banks_mask = s.num_rom_banks_mask := rfl

@[simp] theorem setMbc3O_num_ram_banks (s : gb_s) (v : Bool) : (setMbc3O s v).num_ram_banks = s.num_ram_banks := rfl

@[simp] theorem setMbc3O_selected_rom_bank (s : gb_s) (v : Bool) : (setMbc3O s v).selected_rom_bank = s.selected_rom_bank := rfl

@[simp] theorem setMbc3O_cart_ram_bank (s : gb_s) (v : Bool) : (setMbc3O s v).cart_ram_bank = s.cart_ram_bank := rfl

@[simp] theorem setMbc3O_enable_cart_ram (s : gb_s) (v : Bool) : (setMbc3O s v).enable_cart_ram = s.enable_cart_ram := rfl

@[simp] theorem setMbc3O_cart_mode_select (s : gb_s) (v : Bool) : (setMbc3O s v).cart_mode_select = s.cart_mode_select := rfl

@[simp] theorem setMbc3O_rtc_latched (s : gb_s) (v : Bool) : (setMbc3O s v).rtc_latched = s.rtc_latched := rfl

@[simp] theorem setMbc3O_rtc_real (s : gb_s) (v : Bool) : (setMbc3O s v).rtc_real = s.rtc_real := rfl

@[simp] theorem setMbc3O_cpu_a (s : gb_s) (v : Bool) : (setMbc3O s v).cpu_a = s.cpu_a := rfl

@[simp] theorem setMbc3O_cpu_f_z (s : gb_s) (v : Bool) : (setMbc3O s v).cpu_f_z = s.cpu_f_z := rfl

@[simp] theorem setMbc3O_cpu_f_n (s : gb_s) (v : Bool) : (setMbc3O s v).cpu_f_n = s.cpu_f_n := rfl

@[simp] theorem setMbc3O_cpu_f_h (s : gb_s) (v : Bool) : (setMbc3O s v).cpu_f_h = s.cpu_f_h := rfl

@[simp] theorem setMbc3O_cpu_f_c (s : gb_s) (v : Bool) : (setMbc3O s v).cpu_f_c = s.cpu_f_c := rfl

@[simp] theorem setMbc3O_cpu_bc (s : gb_s) (v : Bool) : (setMbc3O s v).cpu_bc = s.cpu_bc := rfl

@[simp] theorem setMbc3O_cpu_de (s : gb_s) (v : Bool) : (setMbc3O s v).cpu_de = s.cpu_de := rfl

@[simp] theorem setMbc3O_cpu_hl (s : gb_s) (v : Bool) : (setMbc3O s v).cpu_hl = s.cpu_hl := rfl

@[simp] theorem setMbc3O_cpu_sp (s : gb_s) (v : Bool) : (setMbc3O s v).cpu_sp = s.cpu_sp := rfl

@[simp] theorem setMbc3O_cpu_pc (s : gb_s) (v : Bool) : (setMbc3O s v).cpu_pc = s.cpu_pc := rfl

@[simp] theorem setMbc3O_counter_lcd (s : gb_s) (v : Bool) : (setMbc3O s v).counter_lcd = s.counter_lcd := rfl

@[simp] theorem setMbc3O_counter_div (s : gb_s) (v : Bool) : (setMbc3O s v).counter_div = s.counter_div := rfl

@[simp] theorem setMbc3O_counter_tima (s : gb_s) (v : Bool) : (setMbc3O s v).counter_tima = s.counter_tima := rfl

@[simp] theorem setMbc3O_counter_serial (s : gb_s) (v : Bool) : (setMbc3O s v).counter_serial = s.counter_serial := rfl

@[simp] theorem setMbc3O_counter_rtc (s : gb_s) (v : Bool) : (setMbc3O s v).counter_rtc = s.counter_rtc := rfl

@[simp] theorem setMbc3O_counter_lcd_off (s : gb_s) (v : Bool) : (setMbc3O s v).counter_lcd_off = s.counter_lcd_off := rfl

@[simp] theorem setMbc3O_wram (s : gb_s) (v : Bool) : (setMbc3O s v).wram = s.wram := rfl

@[simp] theorem setMbc3O_vram (s : gb_s) (v : Bool) : (setMbc3O s v).vram = s.vram := rfl

@[simp] theorem setMbc3O_oam (s : gb_s) (v : Bool) : (setMbc3O s v).oam = s.oam := rfl

@[simp] theorem setMbc3O_hram_io (s : gb_s) (v : Bool) : (setMbc3O s v).hram_io = s.hram_io := rfl

@[simp] theorem setMbc3O_display_lcd_draw_line (s : gb_s) (v : Bool) : (setMbc3O s v).display_lcd_draw_line = s.display_lcd_draw_line := rfl

@[simp] theorem setMbc3O_display_bg_palette (s : gb_s) (v : Bool) : (setMbc3O s v).display_bg_palette = s.display_bg_palette := rfl

@[simp] theorem setMbc3O_display_sp_palette (s : gb_s) (v : Bool) : (setMbc3O s v).display_sp_palette = s.display_sp_palette := rfl

@[simp] theorem setMbc3O_display_window_clear (s : gb_s) (v : Bool) : (setMbc3O s v).display_window_clear = s.display_window_clear := rfl

@[simp] theorem setMbc3O_display_WY (s : gb_s) (v : Bool) : (setMbc3O s v).display_WY = s.display_WY := rfl

@[simp] theorem setMbc3O_display_frame_skip_count (s : gb_s) (v : Bool) : (setMbc3O s v).display_frame_skip_count = s.display_frame_skip_count := rfl

@[simp] theorem setMbc3O_display_interlace_count (s : gb_s) (v : Bool) : (setMbc3O s v).display_interlace_count = s.display_interlace_count := rfl

@[simp] theorem setMbc3O_direct_interlace (s : gb_s) (v : Bool) : (setMbc3O s v).direct_interlace = s.direct_interlace := rfl

@[simp] theorem setMbc3O_direct_frame_skip (s : gb_s) (v : Bool) : (setMbc3O s v).direct_frame_skip = s.direct_frame_skip := rfl

@[simp] theorem setMbc3O_direct_joypad (s : gb_s) (v : Bool) : (setMbc3O s v).direct_joypad = s.direct_joypad := rfl

@[simp] theorem setMbc_gb_rom_read (s : gb_s) (v : Int) : (setMbc s v).gb_rom_read = s.gb_rom_read := rfl

@[simp] theorem setMbc_gb_bootrom_read (s : gb_s) (v : Int) : (setMbc s v).gb_bootrom_read = s.gb_bootrom_read := rfl

@[simp] theorem setMbc_has_bootrom (s : gb_s) (v : Int) : (setMbc s v).has_bootrom = s.has_bootrom := rfl

@[simp] theorem setMbc_cart_ram_data (s : gb_s) (v : Int) : (setMbc s v).cart_ram_data = s.cart_ram_data := rfl

@[simp] theorem setMbc_gb_serial_rx (s : gb_s) (v : Int) : (setMbc s v).gb_serial_rx = s.gb_serial_rx := rfl

@[simp] theorem setMbc_gb_halt (s : gb_s) (v : Int) : (setMbc s v).gb_halt = s.gb_halt := rfl

@[simp] theorem setMbc_gb_ime (s : gb_s) (v : Int) : (setMbc s v).gb_ime = s.gb_ime := rfl

@[simp] theorem setMbc_gb_frame (s : gb_s) (v : Int) : (setMbc s v).gb_frame = s.gb_frame := rfl

@[simp] theorem setMbc_lcd_blank (s : gb_s) (v : Int) : (setMbc s v).lcd_blank = s.lcd_blank := rfl

@[simp] theorem setMbc_cart_is_mbc3O (s : gb_s) (v : Int) : (setMbc s v).cart_is_mbc3O = s.cart_is_mbc3O := rfl

@[simp] theorem setMbc_mbc (s : gb_s) (v : Int) : (setMbc s v).mbc = v := rfl

@[simp] theorem setMbc_cart_ram (s : gb_s) (v : Int) : (setMbc s v).cart_ram = s.cart_ram := rfl

@[simp] theorem setMbc_num_rom_banks_mask (s : gb_s) (v : Int) : (setMbc s v).num_rom_banks_mask = s.num_rom_banks_mask := rfl

@[simp] theorem setMbc_num_ram_banks (s : gb_s) (v : Int) : (setMbc s v).num_ram_banks = s.num_ram_banks := rfl

@[simp] theorem setMbc_selected_rom_bank (s : gb_s) (v : Int) : (setMbc s v).selected_rom_bank = s.selected_rom_bank := rfl

@[simp] theorem setMbc_cart_ram_bank (s : gb_s) (v : Int) : (setMbc s v).cart_ram_bank = s.cart_ram_bank := rfl

@[simp] theorem setMbc_enable_cart_ram (s : gb_s) (v : Int) : (setMbc s v).enable_cart_ram = s.enable_cart_ram := rfl

@[simp] theorem setMbc_cart_mode_select (s : gb_s) (v : Int) : (setMbc s v).cart_mode_select = s.cart_mode_select := rfl

@[simp] theorem setMbc_rtc_latched (s : gb_s) (v : Int) : (setMbc s v).rtc_latched = s.rtc_latched := rfl

@[simp] theorem setMbc_rtc_real (s : gb_s) (v : Int) : (setMbc s v).rtc_real = s.rtc_real := rfl

@[simp] theorem setMbc_cpu_a (s : gb_s) (v : Int) : (setMbc s v).cpu_a = s.cpu_a := rfl

@[simp] theorem setMbc_cpu_f_z (s : gb_s) (v : Int) : (setMbc s v).cpu_f_z = s.cpu_f_z := rfl

@[simp] theorem setMbc_cpu_f_n (s : gb_s) (v : Int) : (setMbc s v).cpu_f_n = s.cpu_f_n := rfl

@[simp] theorem setMbc_cpu_f_h (s : gb_s) (v : Int) : (setMbc s v).cpu_f_h = s.cpu_f_h := rfl

@[simp] theorem setMbc_cpu_f_c (s : gb_s) (v : Int) : (setMbc s v).cpu_f_c = s.cpu_f_c := rfl

@[simp] theorem setMbc_cpu_bc (s : gb_s) (v : Int) : (setMbc s v).cpu_bc = s.cpu_bc := rfl

@[simp] theorem setMbc_cpu_de (s : gb_s) (v : Int) : (setMbc s v).cpu_de = s.cpu_de := rfl

@[simp] theorem setMbc_cpu_hl (s : gb_s) (v : Int) : (setMbc s v).cpu_hl = s.cpu_hl := rfl

@[simp] theorem setMbc_cpu_sp (s : gb_s) (v : Int) : (setMbc s v).cpu_sp = s.cpu_sp := rfl

@[simp] theorem setMbc_cpu_pc (s : gb_s) (v : Int) : (setMbc s v).cpu_pc = s.cpu_pc := rfl

@[simp] theorem setMbc_counter_lcd (s : gb_s) (v : Int) : (setMbc s v).counter_lcd = s.counter_lcd := rfl

@[simp] theorem setMbc_counter_div (s : gb_s) (v : Int) : (setMbc s v).counter_div = s.counter_div := rfl

@[simp] theorem setMbc_counter_tima (s : gb_s) (v : Int) : (setMbc s v).counter_tima = s.counter_tima := rfl

@[simp] theorem setMbc_counter_serial (s : gb_s) (v : Int) : (setMbc s v).counter_serial = s.counter_serial := rfl

@[simp] theorem setMbc_counter_rtc (s : gb_s) (v : Int) : (setMbc s v).counter_rtc = s.counter_rtc := rfl

@[simp] theorem setMbc_counter_lcd_off (s : gb_s) (v : Int) : (setMbc s v).counter_lcd_off = s.counter_lcd_off := rfl

@[simp] theorem setMbc_wram (s : gb_s) (v : Int) : (setMbc s v).wram = s.wram := rfl

@[simp] theorem setMbc_vram (s : gb_s) (v : Int) : (setMbc s v).vram = s.vram := rfl

@[simp] theorem setMbc_oam (s : gb_s) (v : Int) : (setMbc s v).oam = s.oam := rfl

@[simp] theorem setMbc_hram_io (s : gb_s) (v : Int) : (setMbc s v).hram_io = s.hram_io := rfl

@[simp] theorem setMbc_display_lcd_draw_line (s : gb_s) (v : Int) : (setMbc s v).display_lcd_draw_line = s.display_lcd_draw_line := rfl

@[simp] theorem setMbc_display_bg_palette (s : gb_s) (v : Int) : (setMbc s v).display_bg_palette = s.display_bg_palette := rfl

@[simp] theorem setMbc_display_sp_palette (s : gb_s) (v : Int) : (setMbc s v).display_sp_palette = s.display_sp_palette := rfl

@[simp] theorem setMbc_display_window_clear (s : gb_s) (v : Int) : (setMbc s v).display_window_clear = s.display_window_clear := rfl

@[simp] theorem setMbc_display_WY (s : gb_s) (v : Int) : (setMbc s v).display_WY = s.display_WY := rfl

@[simp] theorem setMbc_display_frame_skip_count (s : gb_s) (v : Int) : (setMbc s v).display_frame_skip_count = s.display_frame_skip_count := rfl

@[simp] theorem setMbc_display_interlace_count (s : gb_s) (v : Int) : (setMbc s v).display_interlace_count = s.display_interlace_count := rfl

@[simp] theorem setMbc_direct_interlace (s : gb_s) (v : Int) : (setMbc s v).direct_interlace = s.direct_interlace := rfl

@[simp] theorem setMbc_direct_frame_skip (s : gb_s) (v : Int) : (setMbc s v).direct_frame_skip = s.direct_frame_skip := rfl

@[simp] theorem setMbc_direct_joypad (s : gb_s) (v : Int) : (setMbc s v).direct_joypad = s.direct_joypad := rfl

@[simp] theorem setCartRamFlag_gb_rom_read (s : gb_s) (v : Bool) : (setCartRamFlag s v).gb_rom_read = s.gb_rom_read := rfl

@[simp] theorem setCartRamFlag_gb_bootrom_read (s : gb_s) (v : Bool) : (setCartRamFlag s v).gb_bootrom_read = s.gb_bootrom_read := rfl

@[simp] theorem setCartRamFlag_has_bootrom (s : gb_s) (v : Bool) : (setCartRamFlag s v).has_bootrom = s.has_bootrom := rfl

@[simp] theorem setCartRamFlag_cart_ram_data (s : gb_s) (v : Bool) : (setCartRamFlag s v).cart_ram_data = s.cart_ram_data := rfl

@[simp] theorem setCartRamFlag_gb_serial_rx (s : gb_s) (v : Bool) : (setCartRamFlag s v).gb_serial_rx = s.gb_serial_rx := rfl

@[simp] theorem setCartRamFlag_gb_halt (s : gb_s) (v : Bool) : (setCartRamFlag s v).gb_halt = s.gb_halt := rfl

@[simp] theorem setCartRamFlag_gb_ime (s : gb_s) (v : Bool) : (setCartRamFlag s v).gb_ime = s.gb_ime := rfl

@[simp] theorem setCartRamFlag_gb_frame (s : gb_s) (v : Bool) : (setCartRamFlag s v).gb_frame = s.gb_frame := rfl

@[simp] theorem setCartRamFlag_lcd_blank (s : gb_s) (v : Bool) : (setCartRamFlag s v).lcd_blank = s.lcd_blank := rfl

@[simp] theorem setCartRamFlag_cart_is_mbc3O (s : gb_s) (v : Bool) : (setCartRamFlag s v).cart_is_mbc3O = s.cart_is_mbc3O := rfl

@[simp] theorem setCartRamFlag_mbc (s : gb_s) (v : Bool) : (setCartRamFlag s v).mbc = s.mbc := rfl

@[simp] theorem setCartRamFlag_cart_ram (s : gb_s) (v : Bool) : (setCartRamFlag s v).cart_ram = v := rfl

@[simp] theorem setCartRamFlag_num_rom_banks_mask (s : gb_s) (v : Bool) : (setCartRamFlag s v).num_rom_banks_mask = s.num_rom_banks_mask := rfl

@[simp] theorem setCartRamFlag_num_ram_banks (s : gb_s) (v : Bool) : (setCartRamFlag s v).num_ram_banks = s.num_ram_banks := rfl

@[simp] theorem setCartRamFlag_selected_rom_bank (s : gb_s) (v : Bool) : (setCartRamFlag s v).selected_rom_bank = s.selected_rom_bank := rfl

@[simp] theorem setCartRamFlag_cart_ram_bank (s : gb_s) (v : Bool) : (setCartRamFlag s v).cart_ram_bank = s.cart_ram_bank := rfl

@[simp] theorem setCartRamFlag_enable_cart_ram (s : gb_s) (v : Bool) : (setCartRamFlag s v).enable_cart_ram = s.enable_cart_ram := rfl

@[simp] theorem setCartRamFlag_cart_mode_select (s : gb_s) (v : Bool) : (setCartRamFlag s v).cart_mode_select = s.cart_mode_select := rfl

@[simp] theorem setCartRamFlag_rtc_latched (s : gb_s) (v : Bool) : (setCartRamFlag s v).rtc_latched = s.rtc_latched := rfl

@[simp] theorem setCartRamFlag_rtc_real (s : gb_s) (v : Bool) : (setCartRamFlag s v).rtc_real = s.rtc_real := rfl

@[simp] theorem setCartRamFlag_cpu_a (s : gb_s) (v : Bool) : (setCartRamFlag s v).cpu_a = s.cpu_a := rfl

@[simp] theorem setCartRamFlag_cpu_f_z (s : gb_s) (v : Bool) : (setCartRamFlag s v).cpu_f_z = s.cpu_f_z := rfl

@[simp] theorem setCartRamFlag_cpu_f_n (s : gb_s) (v : Bool) : (setCartRamFlag s v).cpu_f_n = s.cpu_f_n := rfl

@[simp] theorem setCartRamFlag_cpu_f_h (s : gb_s) (v : Bool) : (setCartRamFlag s v).cpu_f_h = s.cpu_f_h := rfl

@[simp] theorem setCartRamFlag_cpu_f_c (s : gb_s) (v : Bool) : (setCartRamFlag s v).cpu_f_c = s.cpu_f_c := rfl

@[simp] theorem setCartRamFlag_cpu_bc (s : gb_s) (v : Bool) : (setCartRamFlag s v).cpu_bc = s.cpu_bc := rfl

@[simp] theorem setCartRamFlag_cpu_de (s : gb_s) (v : Bool) : (setCartRamFlag s v).cpu_de = s.cpu_de := rfl

@[simp] theorem setCartRamFlag_cpu_hl (s : gb_s) (v : Bool) : (setCartRamFlag s v).cpu_hl = s.cpu_hl := rfl

@[simp] theorem setCartRamFlag_cpu_sp (s : gb_s) (v : Bool) : (setCartRamFlag s v).cpu_sp = s.cpu_sp := rfl

@[simp] theorem setCartRamFlag_cpu_pc (s : gb_s) (v : Bool) : (setCartRamFlag s v).cpu_pc = s.cpu_pc := rfl

@[simp] theorem setCartRamFlag_counter_lcd (s : gb_s) (v : Bool) : (setCartRamFlag s v).counter_lcd = s.counter_lcd := rfl

@[simp] theorem setCartRamFlag_counter_div (s : gb_s) (v : Bool) : (setCartRamFlag s v).counter_div = s.counter_div := rfl

@[simp] theorem setCartRamFlag_counter_tima (s : gb_s) (v : Bool) : (setCartRamFlag s v).counter_tima = s.counter_tima := rfl

@[simp] theorem setCartRamFlag_counter_serial (s : gb_s) (v : Bool) : (setCartRamFlag s v).counter_serial = s.counter_serial := rfl

@[simp] theorem setCartRamFlag_counter_rtc (s : gb_s) (v : Bool) : (setCartRamFlag s v).counter_rtc = s.counter_rtc := rfl

@[simp] theorem setCartRamFlag_counter_lcd_off (s : gb_s) (v : Bool) : (setCartRamFlag s v).counter_lcd_off = s.counter_lcd_off := rfl

@[simp] theorem setCartRamFlag_wram (s : gb_s) (v : Bool) : (setCartRamFlag s v).wram = s.wram := rfl

@[simp] theorem setCartRamFlag_vram (s : gb_s) (v : Bool) : (setCartRamFlag s v).vram = s.vram := rfl

@[simp] theorem setCartRamFlag_oam (s : gb_s) (v : Bool) : (setCartRamFlag s v).oam = s.oam := rfl

@[simp] theorem setCartRamFlag_hram_io (s : gb_s) (v : Bool) : (setCartRamFlag s v).hram_io = s.hram_io := rfl

@[simp] theorem setCartRamFlag_display_lcd_draw_line (s : gb_s) (v : Bool) : (setCartRamFlag s v).display_lcd_draw_line = s.display_lcd_draw_line := rfl

@[simp] theorem setCartRamFlag_display_bg_palette (s : gb_s) (v : Bool) : (setCartRamFlag s v).display_bg_palette = s.display_bg_palette := rfl

@[simp] theorem setCartRamFlag_display_sp_palette (s : gb_s) (v : Bool) : (setCartRamFlag s v).display_sp_palette = s.display_sp_palette := rfl

@[simp] theorem setCartRamFlag_display_window_clear (s : gb_s) (v : Bool) : (setCartRamFlag s v).display_window_clear = s.display_window_clear := rfl

@[simp] theorem setCartRamFlag_display_WY (s : gb_s) (v : Bool) : (setCartRamFlag s v).display_WY = s.display_WY := rfl

@[simp] theorem setCartRamFlag_display_frame_skip_count (s : gb_s) (v : Bool) : (setCartRamFlag s v).display_frame_skip_count = s.display_frame_skip_count := rfl

@[simp] theorem setCartRamFlag_display_interlace_count (s : gb_s) (v : Bool) : (setCartRamFlag s v).display_interlace_count = s.display_interlace_count := rfl

@[simp] theorem setCartRamFlag_direct_interlace (s : gb_s) (v : Bool) : (setCartRamFlag s v).direct_interlace = s.direct_interlace := rfl

@[simp] theorem setCartRamFlag_direct_frame_skip (s : gb_s) (v : Bool) : (setCartRamFlag s v).direct_frame_skip = s.direct_frame_skip := rfl

@[simp] theorem setCartRamFlag_direct_joypad (s : gb_s) (v : Bool) : (setCartRamFlag s v).direct_joypad = s.direct_joypad := rfl

@[simp] theorem setNumRomBanksMask_gb_rom_read (s : gb_s) (v : Nat) : (setNumRomBanksMask s v).gb_rom_read = s.gb_rom_read := rfl

@[simp] theorem setNumRomBanksMask_gb_bootrom_read (s : gb_s) (v : Nat) : (setNumRomBanksMask s v).gb_bootrom_read = s.gb_bootrom_read := rfl

@[simp] theorem setNumRomBanksMask_has_bootrom (s : gb_s) (v : Nat) : (setNumRomBanksMask s v).has_bootrom = s.has_bootrom := rfl

@[simp] theorem setNumRomBanksMask_cart_ram_data (s : gb_s) (v : Nat) : (setNumRomBanksMask s v).cart_ram_data = s.cart_ram_data := rfl

@[simp] theorem setNumRomBanksMask_gb_serial_rx (s : gb_s) (v : Nat) : (setNumRomBanksMask s v).gb_serial_rx = s.gb_serial_rx := rfl

@[simp] theorem setNumRomBanksMask_gb_halt (s : gb_s) (v : Nat) : (setNumRomBanksMask s v).gb_halt = s.gb_halt := rfl

@[simp] theorem setNumRomBanksMask_gb_ime (s : gb_s) (v : Nat) : (setNumRomBanksMask s v).gb_ime = s.gb_ime := rfl

@[simp] theorem setNumRomBanksMask_gb_frame (s : gb_s) (v : Nat) : (setNumRomBanksMask s v).gb_frame = s.gb_frame := rfl

@[simp] theorem setNumRomBanksMask_lcd_blank (s : gb_s) (v : Nat) : (setNumRomBanksMask s v).lcd_blank = s.lcd_blank := rfl

@[simp] theorem setNumRomBanksMask_cart_is_mbc3O (s : gb_s) (v : Nat) : (setNumRomBanksMask s v).cart_is_mbc3O = s.cart_is_mbc3O := rfl

@[simp] theorem setNumRomBanksMask_mbc (s : gb_s) (v : Nat) : (setNumRomBanksMask s v).mbc = s.mbc := rfl

@[simp] theorem setNumRomBanksMask_cart_ram (s : gb_s) (v : Nat) : (setNumRomBanksMask s v).cart_ram = s.cart_ram := rfl

@[simp] theorem setNumRomBanksMask_num_rom_banks_mask (s : gb_s) (v : Nat) : (setNumRomBanksMask s v).num_rom_banks_mask = v := rfl

@[simp] theorem setNumRomBanksMask_num_ram_banks (s : gb_s) (v : Nat) : (setNumRomBanksMask s v).num_ram_banks = s.num_ram_banks := rfl

@[simp] theorem setNumRomBanksMask_selected_rom_bank (s : gb_s) (v : Nat) : (setNumRomBanksMask s v).selected_rom_bank = s.selected_rom_bank := rfl

@[simp] theorem setNumRomBanksMask_cart_ram_bank (s : gb_s) (v : Nat) : (setNumRomBanksMask s v).cart_ram_bank = s.cart_ram_bank := rfl

@[simp] theorem setNumRomBanksMask_enable_cart_ram (s : gb_s) (v : Nat) : (setNumRomBanksMask s v).enable_cart_ram = s.enable_cart_ram := rfl

@[simp] theorem setNumRomBanksMask_cart_mode_select (s : gb_s) (v : Nat) : (setNumRomBanksMask s v).cart_mode_select = s.cart_mode_select := rfl

@[simp] theorem setNumRomBanksMask_rtc_latched (s : gb_s) (v : Nat) : (setNumRomBanksMask s v).rtc_latched = s.rtc_latched := rfl

@[simp] theorem setNumRomBanksMask_rtc_real (s : gb_s) (v : Nat) : (setNumRomBanksMask s v).rtc_real = s.rtc_real := rfl

@[simp] theorem setNumRomBanksMask_cpu_a (s : gb_s) (v : Nat) : (setNumRomBanksMask s v).cpu_a = s.cpu_a := rfl

@[simp] theorem setNumRomBanksMask_cpu_f_z (s : gb_s) (v : Nat) : (setNumRomBanksMask s v).cpu_f_z = s.cpu_f_z := rfl

@[simp] theorem setNumRomBanksMask_cpu_f_n (s : gb_s) (v : Nat) : (setNumRomBanksMask s v).cpu_f_n = s.cpu_f_n := rfl

@[simp] theorem setNumRomBanksMask_cpu_f_h (s : gb_s) (v : Nat) : (setNumRomBanksMask s v).cpu_f_h = s.cpu_f_h := rfl

@[simp] theorem setNumRomBanksMask_cpu_f_c (s : gb_s) (v : Nat) : (setNumRomBanksMask s v).cpu_f_c = s.cpu_f_c := rfl

@[simp] theorem setNumRomBanksMask_cpu_bc (s : gb_s) (v : Nat) : (setNumRomBanksMask s v).cpu_bc = s.cpu_bc := rfl

@[simp] theorem setNumRomBanksMask_cpu_de (s : gb_s) (v : Nat) : (setNumRomBanksMask s v).cpu_de = s.cpu_de := rfl

@[simp] theorem setNumRomBanksMask_cpu_hl (s : gb_s) (v : Nat) : (setNumRomBanksMask s v).cpu_hl = s.cpu_hl := rfl

@[simp] theorem setNumRomBanksMask_cpu_sp (s : gb_s) (v : Nat) : (setNumRomBanksMask s v).cpu_sp = s.cpu_sp := rfl

@[simp] theorem setNumRomBanksMask_cpu_pc (s : gb_s) (v : Nat) : (setNumRomBanksMask s v).cpu_pc = s.cpu_pc := rfl

@[simp] theorem setNumRomBanksMask_counter_lcd (s : gb_s) (v : Nat) : (setNumRomBanksMask s v).counter_lcd = s.counter_lcd := rfl

@[simp] theorem setNumRomBanksMask_counter_div (s : gb_s) (v : Nat) : (setNumRomBanksMask s v).counter_div = s.counter_div := rfl

@[simp] theorem setNumRomBanksMask_counter_tima (s : gb_s) (v : Nat) : (setNumRomBanksMask s v).counter_tima = s.counter_tima := rfl

@[simp] theorem setNumRomBanksMask_counter_serial (s : gb_s) (v : Nat) : (setNumRomBanksMask s v).counter_serial = s.counter_serial := rfl

@[simp] theorem setNumRomBanksMask_counter_rtc (s : gb_s) (v : Nat) : (setNumRomBanksMask s v).counter_rtc = s.counter_rtc := rfl

@[simp] theorem setNumRomBanksMask_counter_lcd_off (s : gb_s) (v : Nat) : (setNumRomBanksMask s v).counter_lcd_off = s.counter_lcd_off := rfl

@[simp] theorem setNumRomBanksMask_wram (s : gb_s) (v : Nat) : (setNumRomBanksMask s v).wram = s.wram := rfl

@[simp] theorem setNumRomBanksMask_vram (s : gb_s) (v : Nat) : (setNumRomBanksMask s v).vram = s.vram := rfl

@[simp] theorem setNumRomBanksMask_oam (s : gb_s) (v : Nat) : (setNumRomBanksMask s v).oam = s.oam := rfl

@[simp] theorem setNumRomBanksMask_hram_io (s : gb_s) (v : Nat) : (setNumRomBanksMask s v).hram_io = s.hram_io := rfl

@[simp] theorem setNumRomBanksMask_display_lcd_draw_line (s : gb_s) (v : Nat) : (setNumRomBanksMask s v).display_lcd_draw_line = s.display_lcd_draw_line := rfl

@[simp] theorem setNumRomBanksMask_display_bg_palette (s : gb_s) (v : Nat) : (setNumRomBanksMask s v).display_bg_palette = s.display_bg_palette := rfl

@[simp] theorem setNumRomBanksMask_display_sp_palette (s : gb_s) (v : Nat) : (setNumRomBanksMask s v).display_sp_palette = s.display_sp_palette := rfl

@[simp] theorem setNumRomBanksMask_display_window_clear (s : gb_s) (v : Nat) : (setNumRomBanksMask s v).display_window_clear = s.display_window_clear := rfl

@[simp] theorem setNumRomBanksMask_display_WY (s : gb_s) (v : Nat) : (setNumRomBanksMask s v).display_WY = s.display_WY := rfl

@[simp] theorem setNumRomBanksMask_display_frame_skip_count (s : gb_s) (v : Nat) : (setNumRomBanksMask s v).display_frame_skip_count = s.display_frame_skip_count := rfl

@[simp] theorem setNumRomBanksMask_display_interlace_count (s : gb_s) (v : Nat) : (setNumRomBanksMask s v).display_interlace_count = s.display_interlace_count := rfl

@[simp] theorem setNumRomBanksMask_direct_interlace (s : gb_s) (v : Nat) : (setNumRomBanksMask s v).direct_interlace = s.direct_interlace := rfl

@[simp] theorem setNumRomBanksMask_direct_frame_skip (s : gb_s) (v : Nat) : (setNumRomBanksMask s v).direct_frame_skip = s.direct_frame_skip := rfl

@[simp] theorem setNumRomBanksMask_direct_joypad (s : gb_s) (v : Nat) : (setNumRomBanksMask s v).direct_joypad = s.direct_joypad := rfl

@[simp] theorem setNumRamBanks_gb_rom_read (s : gb_s) (v : Nat) : (setNumRamBanks s v).gb_rom_read = s.gb_rom_read := rfl

@[simp] theorem setNumRamBanks_gb_bootrom_read (s : gb_s) (v : Nat) : (setNumRamBanks s v).gb_bootrom_read = s.gb_bootrom_read := rfl

@[simp] theorem setNumRamBanks_has_bootrom (s : gb_s) (v : Nat) : (setNumRamBanks s v).has_bootrom = s.has_bootrom := rfl

@[simp] theorem setNumRamBanks_cart_ram_data (s : gb_s) (v : Nat) : (setNumRamBanks s v).cart_ram_data = s.cart_ram_data := rfl

@[simp] theorem setNumRamBanks_gb_serial_rx (s : gb_s) (v : Nat) : (setNumRamBanks s v).gb_serial_rx = s.gb_serial_rx := rfl

@[simp] theorem setNumRamBanks_gb_halt (s : gb_s) (v : Nat) : (setNumRamBanks s v).gb_halt = s.gb_halt := rfl

@[simp] theorem setNumRamBanks_gb_ime (s : gb_s) (v : Nat) : (setNumRamBanks s v).gb_ime = s.gb_ime := rfl

@[simp] theorem setNumRamBanks_gb_frame (s : gb_s) (v : Nat) : (setNumRamBanks s v).gb_frame = s.gb_frame := rfl

@[simp] theorem setNumRamBanks_lcd_blank (s : gb_s) (v : Nat) : (setNumRamBanks s v).lcd_blank = s.lcd_blank := rfl

@[simp] theorem setNumRamBanks_cart_is_mbc3O (s : gb_s) (v : Nat) : (setNumRamBanks s v).cart_is_mbc3O = s.cart_is_mbc3O := rfl

@[simp] theorem setNumRamBanks_mbc (s : gb_s) (v : Nat) : (setNumRamBanks s v).mbc = s.mbc := rfl

@[simp] theorem setNumRamBanks_cart_ram (s : gb_s) (v : Nat) : (setNumRamBanks s v).cart_ram = s.cart_ram := rfl

@[simp] theorem setNumRamBanks_num_rom_banks_mask (s : gb_s) (v : Nat) : (setNumRamBanks s v).num_rom_banks_mask = s.num_rom_banks_mask := rfl

@[simp] theorem setNumRamBanks_num_ram_banks (s : gb_s) (v : Nat) : (setNumRamBanks s v).num_ram_banks = v := rfl

@[simp] theorem setNumRamBanks_selected_rom_bank (s : gb_s) (v : Nat) : (setNumRamBanks s v).selected_rom_bank = s.selected_rom_bank := rfl

@[simp] theorem setNumRamBanks_cart_ram_bank (s : gb_s) (v : Nat) : (setNumRamBanks s v).cart_ram_bank = s.cart_ram_bank := rfl

@[simp] theorem setNumRamBanks_enable_cart_ram (s : gb_s) (v : Nat) : (setNumRamBanks s v).enable_cart_ram = s.enable_cart_ram := rfl

@[simp] theorem setNumRamBanks_cart_mode_select (s : gb_s) (v : Nat) : (setNumRamBanks s v).cart_mode_select = s.cart_mode_select := rfl

@[simp] theorem setNumRamBanks_rtc_latched (s : gb_s) (v : Nat) : (setNumRamBanks s v).rtc_latched = s.rtc_latched := rfl

@[simp] theorem setNumRamBanks_rtc_real (s : gb_s) (v : Nat) : (setNumRamBanks s v).rtc_real = s.rtc_real := rfl

@[simp] theorem setNumRamBanks_cpu_a (s : gb_s) (v : Nat) : (setNumRamBanks s v).cpu_a = s.cpu_a := rfl

@[simp] theorem setNumRamBanks_cpu_f_z (s : gb_s) (v : Nat) : (setNumRamBanks s v).cpu_f_z = s.cpu_f_z := rfl

@[simp] theorem setNumRamBanks_cpu_f_n (s : gb_s) (v : Nat) : (setNumRamBanks s v).cpu_f_n = s.cpu_f_n := rfl

@[simp] theorem setNumRamBanks_cpu_f_h (s : gb_s) (v : Nat) : (setNumRamBanks s v).cpu_f_h = s.cpu_f_h := rfl

@[simp] theorem setNumRamBanks_cpu_f_c (s : gb_s) (v : Nat) : (setNumRamBanks s v).cpu_f_c = s.cpu_f_c := rfl

@[simp] theorem setNumRamBanks_cpu_bc (s : gb_s) (v : Nat) : (setNumRamBanks s v).cpu_bc = s.cpu_bc := rfl

@[simp] theorem setNumRamBanks_cpu_de (s : gb_s) (v : Nat) : (setNumRamBanks s v).cpu_de = s.cpu_de := rfl

@[simp] theorem setNumRamBanks_cpu_hl (s : gb_s) (v : Nat) : (setNumRamBanks s v).cpu_hl = s.cpu_hl := rfl

@[simp] theorem setNumRamBanks_cpu_sp (s : gb_s) (v : Nat) : (setNumRamBanks s v).cpu_sp = s.cpu_sp := rfl

@[simp] theorem setNumRamBanks_cpu_pc (s : gb_s) (v : Nat) : (setNumRamBanks s v).cpu_pc = s.cpu_pc := rfl

@[simp] theorem setNumRamBanks_counter_lcd (s : gb_s) (v : Nat) : (setNumRamBanks s v).counter_lcd = s.counter_lcd := rfl

@[simp] theorem setNumRamBanks_counter_div (s : gb_s) (v : Nat) : (setNumRamBanks s v).counter_div = s.counter_div := rfl

@[simp] theorem setNumRamBanks_counter_tima (s : gb_s) (v : Nat) : (setNumRamBanks s v).counter_tima = s.counter_tima := rfl

@[simp] theorem setNumRamBanks_counter_serial (s : gb_s) (v : Nat) : (setNumRamBanks s v).counter_serial = s.counter_serial := rfl

@[simp] theorem setNumRamBanks_counter_rtc (s : gb_s) (v : Nat) : (setNumRamBanks s v).counter_rtc = s.counter_rtc := rfl

@[simp] theorem setNumRamBanks_counter_lcd_off (s : gb_s) (v : Nat) : (setNumRamBanks s v).counter_lcd_off = s.counter_lcd_off := rfl

@[simp] theorem setNumRamBanks_wram (s : gb_s) (v : Nat) : (setNumRamBanks s v).wram = s.wram := rfl

@[simp] theorem setNumRamBanks_vram (s : gb_s) (v : Nat) : (setNumRamBanks s v).vram = s.vram := rfl

@[simp] theorem setNumRamBanks_oam (s : gb_s) (v : Nat) : (setNumRamBanks s v).oam = s.oam := rfl

@[simp] theorem setNumRamBanks_hram_io (s : gb_s) (v : Nat) : (setNumRamBanks s v).hram_io = s.hram_io := rfl

@[simp] theorem setNumRamBanks_display_lcd_draw_line (s : gb_s) (v : Nat) : (setNumRamBanks s v).display_lcd_draw_line = s.display_lcd_draw_line := rfl

@[simp] theorem setNumRamBanks_display_bg_palette (s : gb_s) (v : Nat) : (setNumRamBanks s v).display_bg_palette = s.display_bg_palette := rfl

@[simp] theorem setNumRamBanks_display_sp_palette (s : gb_s) (v : Nat) : (setNumRamBanks s v).display_sp_palette = s.display_sp_palette := rfl

@[simp] theorem setNumRamBanks_display_window_clear (s : gb_s) (v : Nat) : (setNumRamBanks s v).display_window_clear = s.display_window_clear := rfl

@[simp] theorem setNumRamBanks_display_WY (s : gb_s) (v : Nat) : (setNumRamBanks s v).display_WY = s.display_WY := rfl

@[simp] theorem setNumRamBanks_display_frame_skip_count (s : gb_s) (v : Nat) : (setNumRamBanks s v).display_frame_skip_count = s.display_frame_skip_count := rfl

@[simp] theorem setNumRamBanks_display_interlace_count (s : gb_s) (v : Nat) : (setNumRamBanks s v).display_interlace_count = s.display_interlace_count := rfl

@[simp] theorem setNumRamBanks_direct_interlace (s : gb_s) (v : Nat) : (setNumRamBanks s v).direct_interlace = s.direct_interlace := rfl

@[simp] theorem setNumRamBanks_direct_frame_skip (s : gb_s) (v : Nat) : (setNumRamBanks s v).direct_frame_skip = s.direct_frame_skip := rfl

@[simp] theorem setNumRamBanks_direct_joypad (s : gb_s) (v : Nat) : (setNumRamBanks s v).direct_joypad = s.direct_joypad := rfl

@[simp] theorem setSelectedRomBank_gb_rom_read (s : gb_s) (v : Nat) : (setSelectedRomBank s v).gb_rom_read = s.gb_rom_read := rfl

@[simp] theorem setSelectedRomBank_gb_bootrom_read (s : gb_s) (v : Nat) : (setSelectedRomBank s v).gb_bootrom_read = s.gb_bootrom_read := rfl

@[simp] theorem setSelectedRomBank_has_bootrom (s : gb_s) (v : Nat) : (setSelectedRomBank s v).has_bootrom = s.has_bootrom := rfl

@[simp] theorem setSelectedRomBank_cart_ram_data (s : gb_s) (v : Nat) : (setSelectedRomBank s v).cart_ram_data = s.cart_ram_data := rfl

@[simp] theorem setSelectedRomBank_gb_serial_rx (s : gb_s) (v : Nat) : (setSelectedRomBank s v).gb_serial_rx = s.gb_serial_rx := rfl

@[simp] theorem setSelectedRomBank_gb_halt (s : gb_s) (v : Nat) : (setSelectedRomBank s v).gb_halt = s.gb_halt := rfl

@[simp] theorem setSelectedRomBank_gb_ime (s : gb_s) (v : Nat) : (setSelectedRomBank s v).gb_ime = s.gb_ime := rfl

@[simp] theorem setSelectedRomBank_gb_frame (s : gb_s) (v : Nat) : (setSelectedRomBank s v).gb_frame = s.gb_frame := rfl

@[simp] theorem setSelectedRomBank_lcd_blank (s : gb_s) (v : Nat) : (setSelectedRomBank s v).lcd_blank = s.lcd_blank := rfl

@[simp] theorem setSelectedRomBank_cart_is_mbc3O (s : gb_s) (v : Nat) : (setSelectedRomBank s v).cart_is_mbc3O = s.cart_is_mbc3O := rfl

@[simp] theorem setSelectedRomBank_mbc (s : gb_s) (v : Nat) : (setSelectedRomBank s v).mbc = s.mbc := rfl

@[simp] theorem setSelectedRomBank_cart_ram (s : gb_s) (v : Nat) : (setSelectedRomBank s v).cart_ram = s.cart_ram := rfl

@[simp] theorem setSelectedRomBank_num_rom_banks_mask (s : gb_s) (v : Nat) : (setSelectedRomBank s v).num_rom_banks_mask = s.num_rom_banks_mask := rfl

@[simp] theorem setSelectedRomBank_num_ram_banks (s : gb_s) (v : Nat) : (setSelectedRomBank s v).num_ram_banks = s.num_ram_banks := rfl

@[simp] theorem setSelectedRomBank_selected_rom_bank (s : gb_s) (v : Nat) : (setSelectedRomBank s v).selected_rom_bank = v := rfl

@[simp] theorem setSelectedRomBank_cart_ram_bank (s : gb_s) (v : Nat) : (setSelectedRomBank s v).cart_ram_bank = s.cart_ram_bank := rfl

@[simp] theorem setSelectedRomBank_enable_cart_ram (s : gb_s) (v : Nat) : (setSelectedRomBank s v).enable_cart_ram = s.enable_cart_ram := rfl

@[simp] theorem setSelectedRomBank_cart_mode_select (s : gb_s) (v : Nat) : (setSelectedRomBank s v).cart_mode_select = s.cart_mode_select := rfl

@[simp] theorem setSelectedRomBank_rtc_latched (s : gb_s) (v : Nat) : (setSelectedRomBank s v).rtc_latched = s.rtc_latched := rfl

@[simp] theorem setSelectedRomBank_rtc_real (s : gb_s) (v : Nat) : (setSelectedRomBank s v).rtc_real = s.rtc_real := rfl

@[simp] theorem setSelectedRomBank_cpu_a (s : gb_s) (v : Nat) : (setSelectedRomBank s v).cpu_a = s.cpu_a := rfl

@[simp] theorem setSelectedRomBank_cpu_f_z (s : gb_s) (v : Nat) : (setSelectedRomBank s v).cpu_f_z = s.cpu_f_z := rfl

@[simp] theorem setSelectedRomBank_cpu_f_n (s : gb_s) (v : Nat) : (setSelectedRomBank s v).cpu_f_n = s.cpu_f_n := rfl

@[simp] theorem setSelectedRomBank_cpu_f_h (s : gb_s) (v : Nat) : (setSelectedRomBank s v).cpu_f_h = s.cpu_f_h := rfl

@[simp] theorem setSelectedRomBank_cpu_f_c (s : gb_s) (v : Nat) : (setSelectedRomBank s v).cpu_f_c = s.cpu_f_c := rfl

@[simp] theorem setSelectedRomBank_cpu_bc (s : gb_s) (v : Nat) : (setSelectedRomBank s v).cpu_bc = s.cpu_bc := rfl

@[simp] theorem setSelectedRomBank_cpu_de (s : gb_s) (v : Nat) : (setSelectedRomBank s v).cpu_de = s.cpu_de := rfl

@[simp] theorem setSelectedRomBank_cpu_hl (s : gb_s) (v : Nat) : (setSelectedRomBank s v).cpu_hl = s.cpu_hl := rfl

@[simp] theorem setSelectedRomBank_cpu_sp (s : gb_s) (v : Nat) : (setSelectedRomBank s v).cpu_sp = s.cpu_sp := rfl

@[simp] theorem setSelectedRomBank_cpu_pc (s : gb_s) (v : Nat) : (setSelectedRomBank s v).cpu_pc = s.cpu_pc := rfl

@[simp] theorem setSelectedRomBank_counter_lcd (s : gb_s) (v : Nat) : (setSelectedRomBank s v).counter_lcd = s.counter_lcd := rfl

@[simp] theorem setSelectedRomBank_counter_div (s : gb_s) (v : Nat) : (setSelectedRomBank s v).counter_div = s.counter_div := rfl

@[simp] theorem setSelectedRomBank_counter_tima (s : gb_s) (v : Nat) : (setSelectedRomBank s v).counter_tima = s.counter_tima := rfl

@[simp] theorem setSelectedRomBank_counter_serial (s : gb_s) (v : Nat) : (setSelectedRomBank s v).counter_serial = s.counter_serial := rfl

@[simp] theorem setSelectedRomBank_counter_rtc (s : gb_s) (v : Nat) : (setSelectedRomBank s v).counter_rtc = s.counter_rtc := rfl

@[simp] theorem setSelectedRomBank_counter_lcd_off (s : gb_s) (v : Nat) : (setSelectedRomBank s v).counter_lcd_off = s.counter_lcd_off := rfl

@[simp] theorem setSelectedRomBank_wram (s : gb_s) (v : Nat) : (setSelectedRomBank s v).wram = s.wram := rfl

@[simp] theorem setSelectedRomBank_vram (s : gb_s) (v : Nat) : (setSelectedRomBank s v).vram = s.vram := rfl

@[simp] theorem setSelectedRomBank_oam (s : gb_s) (v : Nat) : (setSelectedRomBank s v).oam = s.oam := rfl

@[simp] theorem setSelectedRomBank_hram_io (s : gb_s) (v : Nat) : (setSelectedRomBank s v).hram_io = s.hram_io := rfl

@[simp] theorem setSelectedRomBank_display_lcd_draw_line (s : gb_s) (v : Nat) : (setSelectedRomBank s v).display_lcd_draw_line = s.display_lcd_draw_line := rfl

@[simp] theorem setSelectedRomBank_display_bg_palette (s : gb_s) (v : Nat) : (setSelectedRomBank s v).display_bg_palette = s.display_bg_palette := rfl

@[simp] theorem setSelectedRomBank_display_sp_palette (s : gb_s) (v : Nat) : (setSelectedRomBank s v).display_sp_palette = s.display_sp_palette := rfl

@[simp] theorem setSelectedRomBank_display_window_clear (s : gb_s) (v : Nat) : (setSelectedRomBank s v).display_window_clear = s.display_window_clear := rfl

@[simp] theorem setSelectedRomBank_display_WY (s : gb_s) (v : Nat) : (setSelectedRomBank s v).display_WY = s.display_WY := rfl

@[simp] theorem setSelectedRomBank_display_frame_skip_count (s : gb_s) (v : Nat) : (setSelectedRomBank s v).display_frame_skip_count = s.display_frame_skip_count := rfl

@[simp] theorem setSelectedRomBank_display_interlace_count (s : gb_s) (v : Nat) : (setSelectedRomBank s v).display_interlace_count = s.display_interlace_count := rfl

@[simp] theorem setSelectedRomBank_direct_interlace (s : gb_s) (v : Nat) : (setSelectedRomBank s v).direct_interlace = s.direct_interlace := rfl

@[simp] theorem setSelectedRomBank_direct_frame_skip (s : gb_s) (v : Nat) : (setSelectedRomBank s v).direct_frame_skip = s.direct_frame_skip := rfl

@[simp] theorem setSelectedRomBank_direct_joypad (s : gb_s) (v : Nat) : (setSelectedRomBank s v).direct_joypad = s.direct_joypad := rfl

@[simp] theorem setCartRamBank_gb_rom_read (s : gb_s) (v : Nat) : (setCartRamBank s v).gb_rom_read = s.gb_rom_read := rfl

@[simp] theorem setCartRamBank_gb_bootrom_read (s : gb_s) (v : Nat) : (setCartRamBank s v).gb_bootrom_read = s.gb_bootrom_read := rfl

@[simp] theorem setCartRamBank_has_bootrom (s : gb_s) (v : Nat) : (setCartRamBank s v).has_bootrom = s.has_bootrom := rfl

@[simp] theorem setCartRamBank_cart_ram_data (s : gb_s) (v : Nat) : (setCartRamBank s v).cart_ram_data = s.cart_ram_data := rfl

@[simp] theorem setCartRamBank_gb_serial_rx (s : gb_s) (v : Nat) : (setCartRamBank s v).gb_serial_rx = s.gb_serial_rx := rfl

@[simp] theorem setCartRamBank_gb_halt (s : gb_s) (v : Nat) : (setCartRamBank s v).gb_halt = s.gb_halt := rfl

@[simp] theorem setCartRamBank_gb_ime (s : gb_s) (v : Nat) : (setCartRamBank s v).gb_ime = s.gb_ime := rfl

@[simp] theorem setCartRamBank_gb_frame (s : gb_s) (v : Nat) : (setCartRamBank s v).gb_frame = s.gb_frame := rfl

@[simp] theorem setCartRamBank_lcd_blank (s : gb_s) (v : Nat) : (setCartRamBank s v).lcd_blank = s.lcd_blank := rfl

@[simp] theorem setCartRamBank_cart_is_mbc3O (s : gb_s) (v : Nat) : (setCartRamBank s v).cart_is_mbc3O = s.cart_is_mbc3O := rfl

@[simp] theorem setCartRamBank_mbc (s : gb_s) (v : Nat) : (setCartRamBank s v).mbc = s.mbc := rfl

@[simp] theorem setCartRamBank_cart_ram (s : gb_s) (v : Nat) : (setCartRamBank s v).cart_ram = s.cart_ram := rfl

@[simp] theorem setCartRamBank_num_rom_banks_mask (s : gb_s) (v : Nat) : (setCartRamBank s v).num_rom_banks_mask = s.num_rom_banks_mask := rfl

@[simp] theorem setCartRamBank_num_ram_banks (s : gb_s) (v : Nat) : (setCartRamBank s v).num_ram_banks = s.num_ram_banks := rfl

@[simp] theorem setCartRamBank_selected_rom_bank (s : gb_s) (v : Nat) : (setCartRamBank s v).selected_rom_bank = s.selected_rom_bank := rfl

@[simp] theorem setCartRamBank_cart_ram_bank (s : gb_s) (v : Nat) : (setCartRamBank s v).cart_ram_bank = v := rfl

@[simp] theorem setCartRamBank_enable_cart_ram (s : gb_s) (v : Nat) : (setCartRamBank s v).enable_cart_ram = s.enable_cart_ram := rfl

@[simp] theorem setCartRamBank_cart_mode_select (s : gb_s) (v : Nat) : (setCartRamBank s v).cart_mode_select = s.cart_mode_select := rfl

@[simp] theorem setCartRamBank_rtc_latched (s : gb_s) (v : Nat) : (setCartRamBank s v).rtc_latched = s.rtc_latched := rfl

@[simp] theorem setCartRamBank_rtc_real (s : gb_s) (v : Nat) : (setCartRamBank s v).rtc_real = s.rtc_real := rfl

@[simp] theorem setCartRamBank_cpu_a (s : gb_s) (v : Nat) : (setCartRamBank s v).cpu_a = s.cpu_a := rfl

@[simp] theorem setCartRamBank_cpu_f_z (s : gb_s) (v : Nat) : (setCartRamBank s v).cpu_f_z = s.cpu_f_z := rfl

@[simp] theorem setCartRamBank_cpu_f_n (s : gb_s) (v : Nat) : (setCartRamBank s v).cpu_f_n = s.cpu_f_n := rfl

@[simp] theorem setCartRamBank_cpu_f_h (s : gb_s) (v : Nat) : (setCartRamBank s v).cpu_f_h = s.cpu_f_h := rfl

@[simp] theorem setCartRamBank_cpu_f_c (s : gb_s) (v : Nat) : (setCartRamBank s v).cpu_f_c = s.cpu_f_c := rfl

@[simp] theorem setCartRamBank_cpu_bc (s : gb_s) (v : Nat) : (setCartRamBank s v).cpu_bc = s.cpu_bc := rfl

@[simp] theorem setCartRamBank_cpu_de (s : gb_s) (v : Nat) : (setCartRamBank s v).cpu_de = s.cpu_de := rfl

@[simp] theorem setCartRamBank_cpu_hl (s : gb_s) (v : Nat) : (setCartRamBank s v).cpu_hl = s.cpu_hl := rfl

@[simp] theorem setCartRamBank_cpu_sp (s : gb_s) (v : Nat) : (setCartRamBank s v).cpu_sp = s.cpu_sp := rfl

@[simp] theorem setCartRamBank_cpu_pc (s : gb_s) (v : Nat) : (setCartRamBank s v).cpu_pc = s.cpu_pc := rfl

@[simp] theorem setCartRamBank_counter_lcd (s : gb_s) (v : Nat) : (setCartRamBank s v).counter_lcd = s.counter_lcd := rfl

@[simp] theorem setCartRamBank_counter_div (s : gb_s) (v : Nat) : (setCartRamBank s v).counter_div = s.counter_div := rfl

@[simp] theorem setCartRamBank_counter_tima (s : gb_s) (v : Nat) : (setCartRamBank s v).counter_tima = s.counter_tima := rfl

@[simp] theorem setCartRamBank_counter_serial (s : gb_s) (v : Nat) : (setCartRamBank s v).counter_serial = s.counter_serial := rfl

@[simp] theorem setCartRamBank_counter_rtc (s : gb_s) (v : Nat) : (setCartRamBank s v).counter_rtc = s.counter_rtc := rfl

@[simp] theorem setCartRamBank_counter_lcd_off (s : gb_s) (v : Nat) : (setCartRamBank s v).counter_lcd_off = s.counter_lcd_off := rfl

@[simp] theorem setCartRamBank_wram (s : gb_s) (v : Nat) : (setCartRamBank s v).wram = s.wram := rfl

@[simp] theorem setCartRamBank_vram (s : gb_s) (v : Nat) : (setCartRamBank s v).vram = s.vram := rfl

@[simp] theorem setCartRamBank_oam (s : gb_s) (v : Nat) : (setCartRamBank s v).oam = s.oam := rfl

@[simp] theorem setCartRamBank_hram_io (s : gb_s) (v : Nat) : (setCartRamBank s v).hram_io = s.hram_io := rfl

@[simp] theorem setCartRamBank_display_lcd_draw_line (s : gb_s) (v : Nat) : (setCartRamBank s v).display_lcd_draw_line = s.display_lcd_draw_line := rfl

@[simp] theorem setCartRamBank_display_bg_palette (s : gb_s) (v : Nat) : (setCartRamBank s v).display_bg_palette = s.display_bg_palette := rfl

@[simp] theorem setCartRamBank_display_sp_palette (s : gb_s) (v : Nat) : (setCartRamBank s v).display_sp_palette = s.display_sp_palette := rfl

@[simp] theorem setCartRamBank_display_window_clear (s : gb_s) (v : Nat) : (setCartRamBank s v).display_window_clear = s.display_window_clear := rfl

@[simp] theorem setCartRamBank_display_WY (s : gb_s) (v : Nat) : (setCartRamBank s v).display_WY = s.display_WY := rfl

@[simp] theorem setCartRamBank_display_frame_skip_count (s : gb_s) (v : Nat) : (setCartRamBank s v).display_frame_skip_count = s.display_frame_skip_count := rfl

@[simp] theorem setCartRamBank_display_interlace_count (s : gb_s) (v : Nat) : (setCartRamBank s v).display_interlace_count = s.display_interlace_count := rfl

@[simp] theorem setCartRamBank_direct_interlace (s : gb_s) (v : Nat) : (setCartRamBank s v).direct_interlace = s.direct_interlace := rfl

@[simp] theorem setCartRamBank_direct_frame_skip (s : gb_s) (v : Nat) : (setCartRamBank s v).direct_frame_skip = s.direct_frame_skip := rfl

@[simp] theorem setCartRamBank_direct_joypad (s : gb_s) (v : Nat) : (setCartRamBank s v).direct_joypad = s.direct_joypad := rfl

@[simp] theorem setEnableCartRam_gb_rom_read (s : gb_s) (v : Bool) : (setEnableCartRam s v).gb_rom_read = s.gb_rom_read := rfl

@[simp] theorem setEnableCartRam_gb_bootrom_read (s : gb_s) (v : Bool) : (setEnableCartRam s v).gb_bootrom_read = s.gb_bootrom_read := rfl

@[simp] theorem setEnableCartRam_has_bootrom (s : gb_s) (v : Bool) : (setEnableCartRam s v).has_bootrom = s.has_bootrom := rfl

@[simp] theorem setEnableCartRam_cart_ram_data (s : gb_s) (v : Bool) : (setEnableCartRam s v).cart_ram_data = s.cart_ram_data := rfl

@[simp] theorem setEnableCartRam_gb_serial_rx (s : gb_s) (v : Bool) : (setEnableCartRam s v).gb_serial_rx = s.gb_serial_rx := rfl

@[simp] theorem setEnableCartRam_gb_halt (s : gb_s) (v : Bool) : (setEnableCartRam s v).gb_halt = s.gb_halt := rfl

@[simp] theorem setEnableCartRam_gb_ime (s : gb_s) (v : Bool) : (setEnableCartRam s v).gb_ime = s.gb_ime := rfl

@[simp] theorem setEnableCartRam_gb_frame (s : gb_s) (v : Bool) : (setEnableCartRam s v).gb_frame = s.gb_frame := rfl

@[simp] theorem setEnableCartRam_lcd_blank (s : gb_s) (v : Bool) : (setEnableCartRam s v).lcd_blank = s.lcd_blank := rfl

@[simp] theorem setEnableCartRam_cart_is_mbc3O (s : gb_s) (v : Bool) : (setEnableCartRam s v).cart_is_mbc3O = s.cart_is_mbc3O := rfl

@[simp] theorem setEnableCartRam_mbc (s : gb_s) (v : Bool) : (setEnableCartRam s v).mbc = s.mbc := rfl

@[simp] theorem setEnableCartRam_cart_ram (s : gb_s) (v : Bool) : (setEnableCartRam s v).cart_ram = s.cart_ram := rfl

@[simp] theorem setEnableCartRam_num_rom_banks_mask (s : gb_s) (v : Bool) : (setEnableCartRam s v).num_rom_banks_mask = s.num_rom_banks_mask := rfl

@[simp] theorem setEnableCartRam_num_ram_banks (s : gb_s) (v : Bool) : (setEnableCartRam s v).num_ram_banks = s.num_ram_banks := rfl

@[simp] theorem setEnableCartRam_selected_rom_bank (s : gb_s) (v : Bool) : (setEnableCartRam s v).selected_rom_bank = s.selected_rom_bank := rfl

@[simp] theorem setEnableCartRam_cart_ram_bank (s : gb_s) (v : Bool) : (setEnableCartRam s v).cart_ram_bank = s.cart_ram_bank := rfl

@[simp] theorem setEnableCartRam_enable_cart_ram (s : gb_s) (v : Bool) : (setEnableCartRam s v).enable_cart_ram = v := rfl

@[simp] theorem setEnableCartRam_cart_mode_select (s : gb_s) (v : Bool) : (setEnableCartRam s v).cart_mode_select = s.cart_mode_select := rfl

@[simp] theorem setEnableCartRam_rtc_latched (s : gb_s) (v : Bool) : (setEnableCartRam s v).rtc_latched = s.rtc_latched := rfl

@[simp] theorem setEnableCartRam_rtc_real (s : gb_s) (v : Bool) : (setEnableCartRam s v).rtc_real = s.rtc_real := rfl

@[simp] theorem setEnableCartRam_cpu_a (s : gb_s) (v : Bool) : (setEnableCartRam s v).cpu_a = s.cpu_a := rfl

@[simp] theorem setEnableCartRam_cpu_f_z (s : gb_s) (v : Bool) : (setEnableCartRam s v).cpu_f_z = s.cpu_f_z := rfl

@[simp] theorem setEnableCartRam_cpu_f_n (s : gb_s) (v : Bool) : (setEnableCartRam s v).cpu_f_n = s.cpu_f_n := rfl

@[simp] theorem setEnableCartRam_cpu_f_h (s : gb_s) (v : Bool) : (setEnableCartRam s v).cpu_f_h = s.cpu_f_h := rfl

@[simp] theorem setEnableCartRam_cpu_f_c (s : gb_s) (v : Bool) : (setEnableCartRam s v).cpu_f_c = s.cpu_f_c := rfl

@[simp] theorem setEnableCartRam_cpu_bc (s : gb_s) (v : Bool) : (setEnableCartRam s v).cpu_bc = s.cpu_bc := rfl

@[simp] theorem setEnableCartRam_cpu_de (s : gb_s) (v : Bool) : (setEnableCartRam s v).cpu_de = s.cpu_de := rfl

@[simp] theorem setEnableCartRam_cpu_hl (s : gb_s) (v : Bool) : (setEnableCartRam s v).cpu_hl = s.cpu_hl := rfl

@[simp] theorem setEnableCartRam_cpu_sp (s : gb_s) (v : Bool) : (setEnableCartRam s v).cpu_sp = s.cpu_sp := rfl

@[simp] theorem setEnableCartRam_cpu_pc (s : gb_s) (v : Bool) : (setEnableCartRam s v).cpu_pc = s.cpu_pc := rfl

@[simp] theorem setEnableCartRam_counter_lcd (s : gb_s) (v : Bool) : (setEnableCartRam s v).counter_lcd = s.counter_lcd := rfl

@[simp] theorem setEnableCartRam_counter_div (s : gb_s) (v : Bool) : (setEnableCartRam s v).counter_div = s.counter_div := rfl

@[simp] theorem setEnableCartRam_counter_tima (s : gb_s) (v : Bool) : (setEnableCartRam s v).counter_tima = s.counter_tima := rfl

@[simp] theorem setEnableCartRam_counter_serial (s : gb_s) (v : Bool) : (setEnableCartRam s v).counter_serial = s.counter_serial := rfl

@[simp] theorem setEnableCartRam_counter_rtc (s : gb_s) (v : Bool) : (setEnableCartRam s v).counter_rtc = s.counter_rtc := rfl

@[simp] theorem setEnableCartRam_counter_lcd_off (s : gb_s) (v : Bool) : (setEnableCartRam s v).counter_lcd_off = s.counter_lcd_off := rfl

@[simp] theorem setEnableCartRam_wram (s : gb_s) (v : Bool) : (setEnableCartRam s v).wram = s.wram := rfl

@[simp] theorem setEnableCartRam_vram (s : gb_s) (v : Bool) : (setEnableCartRam s v).vram = s.vram := rfl

@[simp] theorem setEnableCartRam_oam (s : gb_s) (v : Bool) : (setEnableCartRam s v).oam = s.oam := rfl

@[simp] theorem setEnableCartRam_hram_io (s : gb_s) (v : Bool) : (setEnableCartRam s v).hram_io = s.hram_io := rfl

@[simp] theorem setEnableCartRam_display_lcd_draw_line (s : gb_s) (v : Bool) : (setEnableCartRam s v).display_lcd_draw_line = s.display_lcd_draw_line := rfl

@[simp] theorem setEnableCartRam_display_bg_palette (s : gb_s) (v : Bool) : (setEnableCartRam s v).display_bg_palette = s.display_bg_palette := rfl

@[simp] theorem setEnableCartRam_display_sp_palette (s : gb_s) (v : Bool) : (setEnableCartRam s v).display_sp_palette = s.display_sp_palette := rfl

@[simp] theorem setEnableCartRam_display_window_clear (s : gb_s) (v : Bool) : (setEnableCartRam s v).display_window_clear = s.display_window_clear := rfl

@[simp] theorem setEnableCartRam_display_WY (s : gb_s) (v : Bool) : (setEnableCartRam s v).display_WY = s.display_WY := rfl

@[simp] theorem setEnableCartRam_display_frame_skip_count (s : gb_s) (v : Bool) : (setEnableCartRam s v).display_frame_skip_count = s.display_frame_skip_count := rfl

@[simp] theorem setEnableCartRam_display_interlace_count (s : gb_s) (v : Bool) : (setEnableCartRam s v).display_interlace_count = s.display_interlace_count := rfl

@[simp] theorem setEnableCartRam_direct_interlace (s : gb_s) (v : Bool) : (setEnableCartRam s v).direct_interlace = s.direct_interlace := rfl

@[simp] theorem setEnableCartRam_direct_frame_skip (s : gb_s) (v : Bool) : (setEnableCartRam s v).direct_frame_skip = s.direct_frame_skip := rfl

@[simp] theorem setEnableCartRam_direct_joypad (s : gb_s) (v : Bool) : (setEnableCartRam s v).direct_joypad = s.direct_joypad := rfl

@[simp] theorem setCartModeSelect_gb_rom_read (s : gb_s) (v : Nat) : (setCartModeSelect s v).gb_rom_read = s.gb_rom_read := rfl

@[simp] theorem setCartModeSelect_gb_bootrom_read (s : gb_s) (v : Nat) : (setCartModeSelect s v).gb_bootrom_read = s.gb_bootrom_read := rfl

@[simp] theorem setCartModeSelect_has_bootrom (s : gb_s) (v : Nat) : (setCartModeSelect s v).has_bootrom = s.has_bootrom := rfl

@[simp] theorem setCartModeSelect_cart_ram_data (s : gb_s) (v : Nat) : (setCartModeSelect s v).cart_ram_data = s.cart_ram_data := rfl

@[simp] theorem setCartModeSelect_gb_serial_rx (s : gb_s) (v : Nat) : (setCartModeSelect s v).gb_serial_rx = s.gb_serial_rx := rfl

@[simp] theorem setCartModeSelect_gb_halt (s : gb_s) (v : Nat) : (setCartModeSelect s v).gb_halt = s.gb_halt := rfl

@[simp] theorem setCartModeSelect_gb_ime (s : gb_s) (v : Nat) : (setCartModeSelect s v).gb_ime = s.gb_ime := rfl

@[simp] theorem setCartModeSelect_gb_frame (s : gb_s) (v : Nat) : (setCartModeSelect s v).gb_frame = s.gb_frame := rfl

@[simp] theorem setCartModeSelect_lcd_blank (s : gb_s) (v : Nat) : (setCartModeSelect s v).lcd_blank = s.lcd_blank := rfl

@[simp] theorem setCartModeSelect_cart_is_mbc3O (s : gb_s) (v : Nat) : (setCartModeSelect s v).cart_is_mbc3O = s.cart_is_mbc3O := rfl

@[simp] theorem setCartModeSelect_mbc (s : gb_s) (v : Nat) : (setCartModeSelect s v).mbc = s.mbc := rfl

@[simp] theorem setCartModeSelect_cart_ram (s : gb_s) (v : Nat) : (setCartModeSelect s v).cart_ram = s.cart_ram := rfl

@[simp] theorem setCartModeSelect_num_rom_banks_mask (s : gb_s) (v : Nat) : (setCartModeSelect s v).num_rom_banks_mask = s.num_rom_banks_mask := rfl

@[simp] theorem setCartModeSelect_num_ram_banks (s : gb_s) (v : Nat) : (setCartModeSelect s v).num_ram_banks = s.num_ram_banks := rfl

@[simp] theorem setCartModeSelect_selected_rom_bank (s : gb_s) (v : Nat) : (setCartModeSelect s v).selected_rom_bank = s.selected_rom_bank := rfl

@[simp] theorem setCartModeSelect_cart_ram_bank (s : gb_s) (v : Nat) : (setCartModeSelect s v).cart_ram_bank = s.cart_ram_bank := rfl

@[simp] theorem setCartModeSelect_enable_cart_ram (s : gb_s) (v : Nat) : (setCartModeSelect s v).enable_cart_ram = s.enable_cart_ram := rfl

@[simp] theorem setCartModeSelect_cart_mode_select (s : gb_s) (v : Nat) : (setCartModeSelect s v).cart_mode_select = v := rfl

@[simp] theorem setCartModeSelect_rtc_latched (s : gb_s) (v : Nat) : (setCartModeSelect s v).rtc_latched = s.rtc_latched := rfl

@[simp] theorem setCartModeSelect_rtc_real (s : gb_s) (v : Nat) : (setCartModeSelect s v).rtc_real = s.rtc_real := rfl

@[simp] theorem setCartModeSelect_cpu_a (s : gb_s) (v : Nat) : (setCartModeSelect s v).cpu_a = s.cpu_a := rfl

@[simp] theorem setCartModeSelect_cpu_f_z (s : gb_s) (v : Nat) : (setCartModeSelect s v).cpu_f_z = s.cpu_f_z := rfl

@[simp] theorem setCartModeSelect_cpu_f_n (s : gb_s) (v : Nat) : (setCartModeSelect s v).cpu_f_n = s.cpu_f_n := rfl

@[simp] theorem setCartModeSelect_cpu_f_h (s : gb_s) (v : Nat) : (setCartModeSelect s v).cpu_f_h = s.cpu_f_h := rfl

@[simp] theorem setCartModeSelect_cpu_f_c (s : gb_s) (v : Nat) : (setCartModeSelect s v).cpu_f_c = s.cpu_f_c := rfl

@[simp] theorem setCartModeSelect_cpu_bc (s : gb_s) (v : Nat) : (setCartModeSelect s v).cpu_bc = s.cpu_bc := rfl

@[simp] theorem setCartModeSelect_cpu_de (s : gb_s) (v : Nat) : (setCartModeSelect s v).cpu_de = s.cpu_de := rfl

@[simp] theorem setCartModeSelect_cpu_hl (s : gb_s) (v : Nat) : (setCartModeSelect s v).cpu_hl = s.cpu_hl := rfl

@[simp] theorem setCartModeSelect_cpu_sp (s : gb_s) (v : Nat) : (setCartModeSelect s v).cpu_sp = s.cpu_sp := rfl

@[simp] theorem setCartModeSelect_cpu_pc (s : gb_s) (v : Nat) : (setCartModeSelect s v).cpu_pc = s.cpu_pc := rfl

@[simp] theorem setCartModeSelect_counter_lcd (s : gb_s) (v : Nat) : (setCartModeSelect s v).counter_lcd = s.counter_lcd := rfl

@[simp] theorem setCartModeSelect_counter_div (s : gb_s) (v : Nat) : (setCartModeSelect s v).counter_div = s.counter_div := rfl

@[simp] theorem setCartModeSelect_counter_tima (s : gb_s) (v : Nat) : (setCartModeSelect s v).counter_tima = s.counter_tima := rfl

@[simp] theorem setCartModeSelect_counter_serial (s : gb_s) (v : Nat) : (setCartModeSelect s v).counter_serial = s.counter_serial := rfl

@[simp] theorem setCartModeSelect_counter_rtc (s : gb_s) (v : Nat) : (setCartModeSelect s v).counter_rtc = s.counter_rtc := rfl

@[simp] theorem setCartModeSelect_counter_lcd_off (s : gb_s) (v : Nat) : (setCartModeSelect s v).counter_lcd_off = s.counter_lcd_off := rfl

@[simp] theorem setCartModeSelect_wram (s : gb_s) (v : Nat) : (setCartModeSelect s v).wram = s.wram := rfl

@[simp] theorem setCartModeSelect_vram (s : gb_s) (v : Nat) : (setCartModeSelect s v).vram = s.vram := rfl

@[simp] theorem setCartModeSelect_oam (s : gb_s) (v : Nat) : (setCartModeSelect s v).oam = s.oam := rfl

@[simp] theorem setCartModeSelect_hram_io (s : gb_s) (v : Nat) : (setCartModeSelect s v).hram_io = s.hram_io := rfl

@[simp] theorem setCartModeSelect_display_lcd_draw_line (s : gb_s) (v : Nat) : (setCartModeSelect s v).display_lcd_draw_line = s.display_lcd_draw_line := rfl

@[simp] theorem setCartModeSelect_display_bg_palette (s : gb_s) (v : Nat) : (setCartModeSelect s v).display_bg_palette = s.display_bg_palette := rfl

@[simp] theorem setCartModeSelect_display_sp_palette (s : gb_s) (v : Nat) : (setCartModeSelect s v).display_sp_palette = s.display_sp_palette := rfl

@[simp] theorem setCartModeSelect_display_window_clear (s : gb_s) (v : Nat) : (setCartModeSelect s v).display_window_clear = s.display_window_clear := rfl

@[simp] theorem setCartModeSelect_display_WY (s : gb_s) (v : Nat) : (setCartModeSelect s v).display_WY = s.display_WY := rfl

@[simp] theorem setCartModeSelect_display_frame_skip_count (s : gb_s) (v : Nat) : (setCartModeSelect s v).display_frame_skip_count = s.display_frame_skip_count := rfl

@[simp] theorem setCartModeSelect_display_interlace_count (s : gb_s) (v : Nat) : (setCartModeSelect s v).display_interlace_count = s.display_interlace_count := rfl

@[simp] theorem setCartModeSelect_direct_interlace (s : gb_s) (v : Nat) : (setCartModeSelect s v).direct_interlace = s.direct_interlace := rfl

@[simp] theorem setCartModeSelect_direct_frame_skip (s : gb_s) (v : Nat) : (setCartModeSelect s v).direct_frame_skip = s.direct_frame_skip := rfl

@[simp] theorem setCartModeSelect_direct_joypad (s : gb_s) (v : Nat) : (setCartModeSelect s v).direct_joypad = s.direct_joypad := rfl

@[simp] theorem setRtcLatched_gb_rom_read (s : gb_s) (v : cart_rtc) : (setRtcLatched s v).gb_rom_read = s.gb_rom_read := rfl

@[simp] theorem setRtcLatched_gb_bootrom_read (s : gb_s) (v : cart_rtc) : (setRtcLatched s v).gb_bootrom_read = s.gb_bootrom_read := rfl

@[simp] theorem setRtcLatched_has_bootrom (s : gb_s) (v : cart_rtc) : (setRtcLatched s v).has_bootrom = s.has_bootrom := rfl

@[simp] theorem setRtcLatched_cart_ram_data (s : gb_s) (v : cart_rtc) : (setRtcLatched s v).cart_ram_data = s.cart_ram_data := rfl

@[simp] theorem setRtcLatched_gb_serial_rx (s : gb_s) (v : cart_rtc) : (setRtcLatched s v).gb_serial_rx = s.gb_serial_rx := rfl

@[simp] theorem setRtcLatched_gb_halt (s : gb_s) (v : cart_rtc) : (setRtcLatched s v).gb_halt = s.gb_halt := rfl

@[simp] theorem setRtcLatched_gb_ime (s : gb_s) (v : cart_rtc) : (setRtcLatched s v).gb_ime = s.gb_ime := rfl

@[simp] theorem setRtcLatched_gb_frame (s : gb_s) (v : cart_rtc) : (setRtcLatched s v).gb_frame = s.gb_frame := rfl

@[simp] theorem setRtcLatched_lcd_blank (s : gb_s) (v : cart_rtc) : (setRtcLatched s v).lcd_blank = s.lcd_blank := rfl

@[simp] theorem setRtcLatched_cart_is_mbc3O (s : gb_s) (v : cart_rtc) : (setRtcLatched s v).cart_is_mbc3O = s.cart_is_mbc3O := rfl

@[simp] theorem setRtcLatched_mbc (s : gb_s) (v : cart_rtc) : (setRtcLatched s v).mbc = s.mbc := rfl

@[simp] theorem setRtcLatched_cart_ram (s : gb_s) (v : cart_rtc) : (setRtcLatched s v).cart_ram = s.cart_ram := rfl

@[simp] theorem setRtcLatched_num_rom_banks_mask (s : gb_s) (v : cart_rtc) : (setRtcLatched s v).num_rom_banks_mask = s.num_rom_banks_mask := rfl

@[simp] theorem setRtcLatched_num_ram_banks (s : gb_s) (v : cart_rtc) : (setRtcLatched s v).num_ram_banks = s.num_ram_banks := rfl

@[simp] theorem setRtcLatched_selected_rom_bank (s : gb_s) (v : cart_rtc) : (setRtcLatched s v).selected_rom_bank = s.selected_rom_bank := rfl

@[simp] theorem setRtcLatched_cart_ram_bank (s : gb_s) (v : cart_rtc) : (setRtcLatched s v).cart_ram_bank = s.cart_ram_bank := rfl

@[simp] theorem setRtcLatched_enable_cart_ram (s : gb_s) (v : cart_rtc) : (setRtcLatched s v).enable_cart_ram = s.enable_cart_ram := rfl

@[simp] theorem setRtcLatched_cart_mode_select (s : gb_s) (v : cart_rtc) : (setRtcLatched s v).cart_mode_select = s.cart_mode_select := rfl

@[simp] theorem setRtcLatched_rtc_latched (s : gb_s) (v : cart_rtc) : (setRtcLatched s v).rtc_latched = v := rfl

@[simp] theorem setRtcLatched_rtc_real (s : gb_s) (v : cart_rtc) : (setRtcLatched s v).rtc_real = s.rtc_real := rfl

@[simp] theorem setRtcLatched_cpu_a (s : gb_s) (v : cart_rtc) : (setRtcLatched s v).cpu_a = s.cpu_a := rfl

@[simp] theorem setRtcLatched_cpu_f_z (s : gb_s) (v : cart_rtc) : (setRtcLatched s v).cpu_f_z = s.cpu_f_z := rfl

@[simp] theorem setRtcLatched_cpu_f_n (s : gb_s) (v : cart_rtc) : (setRtcLatched s v).cpu_f_n = s.cpu_f_n := rfl

@[simp] theorem setRtcLatched_cpu_f_h (s : gb_s) (v : cart_rtc) : (setRtcLatched s v).cpu_f_h = s.cpu_f_h := rfl

@[simp] theorem setRtcLatched_cpu_f_c (s : gb_s) (v : cart_rtc) : (setRtcLatched s v).cpu_f_c = s.cpu_f_c := rfl

@[simp] theorem setRtcLatched_cpu_bc (s : gb_s) (v : cart_rtc) : (setRtcLatched s v).cpu_bc = s.cpu_bc := rfl

@[simp] theorem setRtcLatched_cpu_de (s : gb_s) (v : cart_rtc) : (setRtcLatched s v).cpu_de = s.cpu_de := rfl

@[simp] theorem setRtcLatched_cpu_hl (s : gb_s) (v : cart_rtc) : (setRtcLatched s v).cpu_hl = s.cpu_hl := rfl

@[simp] theorem setRtcLatched_cpu_sp (s : gb_s) (v : cart_rtc) : (setRtcLatched s v).cpu_sp = s.cpu_sp := rfl

@[simp] theorem setRtcLatched_cpu_pc (s : gb_s) (v : cart_rtc) : (setRtcLatched s v).cpu_pc = s.cpu_pc := rfl

@[simp] theorem setRtcLatched_counter_lcd (s : gb_s) (v : cart_rtc) : (setRtcLatched s v).counter_lcd = s.counter_lcd := rfl

@[simp] theorem setRtcLatched_counter_div (s : gb_s) (v : cart_rtc) : (setRtcLatched s v).counter_div = s.counter_div := rfl

@[simp] theorem setRtcLatched_counter_tima (s : gb_s) (v : cart_rtc) : (setRtcLatched s v).counter_tima = s.counter_tima := rfl

@[simp] theorem setRtcLatched_counter_serial (s : gb_s) (v : cart_rtc) : (setRtcLatched s v).counter_serial = s.counter_serial := rfl

@[simp] theorem setRtcLatched_counter_rtc (s : gb_s) (v : cart_rtc) : (setRtcLatched s v).counter_rtc = s.counter_rtc := rfl

@[simp] theorem setRtcLatched_counter_lcd_off (s : gb_s) (v : cart_rtc) : (setRtcLatched s v).counter_lcd_off = s.counter_lcd_off := rfl

@[simp] theorem setRtcLatched_wram (s : gb_s) (v : cart_rtc) : (setRtcLatched s v).wram = s.wram := rfl

@[simp] theorem setRtcLatched_vram (s : gb_s) (v : cart_rtc) : (setRtcLatched s v).vram = s.vram := rfl

@[simp] theorem setRtcLatched_oam (s : gb_s) (v : cart_rtc) : (setRtcLatched s v).oam = s.oam := rfl

@[simp] theorem setRtcLatched_hram_io (s : gb_s) (v : cart_rtc) : (setRtcLatched s v).hram_io = s.hram_io := rfl

@[simp] theorem setRtcLatched_display_lcd_draw_line (s : gb_s) (v : cart_rtc) : (setRtcLatched s v).display_lcd_draw_line = s.display_lcd_draw_line := rfl

@[simp] theorem setRtcLatched_display_bg_palette (s : gb_s) (v : cart_rtc) : (setRtcLatched s v).display_bg_palette = s.display_bg_palette := rfl

@[simp] theorem setRtcLatched_display_sp_palette (s : gb_s) (v : cart_rtc) : (setRtcLatched s v).display_sp_palette = s.display_sp_palette := rfl

@[simp] theorem setRtcLatched_display_window_clear (s : gb_s) (v : cart_rtc) : (setRtcLatched s v).display_window_clear = s.display_window_clear := rfl

@[simp] theorem setRtcLatched_display_WY (s : gb_s) (v : cart_rtc) : (setRtcLatched s v).display_WY = s.display_WY := rfl

@[simp] theorem setRtcLatched_display_frame_skip_count (s : gb_s) (v : cart_rtc) : (setRtcLatched s v).display_frame_skip_count = s.display_frame_skip_count := rfl

@[simp] theorem setRtcLatched_display_interlace_count (s : gb_s) (v : cart_rtc) : (setRtcLatched s v).display_interlace_count = s.display_interlace_count := rfl

@[simp] theorem setRtcLatched_direct_interlace (s : gb_s) (v : cart_rtc) : (setRtcLatched s v).direct_interlace = s.direct_interlace := rfl

@[simp] theorem setRtcLatched_direct_frame_skip (s : gb_s) (v : cart_rtc) : (setRtcLatched s v).direct_frame_skip = s.direct_frame_skip := rfl

@[simp] theorem setRtcLatched_direct_joypad (s : gb_s) (v : cart_rtc) : (setRtcLatched s v).direct_joypad = s.direct_joypad := rfl

@[simp] theorem setRtcReal_gb_rom_read (s : gb_s) (v : cart_rtc) : (setRtcReal s v).gb_rom_read = s.gb_rom_read := rfl

@[simp] theorem setRtcReal_gb_bootrom_read (s : gb_s) (v : cart_rtc) : (setRtcReal s v).gb_bootrom_read = s.gb_bootrom_read := rfl

@[simp] theorem setRtcReal_has_bootrom (s : gb_s) (v : cart_rtc) : (setRtcReal s v).has_bootrom = s.has_bootrom := rfl

@[simp] theorem setRtcReal_cart_ram_data (s : gb_s) (v : cart_rtc) : (setRtcReal s v).cart_ram_data = s.cart_ram_data := rfl

@[simp] theorem setRtcReal_gb_serial_rx (s : gb_s) (v : cart_rtc) : (setRtcReal s v).gb_serial_rx = s.gb_serial_rx := rfl

@[simp] theorem setRtcReal_gb_halt (s : gb_s) (v : cart_rtc) : (setRtcReal s v).gb_halt = s.gb_halt := rfl

@[simp] theorem setRtcReal_gb_ime (s : gb_s) (v : cart_rtc) : (setRtcReal s v).gb_ime = s.gb_ime := rfl

@[simp] theorem setRtcReal_gb_frame (s : gb_s) (v : cart_rtc) : (setRtcReal s v).gb_frame = s.gb_frame := rfl

@[simp] theorem setRtcReal_lcd_blank (s : gb_s) (v : cart_rtc) : (setRtcReal s v).lcd_blank = s.lcd_blank := rfl

@[simp] theorem setRtcReal_cart_is_mbc3O (s : gb_s) (v : cart_rtc) : (setRtcReal s v).cart_is_mbc3O = s.cart_is_mbc3O := rfl

@[simp] theorem setRtcReal_mbc (s : gb_s) (v : cart_rtc) : (setRtcReal s v).mbc = s.mbc := rfl

@[simp] theorem setRtcReal_cart_ram (s : gb_s) (v : cart_rtc) : (setRtcReal s v).cart_ram = s.cart_ram := rfl

@[simp] theorem setRtcReal_num_rom_banks_mask (s : gb_s) (v : cart_rtc) : (setRtcReal s v).num_rom_banks_mask = s.num_rom_banks_mask := rfl

@[simp] theorem setRtcReal_num_ram_banks (s : gb_s) (v : cart_rtc) : (setRtcReal s v).num_ram_banks = s.num_ram_banks := rfl

@[simp] theorem setRtcReal_selected_rom_bank (s : gb_s) (v : cart_rtc) : (setRtcReal s v).selected_rom_bank = s.selected_rom_bank := rfl

@[simp] theorem setRtcReal_cart_ram_bank (s : gb_s) (v : cart_rtc) : (setRtcReal s v).cart_ram_bank = s.cart_ram_bank := rfl

@[simp] theorem setRtcReal_enable_cart_ram (s : gb_s) (v : cart_rtc) : (setRtcReal s v).enable_cart_ram = s.enable_cart_ram := rfl

@[simp] theorem setRtcReal_cart_mode_select (s : gb_s) (v : cart_rtc) : (setRtcReal s v).cart_mode_select = s.cart_mode_select := rfl

@[simp] theorem setRtcReal_rtc_latched (s : gb_s) (v : cart_rtc) : (setRtcReal s v).rtc_latched = s.rtc_latched := rfl

@[simp] theorem setRtcReal_rtc_real (s : gb_s) (v : cart_rtc) : (setRtcReal s v).rtc_real = v := rfl

@[simp] theorem setRtcReal_cpu_a (s : gb_s) (v : cart_rtc) : (setRtcReal s v).cpu_a = s.cpu_a := rfl

@[simp] theorem setRtcReal_cpu_f_z (s : gb_s) (v : cart_rtc) : (setRtcReal s v).cpu_f_z = s.cpu_f_z := rfl

@[simp] theorem setRtcReal_cpu_f_n (s : gb_s) (v : cart_rtc) : (setRtcReal s v).cpu_f_n = s.cpu_f_n := rfl

@[simp] theorem setRtcReal_cpu_f_h (s : gb_s) (v : cart_rtc) : (setRtcReal s v).cpu_f_h = s.cpu_f_h := rfl

@[simp] theorem setRtcReal_cpu_f_c (s : gb_s) (v : cart_rtc) : (setRtcReal s v).cpu_f_c = s.cpu_f_c := rfl

@[simp] theorem setRtcReal_cpu_bc (s : gb_s) (v : cart_rtc) : (setRtcReal s v).cpu_bc = s.cpu_bc := rfl

@[simp] theorem setRtcReal_cpu_de (s : gb_s) (v : cart_rtc) : (setRtcReal s v).cpu_de = s.cpu_de := rfl

@[simp] theorem setRtcReal_cpu_hl (s : gb_s) (v : cart_rtc) : (setRtcReal s v).cpu_hl = s.cpu_hl := rfl

@[simp] theorem setRtcReal_cpu_sp (s : gb_s) (v : cart_rtc) : (setRtcReal s v).cpu_sp = s.cpu_sp := rfl

@[simp] theorem setRtcReal_cpu_pc (s : gb_s) (v : cart_rtc) : (setRtcReal s v).cpu_pc = s.cpu_pc := rfl

@[simp] theorem setRtcReal_counter_lcd (s : gb_s) (v : cart_rtc) : (setRtcReal s v).counter_lcd = s.counter_lcd := rfl

@[simp] theorem setRtcReal_counter_div (s : gb_s) (v : cart_rtc) : (setRtcReal s v).counter_div = s.counter_div := rfl

@[simp] theorem setRtcReal_counter_tima (s : gb_s) (v : cart_rtc) : (setRtcReal s v).counter_tima = s.counter_tima := rfl

@[simp] theorem setRtcReal_counter_serial (s : gb_s) (v : cart_rtc) : (setRtcReal s v).counter_serial = s.counter_serial := rfl

@[simp] theorem setRtcReal_counter_rtc (s : gb_s) (v : cart_rtc) : (setRtcReal s v).counter_rtc = s.counter_rtc := rfl

@[simp] theorem setRtcReal_counter_lcd_off (s : gb_s) (v : cart_rtc) : (setRtcReal s v).counter_lcd_off = s.counter_lcd_off := rfl

@[simp] theorem setRtcReal_wram (s : gb_s) (v : cart_rtc) : (setRtcReal s v).wram = s.wram := rfl

@[simp] theorem setRtcReal_vram (s : gb_s) (v : cart_rtc) : (setRtcReal s v).vram = s.vram := rfl

@[simp] theorem setRtcReal_oam (s : gb_s) (v : cart_rtc) : (setRtcReal s v).oam = s.oam := rfl

@[simp] theorem setRtcReal_hram_io (s : gb_s) (v : cart_rtc) : (setRtcReal s v).hram_io = s.hram_io := rfl

@[simp] theorem setRtcReal_display_lcd_draw_line (s : gb_s) (v : cart_rtc) : (setRtcReal s v).display_lcd_draw_line = s.display_lcd_draw_line := rfl

@[simp] theorem setRtcReal_display_bg_palette (s : gb_s) (v : cart_rtc) : (setRtcReal s v).display_bg_palette = s.display_bg_palette := rfl

@[simp] theorem setRtcReal_display_sp_palette (s : gb_s) (v : cart_rtc) : (setRtcReal s v).display_sp_palette = s.display_sp_palette := rfl

@[simp] theorem setRtcReal_display_window_clear (s : gb_s) (v : cart_rtc) : (setRtcReal s v).display_window_clear = s.display_window_clear := rfl

@[simp] theorem setRtcReal_display_WY (s : gb_s) (v : cart_rtc) : (setRtcReal s v).display_WY = s.display_WY := rfl

@[simp] theorem setRtcReal_display_frame_skip_count (s : gb_s) (v : cart_rtc) : (setRtcReal s v).display_frame_skip_count = s.display_frame_skip_count := rfl

@[simp] theorem setRtcReal_display_interlace_count (s : gb_s) (v : cart_rtc) : (setRtcReal s v).display_interlace_count = s.display_interlace_count := rfl

@[simp] theorem setRtcReal_direct_interlace (s : gb_s) (v : cart_rtc) : (setRtcReal s v).direct_interlace = s.direct_interlace := rfl

@[simp] theorem setRtcReal_direct_frame_skip (s : gb_s) (v : cart_rtc) : (setRtcReal s v).direct_frame_skip = s.direct_frame_skip := rfl

@[simp] theorem setRtcReal_direct_joypad (s : gb_s) (v : cart_rtc) : (setRtcReal s v).direct_joypad = s.direct_joypad := rfl

@[simp] theorem setCpuA_gb_rom_read (s : gb_s) (v : Nat) : (setCpuA s v).gb_rom_read = s.gb_rom_read := rfl

@[simp] theorem setCpuA_gb_bootrom_read (s : gb_s) (v : Nat) : (setCpuA s v).gb_bootrom_read = s.gb_bootrom_read := rfl

@[simp] theorem setCpuA_has_bootrom (s : gb_s) (v : Nat) : (setCpuA s v).has_bootrom = s.has_bootrom := rfl

@[simp] theorem setCpuA_cart_ram_data (s : gb_s) (v : Nat) : (setCpuA s v).cart_ram_data = s.cart_ram_data := rfl

@[simp] theorem setCpuA_gb_serial_rx (s : gb_s) (v : Nat) : (setCpuA s v).gb_serial_rx = s.gb_serial_rx := rfl

@[simp] theorem setCpuA_gb_halt (s : gb_s) (v : Nat) : (setCpuA s v).gb_halt = s.gb_halt := rfl

@[simp] theorem setCpuA_gb_ime (s : gb_s) (v : Nat) : (setCpuA s v).gb_ime = s.gb_ime := rfl

@[simp] theorem setCpuA_gb_frame (s : gb_s) (v : Nat) : (setCpuA s v).gb_frame = s.gb_frame := rfl

@[simp] theorem setCpuA_lcd_blank (s : gb_s) (v : Nat) : (setCpuA s v).lcd_blank = s.lcd_blank := rfl

@[simp] theorem setCpuA_cart_is_mbc3O (s : gb_s) (v : Nat) : (setCpuA s v).cart_is_mbc3O = s.cart_is_mbc3O := rfl

@[simp] theorem setCpuA_mbc (s : gb_s) (v : Nat) : (setCpuA s v).mbc = s.mbc := rfl

@[simp] theorem setCpuA_cart_ram (s : gb_s) (v : Nat) : (setCpuA s v).cart_ram = s.cart_ram := rfl

@[simp] theorem setCpuA_num_rom_banks_mask (s : gb_s) (v : Nat) : (setCpuA s v).num_rom_banks_mask = s.num_rom_banks_mask := rfl

@[simp] theorem setCpuA_num_ram_banks (s : gb_s) (v : Nat) : (setCpuA s v).num_ram_banks = s.num_ram_banks := rfl

@[simp] theorem setCpuA_selected_rom_bank (s : gb_s) (v : Nat) : (setCpuA s v).selected_rom_bank = s.selected_rom_bank := rfl

@[simp] theorem setCpuA_cart_ram_bank (s : gb_s) (v : Nat) : (setCpuA s v).cart_ram_bank = s.cart_ram_bank := rfl

@[simp] theorem setCpuA_enable_cart_ram (s : gb_s) (v : Nat) : (setCpuA s v).enable_cart_ram = s.enable_cart_ram := rfl

@[simp] theorem setCpuA_cart_mode_select (s : gb_s) (v : Nat) : (setCpuA s v).cart_mode_select = s.cart_mode_select := rfl

@[simp] theorem setCpuA_rtc_latched (s : gb_s) (v : Nat) : (setCpuA s v).rtc_latched = s.rtc_latched := rfl

@[simp] theorem setCpuA_rtc_real (s : gb_s) (v : Nat) : (setCpuA s v).rtc_real = s.rtc_real := rfl

@[simp] theorem setCpuA_cpu_a (s : gb_s) (v : Nat) : (setCpuA s v).cpu_a = v := rfl

@[simp] theorem setCpuA_cpu_f_z (s : gb_s) (v : Nat) : (setCpuA s v).cpu_f_z = s.cpu_f_z := rfl

@[simp] theorem setCpuA_cpu_f_n (s : gb_s) (v : Nat) : (setCpuA s v).cpu_f_n = s.cpu_f_n := rfl

@[simp] theorem setCpuA_cpu_f_h (s : gb_s) (v : Nat) : (setCpuA s v).cpu_f_h = s.cpu_f_h := rfl

@[simp] theorem setCpuA_cpu_f_c (s : gb_s) (v : Nat) : (setCpuA s v).cpu_f_c = s.cpu_f_c := rfl

@[simp] theorem setCpuA_cpu_bc (s : gb_s) (v : Nat) : (setCpuA s v).cpu_bc = s.cpu_bc := rfl

@[simp] theorem setCpuA_cpu_de (s : gb_s) (v : Nat) : (setCpuA s v).cpu_de = s.cpu_de := rfl

@[simp] theorem setCpuA_cpu_hl (s : gb_s) (v : Nat) : (setCpuA s v).cpu_hl = s.cpu_hl := rfl

@[simp] theorem setCpuA_cpu_sp (s : gb_s) (v : Nat) : (setCpuA s v).cpu_sp = s.cpu_sp := rfl

@[simp] theorem setCpuA_cpu_pc (s : gb_s) (v : Nat) : (setCpuA s v).cpu_pc = s.cpu_pc := rfl

@[simp] theorem setCpuA_counter_lcd (s : gb_s) (v : Nat) : (setCpuA s v).counter_lcd = s.counter_lcd := rfl

@[simp] theorem setCpuA_counter_div (s : gb_s) (v : Nat) : (setCpuA s v).counter_div = s.counter_div := rfl

@[simp] theorem setCpuA_counter_tima (s : gb_s) (v : Nat) : (setCpuA s v).counter_tima = s.counter_tima := rfl

@[simp] theorem setCpuA_counter_serial (s : gb_s) (v : Nat) : (setCpuA s v).counter_serial = s.counter_serial := rfl

@[simp] theorem setCpuA_counter_rtc (s : gb_s) (v : Nat) : (setCpuA s v).counter_rtc = s.counter_rtc := rfl

@[simp] theorem setCpuA_counter_lcd_off (s : gb_s) (v : Nat) : (setCpuA s v).counter_lcd_off = s.counter_lcd_off := rfl

@[simp] theorem setCpuA_wram (s : gb_s) (v : Nat) : (setCpuA s v).wram = s.wram := rfl

@[simp] theorem setCpuA_vram (s : gb_s) (v : Nat) : (setCpuA s v).vram = s.vram := rfl

@[simp] theorem setCpuA_oam (s : gb_s) (v : Nat) : (setCpuA s v).oam = s.oam := rfl

@[simp] theorem setCpuA_hram_io (s : gb_s) (v : Nat) : (setCpuA s v).hram_io = s.hram_io := rfl

@[simp] theorem setCpuA_display_lcd_draw_line (s : gb_s) (v : Nat) : (setCpuA s v).display_lcd_draw_line = s.display_lcd_draw_line := rfl

@[simp] theorem setCpuA_display_bg_palette (s : gb_s) (v : Nat) : (setCpuA s v).display_bg_palette = s.display_bg_palette := rfl

@[simp] theorem setCpuA_display_sp_palette (s : gb_s) (v : Nat) : (setCpuA s v).display_sp_palette = s.display_sp_palette := rfl

@[simp] theorem setCpuA_display_window_clear (s : gb_s) (v : Nat) : (setCpuA s v).display_window_clear = s.display_window_clear := rfl

@[simp] theorem setCpuA_display_WY (s : gb_s) (v : Nat) : (setCpuA s v).display_WY = s.display_WY := rfl

@[simp] theorem setCpuA_display_frame_skip_count (s : gb_s) (v : Nat) : (setCpuA s v).display_frame_skip_count = s.display_frame_skip_count := rfl

@[simp] theorem setCpuA_display_interlace_count (s : gb_s) (v : Nat) : (setCpuA s v).display_interlace_count = s.display_interlace_count := rfl

@[simp] theorem setCpuA_direct_interlace (s : gb_s) (v : Nat) : (setCpuA s v).direct_interlace = s.direct_interlace := rfl

@[simp] theorem setCpuA_direct_frame_skip (s : gb_s) (v : Nat) : (setCpuA s v).direct_frame_skip = s.direct_frame_skip := rfl

@[simp] theorem setCpuA_direct_joypad (s : gb_s) (v : Nat) : (setCpuA s v).direct_joypad = s.direct_joypad := rfl

@[simp] theorem setCpuBC_gb_rom_read (s : gb_s) (v : Nat) : (setCpuBC s v).gb_rom_read = s.gb_rom_read := rfl

@[simp] theorem setCpuBC_gb_bootrom_read (s : gb_s) (v : Nat) : (setCpuBC s v).gb_bootrom_read = s.gb_bootrom_read := rfl

@[simp] theorem setCpuBC_has_bootrom (s : gb_s) (v : Nat) : (setCpuBC s v).has_bootrom = s.has_bootrom := rfl

@[simp] theorem setCpuBC_cart_ram_data (s : gb_s) (v : Nat) : (setCpuBC s v).cart_ram_data = s.cart_ram_data := rfl

@[simp] theorem setCpuBC_gb_serial_rx (s : gb_s) (v : Nat) : (setCpuBC s v).gb_serial_rx = s.gb_serial_rx := rfl

@[simp] theorem setCpuBC_gb_halt (s : gb_s) (v : Nat) : (setCpuBC s v).gb_halt = s.gb_halt := rfl

@[simp] theorem setCpuBC_gb_ime (s : gb_s) (v : Nat) : (setCpuBC s v).gb_ime = s.gb_ime := rfl

@[simp] theorem setCpuBC_gb_frame (s : gb_s) (v : Nat) : (setCpuBC s v).gb_frame = s.gb_frame := rfl

@[simp] theorem setCpuBC_lcd_blank (s : gb_s) (v : Nat) : (setCpuBC s v).lcd_blank = s.lcd_blank := rfl

@[simp] theorem setCpuBC_cart_is_mbc3O (s : gb_s) (v : Nat) : (setCpuBC s v).cart_is_mbc3O = s.cart_is_mbc3O := rfl

@[simp] theorem setCpuBC_mbc (s : gb_s) (v : Nat) : (setCpuBC s v).mbc = s.mbc := rfl

@[simp] theorem setCpuBC_cart_ram (s : gb_s) (v : Nat) : (setCpuBC s v).cart_ram = s.cart_ram := rfl

@[simp] theorem setCpuBC_num_rom_banks_mask (s : gb_s) (v : Nat) : (setCpuBC s v).num_rom_banks_mask = s.num_rom_banks_mask := rfl

@[simp] theorem setCpuBC_num_ram_banks (s : gb_s) (v : Nat) : (setCpuBC s v).num_ram_banks = s.num_ram_banks := rfl

@[simp] theorem setCpuBC_selected_rom_bank (s : gb_s) (v : Nat) : (setCpuBC s v).selected_rom_bank = s.selected_rom_bank := rfl

@[simp] theorem setCpuBC_cart_ram_bank (s : gb_s) (v : Nat) : (setCpuBC s v).cart_ram_bank = s.cart_ram_bank := rfl

@[simp] theorem setCpuBC_enable_cart_ram (s : gb_s) (v : Nat) : (setCpuBC s v).enable_cart_ram = s.enable_cart_ram := rfl

@[simp] theorem setCpuBC_cart_mode_select (s : gb_s) (v : Nat) : (setCpuBC s v).cart_mode_select = s.cart_mode_select := rfl

@[simp] theorem setCpuBC_rtc_latched (s : gb_s) (v : Nat) : (setCpuBC s v).rtc_latched = s.rtc_latched := rfl

@[simp] theorem setCpuBC_rtc_real (s : gb_s) (v : Nat) : (setCpuBC s v).rtc_real = s.rtc_real := rfl

@[simp] theorem setCpuBC_cpu_a (s : gb_s) (v : Nat) : (setCpuBC s v).cpu_a = s.cpu_a := rfl

@[simp] theorem setCpuBC_cpu_f_z (s : gb_s) (v : Nat) : (setCpuBC s v).cpu_f_z = s.cpu_f_z := rfl

@[simp] theorem setCpuBC_cpu_f_n (s : gb_s) (v : Nat) : (setCpuBC s v).cpu_f_n = s.cpu_f_n := rfl

@[simp] theorem setCpuBC_cpu_f_h (s : gb_s) (v : Nat) : (setCpuBC s v).cpu_f_h = s.cpu_f_h := rfl

@[simp] theorem setCpuBC_cpu_f_c (s : gb_s) (v : Nat) : (setCpuBC s v).cpu_f_c = s.cpu_f_c := rfl

@[simp] theorem setCpuBC_cpu_bc (s : gb_s) (v : Nat) : (setCpuBC s v).cpu_bc = v := rfl

@[simp] theorem setCpuBC_cpu_de (s : gb_s) (v : Nat) : (setCpuBC s v).cpu_de = s.cpu_de := rfl

@[simp] theorem setCpuBC_cpu_hl (s : gb_s) (v : Nat) : (setCpuBC s v).cpu_hl = s.cpu_hl := rfl

@[simp] theorem setCpuBC_cpu_sp (s : gb_s) (v : Nat) : (setCpuBC s v).cpu_sp = s.cpu_sp := rfl

@[simp] theorem setCpuBC_cpu_pc (s : gb_s) (v : Nat) : (setCpuBC s v).cpu_pc = s.cpu_pc := rfl

@[simp] theorem setCpuBC_counter_lcd (s : gb_s) (v : Nat) : (setCpuBC s v).counter_lcd = s.counter_lcd := rfl

@[simp] theorem setCpuBC_counter_div (s : gb_s) (v : Nat) : (setCpuBC s v).counter_div = s.counter_div := rfl

@[simp] theorem setCpuBC_counter_tima (s : gb_s) (v : Nat) : (setCpuBC s v).counter_tima = s.counter_tima := rfl

@[simp] theorem setCpuBC_counter_serial (s : gb_s) (v : Nat) : (setCpuBC s v).counter_serial = s.counter_serial := rfl

@[simp] theorem setCpuBC_counter_rtc (s : gb_s) (v : Nat) : (setCpuBC s v).counter_rtc = s.counter_rtc := rfl

@[simp] theorem setCpuBC_counter_lcd_off (s : gb_s) (v : Nat) : (setCpuBC s v).counter_lcd_off = s.counter_lcd_off := rfl

@[simp] theorem setCpuBC_wram (s : gb_s) (v : Nat) : (setCpuBC s v).wram = s.wram := rfl

@[simp] theorem setCpuBC_vram (s : gb_s) (v : Nat) : (setCpuBC s v).vram = s.vram := rfl

@[simp] theorem setCpuBC_oam (s : gb_s) (v : Nat) : (setCpuBC s v).oam = s.oam := rfl

@[simp] theorem setCpuBC_hram_io (s : gb_s) (v : Nat) : (setCpuBC s v).hram_io = s.hram_io := rfl

@[simp] theorem setCpuBC_display_lcd_draw_line (s : gb_s) (v : Nat) : (setCpuBC s v).display_lcd_draw_line = s.display_lcd_draw_line := rfl

@[simp] theorem setCpuBC_display_bg_palette (s : gb_s) (v : Nat) : (setCpuBC s v).display_bg_palette = s.display_bg_palette := rfl

@[simp] theorem setCpuBC_display_sp_palette (s : gb_s) (v : Nat) : (setCpuBC s v).display_sp_palette = s.display_sp_palette := rfl

@[simp] theorem setCpuBC_display_window_clear (s : gb_s) (v : Nat) : (setCpuBC s v).display_window_clear = s.display_window_clear := rfl

@[simp] theorem setCpuBC_display_WY (s : gb_s) (v : Nat) : (setCpuBC s v).display_WY = s.display_WY := rfl

@[simp] theorem setCpuBC_display_frame_skip_count (s : gb_s) (v : Nat) : (setCpuBC s v).display_frame_skip_count = s.display_frame_skip_count := rfl

@[simp] theorem setCpuBC_display_interlace_count (s : gb_s) (v : Nat) : (setCpuBC s v).display_interlace_count = s.display_interlace_count := rfl

@[simp] theorem setCpuBC_direct_interlace (s : gb_s) (v : Nat) : (setCpuBC s v).direct_interlace = s.direct_interlace := rfl

@[simp] theorem setCpuBC_direct_frame_skip (s : gb_s) (v : Nat) : (setCpuBC s v).direct_frame_skip = s.direct_frame_skip := rfl

@[simp] theorem setCpuBC_direct_joypad (s : gb_s) (v : Nat) : (setCpuBC s v).direct_joypad = s.direct_joypad := rfl

@[simp] theorem setCpuDE_gb_rom_read (s : gb_s) (v : Nat) : (setCpuDE s v).gb_rom_read = s.gb_rom_read := rfl

@[simp] theorem setCpuDE_gb_bootrom_read (s : gb_s) (v : Nat) : (setCpuDE s v).gb_bootrom_read = s.gb_bootrom_read := rfl

@[simp] theorem setCpuDE_has_bootrom (s : gb_s) (v : Nat) : (setCpuDE s v).has_bootrom = s.has_bootrom := rfl

@[simp] theorem setCpuDE_cart_ram_data (s : gb_s) (v : Nat) : (setCpuDE s v).cart_ram_data = s.cart_ram_data := rfl

@[simp] theorem setCpuDE_gb_serial_rx (s : gb_s) (v : Nat) : (setCpuDE s v).gb_serial_rx = s.gb_serial_rx := rfl

@[simp] theorem setCpuDE_gb_halt (s : gb_s) (v : Nat) : (setCpuDE s v).gb_halt = s.gb_halt := rfl

@[simp] theorem setCpuDE_gb_ime (s : gb_s) (v : Nat) : (setCpuDE s v).gb_ime = s.gb_ime := rfl

@[simp] theorem setCpuDE_gb_frame (s : gb_s) (v : Nat) : (setCpuDE s v).gb_frame = s.gb_frame := rfl

@[simp] theorem setCpuDE_lcd_blank (s : gb_s) (v : Nat) : (setCpuDE s v).lcd_blank = s.lcd_blank := rfl

@[simp] theorem setCpuDE_cart_is_mbc3O (s : gb_s) (v : Nat) : (setCpuDE s v).cart_is_mbc3O = s.cart_is_mbc3O := rfl

@[simp] theorem setCpuDE_mbc (s : gb_s) (v : Nat) : (setCpuDE s v).mbc = s.mbc := rfl

@[simp] theorem setCpuDE_cart_ram (s : gb_s) (v : Nat) : (setCpuDE s v).cart_ram = s.cart_ram := rfl

@[simp] theorem setCpuDE_num_rom_banks_mask (s : gb_s) (v : Nat) : (setCpuDE s v).num_rom_banks_mask = s.num_rom_banks_mask := rfl

@[simp] theorem setCpuDE_num_ram_banks (s : gb_s) (v : Nat) : (setCpuDE s v).num_ram_banks = s.num_ram_banks := rfl

@[simp] theorem setCpuDE_selected_rom_bank (s : gb_s) (v : Nat) : (setCpuDE s v).selected_rom_bank = s.selected_rom_bank := rfl

@[simp] theorem setCpuDE_cart_ram_bank (s : gb_s) (v : Nat) : (setCpuDE s v).cart_ram_bank = s.cart_ram_bank := rfl

@[simp] theorem setCpuDE_enable_cart_ram (s : gb_s) (v : Nat) : (setCpuDE s v).enable_cart_ram = s.enable_cart_ram := rfl

@[simp] theorem setCpuDE_cart_mode_select (s : gb_s) (v : Nat) : (setCpuDE s v).cart_mode_select = s.cart_mode_select := rfl

@[simp] theorem setCpuDE_rtc_latched (s : gb_s) (v : Nat) : (setCpuDE s v).rtc_latched = s.rtc_latched := rfl

@[simp] theorem setCpuDE_rtc_real (s : gb_s) (v : Nat) : (setCpuDE s v).rtc_real = s.rtc_real := rfl

@[simp] theorem setCpuDE_cpu_a (s : gb_s) (v : Nat) : (setCpuDE s v).cpu_a = s.cpu_a := rfl

@[simp] theorem setCpuDE_cpu_f_z (s : gb_s) (v : Nat) : (setCpuDE s v).cpu_f_z = s.cpu_f_z := rfl

@[simp] theorem setCpuDE_cpu_f_n (s : gb_s) (v : Nat) : (setCpuDE s v).cpu_f_n = s.cpu_f_n := rfl

@[simp] theorem setCpuDE_cpu_f_h (s : gb_s) (v : Nat) : (setCpuDE s v).cpu_f_h = s.cpu_f_h := rfl

@[simp] theorem setCpuDE_cpu_f_c (s : gb_s) (v : Nat) : (setCpuDE s v).cpu_f_c = s.cpu_f_c := rfl

@[simp] theorem setCpuDE_cpu_bc (s : gb_s) (v : Nat) : (setCpuDE s v).cpu_bc = s.cpu_bc := rfl

@[simp] theorem setCpuDE_cpu_de (s : gb_s) (v : Nat) : (setCpuDE s v).cpu_de = v := rfl

@[simp] theorem setCpuDE_cpu_hl (s : gb_s) (v : Nat) : (setCpuDE s v).cpu_hl = s.cpu_hl := rfl

@[simp] theorem setCpuDE_cpu_sp (s : gb_s) (v : Nat) : (setCpuDE s v).cpu_sp = s.cpu_sp := rfl

@[simp] theorem setCpuDE_cpu_pc (s : gb_s) (v : Nat) : (setCpuDE s v).cpu_pc = s.cpu_pc := rfl

@[simp] theorem setCpuDE_counter_lcd (s : gb_s) (v : Nat) : (setCpuDE s v).counter_lcd = s.counter_lcd := rfl

@[simp] theorem setCpuDE_counter_div (s : gb_s) (v : Nat) : (setCpuDE s v).counter_div = s.counter_div := rfl

@[simp] theorem setCpuDE_counter_tima (s : gb_s) (v : Nat) : (setCpuDE s v).counter_tima = s.counter_tima := rfl

@[simp] theorem setCpuDE_counter_serial (s : gb_s) (v : Nat) : (setCpuDE s v).counter_serial = s.counter_serial := rfl

@[simp] theorem setCpuDE_counter_rtc (s : gb_s) (v : Nat) : (setCpuDE s v).counter_rtc = s.counter_rtc := rfl

@[simp] theorem setCpuDE_counter_lcd_off (s : gb_s) (v : Nat) : (setCpuDE s v).counter_lcd_off = s.counter_lcd_off := rfl

@[simp] theorem setCpuDE_wram (s : gb_s) (v : Nat) : (setCpuDE s v).wram = s.wram := rfl

@[simp] theorem setCpuDE_vram (s : gb_s) (v : Nat) : (setCpuDE s v).vram = s.vram := rfl

@[simp] theorem setCpuDE_oam (s : gb_s) (v : Nat) : (setCpuDE s v).oam = s.oam := rfl

@[simp] theorem setCpuDE_hram_io (s : gb_s) (v : Nat) : (setCpuDE s v).hram_io = s.hram_io := rfl

@[simp] theorem setCpuDE_display_lcd_draw_line (s : gb_s) (v : Nat) : (setCpuDE s v).display_lcd_draw_line = s.display_lcd_draw_line := rfl

@[simp] theorem setCpuDE_display_bg_palette (s : gb_s) (v : Nat) : (setCpuDE s v).display_bg_palette = s.display_bg_palette := rfl

@[simp] theorem setCpuDE_display_sp_palette (s : gb_s) (v : Nat) : (setCpuDE s v).display_sp_palette = s.display_sp_palette := rfl

@[simp] theorem setCpuDE_display_window_clear (s : gb_s) (v : Nat) : (setCpuDE s v).display_window_clear = s.display_window_clear := rfl

@[simp] theorem setCpuDE_display_WY (s : gb_s) (v : Nat) : (setCpuDE s v).display_WY = s.display_WY := rfl

@[simp] theorem setCpuDE_display_frame_skip_count (s : gb_s) (v : Nat) : (setCpuDE s v).display_frame_skip_count = s.display_frame_skip_count := rfl

@[simp] theorem setCpuDE_display_interlace_count (s : gb_s) (v : Nat) : (setCpuDE s v).display_interlace_count = s.display_interlace_count := rfl

@[simp] theorem setCpuDE_direct_interlace (s : gb_s) (v : Nat) : (setCpuDE s v).direct_interlace = s.direct_interlace := rfl

@[simp] theorem setCpuDE_direct_frame_skip (s : gb_s) (v : Nat) : (setCpuDE s v).direct_frame_skip = s.direct_frame_skip := rfl

@[simp] theorem setCpuDE_direct_joypad (s : gb_s) (v : Nat) : (setCpuDE s v).direct_joypad = s.direct_joypad := rfl

@[simp] theorem setCpuHL_gb_rom_read (s : gb_s) (v : Nat) : (setCpuHL s v).gb_rom_read = s.gb_rom_read := rfl

@[simp] theorem setCpuHL_gb_bootrom_read (s : gb_s) (v : Nat) : (setCpuHL s v).gb_bootrom_read = s.gb_bootrom_read := rfl

@[simp] theorem setCpuHL_has_bootrom (s : gb_s) (v : Nat) : (setCpuHL s v).has_bootrom = s.has_bootrom := rfl

@[simp] theorem setCpuHL_cart_ram_data (s : gb_s) (v : Nat) : (setCpuHL s v).cart_ram_data = s.cart_ram_data := rfl

@[simp] theorem setCpuHL_gb_serial_rx (s : gb_s) (v : Nat) : (setCpuHL s v).gb_serial_rx = s.gb_serial_rx := rfl

@[simp] theorem setCpuHL_gb_halt (s : gb_s) (v : Nat) : (setCpuHL s v).gb_halt = s.gb_halt := rfl

@[simp] theorem setCpuHL_gb_ime (s : gb_s) (v : Nat) : (setCpuHL s v).gb_ime = s.gb_ime := rfl

@[simp] theorem setCpuHL_gb_frame (s : gb_s) (v : Nat) : (setCpuHL s v).gb_frame = s.gb_frame := rfl

@[simp] theorem setCpuHL_lcd_blank (s : gb_s) (v : Nat) : (setCpuHL s v).lcd_blank = s.lcd_blank := rfl

@[simp] theorem setCpuHL_cart_is_mbc3O (s : gb_s) (v : Nat) : (setCpuHL s v).cart_is_mbc3O = s.cart_is_mbc3O := rfl

@[simp] theorem setCpuHL_mbc (s : gb_s) (v : Nat) : (setCpuHL s v).mbc = s.mbc := rfl

@[simp] theorem setCpuHL_cart_ram (s : gb_s) (v : Nat) : (setCpuHL s v).cart_ram = s.cart_ram := rfl

@[simp] theorem setCpuHL_num_rom_banks_mask (s : gb_s) (v : Nat) : (setCpuHL s v).num_rom_banks_mask = s.num_rom_banks_mask := rfl

@[simp] theorem setCpuHL_num_ram_banks (s : gb_s) (v : Nat) : (setCpuHL s v).num_ram_banks = s.num_ram_banks := rfl

@[simp] theorem setCpuHL_selected_rom_bank (s : gb_s) (v : Nat) : (setCpuHL s v).selected_rom_bank = s.selected_rom_bank := rfl

@[simp] theorem setCpuHL_cart_ram_bank (s : gb_s) (v : Nat) : (setCpuHL s v).cart_ram_bank = s.cart_ram_bank := rfl

@[simp] theorem setCpuHL_enable_cart_ram (s : gb_s) (v : Nat) : (setCpuHL s v).enable_cart_ram = s.enable_cart_ram := rfl

@[simp] theorem setCpuHL_cart_mode_select (s : gb_s) (v : Nat) : (setCpuHL s v).cart_mode_select = s.cart_mode_select := rfl

@[simp] theorem setCpuHL_rtc_latched (s : gb_s) (v : Nat) : (setCpuHL s v).rtc_latched = s.rtc_latched := rfl

@[simp] theorem setCpuHL_rtc_real (s : gb_s) (v : Nat) : (setCpuHL s v).rtc_real = s.rtc_real := rfl

@[simp] theorem setCpuHL_cpu_a (s : gb_s) (v : Nat) : (setCpuHL s v).cpu_a = s.cpu_a := rfl

@[simp] theorem setCpuHL_cpu_f_z (s : gb_s) (v : Nat) : (setCpuHL s v).cpu_f_z = s.cpu_f_z := rfl

@[simp] theorem setCpuHL_cpu_f_n (s : gb_s) (v : Nat) : (setCpuHL s v).cpu_f_n = s.cpu_f_n := rfl

@[simp] theorem setCpuHL_cpu_f_h (s : gb_s) (v : Nat) : (setCpuHL s v).cpu_f_h = s.cpu_f_h := rfl

@[simp] theorem setCpuHL_cpu_f_c (s : gb_s) (v : Nat) : (setCpuHL s v).cpu_f_c = s.cpu_f_c := rfl

@[simp] theorem setCpuHL_cpu_bc (s : gb_s) (v : Nat) : (setCpuHL s v).cpu_bc = s.cpu_bc := rfl

@[simp] theorem setCpuHL_cpu_de (s : gb_s) (v : Nat) : (setCpuHL s v).cpu_de = s.cpu_de := rfl

@[simp] theorem setCpuHL_cpu_hl (s : gb_s) (v : Nat) : (setCpuHL s v).cpu_hl = v := rfl

@[simp] theorem setCpuHL_cpu_sp (s : gb_s) (v : Nat) : (setCpuHL s v).cpu_sp = s.cpu_sp := rfl

@[simp] theorem setCpuHL_cpu_pc (s : gb_s) (v : Nat) : (setCpuHL s v).cpu_pc = s.cpu_pc := rfl

@[simp] theorem setCpuHL_counter_lcd (s : gb_s) (v : Nat) : (setCpuHL s v).counter_lcd = s.counter_lcd := rfl

@[simp] theorem setCpuHL_counter_div (s : gb_s) (v : Nat) : (setCpuHL s v).counter_div = s.counter_div := rfl

@[simp] theorem setCpuHL_counter_tima (s : gb_s) (v : Nat) : (setCpuHL s v).counter_tima = s.counter_tima := rfl

@[simp] theorem setCpuHL_counter_serial (s : gb_s) (v : Nat) : (setCpuHL s v).counter_serial = s.counter_serial := rfl

@[simp] theorem setCpuHL_counter_rtc (s : gb_s) (v : Nat) : (setCpuHL s v).counter_rtc = s.counter_rtc := rfl

@[simp] theorem setCpuHL_counter_lcd_off (s : gb_s) (v : Nat) : (setCpuHL s v).counter_lcd_off = s.counter_lcd_off := rfl

@[simp] theorem setCpuHL_wram (s : gb_s) (v : Nat) : (setCpuHL s v).wram = s.wram := rfl

@[simp] theorem setCpuHL_vram (s : gb_s) (v : Nat) : (setCpuHL s v).vram = s.vram := rfl

@[simp] theorem setCpuHL_oam (s : gb_s) (v : Nat) : (setCpuHL s v).oam = s.oam := rfl

@[simp] theorem setCpuHL_hram_io (s : gb_s) (v : Nat) : (setCpuHL s v).hram_io = s.hram_io := rfl

@[simp] theorem setCpuHL_display_lcd_draw_line (s : gb_s) (v : Nat) : (setCpuHL s v).display_lcd_draw_line = s.display_lcd_draw_line := rfl

@[simp] theorem setCpuHL_display_bg_palette (s : gb_s) (v : Nat) : (setCpuHL s v).display_bg_palette = s.display_bg_palette := rfl

@[simp] theorem setCpuHL_display_sp_palette (s : gb_s) (v : Nat) : (setCpuHL s v).display_sp_palette = s.display_sp_palette := rfl

@[simp] theorem setCpuHL_display_window_clear (s : gb_s) (v : Nat) : (setCpuHL s v).display_window_clear = s.display_window_clear := rfl

@[simp] theorem setCpuHL_display_WY (s : gb_s) (v : Nat) : (setCpuHL s v).display_WY = s.display_WY := rfl

@[simp] theorem setCpuHL_display_frame_skip_count (s : gb_s) (v : Nat) : (setCpuHL s v).display_frame_skip_count = s.display_frame_skip_count := rfl

@[simp] theorem setCpuHL_display_interlace_count (s : gb_s) (v : Nat) : (setCpuHL s v).display_interlace_count = s.display_interlace_count := rfl

@[simp] theorem setCpuHL_direct_interlace (s : gb_s) (v : Nat) : (setCpuHL s v).direct_interlace = s.direct_interlace := rfl

@[simp] theorem setCpuHL_direct_frame_skip (s : gb_s) (v : Nat) : (setCpuHL s v).direct_frame_skip = s.direct_frame_skip := rfl

@[simp] theorem setCpuHL_direct_joypad (s : gb_s) (v : Nat) : (setCpuHL s v).direct_joypad = s.direct_joypad := rfl

@[simp] theorem setCpuSP_gb_rom_read (s : gb_s) (v : Nat) : (setCpuSP s v).gb_rom_read = s.gb_rom_read := rfl

@[simp] theorem setCpuSP_gb_bootrom_read (s : gb_s) (v : Nat) : (setCpuSP s v).gb_bootrom_read = s.gb_bootrom_read := rfl

@[simp] theorem setCpuSP_has_bootrom (s : gb_s) (v : Nat) : (setCpuSP s v).has_bootrom = s.has_bootrom := rfl

@[simp] theorem setCpuSP_cart_ram_data (s : gb_s) (v : Nat) : (setCpuSP s v).cart_ram_data = s.cart_ram_data := rfl

@[simp] theorem setCpuSP_gb_serial_rx (s : gb_s) (v : Nat) : (setCpuSP s v).gb_serial_rx = s.gb_serial_rx := rfl

@[simp] theorem setCpuSP_gb_halt (s : gb_s) (v : Nat) : (setCpuSP s v).gb_halt = s.gb_halt := rfl

@[simp] theorem setCpuSP_gb_ime (s : gb_s) (v : Nat) : (setCpuSP s v).gb_ime = s.gb_ime := rfl

@[simp] theorem setCpuSP_gb_frame (s : gb_s) (v : Nat) : (setCpuSP s v).gb_frame = s.gb_frame := rfl

@[simp] theorem setCpuSP_lcd_blank (s : gb_s) (v : Nat) : (setCpuSP s v).lcd_blank = s.lcd_blank := rfl

@[simp] theorem setCpuSP_cart_is_mbc3O (s : gb_s) (v : Nat) : (setCpuSP s v).cart_is_mbc3O = s.cart_is_mbc3O := rfl

@[simp] theorem setCpuSP_mbc (s : gb_s) (v : Nat) : (setCpuSP s v).mbc = s.mbc := rfl

@[simp] theorem setCpuSP_cart_ram (s : gb_s) (v : Nat) : (setCpuSP s v).cart_ram = s.cart_ram := rfl

@[simp] theorem setCpuSP_num_rom_banks_mask (s : gb_s) (v : Nat) : (setCpuSP s v).num_rom_banks_mask = s.num_rom_banks_mask := rfl

@[simp] theorem setCpuSP_num_ram_banks (s : gb_s) (v : Nat) : (setCpuSP s v).num_ram_banks = s.num_ram_banks := rfl

@[simp] theorem setCpuSP_selected_rom_bank (s : gb_s) (v : Nat) : (setCpuSP s v).selected_rom_bank = s.selected_rom_bank := rfl

@[simp] theorem setCpuSP_cart_ram_bank (s : gb_s) (v : Nat) : (setCpuSP s v).cart_ram_bank = s.cart_ram_bank := rfl

@[simp] theorem setCpuSP_enable_cart_ram (s : gb_s) (v : Nat) : (setCpuSP s v).enable_cart_ram = s.enable_cart_ram := rfl

@[simp] theorem setCpuSP_cart_mode_select (s : gb_s) (v : Nat) : (setCpuSP s v).cart_mode_select = s.cart_mode_select := rfl

@[simp] theorem setCpuSP_rtc_latched (s : gb_s) (v : Nat) : (setCpuSP s v).rtc_latched = s.rtc_latched := rfl

@[simp] theorem setCpuSP_rtc_real (s : gb_s) (v : Nat) : (setCpuSP s v).rtc_real = s.rtc_real := rfl

@[simp] theorem setCpuSP_cpu_a (s : gb_s) (v : Nat) : (setCpuSP s v).cpu_a = s.cpu_a := rfl

@[simp] theorem setCpuSP_cpu_f_z (s : gb_s) (v : Nat) : (setCpuSP s v).cpu_f_z = s.cpu_f_z := rfl

@[simp] theorem setCpuSP_cpu_f_n (s : gb_s) (v : Nat) : (setCpuSP s v).cpu_f_n = s.cpu_f_n := rfl

@[simp] theorem setCpuSP_cpu_f_h (s : gb_s) (v : Nat) : (setCpuSP s v).cpu_f_h = s.cpu_f_h := rfl

@[simp] theorem setCpuSP_cpu_f_c (s : gb_s) (v : Nat) : (setCpuSP s v).cpu_f_c = s.cpu_f_c := rfl

@[simp] theorem setCpuSP_cpu_bc (s : gb_s) (v : Nat) : (setCpuSP s v).cpu_bc = s.cpu_bc := rfl

@[simp] theorem setCpuSP_cpu_de (s : gb_s) (v : Nat) : (setCpuSP s v).cpu_de = s.cpu_de := rfl

@[simp] theorem setCpuSP_cpu_hl (s : gb_s) (v : Nat) : (setCpuSP s v).cpu_hl = s.cpu_hl := rfl

@[simp] theorem setCpuSP_cpu_sp (s : gb_s) (v : Nat) : (setCpuSP s v).cpu_sp = v := rfl

@[simp] theorem setCpuSP_cpu_pc (s : gb_s) (v : Nat) : (setCpuSP s v).cpu_pc = s.cpu_pc := rfl

@[simp] theorem setCpuSP_counter_lcd (s : gb_s) (v : Nat) : (setCpuSP s v).counter_lcd = s.counter_lcd := rfl

@[simp] theorem setCpuSP_counter_div (s : gb_s) (v : Nat) : (setCpuSP s v).counter_div = s.counter_div := rfl

@[simp] theorem setCpuSP_counter_tima (s : gb_s) (v : Nat) : (setCpuSP s v).counter_tima = s.counter_tima := rfl

@[simp] theorem setCpuSP_counter_serial (s : gb_s) (v : Nat) : (setCpuSP s v).counter_serial = s.counter_serial := rfl

@[simp] theorem setCpuSP_counter_rtc (s : gb_s) (v : Nat) : (setCpuSP s v).counter_rtc = s.counter_rtc := rfl

@[simp] theorem setCpuSP_counter_lcd_off (s : gb_s) (v : Nat) : (setCpuSP s v).counter_lcd_off = s.counter_lcd_off := rfl

@[simp] theorem setCpuSP_wram (s : gb_s) (v : Nat) : (setCpuSP s v).wram = s.wram := rfl

@[simp] theorem setCpuSP_vram (s : gb_s) (v : Nat) : (setCpuSP s v).vram = s.vram := rfl

@[simp] theorem setCpuSP_oam (s : gb_s) (v : Nat) : (setCpuSP s v).oam = s.oam := rfl

@[simp] theorem setCpuSP_hram_io (s : gb_s) (v : Nat) : (setCpuSP s v).hram_io = s.hram_io := rfl

@[simp] theorem setCpuSP_display_lcd_draw_line (s : gb_s) (v : Nat) : (setCpuSP s v).display_lcd_draw_line = s.display_lcd_draw_line := rfl

@[simp] theorem setCpuSP_display_bg_palette (s : gb_s) (v : Nat) : (setCpuSP s v).display_bg_palette = s.display_bg_palette := rfl

@[simp] theorem setCpuSP_display_sp_palette (s : gb_s) (v : Nat) : (setCpuSP s v).display_sp_palette = s.display_sp_palette := rfl

@[simp] theorem setCpuSP_display_window_clear (s : gb_s) (v : Nat) : (setCpuSP s v).display_window_clear = s.display_window_clear := rfl

@[simp] theorem setCpuSP_display_WY (s : gb_s) (v : Nat) : (setCpuSP s v).display_WY = s.display_WY := rfl

@[simp] theorem setCpuSP_display_frame_skip_count (s : gb_s) (v : Nat) : (setCpuSP s v).display_frame_skip_count = s.display_frame_skip_count := rfl

@[simp] theorem setCpuSP_display_interlace_count (s : gb_s) (v : Nat) : (setCpuSP s v).display_interlace_count = s.display_interlace_count := rfl

@[simp] theorem setCpuSP_direct_interlace (s : gb_s) (v : Nat) : (setCpuSP s v).direct_interlace = s.direct_interlace := rfl

@[simp] theorem setCpuSP_direct_frame_skip (s : gb_s) (v : Nat) : (setCpuSP s v).direct_frame_skip = s.direct_frame_skip := rfl

@[simp] theorem setCpuSP_direct_joypad (s : gb_s) (v : Nat) : (setCpuSP s v).direct_joypad = s.direct_joypad := rfl

@[simp] theorem setCpuPC_gb_rom_read (s : gb_s) (v : Nat) : (setCpuPC s v).gb_rom_read = s.gb_rom_read := rfl

@[simp] theorem setCpuPC_gb_bootrom_read (s : gb_s) (v : Nat) : (setCpuPC s v).gb_bootrom_read = s.gb_bootrom_read := rfl

@[simp] theorem setCpuPC_has_bootrom (s : gb_s) (v : Nat) : (setCpuPC s v).has_bootrom = s.has_bootrom := rfl

@[simp] theorem setCpuPC_cart_ram_data (s : gb_s) (v : Nat) : (setCpuPC s v).cart_ram_data = s.cart_ram_data := rfl

@[simp] theorem setCpuPC_gb_serial_rx (s : gb_s) (v : Nat) : (setCpuPC s v).gb_serial_rx = s.gb_serial_rx := rfl

@[simp] theorem setCpuPC_gb_halt (s : gb_s) (v : Nat) : (setCpuPC s v).gb_halt = s.gb_halt := rfl

@[simp] theorem setCpuPC_gb_ime (s : gb_s) (v : Nat) : (setCpuPC s v).gb_ime = s.gb_ime := rfl

@[simp] theorem setCpuPC_gb_frame (s : gb_s) (v : Nat) : (setCpuPC s v).gb_frame = s.gb_frame := rfl

@[simp] theorem setCpuPC_lcd_blank (s : gb_s) (v : Nat) : (setCpuPC s v).lcd_blank = s.lcd_blank := rfl

@[simp] theorem setCpuPC_cart_is_mbc3O (s : gb_s) (v : Nat) : (setCpuPC s v).cart_is_mbc3O = s.cart_is_mbc3O := rfl

@[simp] theorem setCpuPC_mbc (s : gb_s) (v : Nat) : (setCpuPC s v).mbc = s.mbc := rfl

@[simp] theorem setCpuPC_cart_ram (s : gb_s) (v : Nat) : (setCpuPC s v).cart_ram = s.cart_ram := rfl

@[simp] theorem setCpuPC_num_rom_banks_mask (s : gb_s) (v : Nat) : (setCpuPC s v).num_rom_banks_mask = s.num_rom_banks_mask := rfl

@[simp] theorem setCpuPC_num_ram_banks (s : gb_s) (v : Nat) : (setCpuPC s v).num_ram_banks = s.num_ram_banks := rfl

@[simp] theorem setCpuPC_selected_rom_bank (s : gb_s) (v : Nat) : (setCpuPC s v).selected_rom_bank = s.selected_rom_bank := rfl

@[simp] theorem setCpuPC_cart_ram_bank (s : gb_s) (v : Nat) : (setCpuPC s v).cart_ram_bank = s.cart_ram_bank := rfl

@[simp] theorem setCpuPC_enable_cart_ram (s : gb_s) (v : Nat) : (setCpuPC s v).enable_cart_ram = s.enable_cart_ram := rfl

@[simp] theorem setCpuPC_cart_mode_select (s : gb_s) (v : Nat) : (setCpuPC s v).cart_mode_select = s.cart_mode_select := rfl

@[simp] theorem setCpuPC_rtc_latched (s : gb_s) (v : Nat) : (setCpuPC s v).rtc_latched = s.rtc_latched := rfl

@[simp] theorem setCpuPC_rtc_real (s : gb_s) (v : Nat) : (setCpuPC s v).rtc_real = s.rtc_real := rfl

@[simp] theorem setCpuPC_cpu_a (s : gb_s) (v : Nat) : (setCpuPC s v).cpu_a = s.cpu_a := rfl

@[simp] theorem setCpuPC_cpu_f_z (s : gb_s) (v : Nat) : (setCpuPC s v).cpu_f_z = s.cpu_f_z := rfl

@[simp] theorem setCpuPC_cpu_f_n (s : gb_s) (v : Nat) : (setCpuPC s v).cpu_f_n = s.cpu_f_n := rfl

@[simp] theorem setCpuPC_cpu_f_h (s : gb_s) (v : Nat) : (setCpuPC s v).cpu_f_h = s.cpu_f_h := rfl

@[simp] theorem setCpuPC_cpu_f_c (s : gb_s) (v : Nat) : (setCpuPC s v).cpu_f_c = s.cpu_f_c := rfl

@[simp] theorem setCpuPC_cpu_bc (s : gb_s) (v : Nat) : (setCpuPC s v).cpu_bc = s.cpu_bc := rfl

@[simp] theorem setCpuPC_cpu_de (s : gb_s) (v : Nat) : (setCpuPC s v).cpu_de = s.cpu_de := rfl

@[simp] theorem setCpuPC_cpu_hl (s : gb_s) (v : Nat) : (setCpuPC s v).cpu_hl = s.cpu_hl := rfl

@[simp] theorem setCpuPC_cpu_sp (s : gb_s) (v : Nat) : (setCpuPC s v).cpu_sp = s.cpu_sp := rfl

@[simp] theorem setCpuPC_cpu_pc (s : gb_s) (v : Nat) : (setCpuPC s v).cpu_pc = v := rfl

@[simp] theorem setCpuPC_counter_lcd (s : gb_s) (v : Nat) : (setCpuPC s v).counter_lcd = s.counter_lcd := rfl

@[simp] theorem setCpuPC_counter_div (s : gb_s) (v : Nat) : (setCpuPC s v).counter_div = s.counter_div := rfl

@[simp] theorem setCpuPC_counter_tima (s : gb_s) (v : Nat) : (setCpuPC s v).counter_tima = s.counter_tima := rfl

@[simp] theorem setCpuPC_counter_serial (s : gb_s) (v : Nat) : (setCpuPC s v).counter_serial = s.counter_serial := rfl

@[simp] theorem setCpuPC_counter_rtc (s : gb_s) (v : Nat) : (setCpuPC s v).counter_rtc = s.counter_rtc := rfl

@[simp] theorem setCpuPC_counter_lcd_off (s : gb_s) (v : Nat) : (setCpuPC s v).counter_lcd_off = s.counter_lcd_off := rfl

@[simp] theorem setCpuPC_wram (s : gb_s) (v : Nat) : (setCpuPC s v).wram = s.wram := rfl

@[simp] theorem setCpuPC_vram (s : gb_s) (v : Nat) : (setCpuPC s v).vram = s.vram := rfl

@[simp] theorem setCpuPC_oam (s : gb_s) (v : Nat) : (setCpuPC s v).oam = s.oam := rfl

@[simp] theorem setCpuPC_hram_io (s : gb_s) (v : Nat) : (setCpuPC s v).hram_io = s.hram_io := rfl

@[simp] theorem setCpuPC_display_lcd_draw_line (s : gb_s) (v : Nat) : (setCpuPC s v).display_lcd_draw_line = s.display_lcd_draw_line := rfl

@[simp] theorem setCpuPC_display_bg_palette (s : gb_s) (v : Nat) : (setCpuPC s v).display_bg_palette = s.display_bg_palette := rfl

@[simp] theorem setCpuPC_display_sp_palette (s : gb_s) (v : Nat) : (setCpuPC s v).display_sp_palette = s.display_sp_palette := rfl

@[simp] theorem setCpuPC_display_window_clear (s : gb_s) (v : Nat) : (setCpuPC s v).display_window_clear = s.display_window_clear := rfl

@[simp] theorem setCpuPC_display_WY (s : gb_s) (v : Nat) : (setCpuPC s v).display_WY = s.display_WY := rfl

@[simp] theorem setCpuPC_display_frame_skip_count (s : gb_s) (v : Nat) : (setCpuPC s v).display_frame_skip_count = s.display_frame_skip_count := rfl

@[simp] theorem setCpuPC_display_interlace_count (s : gb_s) (v : Nat) : (setCpuPC s v).display_interlace_count = s.display_interlace_count := rfl

@[simp] theorem setCpuPC_direct_interlace (s : gb_s) (v : Nat) : (setCpuPC s v).direct_interlace = s.direct_interlace := rfl

@[simp] theorem setCpuPC_direct_frame_skip (s : gb_s) (v : Nat) : (setCpuPC s v).direct_frame_skip = s.direct_frame_skip := rfl

@[simp] theorem setCpuPC_direct_joypad (s : gb_s) (v : Nat) : (setCpuPC s v).direct_joypad = s.direct_joypad := rfl

@[simp] theorem setCounterLcd_gb_rom_read (s : gb_s) (v : Nat) : (setCounterLcd s v).gb_rom_read = s.gb_rom_read := rfl

@[simp] theorem setCounterLcd_gb_bootrom_read (s : gb_s) (v : Nat) : (setCounterLcd s v).gb_bootrom_read = s.gb_bootrom_read := rfl

@[simp] theorem setCounterLcd_has_bootrom (s : gb_s) (v : Nat) : (setCounterLcd s v).has_bootrom = s.has_bootrom := rfl

@[simp] theorem setCounterLcd_cart_ram_data (s : gb_s) (v : Nat) : (setCounterLcd s v).cart_ram_data = s.cart_ram_data := rfl

@[simp] theorem setCounterLcd_gb_serial_rx (s : gb_s) (v : Nat) : (setCounterLcd s v).gb_serial_rx = s.gb_serial_rx := rfl

@[simp] theorem setCounterLcd_gb_halt (s : gb_s) (v : Nat) : (setCounterLcd s v).gb_halt = s.gb_halt := rfl

@[simp] theorem setCounterLcd_gb_ime (s : gb_s) (v : Nat) : (setCounterLcd s v).gb_ime = s.gb_ime := rfl

@[simp] theorem setCounterLcd_gb_frame (s : gb_s) (v : Nat) : (setCounterLcd s v).gb_frame = s.gb_frame := rfl

@[simp] theorem setCounterLcd_lcd_blank (s : gb_s) (v : Nat) : (setCounterLcd s v).lcd_blank = s.lcd_blank := rfl

@[simp] theorem setCounterLcd_cart_is_mbc3O (s : gb_s) (v : Nat) : (setCounterLcd s v).cart_is_mbc3O = s.cart_is_mbc3O := rfl

@[simp] theorem setCounterLcd_mbc (s : gb_s) (v : Nat) : (setCounterLcd s v).mbc = s.mbc := rfl

@[simp] theorem setCounterLcd_cart_ram (s : gb_s) (v : Nat) : (setCounterLcd s v).cart_ram = s.cart_ram := rfl

@[simp] theorem setCounterLcd_num_rom_banks_mask (s : gb_s) (v : Nat) : (setCounterLcd s v).num_rom_banks_mask = s.num_rom_banks_mask := rfl

@[simp] theorem setCounterLcd_num_ram_banks (s : gb_s) (v : Nat) : (setCounterLcd s v).num_ram_banks = s.num_ram_banks := rfl

@[simp] theorem setCounterLcd_selected_rom_bank (s : gb_s) (v : Nat) : (setCounterLcd s v).selected_rom_bank = s.selected_rom_bank := rfl

@[simp] theorem setCounterLcd_cart_ram_bank (s : gb_s) (v : Nat) : (setCounterLcd s v).cart_ram_bank = s.cart_ram_bank := rfl

@[simp] theorem setCounterLcd_enable_cart_ram (s : gb_s) (v : Nat) : (setCounterLcd s v).enable_cart_ram = s.enable_cart_ram := rfl

@[simp] theorem setCounterLcd_cart_mode_select (s : gb_s) (v : Nat) : (setCounterLcd s v).cart_mode_select = s.cart_mode_select := rfl

@[simp] theorem setCounterLcd_rtc_latched (s : gb_s) (v : Nat) : (setCounterLcd s v).rtc_latched = s.rtc_latched := rfl

@[simp] theorem setCounterLcd_rtc_real (s : gb_s) (v : Nat) : (setCounterLcd s v).rtc_real = s.rtc_real := rfl

@[simp] theorem setCounterLcd_cpu_a (s : gb_s) (v : Nat) : (setCounterLcd s v).cpu_a = s.cpu_a := rfl

@[simp] theorem setCounterLcd_cpu_f_z (s : gb_s) (v : Nat) : (setCounterLcd s v).cpu_f_z = s.cpu_f_z := rfl

@[simp] theorem setCounterLcd_cpu_f_n (s : gb_s) (v : Nat) : (setCounterLcd s v).cpu_f_n = s.cpu_f_n := rfl

@[simp] theorem setCounterLcd_cpu_f_h (s : gb_s) (v : Nat) : (setCounterLcd s v).cpu_f_h = s.cpu_f_h := rfl

@[simp] theorem setCounterLcd_cpu_f_c (s : gb_s) (v : Nat) : (setCounterLcd s v).cpu_f_c = s.cpu_f_c := rfl

@[simp] theorem setCounterLcd_cpu_bc (s : gb_s) (v : Nat) : (setCounterLcd s v).cpu_bc = s.cpu_bc := rfl

@[simp] theorem setCounterLcd_cpu_de (s : gb_s) (v : Nat) : (setCounterLcd s v).cpu_de = s.cpu_de := rfl

@[simp] theorem setCounterLcd_cpu_hl (s : gb_s) (v : Nat) : (setCounterLcd s v).cpu_hl = s.cpu_hl := rfl

@[simp] theorem setCounterLcd_cpu_sp (s : gb_s) (v : Nat) : (setCounterLcd s v).cpu_sp = s.cpu_sp := rfl

@[simp] theorem setCounterLcd_cpu_pc (s : gb_s) (v : Nat) : (setCounterLcd s v).cpu_pc = s.cpu_pc := rfl

@[simp] theorem setCounterLcd_counter_lcd (s : gb_s) (v : Nat) : (setCounterLcd s v).counter_lcd = v := rfl

@[simp] theorem setCounterLcd_counter_div (s : gb_s) (v : Nat) : (setCounterLcd s v).counter_div = s.counter_div := rfl

@[simp] theorem setCounterLcd_counter_tima (s : gb_s) (v : Nat) : (setCounterLcd s v).counter_tima = s.counter_tima := rfl

@[simp] theorem setCounterLcd_counter_serial (s : gb_s) (v : Nat) : (setCounterLcd s v).counter_serial = s.counter_serial := rfl

@[simp] theorem setCounterLcd_counter_rtc (s : gb_s) (v : Nat) : (setCounterLcd s v).counter_rtc = s.counter_rtc := rfl

@[simp] theorem setCounterLcd_counter_lcd_off (s : gb_s) (v : Nat) : (setCounterLcd s v).counter_lcd_off = s.counter_lcd_off := rfl

@[simp] theorem setCounterLcd_wram (s : gb_s) (v : Nat) : (setCounterLcd s v).wram = s.wram := rfl

@[simp] theorem setCounterLcd_vram (s : gb_s) (v : Nat) : (setCounterLcd s v).vram = s.vram := rfl

@[simp] theorem setCounterLcd_oam (s : gb_s) (v : Nat) : (setCounterLcd s v).oam = s.oam := rfl

@[simp] theorem setCounterLcd_hram_io (s : gb_s) (v : Nat) : (setCounterLcd s v).hram_io = s.hram_io := rfl

@[simp] theorem setCounterLcd_display_lcd_draw_line (s : gb_s) (v : Nat) : (setCounterLcd s v).display_lcd_draw_line = s.display_lcd_draw_line := rfl

@[simp] theorem setCounterLcd_display_bg_palette (s : gb_s) (v : Nat) : (setCounterLcd s v).display_bg_palette = s.display_bg_palette := rfl

@[simp] theorem setCounterLcd_display_sp_palette (s : gb_s) (v : Nat) : (setCounterLcd s v).display_sp_palette = s.display_sp_palette := rfl

@[simp] theorem setCounterLcd_display_window_clear (s : gb_s) (v : Nat) : (setCounterLcd s v).display_window_clear = s.display_window_clear := rfl

@[simp] theorem setCounterLcd_display_WY (s : gb_s) (v : Nat) : (setCounterLcd s v).display_WY = s.display_WY := rfl

@[simp] theorem setCounterLcd_display_frame_skip_count (s : gb_s) (v : Nat) : (setCounterLcd s v).display_frame_skip_count = s.display_frame_skip_count := rfl

@[simp] theorem setCounterLcd_display_interlace_count (s : gb_s) (v : Nat) : (setCounterLcd s v).display_interlace_count = s.display_interlace_count := rfl

@[simp] theorem setCounterLcd_direct_interlace (s : gb_s) (v : Nat) : (setCounterLcd s v).direct_interlace = s.direct_interlace := rfl

@[simp] theorem setCounterLcd_direct_frame_skip (s : gb_s) (v : Nat) : (setCounterLcd s v).direct_frame_skip = s.direct_frame_skip := rfl

@[simp] theorem setCounterLcd_direct_joypad (s : gb_s) (v : Nat) : (setCounterLcd s v).direct_joypad = s.direct_joypad := rfl

@[simp] theorem setCounterDiv_gb_rom_read (s : gb_s) (v : Nat) : (setCounterDiv s v).gb_rom_read = s.gb_rom_read := rfl

@[simp] theorem setCounterDiv_gb_bootrom_read (s : gb_s) (v : Nat) : (setCounterDiv s v).gb_bootrom_read = s.gb_bootrom_read := rfl

@[simp] theorem setCounterDiv_has_bootrom (s : gb_s) (v : Nat) : (setCounterDiv s v).has_bootrom = s.has_bootrom := rfl

@[simp] theorem setCounterDiv_cart_ram_data (s : gb_s) (v : Nat) : (setCounterDiv s v).cart_ram_data = s.cart_ram_data := rfl

@[simp] theorem setCounterDiv_gb_serial_rx (s : gb_s) (v : Nat) : (setCounterDiv s v).gb_serial_rx = s.gb_serial_rx := rfl

@[simp] theorem setCounterDiv_gb_halt (s : gb_s) (v : Nat) : (setCounterDiv s v).gb_halt = s.gb_halt := rfl

@[simp] theorem setCounterDiv_gb_ime (s : gb_s) (v : Nat) : (setCounterDiv s v).gb_ime = s.gb_ime := rfl

@[simp] theorem setCounterDiv_gb_frame (s : gb_s) (v : Nat) : (setCounterDiv s v).gb_frame = s.gb_frame := rfl

@[simp] theorem setCounterDiv_lcd_blank (s : gb_s) (v : Nat) : (setCounterDiv s v).lcd_blank = s.lcd_blank := rfl

@[simp] theorem setCounterDiv_cart_is_mbc3O (s : gb_s) (v : Nat) : (setCounterDiv s v).cart_is_mbc3O = s.cart_is_mbc3O := rfl

@[simp] theorem setCounterDiv_mbc (s : gb_s) (v : Nat) : (setCounterDiv s v).mbc = s.mbc := rfl

@[simp] theorem setCounterDiv_cart_ram (s : gb_s) (v : Nat) : (setCounterDiv s v).cart_ram = s.cart_ram := rfl

@[simp] theorem setCounterDiv_num_rom_banks_mask (s : gb_s) (v : Nat) : (setCounterDiv s v).num_rom_banks_mask = s.num_rom_banks_mask := rfl

@[simp] theorem setCounterDiv_num_ram_banks (s : gb_s) (v : Nat) : (setCounterDiv s v).num_ram_banks = s.num_ram_banks := rfl

@[simp] theorem setCounterDiv_selected_rom_bank (s : gb_s) (v : Nat) : (setCounterDiv s v).selected_rom_bank = s.selected_rom_bank := rfl

@[simp] theorem setCounterDiv_cart_ram_bank (s : gb_s) (v : Nat) : (setCounterDiv s v).cart_ram_bank = s.cart_ram_bank := rfl

@[simp] theorem setCounterDiv_enable_cart_ram (s : gb_s) (v : Nat) : (setCounterDiv s v).enable_cart_ram = s.enable_cart_ram := rfl

@[simp] theorem setCounterDiv_cart_mode_select (s : gb_s) (v : Nat) : (setCounterDiv s v).cart_mode_select = s.cart_mode_select := rfl

@[simp] theorem setCounterDiv_rtc_latched (s : gb_s) (v : Nat) : (setCounterDiv s v).rtc_latched = s.rtc_latched := rfl

@[simp] theorem setCounterDiv_rtc_real (s : gb_s) (v : Nat) : (setCounterDiv s v).rtc_real = s.rtc_real := rfl

@[simp] theorem setCounterDiv_cpu_a (s : gb_s) (v : Nat) : (setCounterDiv s v).cpu_a = s.cpu_a := rfl

@[simp] theorem setCounterDiv_cpu_f_z (s : gb_s) (v : Nat) : (setCounterDiv s v).cpu_f_z = s.cpu_f_z := rfl

@[simp] theorem setCounterDiv_cpu_f_n (s : gb_s) (v : Nat) : (setCounterDiv s v).cpu_f_n = s.cpu_f_n := rfl

@[simp] theorem setCounterDiv_cpu_f_h (s : gb_s) (v : Nat) : (setCounterDiv s v).cpu_f_h = s.cpu_f_h := rfl

@[simp] theorem setCounterDiv_cpu_f_c (s : gb_s) (v : Nat) : (setCounterDiv s v).cpu_f_c = s.cpu_f_c := rfl

@[simp] theorem setCounterDiv_cpu_bc (s : gb_s) (v : Nat) : (setCounterDiv s v).cpu_bc = s.cpu_bc := rfl

@[simp] theorem setCounterDiv_cpu_de (s : gb_s) (v : Nat) : (setCounterDiv s v).cpu_de = s.cpu_de := rfl

@[simp] theorem setCounterDiv_cpu_hl (s : gb_s) (v : Nat) : (setCounterDiv s v).cpu_hl = s.cpu_hl := rfl

@[simp] theorem setCounterDiv_cpu_sp (s : gb_s) (v : Nat) : (setCounterDiv s v).cpu_sp = s.cpu_sp := rfl

@[simp] theorem setCounterDiv_cpu_pc (s : gb_s) (v : Nat) : (setCounterDiv s v).cpu_pc = s.cpu_pc := rfl

@[simp] theorem setCounterDiv_counter_lcd (s : gb_s) (v : Nat) : (setCounterDiv s v).counter_lcd = s.counter_lcd := rfl

@[simp] theorem setCounterDiv_counter_div (s : gb_s) (v : Nat) : (setCounterDiv s v).counter_div = v := rfl

@[simp] theorem setCounterDiv_counter_tima (s : gb_s) (v : Nat) : (setCounterDiv s v).counter_tima = s.counter_tima := rfl

@[simp] theorem setCounterDiv_counter_serial (s : gb_s) (v : Nat) : (setCounterDiv s v).counter_serial = s.counter_serial := rfl

@[simp] theorem setCounterDiv_counter_rtc (s : gb_s) (v : Nat) : (setCounterDiv s v).counter_rtc = s.counter_rtc := rfl

@[simp] theorem setCounterDiv_counter_lcd_off (s : gb_s) (v : Nat) : (setCounterDiv s v).counter_lcd_off = s.counter_lcd_off := rfl

@[simp] theorem setCounterDiv_wram (s : gb_s) (v : Nat) : (setCounterDiv s v).wram = s.wram := rfl

@[simp] theorem setCounterDiv_vram (s : gb_s) (v : Nat) : (setCounterDiv s v).vram = s.vram := rfl

@[simp] theorem setCounterDiv_oam (s : gb_s) (v : Nat) : (setCounterDiv s v).oam = s.oam := rfl

@[simp] theorem setCounterDiv_hram_io (s : gb_s) (v : Nat) : (setCounterDiv s v).hram_io = s.hram_io := rfl

@[simp] theorem setCounterDiv_display_lcd_draw_line (s : gb_s) (v : Nat) : (setCounterDiv s v).display_lcd_draw_line = s.display_lcd_draw_line := rfl

@[simp] theorem setCounterDiv_display_bg_palette (s : gb_s) (v : Nat) : (setCounterDiv s v).display_bg_palette = s.display_bg_palette := rfl

@[simp] theorem setCounterDiv_display_sp_palette (s : gb_s) (v : Nat) : (setCounterDiv s v).display_sp_palette = s.display_sp_palette := rfl

@[simp] theorem setCounterDiv_display_window_clear (s : gb_s) (v : Nat) : (setCounterDiv s v).display_window_clear = s.display_window_clear := rfl

@[simp] theorem setCounterDiv_display_WY (s : gb_s) (v : Nat) : (setCounterDiv s v).display_WY = s.display_WY := rfl

@[simp] theorem setCounterDiv_display_frame_skip_count (s : gb_s) (v : Nat) : (setCounterDiv s v).display_frame_skip_count = s.display_frame_skip_count := rfl

@[simp] theorem setCounterDiv_display_interlace_count (s : gb_s) (v : Nat) : (setCounterDiv s v).display_interlace_count = s.display_interlace_count := rfl

@[simp] theorem setCounterDiv_direct_interlace (s : gb_s) (v : Nat) : (setCounterDiv s v).direct_interlace = s.direct_interlace := rfl

@[simp] theorem setCounterDiv_direct_frame_skip (s : gb_s) (v : Nat) : (setCounterDiv s v).direct_frame_skip = s.direct_frame_skip := rfl

@[simp] theorem setCounterDiv_direct_joypad (s : gb_s) (v : Nat) : (setCounterDiv s v).direct_joypad = s.direct_joypad := rfl

@[simp] theorem setCounterTima_gb_rom_read (s : gb_s) (v : Nat) : (setCounterTima s v).gb_rom_read = s.gb_rom_read := rfl

@[simp] theorem setCounterTima_gb_bootrom_read (s : gb_s) (v : Nat) : (setCounterTima s v).gb_bootrom_read = s.gb_bootrom_read := rfl

@[simp] theorem setCounterTima_has_bootrom (s : gb_s) (v : Nat) : (setCounterTima s v).has_bootrom = s.has_bootrom := rfl

@[simp] theorem setCounterTima_cart_ram_data (s : gb_s) (v : Nat) : (setCounterTima s v).cart_ram_data = s.cart_ram_data := rfl

@[simp] theorem setCounterTima_gb_serial_rx (s : gb_s) (v : Nat) : (setCounterTima s v).gb_serial_rx = s.gb_serial_rx := rfl

@[simp] theorem setCounterTima_gb_halt (s : gb_s) (v : Nat) : (setCounterTima s v).gb_halt = s.gb_halt := rfl

@[simp] theorem setCounterTima_gb_ime (s : gb_s) (v : Nat) : (setCounterTima s v).gb_ime = s.gb_ime := rfl

@[simp] theorem setCounterTima_gb_frame (s : gb_s) (v : Nat) : (setCounterTima s v).gb_frame = s.gb_frame := rfl

@[simp] theorem setCounterTima_lcd_blank (s : gb_s) (v : Nat) : (setCounterTima s v).lcd_blank = s.lcd_blank := rfl

@[simp] theorem setCounterTima_cart_is_mbc3O (s : gb_s) (v : Nat) : (setCounterTima s v).cart_is_mbc3O = s.cart_is_mbc3O := rfl

@[simp] theorem setCounterTima_mbc (s : gb_s) (v : Nat) : (setCounterTima s v).mbc = s.mbc := rfl

@[simp] theorem setCounterTima_cart_ram (s : gb_s) (v : Nat) : (setCounterTima s v).cart_ram = s.cart_ram := rfl

@[simp] theorem setCounterTima_num_rom_banks_mask (s : gb_s) (v : Nat) : (setCounterTima s v).num_rom_banks_mask = s.num_rom_banks_mask := rfl

@[simp] theorem setCounterTima_num_ram_banks (s : gb_s) (v : Nat) : (setCounterTima s v).num_ram_banks = s.num_ram_banks := rfl

@[simp] theorem setCounterTima_selected_rom_bank (s : gb_s) (v : Nat) : (setCounterTima s v).selected_rom_bank = s.selected_rom_bank := rfl

@[simp] theorem setCounterTima_cart_ram_bank (s : gb_s) (v : Nat) : (setCounterTima s v).cart_ram_bank = s.cart_ram_bank := rfl

@[simp] theorem setCounterTima_enable_cart_ram (s : gb_s) (v : Nat) : (setCounterTima s v).enable_cart_ram = s.enable_cart_ram := rfl

@[simp] theorem setCounterTima_cart_mode_select (s : gb_s) (v : Nat) : (setCounterTima s v).cart_mode_select = s.cart_mode_select := rfl

@[simp] theorem setCounterTima_rtc_latched (s : gb_s) (v : Nat) : (setCounterTima s v).rtc_latched = s.rtc_latched := rfl

@[simp] theorem setCounterTima_rtc_real (s : gb_s) (v : Nat) : (setCounterTima s v).rtc_real = s.rtc_real := rfl

@[simp] theorem setCounterTima_cpu_a (s : gb_s) (v : Nat) : (setCounterTima s v).cpu_a = s.cpu_a := rfl

@[simp] theorem setCounterTima_cpu_f_z (s : gb_s) (v : Nat) : (setCounterTima s v).cpu_f_z = s.cpu_f_z := rfl

@[simp] theorem setCounterTima_cpu_f_n (s : gb_s) (v : Nat) : (setCounterTima s v).cpu_f_n = s.cpu_f_n := rfl

@[simp] theorem setCounterTima_cpu_f_h (s : gb_s) (v : Nat) : (setCounterTima s v).cpu_f_h = s.cpu_f_h := rfl

@[simp] theorem setCounterTima_cpu_f_c (s : gb_s) (v : Nat) : (setCounterTima s v).cpu_f_c = s.cpu_f_c := rfl

@[simp] theorem setCounterTima_cpu_bc (s : gb_s) (v : Nat) : (setCounterTima s v).cpu_bc = s.cpu_bc := rfl

@[simp] theorem setCounterTima_cpu_de (s : gb_s) (v : Nat) : (setCounterTima s v).cpu_de = s.cpu_de := rfl

@[simp] theorem setCounterTima_cpu_hl (s : gb_s) (v : Nat) : (setCounterTima s v).cpu_hl = s.cpu_hl := rfl

@[simp] theorem setCounterTima_cpu_sp (s : gb_s) (v : Nat) : (setCounterTima s v).cpu_sp = s.cpu_sp := rfl

@[simp] theorem setCounterTima_cpu_pc (s : gb_s) (v : Nat) : (setCounterTima s v).cpu_pc = s.cpu_pc := rfl

@[simp] theorem setCounterTima_counter_lcd (s : gb_s) (v : Nat) : (setCounterTima s v).counter_lcd = s.counter_lcd := rfl

@[simp] theorem setCounterTima_counter_div (s : gb_s) (v : Nat) : (setCounterTima s v).counter_div = s.counter_div := rfl

@[simp] theorem setCounterTima_counter_tima (s : gb_s) (v : Nat) : (setCounterTima s v).counter_tima = v := rfl

@[simp] theorem setCounterTima_counter_serial (s : gb_s) (v : Nat) : (setCounterTima s v).counter_serial = s.counter_serial := rfl

@[simp] theorem setCounterTima_counter_rtc (s : gb_s) (v : Nat) : (setCounterTima s v).counter_rtc = s.counter_rtc := rfl

@[simp] theorem setCounterTima_counter_lcd_off (s : gb_s) (v : Nat) : (setCounterTima s v).counter_lcd_off = s.counter_lcd_off := rfl

@[simp] theorem setCounterTima_wram (s : gb_s) (v : Nat) : (setCounterTima s v).wram = s.wram := rfl

@[simp] theorem setCounterTima_vram (s : gb_s) (v : Nat) : (setCounterTima s v).vram = s.vram := rfl

@[simp] theorem setCounterTima_oam (s : gb_s) (v : Nat) : (setCounterTima s v).oam = s.oam := rfl

@[simp] theorem setCounterTima_hram_io (s : gb_s) (v : Nat) : (setCounterTima s v).hram_io = s.hram_io := rfl

@[simp] theorem setCounterTima_display_lcd_draw_line (s : gb_s) (v : Nat) : (setCounterTima s v).display_lcd_draw_line = s.display_lcd_draw_line := rfl

@[simp] theorem setCounterTima_display_bg_palette (s : gb_s) (v : Nat) : (setCounterTima s v).display_bg_palette = s.display_bg_palette := rfl

@[simp] theorem setCounterTima_display_sp_palette (s : gb_s) (v : Nat) : (setCounterTima s v).display_sp_palette = s.display_sp_palette := rfl

@[simp] theorem setCounterTima_display_window_clear (s : gb_s) (v : Nat) : (setCounterTima s v).display_window_clear = s.display_window_clear := rfl

@[simp] theorem setCounterTima_display_WY (s : gb_s) (v : Nat) : (setCounterTima s v).display_WY = s.display_WY := rfl

@[simp] theorem setCounterTima_display_frame_skip_count (s : gb_s) (v : Nat) : (setCounterTima s v).display_frame_skip_count = s.display_frame_skip_count := rfl

@[simp] theorem setCounterTima_display_interlace_count (s : gb_s) (v : Nat) : (setCounterTima s v).display_interlace_count = s.display_interlace_count := rfl

@[simp] theorem setCounterTima_direct_interlace (s : gb_s) (v : Nat) : (setCounterTima s v).direct_interlace = s.direct_interlace := rfl

@[simp] theorem setCounterTima_direct_frame_skip (s : gb_s) (v : Nat) : (setCounterTima s v).direct_frame_skip = s.direct_frame_skip := rfl

@[simp] theorem setCounterTima_direct_joypad (s : gb_s) (v : Nat) : (setCounterTima s v).direct_joypad = s.direct_joypad := rfl

@[simp] theorem setCounterSerial_gb_rom_read (s : gb_s) (v : Nat) : (setCounterSerial s v).gb_rom_read = s.gb_rom_read := rfl

@[simp] theorem setCounterSerial_gb_bootrom_read (s : gb_s) (v : Nat) : (setCounterSerial s v).gb_bootrom_read = s.gb_bootrom_read := rfl

@[simp] theorem setCounterSerial_has_bootrom (s : gb_s) (v : Nat) : (setCounterSerial s v).has_bootrom = s.has_bootrom := rfl

@[simp] theorem setCounterSerial_cart_ram_data (s : gb_s) (v : Nat) : (setCounterSerial s v).cart_ram_data = s.cart_ram_data := rfl

@[simp] theorem setCounterSerial_gb_serial_rx (s : gb_s) (v : Nat) : (setCounterSerial s v).gb_serial_rx = s.gb_serial_rx := rfl

@[simp] theorem setCounterSerial_gb_halt (s : gb_s) (v : Nat) : (setCounterSerial s v).gb_halt = s.gb_halt := rfl

@[simp] theorem setCounterSerial_gb_ime (s : gb_s) (v : Nat) : (setCounterSerial s v).gb_ime = s.gb_ime := rfl

@[simp] theorem setCounterSerial_gb_frame (s : gb_s) (v : Nat) : (setCounterSerial s v).gb_frame = s.gb_frame := rfl

@[simp] theorem setCounterSerial_lcd_blank (s : gb_s) (v : Nat) : (setCounterSerial s v).lcd_blank = s.lcd_blank := rfl

@[simp] theorem setCounterSerial_cart_is_mbc3O (s : gb_s) (v : Nat) : (setCounterSerial s v).cart_is_mbc3O = s.cart_is_mbc3O := rfl

@[simp] theorem setCounterSerial_mbc (s : gb_s) (v : Nat) : (setCounterSerial s v).mbc = s.mbc := rfl

@[simp] theorem setCounterSerial_cart_ram (s : gb_s) (v : Nat) : (setCounterSerial s v).cart_ram = s.cart_ram := rfl

@[simp] theorem setCounterSerial_num_rom_banks_mask (s : gb_s) (v : Nat) : (setCounterSerial s v).num_rom_banks_mask = s.num_rom_banks_mask := rfl

@[simp] theorem setCounterSerial_num_ram_banks (s : gb_s) (v : Nat) : (setCounterSerial s v).num_ram_banks = s.num_ram_banks := rfl

@[simp] theorem setCounterSerial_selected_rom_bank (s : gb_s) (v : Nat) : (setCounterSerial s v).selected_rom_bank = s.selected_rom_bank := rfl

@[simp] theorem setCounterSerial_cart_ram_bank (s : gb_s) (v : Nat) : (setCounterSerial s v).cart_ram_bank = s.cart_ram_bank := rfl

@[simp] theorem setCounterSerial_enable_cart_ram (s : gb_s) (v : Nat) : (setCounterSerial s v).enable_cart_ram = s.enable_cart_ram := rfl

@[simp] theorem setCounterSerial_cart_mode_select (s : gb_s) (v : Nat) : (setCounterSerial s v).cart_mode_select = s.cart_mode_select := rfl

@[simp] theorem setCounterSerial_rtc_latched (s : gb_s) (v : Nat) : (setCounterSerial s v).rtc_latched = s.rtc_latched := rfl

@[simp] theorem setCounterSerial_rtc_real (s : gb_s) (v : Nat) : (setCounterSerial s v).rtc_real = s.rtc_real := rfl

@[simp] theorem setCounterSerial_cpu_a (s : gb_s) (v : Nat) : (setCounterSerial s v).cpu_a = s.cpu_a := rfl

@[simp] theorem setCounterSerial_cpu_f_z (s : gb_s) (v : Nat) : (setCounterSerial s v).cpu_f_z = s.cpu_f_z := rfl

@[simp] theorem setCounterSerial_cpu_f_n (s : gb_s) (v : Nat) : (setCounterSerial s v).cpu_f_n = s.cpu_f_n := rfl

@[simp] theorem setCounterSerial_cpu_f_h (s : gb_s) (v : Nat) : (setCounterSerial s v).cpu_f_h = s.cpu_f_h := rfl

@[simp] theorem setCounterSerial_cpu_f_c (s : gb_s) (v : Nat) : (setCounterSerial s v).cpu_f_c = s.cpu_f_c := rfl

@[simp] theorem setCounterSerial_cpu_bc (s : gb_s) (v : Nat) : (setCounterSerial s v).cpu_bc = s.cpu_bc := rfl

@[simp] theorem setCounterSerial_cpu_de (s : gb_s) (v : Nat) : (setCounterSerial s v).cpu_de = s.cpu_de := rfl

@[simp] theorem setCounterSerial_cpu_hl (s : gb_s) (v : Nat) : (setCounterSerial s v).cpu_hl = s.cpu_hl := rfl

@[simp] theorem setCounterSerial_cpu_sp (s : gb_s) (v : Nat) : (setCounterSerial s v).cpu_sp = s.cpu_sp := rfl

@[simp] theorem setCounterSerial_cpu_pc (s : gb_s) (v : Nat) : (setCounterSerial s v).cpu_pc = s.cpu_pc := rfl

@[simp] theorem setCounterSerial_counter_lcd (s : gb_s) (v : Nat) : (setCounterSerial s v).counter_lcd = s.counter_lcd := rfl

@[simp] theorem setCounterSerial_counter_div (s : gb_s) (v : Nat) : (setCounterSerial s v).counter_div = s.counter_div := rfl

@[simp] theorem setCounterSerial_counter_tima (s : gb_s) (v : Nat) : (setCounterSerial s v).counter_tima = s.counter_tima := rfl

@[simp] theorem setCounterSerial_counter_serial (s : gb_s) (v : Nat) : (setCounterSerial s v).counter_serial = v := rfl

@[simp] theorem setCounterSerial_counter_rtc (s : gb_s) (v : Nat) : (setCounterSerial s v).counter_rtc = s.counter_rtc := rfl

@[simp] theorem setCounterSerial_counter_lcd_off (s : gb_s) (v : Nat) : (setCounterSerial s v).counter_lcd_off = s.counter_lcd_off := rfl

@[simp] theorem setCounterSerial_wram (s : gb_s) (v : Nat) : (setCounterSerial s v).wram = s.wram := rfl

@[simp] theorem setCounterSerial_vram (s : gb_s) (v : Nat) : (setCounterSerial s v).vram = s.vram := rfl

@[simp] theorem setCounterSerial_oam (s : gb_s) (v : Nat) : (setCounterSerial s v).oam = s.oam := rfl

@[simp] theorem setCounterSerial_hram_io (s : gb_s) (v : Nat) : (setCounterSerial s v).hram_io = s.hram_io := rfl

@[simp] theorem setCounterSerial_display_lcd_draw_line (s : gb_s) (v : Nat) : (setCounterSerial s v).display_lcd_draw_line = s.display_lcd_draw_line := rfl

@[simp] theorem setCounterSerial_display_bg_palette (s : gb_s) (v : Nat) : (setCounterSerial s v).display_bg_palette = s.display_bg_palette := rfl

@[simp] theorem setCounterSerial_display_sp_palette (s : gb_s) (v : Nat) : (setCounterSerial s v).display_sp_palette = s.display_sp_palette := rfl

@[simp] theorem setCounterSerial_display_window_clear (s : gb_s) (v : Nat) : (setCounterSerial s v).display_window_clear = s.display_window_clear := rfl

@[simp] theorem setCounterSerial_display_WY (s : gb_s) (v : Nat) : (setCounterSerial s v).display_WY = s.display_WY := rfl

@[simp] theorem setCounterSerial_display_frame_skip_count (s : gb_s) (v : Nat) : (setCounterSerial s v).display_frame_skip_count = s.display_frame_skip_count := rfl

@[simp] theorem setCounterSerial_display_interlace_count (s : gb_s) (v : Nat) : (setCounterSerial s v).display_interlace_count = s.display_interlace_count := rfl

@[simp] theorem setCounterSerial_direct_interlace (s : gb_s) (v : Nat) : (setCounterSerial s v).direct_interlace = s.direct_interlace := rfl

@[simp] theorem setCounterSerial_direct_frame_skip (s : gb_s) (v : Nat) : (setCounterSerial s v).direct_frame_skip = s.direct_frame_skip := rfl

@[simp] theorem setCounterSerial_direct_joypad (s : gb_s) (v : Nat) : (setCounterSerial s v).direct_joypad = s.direct_joypad := rfl

@[simp] theorem setCounterRtc_gb_rom_read (s : gb_s) (v : Nat) : (setCounterRtc s v).gb_rom_read = s.gb_rom_read := rfl

@[simp] theorem setCounterRtc_gb_bootrom_read (s : gb_s) (v : Nat) : (setCounterRtc s v).gb_bootrom_read = s.gb_bootrom_read := rfl

@[simp] theorem setCounterRtc_has_bootrom (s : gb_s) (v : Nat) : (setCounterRtc s v).has_bootrom = s.has_bootrom := rfl

@[simp] theorem setCounterRtc_cart_ram_data (s : gb_s) (v : Nat) : (setCounterRtc s v).cart_ram_data = s.cart_ram_data := rfl

@[simp] theorem setCounterRtc_gb_serial_rx (s : gb_s) (v : Nat) : (setCounterRtc s v).gb_serial_rx = s.gb_serial_rx := rfl

@[simp] theorem setCounterRtc_gb_halt (s : gb_s) (v : Nat) : (setCounterRtc s v).gb_halt = s.gb_halt := rfl

@[simp] theorem setCounterRtc_gb_ime (s : gb_s) (v : Nat) : (setCounterRtc s v).gb_ime = s.gb_ime := rfl

@[simp] theorem setCounterRtc_gb_frame (s : gb_s) (v : Nat) : (setCounterRtc s v).gb_frame = s.gb_frame := rfl

@[simp] theorem setCounterRtc_lcd_blank (s : gb_s) (v : Nat) : (setCounterRtc s v).lcd_blank = s.lcd_blank := rfl

@[simp] theorem setCounterRtc_cart_is_mbc3O (s : gb_s) (v : Nat) : (setCounterRtc s v).cart_is_mbc3O = s.cart_is_mbc3O := rfl

@[simp] theorem setCounterRtc_mbc (s : gb_s) (v : Nat) : (setCounterRtc s v).mbc = s.mbc := rfl

@[simp] theorem setCounterRtc_cart_ram (s : gb_s) (v : Nat) : (setCounterRtc s v).cart_ram = s.cart_ram := rfl

@[simp] theorem setCounterRtc_num_rom_banks_mask (s : gb_s) (v : Nat) : (setCounterRtc s v).num_rom_banks_mask = s.num_rom_banks_mask := rfl

@[simp] theorem setCounterRtc_num_ram_banks (s : gb_s) (v : Nat) : (setCounterRtc s v).num_ram_banks = s.num_ram_banks := rfl

@[simp] theorem setCounterRtc_selected_rom_bank (s : gb_s) (v : Nat) : (setCounterRtc s v).selected_rom_bank = s.selected_rom_bank := rfl

@[simp] theorem setCounterRtc_cart_ram_bank (s : gb_s) (v : Nat) : (setCounterRtc s v).cart_ram_bank = s.cart_ram_bank := rfl

@[simp] theorem setCounterRtc_enable_cart_ram (s : gb_s) (v : Nat) : (setCounterRtc s v).enable_cart_ram = s.enable_cart_ram := rfl

@[simp] theorem setCounterRtc_cart_mode_select (s : gb_s) (v : Nat) : (setCounterRtc s v).cart_mode_select = s.cart_mode_select := rfl

@[simp] theorem setCounterRtc_rtc_latched (s : gb_s) (v : Nat) : (setCounterRtc s v).rtc_latched = s.rtc_latched := rfl

@[simp] theorem setCounterRtc_rtc_real (s : gb_s) (v : Nat) : (setCounterRtc s v).rtc_real = s.rtc_real := rfl

@[simp] theorem setCounterRtc_cpu_a (s : gb_s) (v : Nat) : (setCounterRtc s v).cpu_a = s.cpu_a := rfl

@[simp] theorem setCounterRtc_cpu_f_z (s : gb_s) (v : Nat) : (setCounterRtc s v).cpu_f_z = s.cpu_f_z := rfl

@[simp] theorem setCounterRtc_cpu_f_n (s : gb_s) (v : Nat) : (setCounterRtc s v).cpu_f_n = s.cpu_f_n := rfl

@[simp] theorem setCounterRtc_cpu_f_h (s : gb_s) (v : Nat) : (setCounterRtc s v).cpu_f_h = s.cpu_f_h := rfl

@[simp] theorem setCounterRtc_cpu_f_c (s : gb_s) (v : Nat) : (setCounterRtc s v).cpu_f_c = s.cpu_f_c := rfl

@[simp] theorem setCounterRtc_cpu_bc (s : gb_s) (v : Nat) : (setCounterRtc s v).cpu_bc = s.cpu_bc := rfl

@[simp] theorem setCounterRtc_cpu_de (s : gb_s) (v : Nat) : (setCounterRtc s v).cpu_de = s.cpu_de := rfl

@[simp] theorem setCounterRtc_cpu_hl (s : gb_s) (v : Nat) : (setCounterRtc s v).cpu_hl = s.cpu_hl := rfl

@[simp] theorem setCounterRtc_cpu_sp (s : gb_s) (v : Nat) : (setCounterRtc s v).cpu_sp = s.cpu_sp := rfl

@[simp] theorem setCounterRtc_cpu_pc (s : gb_s) (v : Nat) : (setCounterRtc s v).cpu_pc = s.cpu_pc := rfl

@[simp] theorem setCounterRtc_counter_lcd (s : gb_s) (v : Nat) : (setCounterRtc s v).counter_lcd = s.counter_lcd := rfl

@[simp] theorem setCounterRtc_counter_div (s : gb_s) (v : Nat) : (setCounterRtc s v).counter_div = s.counter_div := rfl

@[simp] theorem setCounterRtc_counter_tima (s : gb_s) (v : Nat) : (setCounterRtc s v).counter_tima = s.counter_tima := rfl

@[simp] theorem setCounterRtc_counter_serial (s : gb_s) (v : Nat) : (setCounterRtc s v).counter_serial = s.counter_serial := rfl

@[simp] theorem setCounterRtc_counter_rtc (s : gb_s) (v : Nat) : (setCounterRtc s v).counter_rtc = v := rfl

@[simp] theorem setCounterRtc_counter_lcd_off (s : gb_s) (v : Nat) : (setCounterRtc s v).counter_lcd_off = s.counter_lcd_off := rfl

@[simp] theorem setCounterRtc_wram (s : gb_s) (v : Nat) : (setCounterRtc s v).wram = s.wram := rfl

@[simp] theorem setCounterRtc_vram (s : gb_s) (v : Nat) : (setCounterRtc s v).vram = s.vram := rfl

@[simp] theorem setCounterRtc_oam (s : gb_s) (v : Nat) : (setCounterRtc s v).oam = s.oam := rfl

@[simp] theorem setCounterRtc_hram_io (s : gb_s) (v : Nat) : (setCounterRtc s v).hram_io = s.hram_io := rfl

@[simp] theorem setCounterRtc_display_lcd_draw_line (s : gb_s) (v : Nat) : (setCounterRtc s v).display_lcd_draw_line = s.display_lcd_draw_line := rfl

@[simp] theorem setCounterRtc_display_bg_palette (s : gb_s) (v : Nat) : (setCounterRtc s v).display_bg_palette = s.display_bg_palette := rfl

@[simp] theorem setCounterRtc_display_sp_palette (s : gb_s) (v : Nat) : (setCounterRtc s v).display_sp_palette = s.display_sp_palette := rfl

@[simp] theorem setCounterRtc_display_window_clear (s : gb_s) (v : Nat) : (setCounterRtc s v).display_window_clear = s.display_window_clear := rfl

@[simp] theorem setCounterRtc_display_WY (s : gb_s) (v : Nat) : (setCounterRtc s v).display_WY = s.display_WY := rfl

@[simp] theorem setCounterRtc_display_frame_skip_count (s : gb_s) (v : Nat) : (setCounterRtc s v).display_frame_skip_count = s.display_frame_skip_count := rfl

@[simp] theorem setCounterRtc_display_interlace_count (s : gb_s) (v : Nat) : (setCounterRtc s v).display_interlace_count = s.display_interlace_count := rfl

@[simp] theorem setCounterRtc_direct_interlace (s : gb_s) (v : Nat) : (setCounterRtc s v).direct_interlace = s.direct_interlace := rfl

@[simp] theorem setCounterRtc_direct_frame_skip (s : gb_s) (v : Nat) : (setCounterRtc s v).direct_frame_skip = s.direct_frame_skip := rfl

@[simp] theorem setCounterRtc_direct_joypad (s : gb_s) (v : Nat) : (setCounterRtc s v).direct_joypad = s.direct_joypad := rfl

@[simp] theorem setCounterLcdOff_gb_rom_read (s : gb_s) (v : Nat) : (setCounterLcdOff s v).gb_rom_read = s.gb_rom_read := rfl

@[simp] theorem setCounterLcdOff_gb_bootrom_read (s : gb_s) (v : Nat) : (setCounterLcdOff s v).gb_bootrom_read = s.gb_bootrom_read := rfl

@[simp] theorem setCounterLcdOff_has_bootrom (s : gb_s) (v : Nat) : (setCounterLcdOff s v).has_bootrom = s.has_bootrom := rfl

@[simp] theorem setCounterLcdOff_cart_ram_data (s : gb_s) (v : Nat) : (setCounterLcdOff s v).cart_ram_data = s.cart_ram_data := rfl

@[simp] theorem setCounterLcdOff_gb_serial_rx (s : gb_s) (v : Nat) : (setCounterLcdOff s v).gb_serial_rx = s.gb_serial_rx := rfl

@[simp] theorem setCounterLcdOff_gb_halt (s : gb_s) (v : Nat) : (setCounterLcdOff s v).gb_halt = s.gb_halt := rfl

@[simp] theorem setCounterLcdOff_gb_ime (s : gb_s) (v : Nat) : (setCounterLcdOff s v).gb_ime = s.gb_ime := rfl

@[simp] theorem setCounterLcdOff_gb_frame (s : gb_s) (v : Nat) : (setCounterLcdOff s v).gb_frame = s.gb_frame := rfl

@[simp] theorem setCounterLcdOff_lcd_blank (s : gb_s) (v : Nat) : (setCounterLcdOff s v).lcd_blank = s.lcd_blank := rfl

@[simp] theorem setCounterLcdOff_cart_is_mbc3O (s : gb_s) (v : Nat) : (setCounterLcdOff s v).cart_is_mbc3O = s.cart_is_mbc3O := rfl

@[simp] theorem setCounterLcdOff_mbc (s : gb_s) (v : Nat) : (setCounterLcdOff s v).mbc = s.mbc := rfl

@[simp] theorem setCounterLcdOff_cart_ram (s : gb_s) (v : Nat) : (setCounterLcdOff s v).cart_ram = s.cart_ram := rfl

@[simp] theorem setCounterLcdOff_num_rom_banks_mask (s : gb_s) (v : Nat) : (setCounterLcdOff s v).num_rom_banks_mask = s.num_rom_banks_mask := rfl

@[simp] theorem setCounterLcdOff_num_ram_banks (s : gb_s) (v : Nat) : (setCounterLcdOff s v).num_ram_banks = s.num_ram_banks := rfl

@[simp] theorem setCounterLcdOff_selected_rom_bank (s : gb_s) (v : Nat) : (setCounterLcdOff s v).selected_rom_bank = s.selected_rom_bank := rfl

@[simp] theorem setCounterLcdOff_cart_ram_bank (s : gb_s) (v : Nat) : (setCounterLcdOff s v).cart_ram_bank = s.cart_ram_bank := rfl

@[simp] theorem setCounterLcdOff_enable_cart_ram (s : gb_s) (v : Nat) : (setCounterLcdOff s v).enable_cart_ram = s.enable_cart_ram := rfl

@[simp] theorem setCounterLcdOff_cart_mode_select (s : gb_s) (v : Nat) : (setCounterLcdOff s v).cart_mode_select = s.cart_mode_select := rfl

@[simp] theorem setCounterLcdOff_rtc_latched (s : gb_s) (v : Nat) : (setCounterLcdOff s v).rtc_latched = s.rtc_latched := rfl

@[simp] theorem setCounterLcdOff_rtc_real (s : gb_s) (v : Nat) : (setCounterLcdOff s v).rtc_real = s.rtc_real := rfl

@[simp] theorem setCounterLcdOff_cpu_a (s : gb_s) (v : Nat) : (setCounterLcdOff s v).cpu_a = s.cpu_a := rfl

@[simp] theorem setCounterLcdOff_cpu_f_z (s : gb_s) (v : Nat) : (setCounterLcdOff s v).cpu_f_z = s.cpu_f_z := rfl

@[simp] theorem setCounterLcdOff_cpu_f_n (s : gb_s) (v : Nat) : (setCounterLcdOff s v).cpu_f_n = s.cpu_f_n := rfl

@[simp] theorem setCounterLcdOff_cpu_f_h (s : gb_s) (v : Nat) : (setCounterLcdOff s v).cpu_f_h = s.cpu_f_h := rfl

@[simp] theorem setCounterLcdOff_cpu_f_c (s : gb_s) (v : Nat) : (setCounterLcdOff s v).cpu_f_c = s.cpu_f_c := rfl

@[simp] theorem setCounterLcdOff_cpu_bc (s : gb_s) (v : Nat) : (setCounterLcdOff s v).cpu_bc = s.cpu_bc := rfl

@[simp] theorem setCounterLcdOff_cpu_de (s : gb_s) (v : Nat) : (setCounterLcdOff s v).cpu_de = s.cpu_de := rfl

@[simp] theorem setCounterLcdOff_cpu_hl (s : gb_s) (v : Nat) : (setCounterLcdOff s v).cpu_hl = s.cpu_hl := rfl

@[simp] theorem setCounterLcdOff_cpu_sp (s : gb_s) (v : Nat) : (setCounterLcdOff s v).cpu_sp = s.cpu_sp := rfl

@[simp] theorem setCounterLcdOff_cpu_pc (s : gb_s) (v : Nat) : (setCounterLcdOff s v).cpu_pc = s.cpu_pc := rfl

@[simp] theorem setCounterLcdOff_counter_lcd (s : gb_s) (v : Nat) : (setCounterLcdOff s v).counter_lcd = s.counter_lcd := rfl

@[simp] theorem setCounterLcdOff_counter_div (s : gb_s) (v : Nat) : (setCounterLcdOff s v).counter_div = s.counter_div := rfl

@[simp] theorem setCounterLcdOff_counter_tima (s : gb_s) (v : Nat) : (setCounterLcdOff s v).counter_tima = s.counter_tima := rfl

@[simp] theorem setCounterLcdOff_counter_serial (s : gb_s) (v : Nat) : (setCounterLcdOff s v).counter_serial = s.counter_serial := rfl

@[simp] theorem setCounterLcdOff_counter_rtc (s : gb_s) (v : Nat) : (setCounterLcdOff s v).counter_rtc = s.counter_rtc := rfl

@[simp] theorem setCounterLcdOff_counter_lcd_off (s : gb_s) (v : Nat) : (setCounterLcdOff s v).counter_lcd_off = v := rfl

@[simp] theorem setCounterLcdOff_wram (s : gb_s) (v : Nat) : (setCounterLcdOff s v).wram = s.wram := rfl

@[simp] theorem setCounterLcdOff_vram (s : gb_s) (v : Nat) : (setCounterLcdOff s v).vram = s.vram := rfl

@[simp] theorem setCounterLcdOff_oam (s : gb_s) (v : Nat) : (setCounterLcdOff s v).oam = s.oam := rfl

@[simp] theorem setCounterLcdOff_hram_io (s : gb_s) (v : Nat) : (setCounterLcdOff s v).hram_io = s.hram_io := rfl

@[simp] theorem setCounterLcdOff_display_lcd_draw_line (s : gb_s) (v : Nat) : (setCounterLcdOff s v).display_lcd_draw_line = s.display_lcd_draw_line := rfl

@[simp] theorem setCounterLcdOff_display_bg_palette (s : gb_s) (v : Nat) : (setCounterLcdOff s v).display_bg_palette = s.display_bg_palette := rfl

@[simp] theorem setCounterLcdOff_display_sp_palette (s : gb_s) (v : Nat) : (setCounterLcdOff s v).display_sp_palette = s.display_sp_palette := rfl

@[simp] theorem setCounterLcdOff_display_window_clear (s : gb_s) (v : Nat) : (setCounterLcdOff s v).display_window_clear = s.display_window_clear := rfl

@[simp] theorem setCounterLcdOff_display_WY (s : gb_s) (v : Nat) : (setCounterLcdOff s v).display_WY = s.display_WY := rfl

@[simp] theorem setCounterLcdOff_display_frame_skip_count (s : gb_s) (v : Nat) : (setCounterLcdOff s v).display_frame_skip_count = s.display_frame_skip_count := rfl

@[simp] theorem setCounterLcdOff_display_interlace_count (s : gb_s) (v : Nat) : (setCounterLcdOff s v).display_interlace_count = s.display_interlace_count := rfl

@[simp] theorem setCounterLcdOff_direct_interlace (s : gb_s) (v : Nat) : (setCounterLcdOff s v).direct_interlace = s.direct_interlace := rfl

@[simp] theorem setCounterLcdOff_direct_frame_skip (s : gb_s) (v : Nat) : (setCounterLcdOff s v).direct_frame_skip = s.direct_frame_skip := rfl

@[simp] theorem setCounterLcdOff_direct_joypad (s : gb_s) (v : Nat) : (setCounterLcdOff s v).direct_joypad = s.direct_joypad := rfl

@[simp] theorem setDispDrawLine_gb_rom_read (s : gb_s) (v : Bool) : (setDispDrawLine s v).gb_rom_read = s.gb_rom_read := rfl

@[simp] theorem setDispDrawLine_gb_bootrom_read (s : gb_s) (v : Bool) : (setDispDrawLine s v).gb_bootrom_read = s.gb_bootrom_read := rfl

@[simp] theorem setDispDrawLine_has_bootrom (s : gb_s) (v : Bool) : (setDispDrawLine s v).has_bootrom = s.has_bootrom := rfl

@[simp] theorem setDispDrawLine_cart_ram_data (s : gb_s) (v : Bool) : (setDispDrawLine s v).cart_ram_data = s.cart_ram_data := rfl

@[simp] theorem setDispDrawLine_gb_serial_rx (s : gb_s) (v : Bool) : (setDispDrawLine s v).gb_serial_rx = s.gb_serial_rx := rfl

@[simp] theorem setDispDrawLine_gb_halt (s : gb_s) (v : Bool) : (setDispDrawLine s v).gb_halt = s.gb_halt := rfl

@[simp] theorem setDispDrawLine_gb_ime (s : gb_s) (v : Bool) : (setDispDrawLine s v).gb_ime = s.gb_ime := rfl

@[simp] theorem setDispDrawLine_gb_frame (s : gb_s) (v : Bool) : (setDispDrawLine s v).gb_frame = s.gb_frame := rfl

@[simp] theorem setDispDrawLine_lcd_blank (s : gb_s) (v : Bool) : (setDispDrawLine s v).lcd_blank = s.lcd_blank := rfl

@[simp] theorem setDispDrawLine_cart_is_mbc3O (s : gb_s) (v : Bool) : (setDispDrawLine s v).cart_is_mbc3O = s.cart_is_mbc3O := rfl

@[simp] theorem setDispDrawLine_mbc (s : gb_s) (v : Bool) : (setDispDrawLine s v).mbc = s.mbc := rfl

@[simp] theorem setDispDrawLine_cart_ram (s : gb_s) (v : Bool) : (setDispDrawLine s v).cart_ram = s.cart_ram := rfl

@[simp] theorem setDispDrawLine_num_rom_banks_mask (s : gb_s) (v : Bool) : (setDispDrawLine s v).num_rom_banks_mask = s.num_rom_banks_mask := rfl

@[simp] theorem setDispDrawLine_num_ram_banks (s : gb_s) (v : Bool) : (setDispDrawLine s v).num_ram_banks = s.num_ram_banks := rfl

@[simp] theorem setDispDrawLine_selected_rom_bank (s : gb_s) (v : Bool) : (setDispDrawLine s v).selected_rom_bank = s.selected_rom_bank := rfl

@[simp] theorem setDispDrawLine_cart_ram_bank (s : gb_s) (v : Bool) : (setDispDrawLine s v).cart_ram_bank = s.cart_ram_bank := rfl

@[simp] theorem setDispDrawLine_enable_cart_ram (s : gb_s) (v : Bool) : (setDispDrawLine s v).enable_cart_ram = s.enable_cart_ram := rfl

@[simp] theorem setDispDrawLine_cart_mode_select (s : gb_s) (v : Bool) : (setDispDrawLine s v).cart_mode_select = s.cart_mode_select := rfl

@[simp] theorem setDispDrawLine_rtc_latched (s : gb_s) (v : Bool) : (setDispDrawLine s v).rtc_latched = s.rtc_latched := rfl

@[simp] theorem setDispDrawLine_rtc_real (s : gb_s) (v : Bool) : (setDispDrawLine s v).rtc_real = s.rtc_real := rfl

@[simp] theorem setDispDrawLine_cpu_a (s : gb_s) (v : Bool) : (setDispDrawLine s v).cpu_a = s.cpu_a := rfl

@[simp] theorem setDispDrawLine_cpu_f_z (s : gb_s) (v : Bool) : (setDispDrawLine s v).cpu_f_z = s.cpu_f_z := rfl

@[simp] theorem setDispDrawLine_cpu_f_n (s : gb_s) (v : Bool) : (setDispDrawLine s v).cpu_f_n = s.cpu_f_n := rfl

@[simp] theorem setDispDrawLine_cpu_f_h (s : gb_s) (v : Bool) : (setDispDrawLine s v).cpu_f_h = s.cpu_f_h := rfl

@[simp] theorem setDispDrawLine_cpu_f_c (s : gb_s) (v : Bool) : (setDispDrawLine s v).cpu_f_c = s.cpu_f_c := rfl

@[simp] theorem setDispDrawLine_cpu_bc (s : gb_s) (v : Bool) : (setDispDrawLine s v).cpu_bc = s.cpu_bc := rfl

@[simp] theorem setDispDrawLine_cpu_de (s : gb_s) (v : Bool) : (setDispDrawLine s v).cpu_de = s.cpu_de := rfl

@[simp] theorem setDispDrawLine_cpu_hl (s : gb_s) (v : Bool) : (setDispDrawLine s v).cpu_hl = s.cpu_hl := rfl

@[simp] theorem setDispDrawLine_cpu_sp (s : gb_s) (v : Bool) : (setDispDrawLine s v).cpu_sp = s.cpu_sp := rfl

@[simp] theorem setDispDrawLine_cpu_pc (s : gb_s) (v : Bool) : (setDispDrawLine s v).cpu_pc = s.cpu_pc := rfl

@[simp] theorem setDispDrawLine_counter_lcd (s : gb_s) (v : Bool) : (setDispDrawLine s v).counter_lcd = s.counter_lcd := rfl

@[simp] theorem setDispDrawLine_counter_div (s : gb_s) (v : Bool) : (setDispDrawLine s v).counter_div = s.counter_div := rfl

@[simp] theorem setDispDrawLine_counter_tima (s : gb_s) (v : Bool) : (setDispDrawLine s v).counter_tima = s.counter_tima := rfl

@[simp] theorem setDispDrawLine_counter_serial (s : gb_s) (v : Bool) : (setDispDrawLine s v).counter_serial = s.counter_serial := rfl

@[simp] theorem setDispDrawLine_counter_rtc (s : gb_s) (v : Bool) : (setDispDrawLine s v).counter_rtc = s.counter_rtc := rfl

@[simp] theorem setDispDrawLine_counter_lcd_off (s : gb_s) (v : Bool) : (setDispDrawLine s v).counter_lcd_off = s.counter_lcd_off := rfl

@[simp] theorem setDispDrawLine_wram (s : gb_s) (v : Bool) : (setDispDrawLine s v).wram = s.wram := rfl

@[simp] theorem setDispDrawLine_vram (s : gb_s) (v : Bool) : (setDispDrawLine s v).vram = s.vram := rfl

@[simp] theorem setDispDrawLine_oam (s : gb_s) (v : Bool) : (setDispDrawLine s v).oam = s.oam := rfl

@[simp] theorem setDispDrawLine_hram_io (s : gb_s) (v : Bool) : (setDispDrawLine s v).hram_io = s.hram_io := rfl

@[simp] theorem setDispDrawLine_display_lcd_draw_line (s : gb_s) (v : Bool) : (setDispDrawLine s v).display_lcd_draw_line = v := rfl

@[simp] theorem setDispDrawLine_display_bg_palette (s : gb_s) (v : Bool) : (setDispDrawLine s v).display_bg_palette = s.display_bg_palette := rfl

@[simp] theorem setDispDrawLine_display_sp_palette (s : gb_s) (v : Bool) : (setDispDrawLine s v).display_sp_palette = s.display_sp_palette := rfl

@[simp] theorem setDispDrawLine_display_window_clear (s : gb_s) (v : Bool) : (setDispDrawLine s v).display_window_clear = s.display_window_clear := rfl

@[simp] theorem setDispDrawLine_display_WY (s : gb_s) (v : Bool) : (setDispDrawLine s v).display_WY = s.display_WY := rfl

@[simp] theorem setDispDrawLine_display_frame_skip_count (s : gb_s) (v : Bool) : (setDispDrawLine s v).display_frame_skip_count = s.display_frame_skip_count := rfl

@[simp] theorem setDispDrawLine_display_interlace_count (s : gb_s) (v : Bool) : (setDispDrawLine s v).display_interlace_count = s.display_interlace_count := rfl

@[simp] theorem setDispDrawLine_direct_interlace (s : gb_s) (v : Bool) : (setDispDrawLine s v).direct_interlace = s.direct_interlace := rfl

@[simp] theorem setDispDrawLine_direct_frame_skip (s : gb_s) (v : Bool) : (setDispDrawLine s v).direct_frame_skip = s.direct_frame_skip := rfl

@[simp] theorem setDispDrawLine_direct_joypad (s : gb_s) (v : Bool) : (setDispDrawLine s v).direct_joypad = s.direct_joypad := rfl

@[simp] theorem setDispBgPalette_gb_rom_read (s : gb_s) (v : Nat → Nat) : (setDispBgPalette s v).gb_rom_read = s.gb_rom_read := rfl

@[simp] theorem setDispBgPalette_gb_bootrom_read (s : gb_s) (v : Nat → Nat) : (setDispBgPalette s v).gb_bootrom_read = s.gb_bootrom_read := rfl

@[simp] theorem setDispBgPalette_has_bootrom (s : gb_s) (v : Nat → Nat) : (setDispBgPalette s v).has_bootrom = s.has_bootrom := rfl

@[simp] theorem setDispBgPalette_cart_ram_data (s : gb_s) (v : Nat → Nat) : (setDispBgPalette s v).cart_ram_data = s.cart_ram_data := rfl

@[simp] theorem setDispBgPalette_gb_serial_rx (s : gb_s) (v : Nat → Nat) : (setDispBgPalette s v).gb_serial_rx = s.gb_serial_rx := rfl

@[simp] theorem setDispBgPalette_gb_halt (s : gb_s) (v : Nat → Nat) : (setDispBgPalette s v).gb_halt = s.gb_halt := rfl

@[simp] theorem setDispBgPalette_gb_ime (s : gb_s) (v : Nat → Nat) : (setDispBgPalette s v).gb_ime = s.gb_ime := rfl

@[simp] theorem setDispBgPalette_gb_frame (s : gb_s) (v : Nat → Nat) : (setDispBgPalette s v).gb_frame = s.gb_frame := rfl

@[simp] theorem setDispBgPalette_lcd_blank (s : gb_s) (v : Nat → Nat) : (setDispBgPalette s v).lcd_blank = s.lcd_blank := rfl

@[simp] theorem setDispBgPalette_cart_is_mbc3O (s : gb_s) (v : Nat → Nat) : (setDispBgPalette s v).cart_is_mbc3O = s.cart_is_mbc3O := rfl

@[simp] theorem setDispBgPalette_mbc (s : gb_s) (v : Nat → Nat) : (setDispBgPalette s v).mbc = s.mbc := rfl

@[simp] theorem setDispBgPalette_cart_ram (s : gb_s) (v : Nat → Nat) : (setDispBgPalette s v).cart_ram = s.cart_ram := rfl

@[simp] theorem setDispBgPalette_num_rom_banks_mask (s : gb_s) (v : Nat → Nat) : (setDispBgPalette s v).num_rom_banks_mask = s.num_rom_banks_mask := rfl

@[simp] theorem setDispBgPalette_num_ram_banks (s : gb_s) (v : Nat → Nat) : (setDispBgPalette s v).num_ram_banks = s.num_ram_banks := rfl

@[simp] theorem setDispBgPalette_selected_rom_bank (s : gb_s) (v : Nat → Nat) : (setDispBgPalette s v).selected_rom_bank = s.selected_rom_bank := rfl

@[simp] theorem setDispBgPalette_cart_ram_bank (s : gb_s) (v : Nat → Nat) : (setDispBgPalette s v).cart_ram_bank = s.cart_ram_bank := rfl

@[simp] theorem setDispBgPalette_enable_cart_ram (s : gb_s) (v : Nat → Nat) : (setDispBgPalette s v).enable_cart_ram = s.enable_cart_ram := rfl

@[simp] theorem setDispBgPalette_cart_mode_select (s : gb_s) (v : Nat → Nat) : (setDispBgPalette s v).cart_mode_select = s.cart_mode_select := rfl

@[simp] theorem setDispBgPalette_rtc_latched (s : gb_s) (v : Nat → Nat) : (setDispBgPalette s v).rtc_latched = s.rtc_latched := rfl

@[simp] theorem setDispBgPalette_rtc_real (s : gb_s) (v : Nat → Nat) : (setDispBgPalette s v).rtc_real = s.rtc_real := rfl

@[simp] theorem setDispBgPalette_cpu_a (s : gb_s) (v : Nat → Nat) : (setDispBgPalette s v).cpu_a = s.cpu_a := rfl

@[simp] theorem setDispBgPalette_cpu_f_z (s : gb_s) (v : Nat → Nat) : (setDispBgPalette s v).cpu_f_z = s.cpu_f_z := rfl

@[simp] theorem setDispBgPalette_cpu_f_n (s : gb_s) (v : Nat → Nat) : (setDispBgPalette s v).cpu_f_n = s.cpu_f_n := rfl

@[simp] theorem setDispBgPalette_cpu_f_h (s : gb_s) (v : Nat → Nat) : (setDispBgPalette s v).cpu_f_h = s.cpu_f_h := rfl

@[simp] theorem setDispBgPalette_cpu_f_c (s : gb_s) (v : Nat → Nat) : (setDispBgPalette s v).cpu_f_c = s.cpu_f_c := rfl

@[simp] theorem setDispBgPalette_cpu_bc (s : gb_s) (v : Nat → Nat) : (setDispBgPalette s v).cpu_bc = s.cpu_bc := rfl

@[simp] theorem setDispBgPalette_cpu_de (s : gb_s) (v : Nat → Nat) : (setDispBgPalette s v).cpu_de = s.cpu_de := rfl

@[simp] theorem setDispBgPalette_cpu_hl (s : gb_s) (v : Nat → Nat) : (setDispBgPalette s v).cpu_hl = s.cpu_hl := rfl

@[simp] theorem setDispBgPalette_cpu_sp (s : gb_s) (v : Nat → Nat) : (setDispBgPalette s v).cpu_sp = s.cpu_sp := rfl

@[simp] theorem setDispBgPalette_cpu_pc (s : gb_s) (v : Nat → Nat) : (setDispBgPalette s v).cpu_pc = s.cpu_pc := rfl

@[simp] theorem setDispBgPalette_counter_lcd (s : gb_s) (v : Nat → Nat) : (setDispBgPalette s v).counter_lcd = s.counter_lcd := rfl

@[simp] theorem setDispBgPalette_counter_div (s : gb_s) (v : Nat → Nat) : (setDispBgPalette s v).counter_div = s.counter_div := rfl

@[simp] theorem setDispBgPalette_counter_tima (s : gb_s) (v : Nat → Nat) : (setDispBgPalette s v).counter_tima = s.counter_tima := rfl

@[simp] theorem setDispBgPalette_counter_serial (s : gb_s) (v : Nat → Nat) : (setDispBgPalette s v).counter_serial = s.counter_serial := rfl

@[simp] theorem setDispBgPalette_counter_rtc (s : gb_s) (v : Nat → Nat) : (setDispBgPalette s v).counter_rtc = s.counter_rtc := rfl

@[simp] theorem setDispBgPalette_counter_lcd_off (s : gb_s) (v : Nat → Nat) : (setDispBgPalette s v).counter_lcd_off = s.counter_lcd_off := rfl

@[simp] theorem setDispBgPalette_wram (s : gb_s) (v : Nat → Nat) : (setDispBgPalette s v).wram = s.wram := rfl

@[simp] theorem setDispBgPalette_vram (s : gb_s) (v : Nat → Nat) : (setDispBgPalette s v).vram = s.vram := rfl

@[simp] theorem setDispBgPalette_oam (s : gb_s) (v : Nat → Nat) : (setDispBgPalette s v).oam = s.oam := rfl

@[simp] theorem setDispBgPalette_hram_io (s : gb_s) (v : Nat → Nat) : (setDispBgPalette s v).hram_io = s.hram_io := rfl

@[simp] theorem setDispBgPalette_display_lcd_draw_line (s : gb_s) (v : Nat → Nat) : (setDispBgPalette s v).display_lcd_draw_line = s.display_lcd_draw_line := rfl

@[simp] theorem setDispBgPalette_display_bg_palette (s : gb_s) (v : Nat → Nat) : (setDispBgPalette s v).display_bg_palette = v := rfl

@[simp] theorem setDispBgPalette_display_sp_palette (s : gb_s) (v : Nat → Nat) : (setDispBgPalette s v).display_sp_palette = s.display_sp_palette := rfl

@[simp] theorem setDispBgPalette_display_window_clear (s : gb_s) (v : Nat → Nat) : (setDispBgPalette s v).display_window_clear = s.display_window_clear := rfl

@[simp] theorem setDispBgPalette_display_WY (s : gb_s) (v : Nat → Nat) : (setDispBgPalette s v).display_WY = s.display_WY := rfl

@[simp] theorem setDispBgPalette_display_frame_skip_count (s : gb_s) (v : Nat → Nat) : (setDispBgPalette s v).display_frame_skip_count = s.display_frame_skip_count := rfl

@[simp] theorem setDispBgPalette_display_interlace_count (s : gb_s) (v : Nat → Nat) : (setDispBgPalette s v).display_interlace_count = s.display_interlace_count := rfl

@[simp] theorem setDispBgPalette_direct_interlace (s : gb_s) (v : Nat → Nat) : (setDispBgPalette s v).direct_interlace = s.direct_interlace := rfl

@[simp] theorem setDispBgPalette_direct_frame_skip (s : gb_s) (v : Nat → Nat) : (setDispBgPalette s v).direct_frame_skip = s.direct_frame_skip := rfl

@[simp] theorem setDispBgPalette_direct_joypad (s : gb_s) (v : Nat → Nat) : (setDispBgPalette s v).direct_joypad = s.direct_joypad := rfl

@[simp] theorem setDispSpPalette_gb_rom_read (s : gb_s) (v : Nat → Nat) : (setDispSpPalette s v).gb_rom_read = s.gb_rom_read := rfl

@[simp] theorem setDispSpPalette_gb_bootrom_read (s : gb_s) (v : Nat → Nat) : (setDispSpPalette s v).gb_bootrom_read = s.gb_bootrom_read := rfl

@[simp] theorem setDispSpPalette_has_bootrom (s : gb_s) (v : Nat → Nat) : (setDispSpPalette s v).has_bootrom = s.has_bootrom := rfl

@[simp] theorem setDispSpPalette_cart_ram_data (s : gb_s) (v : Nat → Nat) : (setDispSpPalette s v).cart_ram_data = s.cart_ram_data := rfl

@[simp] theorem setDispSpPalette_gb_serial_rx (s : gb_s) (v : Nat → Nat) : (setDispSpPalette s v).gb_serial_rx = s.gb_serial_rx := rfl

@[simp] theorem setDispSpPalette_gb_halt (s : gb_s) (v : Nat → Nat) : (setDispSpPalette s v).gb_halt = s.gb_halt := rfl

@[simp] theorem setDispSpPalette_gb_ime (s : gb_s) (v : Nat → Nat) : (setDispSpPalette s v).gb_ime = s.gb_ime := rfl

@[simp] theorem setDispSpPalette_gb_frame (s : gb_s) (v : Nat → Nat) : (setDispSpPalette s v).gb_frame = s.gb_frame := rfl

@[simp] theorem setDispSpPalette_lcd_blank (s : gb_s) (v : Nat → Nat) : (setDispSpPalette s v).lcd_blank = s.lcd_blank := rfl

@[simp] theorem setDispSpPalette_cart_is_mbc3O (s : gb_s) (v : Nat → Nat) : (setDispSpPalette s v).cart_is_mbc3O = s.cart_is_mbc3O := rfl

@[simp] theorem setDispSpPalette_mbc (s : gb_s) (v : Nat → Nat) : (setDispSpPalette s v).mbc = s.mbc := rfl

@[simp] theorem setDispSpPalette_cart_ram (s : gb_s) (v : Nat → Nat) : (setDispSpPalette s v).cart_ram = s.cart_ram := rfl

@[simp] theorem setDispSpPalette_num_rom_banks_mask (s : gb_s) (v : Nat → Nat) : (setDispSpPalette s v).num_rom_banks_mask = s.num_rom_banks_mask := rfl

@[simp] theorem setDispSpPalette_num_ram_banks (s : gb_s) (v : Nat → Nat) : (setDispSpPalette s v).num_ram_banks = s.num_ram_banks := rfl

@[simp] theorem setDispSpPalette_selected_rom_bank (s : gb_s) (v : Nat → Nat) : (setDispSpPalette s v).selected_rom_bank = s.selected_rom_bank := rfl

@[simp] theorem setDispSpPalette_cart_ram_bank (s : gb_s) (v : Nat → Nat) : (setDispSpPalette s v).cart_ram_bank = s.cart_ram_bank := rfl

@[simp] theorem setDispSpPalette_enable_cart_ram (s : gb_s) (v : Nat → Nat) : (setDispSpPalette s v).enable_cart_ram = s.enable_cart_ram := rfl

@[simp] theorem setDispSpPalette_cart_mode_select (s : gb_s) (v : Nat → Nat) : (setDispSpPalette s v).cart_mode_select = s.cart_mode_select := rfl

@[simp] theorem setDispSpPalette_rtc_latched (s : gb_s) (v : Nat → Nat) : (setDispSpPalette s v).rtc_latched = s.rtc_latched := rfl

@[simp] theorem setDispSpPalette_rtc_real (s : gb_s) (v : Nat → Nat) : (setDispSpPalette s v).rtc_real = s.rtc_real := rfl

@[simp] theorem setDispSpPalette_cpu_a (s : gb_s) (v : Nat → Nat) : (setDispSpPalette s v).cpu_a = s.cpu_a := rfl

@[simp] theorem setDispSpPalette_cpu_f_z (s : gb_s) (v : Nat → Nat) : (setDispSpPalette s v).cpu_f_z = s.cpu_f_z := rfl

@[simp] theorem setDispSpPalette_cpu_f_n (s : gb_s) (v : Nat → Nat) : (setDispSpPalette s v).cpu_f_n = s.cpu_f_n := rfl

@[simp] theorem setDispSpPalette_cpu_f_h (s : gb_s) (v : Nat → Nat) : (setDispSpPalette s v).cpu_f_h = s.cpu_f_h := rfl

@[simp] theorem setDispSpPalette_cpu_f_c (s : gb_s) (v : Nat → Nat) : (setDispSpPalette s v).cpu_f_c = s.cpu_f_c := rfl

@[simp] theorem setDispSpPalette_cpu_bc (s : gb_s) (v : Nat → Nat) : (setDispSpPalette s v).cpu_bc = s.cpu_bc := rfl

@[simp] theorem setDispSpPalette_cpu_de (s : gb_s) (v : Nat → Nat) : (setDispSpPalette s v).cpu_de = s.cpu_de := rfl

@[simp] theorem setDispSpPalette_cpu_hl (s : gb_s) (v : Nat → Nat) : (setDispSpPalette s v).cpu_hl = s.cpu_hl := rfl

@[simp] theorem setDispSpPalette_cpu_sp (s : gb_s) (v : Nat → Nat) : (setDispSpPalette s v).cpu_sp = s.cpu_sp := rfl

@[simp] theorem setDispSpPalette_cpu_pc (s : gb_s) (v : Nat → Nat) : (setDispSpPalette s v).cpu_pc = s.cpu_pc := rfl

@[simp] theorem setDispSpPalette_counter_lcd (s : gb_s) (v : Nat → Nat) : (setDispSpPalette s v).counter_lcd = s.counter_lcd := rfl

@[simp] theorem setDispSpPalette_counter_div (s : gb_s) (v : Nat → Nat) : (setDispSpPalette s v).counter_div = s.counter_div := rfl

@[simp] theorem setDispSpPalette_counter_tima (s : gb_s) (v : Nat → Nat) : (setDispSpPalette s v).counter_tima = s.counter_tima := rfl

@[simp] theorem setDispSpPalette_counter_serial (s : gb_s) (v : Nat → Nat) : (setDispSpPalette s v).counter_serial = s.counter_serial := rfl

@[simp] theorem setDispSpPalette_counter_rtc (s : gb_s) (v : Nat → Nat) : (setDispSpPalette s v).counter_rtc = s.counter_rtc := rfl

@[simp] theorem setDispSpPalette_counter_lcd_off (s : gb_s) (v : Nat → Nat) : (setDispSpPalette s v).counter_lcd_off = s.counter_lcd_off := rfl

@[simp] theorem setDispSpPalette_wram (s : gb_s) (v : Nat → Nat) : (setDispSpPalette s v).wram = s.wram := rfl

@[simp] theorem setDispSpPalette_vram (s : gb_s) (v : Nat → Nat) : (setDispSpPalette s v).vram = s.vram := rfl

@[simp] theorem setDispSpPalette_oam (s : gb_s) (v : Nat → Nat) : (setDispSpPalette s v).oam = s.oam := rfl

@[simp] theorem setDispSpPalette_hram_io (s : gb_s) (v : Nat → Nat) : (setDispSpPalette s v).hram_io = s.hram_io := rfl

@[simp] theorem setDispSpPalette_display_lcd_draw_line (s : gb_s) (v : Nat → Nat) : (setDispSpPalette s v).display_lcd_draw_line = s.display_lcd_draw_line := rfl

@[simp] theorem setDispSpPalette_display_bg_palette (s : gb_s) (v : Nat → Nat) : (setDispSpPalette s v).display_bg_palette = s.display_bg_palette := rfl

@[simp] theorem setDispSpPalette_display_sp_palette (s : gb_s) (v : Nat → Nat) : (setDispSpPalette s v).display_sp_palette = v := rfl

@[simp] theorem setDispSpPalette_display_window_clear (s : gb_s) (v : Nat → Nat) : (setDispSpPalette s v).display_window_clear = s.display_window_clear := rfl

@[simp] theorem setDispSpPalette_display_WY (s : gb_s) (v : Nat → Nat) : (setDispSpPalette s v).display_WY = s.display_WY := rfl

@[simp] theorem setDispSpPalette_display_frame_skip_count (s : gb_s) (v : Nat → Nat) : (setDispSpPalette s v).display_frame_skip_count = s.display_frame_skip_count := rfl

@[simp] theorem setDispSpPalette_display_interlace_count (s : gb_s) (v : Nat → Nat) : (setDispSpPalette s v).display_interlace_count = s.display_interlace_count := rfl

@[simp] theorem setDispSpPalette_direct_interlace (s : gb_s) (v : Nat → Nat) : (setDispSpPalette s v).direct_interlace = s.direct_interlace := rfl

@[simp] theorem setDispSpPalette_direct_frame_skip (s : gb_s) (v : Nat → Nat) : (setDispSpPalette s v).direct_frame_skip = s.direct_frame_skip := rfl

@[simp] theorem setDispSpPalette_direct_joypad (s : gb_s) (v : Nat → Nat) : (setDispSpPalette s v).direct_joypad = s.direct_joypad := rfl

@[simp] theorem setDispWindowClear_gb_rom_read (s : gb_s) (v : Nat) : (setDispWindowClear s v).gb_rom_read = s.gb_rom_read := rfl

@[simp] theorem setDispWindowClear_gb_bootrom_read (s : gb_s) (v : Nat) : (setDispWindowClear s v).gb_bootrom_read = s.gb_bootrom_read := rfl

@[simp] theorem setDispWindowClear_has_bootrom (s : gb_s) (v : Nat) : (setDispWindowClear s v).has_bootrom = s.has_bootrom := rfl

@[simp] theorem setDispWindowClear_cart_ram_data (s : gb_s) (v : Nat) : (setDispWindowClear s v).cart_ram_data = s.cart_ram_data := rfl

@[simp] theorem setDispWindowClear_gb_serial_rx (s : gb_s) (v : Nat) : (setDispWindowClear s v).gb_serial_rx = s.gb_serial_rx := rfl

@[simp] theorem setDispWindowClear_gb_halt (s : gb_s) (v : Nat) : (setDispWindowClear s v).gb_halt = s.gb_halt := rfl

@[simp] theorem setDispWindowClear_gb_ime (s : gb_s) (v : Nat) : (setDispWindowClear s v).gb_ime = s.gb_ime := rfl

@[simp] theorem setDispWindowClear_gb_frame (s : gb_s) (v : Nat) : (setDispWindowClear s v).gb_frame = s.gb_frame := rfl

@[simp] theorem setDispWindowClear_lcd_blank (s : gb_s) (v : Nat) : (setDispWindowClear s v).lcd_blank = s.lcd_blank := rfl

@[simp] theorem setDispWindowClear_cart_is_mbc3O (s : gb_s) (v : Nat) : (setDispWindowClear s v).cart_is_mbc3O = s.cart_is_mbc3O := rfl

@[simp] theorem setDispWindowClear_mbc (s : gb_s) (v : Nat) : (setDispWindowClear s v).mbc = s.mbc := rfl

@[simp] theorem setDispWindowClear_cart_ram (s : gb_s) (v : Nat) : (setDispWindowClear s v).cart_ram = s.cart_ram := rfl

@[simp] theorem setDispWindowClear_num_rom_banks_mask (s : gb_s) (v : Nat) : (setDispWindowClear s v).num_rom_banks_mask = s.num_rom_banks_mask := rfl

@[simp] theorem setDispWindowClear_num_ram_banks (s : gb_s) (v : Nat) : (setDispWindowClear s v).num_ram_banks = s.num_ram_banks := rfl

@[simp] theorem setDispWindowClear_selected_rom_bank (s : gb_s) (v : Nat) : (setDispWindowClear s v).selected_rom_bank = s.selected_rom_bank := rfl

@[simp] theorem setDispWindowClear_cart_ram_bank (s : gb_s) (v : Nat) : (setDispWindowClear s v).cart_ram_bank = s.cart_ram_bank := rfl

@[simp] theorem setDispWindowClear_enable_cart_ram (s : gb_s) (v : Nat) : (setDispWindowClear s v).enable_cart_ram = s.enable_cart_ram := rfl

@[simp] theorem setDispWindowClear_cart_mode_select (s : gb_s) (v : Nat) : (setDispWindowClear s v).cart_mode_select = s.cart_mode_select := rfl

@[simp] theorem setDispWindowClear_rtc_latched (s : gb_s) (v : Nat) : (setDispWindowClear s v).rtc_latched = s.rtc_latched := rfl

@[simp] theorem setDispWindowClear_rtc_real (s : gb_s) (v : Nat) : (setDispWindowClear s v).rtc_real = s.rtc_real := rfl

@[simp] theorem setDispWindowClear_cpu_a (s : gb_s) (v : Nat) : (setDispWindowClear s v).cpu_a = s.cpu_a := rfl

@[simp] theorem setDispWindowClear_cpu_f_z (s : gb_s) (v : Nat) : (setDispWindowClear s v).cpu_f_z = s.cpu_f_z := rfl

@[simp] theorem setDispWindowClear_cpu_f_n (s : gb_s) (v : Nat) : (setDispWindowClear s v).cpu_f_n = s.cpu_f_n := rfl

@[simp] theorem setDispWindowClear_cpu_f_h (s : gb_s) (v : Nat) : (setDispWindowClear s v).cpu_f_h = s.cpu_f_h := rfl

@[simp] theorem setDispWindowClear_cpu_f_c (s : gb_s) (v : Nat) : (setDispWindowClear s v).cpu_f_c = s.cpu_f_c := rfl

@[simp] theorem setDispWindowClear_cpu_bc (s : gb_s) (v : Nat) : (setDispWindowClear s v).cpu_bc = s.cpu_bc := rfl

@[simp] theorem setDispWindowClear_cpu_de (s : gb_s) (v : Nat) : (setDispWindowClear s v).cpu_de = s.cpu_de := rfl

@[simp] theorem setDispWindowClear_cpu_hl (s : gb_s) (v : Nat) : (setDispWindowClear s v).cpu_hl = s.cpu_hl := rfl

@[simp] theorem setDispWindowClear_cpu_sp (s : gb_s) (v : Nat) : (setDispWindowClear s v).cpu_sp = s.cpu_sp := rfl

@[simp] theorem setDispWindowClear_cpu_pc (s : gb_s) (v : Nat) : (setDispWindowClear s v).cpu_pc = s.cpu_pc := rfl

@[simp] theorem setDispWindowClear_counter_lcd (s : gb_s) (v : Nat) : (setDispWindowClear s v).counter_lcd = s.counter_lcd := rfl

@[simp] theorem setDispWindowClear_counter_div (s : gb_s) (v : Nat) : (setDispWindowClear s v).counter_div = s.counter_div := rfl

@[simp] theorem setDispWindowClear_counter_tima (s : gb_s) (v : Nat) : (setDispWindowClear s v).counter_tima = s.counter_tima := rfl

@[simp] theorem setDispWindowClear_counter_serial (s : gb_s) (v : Nat) : (setDispWindowClear s v).counter_serial = s.counter_serial := rfl

@[simp] theorem setDispWindowClear_counter_rtc (s : gb_s) (v : Nat) : (setDispWindowClear s v).counter_rtc = s.counter_rtc := rfl

@[simp] theorem setDispWindowClear_counter_lcd_off (s : gb_s) (v : Nat) : (setDispWindowClear s v).counter_lcd_off = s.counter_lcd_off := rfl

@[simp] theorem setDispWindowClear_wram (s : gb_s) (v : Nat) : (setDispWindowClear s v).wram = s.wram := rfl

@[simp] theorem setDispWindowClear_vram (s : gb_s) (v : Nat) : (setDispWindowClear s v).vram = s.vram := rfl

@[simp] theorem setDispWindowClear_oam (s : gb_s) (v : Nat) : (setDispWindowClear s v).oam = s.oam := rfl

@[simp] theorem setDispWindowClear_hram_io (s : gb_s) (v : Nat) : (setDispWindowClear s v).hram_io = s.hram_io := rfl

@[simp] theorem setDispWindowClear_display_lcd_draw_line (s : gb_s) (v : Nat) : (setDispWindowClear s v).display_lcd_draw_line = s.display_lcd_draw_line := rfl

@[simp] theorem setDispWindowClear_display_bg_palette (s : gb_s) (v : Nat) : (setDispWindowClear s v).display_bg_palette = s.display_bg_palette := rfl

@[simp] theorem setDispWindowClear_display_sp_palette (s : gb_s) (v : Nat) : (setDispWindowClear s v).display_sp_palette = s.display_sp_palette := rfl

@[simp] theorem setDispWindowClear_display_window_clear (s : gb_s) (v : Nat) : (setDispWindowClear s v).display_window_clear = v := rfl

@[simp] theorem setDispWindowClear_display_WY (s : gb_s) (v : Nat) : (setDispWindowClear s v).display_WY = s.display_WY := rfl

@[simp] theorem setDispWindowClear_display_frame_skip_count (s : gb_s) (v : Nat) : (setDispWindowClear s v).display_frame_skip_count = s.display_frame_skip_count := rfl

@[simp] theorem setDispWindowClear_display_interlace_count (s : gb_s) (v : Nat) : (setDispWindowClear s v).display_interlace_count = s.display_interlace_count := rfl

@[simp] theorem setDispWindowClear_direct_interlace (s : gb_s) (v : Nat) : (setDispWindowClear s v).direct_interlace = s.direct_interlace := rfl

@[simp] theorem setDispWindowClear_direct_frame_skip (s : gb_s) (v : Nat) : (setDispWindowClear s v).direct_frame_skip = s.direct_frame_skip := rfl

@[simp] theorem setDispWindowClear_direct_joypad (s : gb_s) (v : Nat) : (setDispWindowClear s v).direct_joypad = s.direct_joypad := rfl

@[simp] theorem setDispWY_gb_rom_read (s : gb_s) (v : Nat) : (setDispWY s v).gb_rom_read = s.gb_rom_read := rfl

@[simp] theorem setDispWY_gb_bootrom_read (s : gb_s) (v : Nat) : (setDispWY s v).gb_bootrom_read = s.gb_bootrom_read := rfl

@[simp] theorem setDispWY_has_bootrom (s : gb_s) (v : Nat) : (setDispWY s v).has_bootrom = s.has_bootrom := rfl

@[simp] theorem setDispWY_cart_ram_data (s : gb_s) (v : Nat) : (setDispWY s v).cart_ram_data = s.cart_ram_data := rfl

@[simp] theorem setDispWY_gb_serial_rx (s : gb_s) (v : Nat) : (setDispWY s v).gb_serial_rx = s.gb_serial_rx := rfl

@[simp] theorem setDispWY_gb_halt (s : gb_s) (v : Nat) : (setDispWY s v).gb_halt = s.gb_halt := rfl

@[simp] theorem setDispWY_gb_ime (s : gb_s) (v : Nat) : (setDispWY s v).gb_ime = s.gb_ime := rfl

@[simp] theorem setDispWY_gb_frame (s : gb_s) (v : Nat) : (setDispWY s v).gb_frame = s.gb_frame := rfl

@[simp] theorem setDispWY_lcd_blank (s : gb_s) (v : Nat) : (setDispWY s v).lcd_blank = s.lcd_blank := rfl

@[simp] theorem setDispWY_cart_is_mbc3O (s : gb_s) (v : Nat) : (setDispWY s v).cart_is_mbc3O = s.cart_is_mbc3O := rfl

@[simp] theorem setDispWY_mbc (s : gb_s) (v : Nat) : (setDispWY s v).mbc = s.mbc := rfl

@[simp] theorem setDispWY_cart_ram (s : gb_s) (v : Nat) : (setDispWY s v).cart_ram = s.cart_ram := rfl

@[simp] theorem setDispWY_num_rom_banks_mask (s : gb_s) (v : Nat) : (setDispWY s v).num_rom_banks_mask = s.num_rom_banks_mask := rfl

@[simp] theorem setDispWY_num_ram_banks (s : gb_s) (v : Nat) : (setDispWY s v).num_ram_banks = s.num_ram_banks := rfl

@[simp] theorem setDispWY_selected_rom_bank (s : gb_s) (v : Nat) : (setDispWY s v).selected_rom_bank = s.selected_rom_bank := rfl

@[simp] theorem setDispWY_cart_ram_bank (s : gb_s) (v : Nat) : (setDispWY s v).cart_ram_bank = s.cart_ram_bank := rfl

@[simp] theorem setDispWY_enable_cart_ram (s : gb_s) (v : Nat) : (setDispWY s v).enable_cart_ram = s.enable_cart_ram := rfl

@[simp] theorem setDispWY_cart_mode_select (s : gb_s) (v : Nat) : (setDispWY s v).cart_mode_select = s.cart_mode_select := rfl

@[simp] theorem setDispWY_rtc_latched (s : gb_s) (v : Nat) : (setDispWY s v).rtc_latched = s.rtc_latched := rfl

@[simp] theorem setDispWY_rtc_real (s : gb_s) (v : Nat) : (setDispWY s v).rtc_real = s.rtc_real := rfl

@[simp] theorem setDispWY_cpu_a (s : gb_s) (v : Nat) : (setDispWY s v).cpu_a = s.cpu_a := rfl

@[simp] theorem setDispWY_cpu_f_z (s : gb_s) (v : Nat) : (setDispWY s v).cpu_f_z = s.cpu_f_z := rfl

@[simp] theorem setDispWY_cpu_f_n (s : gb_s) (v : Nat) : (setDispWY s v).cpu_f_n = s.cpu_f_n := rfl

@[simp] theorem setDispWY_cpu_f_h (s : gb_s) (v : Nat) : (setDispWY s v).cpu_f_h = s.cpu_f_h := rfl

@[simp] theorem setDispWY_cpu_f_c (s : gb_s) (v : Nat) : (setDispWY s v).cpu_f_c = s.cpu_f_c := rfl

@[simp] theorem setDispWY_cpu_bc (s : gb_s) (v : Nat) : (setDispWY s v).cpu_bc = s.cpu_bc := rfl

@[simp] theorem setDispWY_cpu_de (s : gb_s) (v : Nat) : (setDispWY s v).cpu_de = s.cpu_de := rfl

@[simp] theorem setDispWY_cpu_hl (s : gb_s) (v : Nat) : (setDispWY s v).cpu_hl = s.cpu_hl := rfl

@[simp] theorem setDispWY_cpu_sp (s : gb_s) (v : Nat) : (setDispWY s v).cpu_sp = s.cpu_sp := rfl

@[simp] theorem setDispWY_cpu_pc (s : gb_s) (v : Nat) : (setDispWY s v).cpu_pc = s.cpu_pc := rfl

@[simp] theorem setDispWY_counter_lcd (s : gb_s) (v : Nat) : (setDispWY s v).counter_lcd = s.counter_lcd := rfl

@[simp] theorem setDispWY_counter_div (s : gb_s) (v : Nat) : (setDispWY s v).counter_div = s.counter_div := rfl

@[simp] theorem setDispWY_counter_tima (s : gb_s) (v : Nat) : (setDispWY s v).counter_tima = s.counter_tima := rfl

@[simp] theorem setDispWY_counter_serial (s : gb_s) (v : Nat) : (setDispWY s v).counter_serial = s.counter_serial := rfl

@[simp] theorem setDispWY_counter_rtc (s : gb_s) (v : Nat) : (setDispWY s v).counter_rtc = s.counter_rtc := rfl

@[simp] theorem setDispWY_counter_lcd_off (s : gb_s) (v : Nat) : (setDispWY s v).counter_lcd_off = s.counter_lcd_off := rfl

@[simp] theorem setDispWY_wram (s : gb_s) (v : Nat) : (setDispWY s v).wram = s.wram := rfl

@[simp] theorem setDispWY_vram (s : gb_s) (v : Nat) : (setDispWY s v).vram = s.vram := rfl

@[simp] theorem setDispWY_oam (s : gb_s) (v : Nat) : (setDispWY s v).oam = s.oam := rfl

@[simp] theorem setDispWY_hram_io (s : gb_s) (v : Nat) : (setDispWY s v).hram_io = s.hram_io := rfl

@[simp] theorem setDispWY_display_lcd_draw_line (s : gb_s) (v : Nat) : (setDispWY s v).display_lcd_draw_line = s.display_lcd_draw_line := rfl

@[simp] theorem setDispWY_display_bg_palette (s : gb_s) (v : Nat) : (setDispWY s v).display_bg_palette = s.display_bg_palette := rfl

@[simp] theorem setDispWY_display_sp_palette (s : gb_s) (v : Nat) : (setDispWY s v).display_sp_palette = s.display_sp_palette := rfl

@[simp] theorem setDispWY_display_window_clear (s : gb_s) (v : Nat) : (setDispWY s v).display_window_clear = s.display_window_clear := rfl

@[simp] theorem setDispWY_display_WY (s : gb_s) (v : Nat) : (setDispWY s v).display_WY = v := rfl

@[simp] theorem setDispWY_display_frame_skip_count (s : gb_s) (v : Nat) : (setDispWY s v).display_frame_skip_count = s.display_frame_skip_count := rfl

@[simp] theorem setDispWY_display_interlace_count (s : gb_s) (v : Nat) : (setDispWY s v).display_interlace_count = s.display_interlace_count := rfl

@[simp] theorem setDispWY_direct_interlace (s : gb_s) (v : Nat) : (setDispWY s v).direct_interlace = s.direct_interlace := rfl

@[simp] theorem setDispWY_direct_frame_skip (s : gb_s) (v : Nat) : (setDispWY s v).direct_frame_skip = s.direct_frame_skip := rfl

@[simp] theorem setDispWY_direct_joypad (s : gb_s) (v : Nat) : (setDispWY s v).direct_joypad = s.direct_joypad := rfl

@[simp] theorem setDispFrameSkipCount_gb_rom_read (s : gb_s) (v : Bool) : (setDispFrameSkipCount s v).gb_rom_read = s.gb_rom_read := rfl

@[simp] theorem setDispFrameSkipCount_gb_bootrom_read (s : gb_s) (v : Bool) : (setDispFrameSkipCount s v).gb_bootrom_read = s.gb_bootrom_read := rfl

@[simp] theorem setDispFrameSkipCount_has_bootrom (s : gb_s) (v : Bool) : (setDispFrameSkipCount s v).has_bootrom = s.has_bootrom := rfl

@[simp] theorem setDispFrameSkipCount_cart_ram_data (s : gb_s) (v : Bool) : (setDispFrameSkipCount s v).cart_ram_data = s.cart_ram_data := rfl

@[simp] theorem setDispFrameSkipCount_gb_serial_rx (s : gb_s) (v : Bool) : (setDispFrameSkipCount s v).gb_serial_rx = s.gb_serial_rx := rfl

@[simp] theorem setDispFrameSkipCount_gb_halt (s : gb_s) (v : Bool) : (setDispFrameSkipCount s v).gb_halt = s.gb_halt := rfl

@[simp] theorem setDispFrameSkipCount_gb_ime (s : gb_s) (v : Bool) : (setDispFrameSkipCount s v).gb_ime = s.gb_ime := rfl

@[simp] theorem setDispFrameSkipCount_gb_frame (s : gb_s) (v : Bool) : (setDispFrameSkipCount s v).gb_frame = s.gb_frame := rfl

@[simp] theorem setDispFrameSkipCount_lcd_blank (s : gb_s) (v : Bool) : (setDispFrameSkipCount s v).lcd_blank = s.lcd_blank := rfl

@[simp] theorem setDispFrameSkipCount_cart_is_mbc3O (s : gb_s) (v : Bool) : (setDispFrameSkipCount s v).cart_is_mbc3O = s.cart_is_mbc3O := rfl

@[simp] theorem setDispFrameSkipCount_mbc (s : gb_s) (v : Bool) : (setDispFrameSkipCount s v).mbc = s.mbc := rfl

@[simp] theorem setDispFrameSkipCount_cart_ram (s : gb_s) (v : Bool) : (setDispFrameSkipCount s v).cart_ram = s.cart_ram := rfl

@[simp] theorem setDispFrameSkipCount_num_rom_banks_mask (s : gb_s) (v : Bool) : (setDispFrameSkipCount s v).num_rom_banks_mask = s.num_rom_banks_mask := rfl

@[simp] theorem setDispFrameSkipCount_num_ram_banks (s : gb_s) (v : Bool) : (setDispFrameSkipCount s v).num_ram_banks = s.num_ram_banks := rfl

@[simp] theorem setDispFrameSkipCount_selected_rom_bank (s : gb_s) (v : Bool) : (setDispFrameSkipCount s v).selected_rom_bank = s.selected_rom_bank := rfl

@[simp] theorem setDispFrameSkipCount_cart_ram_bank (s : gb_s) (v : Bool) : (setDispFrameSkipCount s v).cart_ram_bank = s.cart_ram_bank := rfl

@[simp] theorem setDispFrameSkipCount_enable_cart_ram (s : gb_s) (v : Bool) : (setDispFrameSkipCount s v).enable_cart_ram = s.enable_cart_ram := rfl

@[simp] theorem setDispFrameSkipCount_cart_mode_select (s : gb_s) (v : Bool) : (setDispFrameSkipCount s v).cart_mode_select = s.cart_mode_select := rfl

@[simp] theorem setDispFrameSkipCount_rtc_latched (s : gb_s) (v : Bool) : (setDispFrameSkipCount s v).rtc_latched = s.rtc_latched := rfl

@[simp] theorem setDispFrameSkipCount_rtc_real (s : gb_s) (v : Bool) : (setDispFrameSkipCount s v).rtc_real = s.rtc_real := rfl

@[simp] theorem setDispFrameSkipCount_cpu_a (s : gb_s) (v : Bool) : (setDispFrameSkipCount s v).cpu_a = s.cpu_a := rfl

@[simp] theorem setDispFrameSkipCount_cpu_f_z (s : gb_s) (v : Bool) : (setDispFrameSkipCount s v).cpu_f_z = s.cpu_f_z := rfl

@[simp] theorem setDispFrameSkipCount_cpu_f_n (s : gb_s) (v : Bool) : (setDispFrameSkipCount s v).cpu_f_n = s.cpu_f_n := rfl

@[simp] theorem setDispFrameSkipCount_cpu_f_h (s : gb_s) (v : Bool) : (setDispFrameSkipCount s v).cpu_f_h = s.cpu_f_h := rfl

@[simp] theorem setDispFrameSkipCount_cpu_f_c (s : gb_s) (v : Bool) : (setDispFrameSkipCount s v).cpu_f_c = s.cpu_f_c := rfl

@[simp] theorem setDispFrameSkipCount_cpu_bc (s : gb_s) (v : Bool) : (setDispFrameSkipCount s v).cpu_bc = s.cpu_bc := rfl

@[simp] theorem setDispFrameSkipCount_cpu_de (s : gb_s) (v : Bool) : (setDispFrameSkipCount s v).cpu_de = s.cpu_de := rfl

@[simp] theorem setDispFrameSkipCount_cpu_hl (s : gb_s) (v : Bool) : (setDispFrameSkipCount s v).cpu_hl = s.cpu_hl := rfl

@[simp] theorem setDispFrameSkipCount_cpu_sp (s : gb_s) (v : Bool) : (setDispFrameSkipCount s v).cpu_sp = s.cpu_sp := rfl

@[simp] theorem setDispFrameSkipCount_cpu_pc (s : gb_s) (v : Bool) : (setDispFrameSkipCount s v).cpu_pc = s.cpu_pc := rfl

@[simp] theorem setDispFrameSkipCount_counter_lcd (s : gb_s) (v : Bool) : (setDispFrameSkipCount s v).counter_lcd = s.counter_lcd := rfl

@[simp] theorem setDispFrameSkipCount_counter_div (s : gb_s) (v : Bool) : (setDispFrameSkipCount s v).counter_div = s.counter_div := rfl

@[simp] theorem setDispFrameSkipCount_counter_tima (s : gb_s) (v : Bool) : (setDispFrameSkipCount s v).counter_tima = s.counter_tima := rfl

@[simp] theorem setDispFrameSkipCount_counter_serial (s : gb_s) (v : Bool) : (setDispFrameSkipCount s v).counter_serial = s.counter_serial := rfl

@[simp] theorem setDispFrameSkipCount_counter_rtc (s : gb_s) (v : Bool) : (setDispFrameSkipCount s v).counter_rtc = s.counter_rtc := rfl

@[simp] theorem setDispFrameSkipCount_counter_lcd_off (s : gb_s) (v : Bool) : (setDispFrameSkipCount s v).counter_lcd_off = s.counter_lcd_off := rfl

@[simp] theorem setDispFrameSkipCount_wram (s : gb_s) (v : Bool) : (setDispFrameSkipCount s v).wram = s.wram := rfl

@[simp] theorem setDispFrameSkipCount_vram (s : gb_s) (v : Bool) : (setDispFrameSkipCount s v).vram = s.vram := rfl

@[simp] theorem setDispFrameSkipCount_oam (s : gb_s) (v : Bool) : (setDispFrameSkipCount s v).oam = s.oam := rfl

@[simp] theorem setDispFrameSkipCount_hram_io (s : gb_s) (v : Bool) : (setDispFrameSkipCount s v).hram_io = s.hram_io := rfl

@[simp] theorem setDispFrameSkipCount_display_lcd_draw_line (s : gb_s) (v : Bool) : (setDispFrameSkipCount s v).display_lcd_draw_line = s.display_lcd_draw_line := rfl

@[simp] theorem setDispFrameSkipCount_display_bg_palette (s : gb_s) (v : Bool) : (setDispFrameSkipCount s v).display_bg_palette = s.display_bg_palette := rfl

@[simp] theorem setDispFrameSkipCount_display_sp_palette (s : gb_s) (v : Bool) : (setDispFrameSkipCount s v).display_sp_palette = s.display_sp_palette := rfl

@[simp] theorem setDispFrameSkipCount_display_window_clear (s : gb_s) (v : Bool) : (setDispFrameSkipCount s v).display_window_clear = s.display_window_clear := rfl

@[simp] theorem setDispFrameSkipCount_display_WY (s : gb_s) (v : Bool) : (setDispFrameSkipCount s v).display_WY = s.display_WY := rfl

@[simp] theorem setDispFrameSkipCount_display_frame_skip_count (s : gb_s) (v : Bool) : (setDispFrameSkipCount s v).display_frame_skip_count = v := rfl

@[simp] theorem setDispFrameSkipCount_display_interlace_count (s : gb_s) (v : Bool) : (setDispFrameSkipCount s v).display_interlace_count = s.display_interlace_count := rfl

@[simp] theorem setDispFrameSkipCount_direct_interlace (s : gb_s) (v : Bool) : (setDispFrameSkipCount s v).direct_interlace = s.direct_interlace := rfl

@[simp] theorem setDispFrameSkipCount_direct_frame_skip (s : gb_s) (v : Bool) : (setDispFrameSkipCount s v).direct_frame_skip = s.direct_frame_skip := rfl

@[simp] theorem setDispFrameSkipCount_direct_joypad (s : gb_s) (v : Bool) : (setDispFrameSkipCount s v).direct_joypad = s.direct_joypad := rfl

@[simp] theorem setDispInterlaceCount_gb_rom_read (s : gb_s) (v : Bool) : (setDispInterlaceCount s v).gb_rom_read = s.gb_rom_read := rfl

@[simp] theorem setDispInterlaceCount_gb_bootrom_read (s : gb_s) (v : Bool) : (setDispInterlaceCount s v).gb_bootrom_read = s.gb_bootrom_read := rfl

@[simp] theorem setDispInterlaceCount_has_bootrom (s : gb_s) (v : Bool) : (setDispInterlaceCount s v).has_bootrom = s.has_bootrom := rfl

@[simp] theorem setDispInterlaceCount_cart_ram_data (s : gb_s) (v : Bool) : (setDispInterlaceCount s v).cart_ram_data = s.cart_ram_data := rfl

@[simp] theorem setDispInterlaceCount_gb_serial_rx (s : gb_s) (v : Bool) : (setDispInterlaceCount s v).gb_serial_rx = s.gb_serial_rx := rfl

@[simp] theorem setDispInterlaceCount_gb_halt (s : gb_s) (v : Bool) : (setDispInterlaceCount s v).gb_halt = s.gb_halt := rfl

@[simp] theorem setDispInterlaceCount_gb_ime (s : gb_s) (v : Bool) : (setDispInterlaceCount s v).gb_ime = s.gb_ime := rfl

@[simp] theorem setDispInterlaceCount_gb_frame (s : gb_s) (v : Bool) : (setDispInterlaceCount s v).gb_frame = s.gb_frame := rfl

@[simp] theorem setDispInterlaceCount_lcd_blank (s : gb_s) (v : Bool) : (setDispInterlaceCount s v).lcd_blank = s.lcd_blank := rfl

@[simp] theorem setDispInterlaceCount_cart_is_mbc3O (s : gb_s) (v : Bool) : (setDispInterlaceCount s v).cart_is_mbc3O = s.cart_is_mbc3O := rfl

@[simp] theorem setDispInterlaceCount_mbc (s : gb_s) (v : Bool) : (setDispInterlaceCount s v).mbc = s.mbc := rfl

@[simp] theorem setDispInterlaceCount_cart_ram (s : gb_s) (v : Bool) : (setDispInterlaceCount s v).cart_ram = s.cart_ram := rfl

@[simp] theorem setDispInterlaceCount_num_rom_banks_mask (s : gb_s) (v : Bool) : (setDispInterlaceCount s v).num_rom_banks_mask = s.num_rom_banks_mask := rfl

@[simp] theorem setDispInterlaceCount_num_ram_banks (s : gb_s) (v : Bool) : (setDispInterlaceCount s v).num_ram_banks = s.num_ram_banks := rfl

@[simp] theorem setDispInterlaceCount_selected_rom_bank (s : gb_s) (v : Bool) : (setDispInterlaceCount s v).selected_rom_bank = s.selected_rom_bank := rfl

@[simp] theorem setDispInterlaceCount_cart_ram_bank (s : gb_s) (v : Bool) : (setDispInterlaceCount s v).cart_ram_bank = s.cart_ram_bank := rfl

@[simp] theorem setDispInterlaceCount_enable_cart_ram (s : gb_s) (v : Bool) : (setDispInterlaceCount s v).enable_cart_ram = s.enable_cart_ram := rfl

@[simp] theorem setDispInterlaceCount_cart_mode_select (s : gb_s) (v : Bool) : (setDispInterlaceCount s v).cart_mode_select = s.cart_mode_select := rfl

@[simp] theorem setDispInterlaceCount_rtc_latched (s : gb_s) (v : Bool) : (setDispInterlaceCount s v).rtc_latched = s.rtc_latched := rfl

@[simp] theorem setDispInterlaceCount_rtc_real (s : gb_s) (v : Bool) : (setDispInterlaceCount s v).rtc_real = s.rtc_real := rfl

@[simp] theorem setDispInterlaceCount_cpu_a (s : gb_s) (v : Bool) : (setDispInterlaceCount s v).cpu_a = s.cpu_a := rfl

@[simp] theorem setDispInterlaceCount_cpu_f_z (s : gb_s) (v : Bool) : (setDispInterlaceCount s v).cpu_f_z = s.cpu_f_z := rfl

@[simp] theorem setDispInterlaceCount_cpu_f_n (s : gb_s) (v : Bool) : (setDispInterlaceCount s v).cpu_f_n = s.cpu_f_n := rfl

@[simp] theorem setDispInterlaceCount_cpu_f_h (s : gb_s) (v : Bool) : (setDispInterlaceCount s v).cpu_f_h = s.cpu_f_h := rfl

@[simp] theorem setDispInterlaceCount_cpu_f_c (s : gb_s) (v : Bool) : (setDispInterlaceCount s v).cpu_f_c = s.cpu_f_c := rfl

@[simp] theorem setDispInterlaceCount_cpu_bc (s : gb_s) (v : Bool) : (setDispInterlaceCount s v).cpu_bc = s.cpu_bc := rfl

@[simp] theorem setDispInterlaceCount_cpu_de (s : gb_s) (v : Bool) : (setDispInterlaceCount s v).cpu_de = s.cpu_de := rfl

@[simp] theorem setDispInterlaceCount_cpu_hl (s : gb_s) (v : Bool) : (setDispInterlaceCount s v).cpu_hl = s.cpu_hl := rfl

@[simp] theorem setDispInterlaceCount_cpu_sp (s : gb_s) (v : Bool) : (setDispInterlaceCount s v).cpu_sp = s.cpu_sp := rfl

@[simp] theorem setDispInterlaceCount_cpu_pc (s : gb_s) (v : Bool) : (setDispInterlaceCount s v).cpu_pc = s.cpu_pc := rfl

@[simp] theorem setDispInterlaceCount_counter_lcd (s : gb_s) (v : Bool) : (setDispInterlaceCount s v).counter_lcd = s.counter_lcd := rfl

@[simp] theorem setDispInterlaceCount_counter_div (s : gb_s) (v : Bool) : (setDispInterlaceCount s v).counter_div = s.counter_div := rfl

@[simp] theorem setDispInterlaceCount_counter_tima (s : gb_s) (v : Bool) : (setDispInterlaceCount s v).counter_tima = s.counter_tima := rfl

@[simp] theorem setDispInterlaceCount_counter_serial (s : gb_s) (v : Bool) : (setDispInterlaceCount s v).counter_serial = s.counter_serial := rfl

@[simp] theorem setDispInterlaceCount_counter_rtc (s : gb_s) (v : Bool) : (setDispInterlaceCount s v).counter_rtc = s.counter_rtc := rfl

@[simp] theorem setDispInterlaceCount_counter_lcd_off (s : gb_s) (v : Bool) : (setDispInterlaceCount s v).counter_lcd_off = s.counter_lcd_off := rfl

@[simp] theorem setDispInterlaceCount_wram (s : gb_s) (v : Bool) : (setDispInterlaceCount s v).wram = s.wram := rfl

@[simp] theorem setDispInterlaceCount_vram (s : gb_s) (v : Bool) : (setDispInterlaceCount s v).vram = s.vram := rfl

@[simp] theorem setDispInterlaceCount_oam (s : gb_s) (v : Bool) : (setDispInterlaceCount s v).oam = s.oam := rfl

@[simp] theorem setDispInterlaceCount_hram_io (s : gb_s) (v : Bool) : (setDispInterlaceCount s v).hram_io = s.hram_io := rfl

@[simp] theorem setDispInterlaceCount_display_lcd_draw_line (s : gb_s) (v : Bool) : (setDispInterlaceCount s v).display_lcd_draw_line = s.display_lcd_draw_line := rfl

@[simp] theorem setDispInterlaceCount_display_bg_palette (s : gb_s) (v : Bool) : (setDispInterlaceCount s v).display_bg_palette = s.display_bg_palette := rfl

@[simp] theorem setDispInterlaceCount_display_sp_palette (s : gb_s) (v : Bool) : (setDispInterlaceCount s v).display_sp_palette = s.display_sp_palette := rfl

@[simp] theorem setDispInterlaceCount_display_window_clear (s : gb_s) (v : Bool) : (setDispInterlaceCount s v).display_window_clear = s.display_window_clear := rfl

@[simp] theorem setDispInterlaceCount_display_WY (s : gb_s) (v : Bool) : (setDispInterlaceCount s v).display_WY = s.display_WY := rfl

@[simp] theorem setDispInterlaceCount_display_frame_skip_count (s : gb_s) (v : Bool) : (setDispInterlaceCount s v).display_frame_skip_count = s.display_frame_skip_count := rfl

@[simp] theorem setDispInterlaceCount_display_interlace_count (s : gb_s) (v : Bool) : (setDispInterlaceCount s v).display_interlace_count = v := rfl

@[simp] theorem setDispInterlaceCount_direct_interlace (s : gb_s) (v : Bool) : (setDispInterlaceCount s v).direct_interlace = s.direct_interlace := rfl

@[simp] theorem setDispInterlaceCount_direct_frame_skip (s : gb_s) (v : Bool) : (setDispInterlaceCount s v).direct_frame_skip = s.direct_frame_skip := rfl

@[simp] theorem setDispInterlaceCount_direct_joypad (s : gb_s) (v : Bool) : (setDispInterlaceCount s v).direct_joypad = s.direct_joypad := rfl

@[simp] theorem setDirectJoypad_gb_rom_read (s : gb_s) (v : Nat) : (setDirectJoypad s v).gb_rom_read = s.gb_rom_read := rfl

@[simp] theorem setDirectJoypad_gb_bootrom_read (s : gb_s) (v : Nat) : (setDirectJoypad s v).gb_bootrom_read = s.gb_bootrom_read := rfl

@[simp] theorem setDirectJoypad_has_bootrom (s : gb_s) (v : Nat) : (setDirectJoypad s v).has_bootrom = s.has_bootrom := rfl

@[simp] theorem setDirectJoypad_cart_ram_data (s : gb_s) (v : Nat) : (setDirectJoypad s v).cart_ram_data = s.cart_ram_data := rfl

@[simp] theorem setDirectJoypad_gb_serial_rx (s : gb_s) (v : Nat) : (setDirectJoypad s v).gb_serial_rx = s.gb_serial_rx := rfl

@[simp] theorem setDirectJoypad_gb_halt (s : gb_s) (v : Nat) : (setDirectJoypad s v).gb_halt = s.gb_halt := rfl

@[simp] theorem setDirectJoypad_gb_ime (s : gb_s) (v : Nat) : (setDirectJoypad s v).gb_ime = s.gb_ime := rfl

@[simp] theorem setDirectJoypad_gb_frame (s : gb_s) (v : Nat) : (setDirectJoypad s v).gb_frame = s.gb_frame := rfl

@[simp] theorem setDirectJoypad_lcd_blank (s : gb_s) (v : Nat) : (setDirectJoypad s v).lcd_blank = s.lcd_blank := rfl

@[simp] theorem setDirectJoypad_cart_is_mbc3O (s : gb_s) (v : Nat) : (setDirectJoypad s v).cart_is_mbc3O = s.cart_is_mbc3O := rfl

@[simp] theorem setDirectJoypad_mbc (s : gb_s) (v : Nat) : (setDirectJoypad s v).mbc = s.mbc := rfl

@[simp] theorem setDirectJoypad_cart_ram (s : gb_s) (v : Nat) : (setDirectJoypad s v).cart_ram = s.cart_ram := rfl

@[simp] theorem setDirectJoypad_num_rom_banks_mask (s : gb_s) (v : Nat) : (setDirectJoypad s v).num_rom_banks_mask = s.num_rom_banks_mask := rfl

@[simp] theorem setDirectJoypad_num_ram_banks (s : gb_s) (v : Nat) : (setDirectJoypad s v).num_ram_banks = s.num_ram_banks := rfl

@[simp] theorem setDirectJoypad_selected_rom_bank (s : gb_s) (v : Nat) : (setDirectJoypad s v).selected_rom_bank = s.selected_rom_bank := rfl

@[simp] theorem setDirectJoypad_cart_ram_bank (s : gb_s) (v : Nat) : (setDirectJoypad s v).cart_ram_bank = s.cart_ram_bank := rfl

@[simp] theorem setDirectJoypad_enable_cart_ram (s : gb_s) (v : Nat) : (setDirectJoypad s v).enable_cart_ram = s.enable_cart_ram := rfl

@[simp] theorem setDirectJoypad_cart_mode_select (s : gb_s) (v : Nat) : (setDirectJoypad s v).cart_mode_select = s.cart_mode_select := rfl

@[simp] theorem setDirectJoypad_rtc_latched (s : gb_s) (v : Nat) : (setDirectJoypad s v).rtc_latched = s.rtc_latched := rfl

@[simp] theorem setDirectJoypad_rtc_real (s : gb_s) (v : Nat) : (setDirectJoypad s v).rtc_real = s.rtc_real := rfl

@[simp] theorem setDirectJoypad_cpu_a (s : gb_s) (v : Nat) : (setDirectJoypad s v).cpu_a = s.cpu_a := rfl

@[simp] theorem setDirectJoypad_cpu_f_z (s : gb_s) (v : Nat) : (setDirectJoypad s v).cpu_f_z = s.cpu_f_z := rfl

@[simp] theorem setDirectJoypad_cpu_f_n (s : gb_s) (v : Nat) : (setDirectJoypad s v).cpu_f_n = s.cpu_f_n := rfl

@[simp] theorem setDirectJoypad_cpu_f_h (s : gb_s) (v : Nat) : (setDirectJoypad s v).cpu_f_h = s.cpu_f_h := rfl

@[simp] theorem setDirectJoypad_cpu_f_c (s : gb_s) (v : Nat) : (setDirectJoypad s v).cpu_f_c = s.cpu_f_c := rfl

@[simp] theorem setDirectJoypad_cpu_bc (s : gb_s) (v : Nat) : (setDirectJoypad s v).cpu_bc = s.cpu_bc := rfl

@[simp] theorem setDirectJoypad_cpu_de (s : gb_s) (v : Nat) : (setDirectJoypad s v).cpu_de = s.cpu_de := rfl

@[simp] theorem setDirectJoypad_cpu_hl (s : gb_s) (v : Nat) : (setDirectJoypad s v).cpu_hl = s.cpu_hl := rfl

@[simp] theorem setDirectJoypad_cpu_sp (s : gb_s) (v : Nat) : (setDirectJoypad s v).cpu_sp = s.cpu_sp := rfl

@[simp] theorem setDirectJoypad_cpu_pc (s : gb_s) (v : Nat) : (setDirectJoypad s v).cpu_pc = s.cpu_pc := rfl

@[simp] theorem setDirectJoypad_counter_lcd (s : gb_s) (v : Nat) : (setDirectJoypad s v).counter_lcd = s.counter_lcd := rfl

@[simp] theorem setDirectJoypad_counter_div (s : gb_s) (v : Nat) : (setDirectJoypad s v).counter_div = s.counter_div := rfl

@[simp] theorem setDirectJoypad_counter_tima (s : gb_s) (v : Nat) : (setDirectJoypad s v).counter_tima = s.counter_tima := rfl

@[simp] theorem setDirectJoypad_counter_serial (s : gb_s) (v : Nat) : (setDirectJoypad s v).counter_serial = s.counter_serial := rfl

@[simp] theorem setDirectJoypad_counter_rtc (s : gb_s) (v : Nat) : (setDirectJoypad s v).counter_rtc = s.counter_rtc := rfl

@[simp] theorem setDirectJoypad_counter_lcd_off (s : gb_s) (v : Nat) : (setDirectJoypad s v).counter_lcd_off = s.counter_lcd_off := rfl

@[simp] theorem setDirectJoypad_wram (s : gb_s) (v : Nat) : (setDirectJoypad s v).wram = s.wram := rfl

@[simp] theorem setDirectJoypad_vram (s : gb_s) (v : Nat) : (setDirectJoypad s v).vram = s.vram := rfl

@[simp] theorem setDirectJoypad_oam (s : gb_s) (v : Nat) : (setDirectJoypad s v).oam = s.oam := rfl

@[simp] theorem setDirectJoypad_hram_io (s : gb_s) (v : Nat) : (setDirectJoypad s v).hram_io = s.hram_io := rfl

@[simp] theorem setDirectJoypad_display_lcd_draw_line (s : gb_s) (v : Nat) : (setDirectJoypad s v).display_lcd_draw_line = s.display_lcd_draw_line := rfl

@[simp] theorem setDirectJoypad_display_bg_palette (s : gb_s) (v : Nat) : (setDirectJoypad s v).display_bg_palette = s.display_bg_palette := rfl

@[simp] theorem setDirectJoypad_display_sp_palette (s : gb_s) (v : Nat) : (setDirectJoypad s v).display_sp_palette = s.display_sp_palette := rfl

@[simp] theorem setDirectJoypad_display_window_clear (s : gb_s) (v : Nat) : (setDirectJoypad s v).display_window_clear = s.display_window_clear := rfl

@[simp] theorem setDirectJoypad_display_WY (s : gb_s) (v : Nat) : (setDirectJoypad s v).display_WY = s.display_WY := rfl

@[simp] theorem setDirectJoypad_display_frame_skip_count (s : gb_s) (v : Nat) : (setDirectJoypad s v).display_frame_skip_count = s.display_frame_skip_count := rfl

@[simp] theorem setDirectJoypad_display_interlace_count (s : gb_s) (v : Nat) : (setDirectJoypad s v).display_interlace_count = s.display_interlace_count := rfl

@[simp] theorem setDirectJoypad_direct_interlace (s : gb_s) (v : Nat) : (setDirectJoypad s v).direct_interlace = s.direct_interlace := rfl

@[simp] theorem setDirectJoypad_direct_frame_skip (s : gb_s) (v : Nat) : (setDirectJoypad s v).direct_frame_skip = s.direct_frame_skip := rfl

@[simp] theorem setDirectJoypad_direct_joypad (s : gb_s) (v : Nat) : (setDirectJoypad s v).direct_joypad = v := rfl

@[simp] theorem setRomRead_gb_rom_read (s : gb_s) (v : Nat → Nat) : (setRomRead s v).gb_rom_read = v := rfl

@[simp] theorem setRomRead_gb_bootrom_read (s : gb_s) (v : Nat → Nat) : (setRomRead s v).gb_bootrom_read = s.gb_bootrom_read := rfl

@[simp] theorem setRomRead_has_bootrom (s : gb_s) (v : Nat → Nat) : (setRomRead s v).has_bootrom = s.has_bootrom := rfl

@[simp] theorem setRomRead_cart_ram_data (s : gb_s) (v : Nat → Nat) : (setRomRead s v).cart_ram_data = s.cart_ram_data := rfl

@[simp] theorem setRomRead_gb_serial_rx (s : gb_s) (v : Nat → Nat) : (setRomRead s v).gb_serial_rx = s.gb_serial_rx := rfl

@[simp] theorem setRomRead_gb_halt (s : gb_s) (v : Nat → Nat) : (setRomRead s v).gb_halt = s.gb_halt := rfl

@[simp] theorem setRomRead_gb_ime (s : gb_s) (v : Nat → Nat) : (setRomRead s v).gb_ime = s.gb_ime := rfl

@[simp] theorem setRomRead_gb_frame (s : gb_s) (v : Nat → Nat) : (setRomRead s v).gb_frame = s.gb_frame := rfl

@[simp] theorem setRomRead_lcd_blank (s : gb_s) (v : Nat → Nat) : (setRomRead s v).lcd_blank = s.lcd_blank := rfl

@[simp] theorem setRomRead_cart_is_mbc3O (s : gb_s) (v : Nat → Nat) : (setRomRead s v).cart_is_mbc3O = s.cart_is_mbc3O := rfl

@[simp] theorem setRomRead_mbc (s : gb_s) (v : Nat → Nat) : (setRomRead s v).mbc = s.mbc := rfl

@[simp] theorem setRomRead_cart_ram (s : gb_s) (v : Nat → Nat) : (setRomRead s v).cart_ram = s.cart_ram := rfl

@[simp] theorem setRomRead_num_rom_banks_mask (s : gb_s) (v : Nat → Nat) : (setRomRead s v).num_rom_banks_mask = s.num_rom_banks_mask := rfl

@[simp] theorem setRomRead_num_ram_banks (s : gb_s) (v : Nat → Nat) : (setRomRead s v).num_ram_banks = s.num_ram_banks := rfl

@[simp] theorem setRomRead_selected_rom_bank (s : gb_s) (v : Nat → Nat) : (setRomRead s v).selected_rom_bank = s.selected_rom_bank := rfl

@[simp] theorem setRomRead_cart_ram_bank (s : gb_s) (v : Nat → Nat) : (setRomRead s v).cart_ram_bank = s.cart_ram_bank := rfl

@[simp] theorem setRomRead_enable_cart_ram (s : gb_s) (v : Nat → Nat) : (setRomRead s v).enable_cart_ram = s.enable_cart_ram := rfl

@[simp] theorem setRomRead_cart_mode_select (s : gb_s) (v : Nat → Nat) : (setRomRead s v).cart_mode_select = s.cart_mode_select := rfl

@[simp] theorem setRomRead_rtc_latched (s : gb_s) (v : Nat → Nat) : (setRomRead s v).rtc_latched = s.rtc_latched := rfl

@[simp] theorem setRomRead_rtc_real (s : gb_s) (v : Nat → Nat) : (setRomRead s v).rtc_real = s.rtc_real := rfl

@[simp] theorem setRomRead_cpu_a (s : gb_s) (v : Nat → Nat) : (setRomRead s v).cpu_a = s.cpu_a := rfl

@[simp] theorem setRomRead_cpu_f_z (s : gb_s) (v : Nat → Nat) : (setRomRead s v).cpu_f_z = s.cpu_f_z := rfl

@[simp] theorem setRomRead_cpu_f_n (s : gb_s) (v : Nat → Nat) : (setRomRead s v).cpu_f_n = s.cpu_f_n := rfl

@[simp] theorem setRomRead_cpu_f_h (s : gb_s) (v : Nat → Nat) : (setRomRead s v).cpu_f_h = s.cpu_f_h := rfl

@[simp] theorem setRomRead_cpu_f_c (s : gb_s) (v : Nat → Nat) : (setRomRead s v).cpu_f_c = s.cpu_f_c := rfl

@[simp] theorem setRomRead_cpu_bc (s : gb_s) (v : Nat → Nat) : (setRomRead s v).cpu_bc = s.cpu_bc := rfl

@[simp] theorem setRomRead_cpu_de (s : gb_s) (v : Nat → Nat) : (setRomRead s v).cpu_de = s.cpu_de := rfl

@[simp] theorem setRomRead_cpu_hl (s : gb_s) (v : Nat → Nat) : (setRomRead s v).cpu_hl = s.cpu_hl := rfl

@[simp] theorem setRomRead_cpu_sp (s : gb_s) (v : Nat → Nat) : (setRomRead s v).cpu_sp = s.cpu_sp := rfl

@[simp] theorem setRomRead_cpu_pc (s : gb_s) (v : Nat → Nat) : (setRomRead s v).cpu_pc = s.cpu_pc := rfl

@[simp] theorem setRomRead_counter_lcd (s : gb_s) (v : Nat → Nat) : (setRomRead s v).counter_lcd = s.counter_lcd := rfl

@[simp] theorem setRomRead_counter_div (s : gb_s) (v : Nat → Nat) : (setRomRead s v).counter_div = s.counter_div := rfl

@[simp] theorem setRomRead_counter_tima (s : gb_s) (v : Nat → Nat) : (setRomRead s v).counter_tima = s.counter_tima := rfl

@[simp] theorem setRomRead_counter_serial (s : gb_s) (v : Nat → Nat) : (setRomRead s v).counter_serial = s.counter_serial := rfl

@[simp] theorem setRomRead_counter_rtc (s : gb_s) (v : Nat → Nat) : (setRomRead s v).counter_rtc = s.counter_rtc := rfl

@[simp] theorem setRomRead_counter_lcd_off (s : gb_s) (v : Nat → Nat) : (setRomRead s v).counter_lcd_off = s.counter_lcd_off := rfl

@[simp] theorem setRomRead_wram (s : gb_s) (v : Nat → Nat) : (setRomRead s v).wram = s.wram := rfl

@[simp] theorem setRomRead_vram (s : gb_s) (v : Nat → Nat) : (setRomRead s v).vram = s.vram := rfl

@[simp] theorem setRomRead_oam (s : gb_s) (v : Nat → Nat) : (setRomRead s v).oam = s.oam := rfl

@[simp] theorem setRomRead_hram_io (s : gb_s) (v : Nat → Nat) : (setRomRead s v).hram_io = s.hram_io := rfl

@[simp] theorem setRomRead_display_lcd_draw_line (s : gb_s) (v : Nat → Nat) : (setRomRead s v).display_lcd_draw_line = s.display_lcd_draw_line := rfl

@[simp] theorem setRomRead_display_bg_palette (s : gb_s) (v : Nat → Nat) : (setRomRead s v).display_bg_palette = s.display_bg_palette := rfl

@[simp] theorem setRomRead_display_sp_palette (s : gb_s) (v : Nat → Nat) : (setRomRead s v).display_sp_palette = s.display_sp_palette := rfl

@[simp] theorem setRomRead_display_window_clear (s : gb_s) (v : Nat → Nat) : (setRomRead s v).display_window_clear = s.display_window_clear := rfl

@[simp] theorem setRomRead_display_WY (s : gb_s) (v : Nat → Nat) : (setRomRead s v).display_WY = s.display_WY := rfl

@[simp] theorem setRomRead_display_frame_skip_count (s : gb_s) (v : Nat → Nat) : (setRomRead s v).display_frame_skip_count = s.display_frame_skip_count := rfl

@[simp] theorem setRomRead_display_interlace_count (s : gb_s) (v : Nat → Nat) : (setRomRead s v).display_interlace_count = s.display_interlace_count := rfl

@[simp] theorem setRomRead_direct_interlace (s : gb_s) (v : Nat → Nat) : (setRomRead s v).direct_interlace = s.direct_interlace := rfl

@[simp] theorem setRomRead_direct_frame_skip (s : gb_s) (v : Nat → Nat) : (setRomRead s v).direct_frame_skip = s.direct_frame_skip := rfl

@[simp] theorem setRomRead_direct_joypad (s : gb_s) (v : Nat → Nat) : (setRomRead s v).direct_joypad = s.direct_joypad := rfl

@[simp] theorem setSerialRxConn_gb_rom_read (s : gb_s) (v : Option Nat) : (setSerialRxConn s v).gb_rom_read = s.gb_rom_read := rfl

@[simp] theorem setSerialRxConn_gb_bootrom_read (s : gb_s) (v : Option Nat) : (setSerialRxConn s v).gb_bootrom_read = s.gb_bootrom_read := rfl

@[simp] theorem setSerialRxConn_has_bootrom (s : gb_s) (v : Option Nat) : (setSerialRxConn s v).has_bootrom = s.has_bootrom := rfl

@[simp] theorem setSerialRxConn_cart_ram_data (s : gb_s) (v : Option Nat) : (setSerialRxConn s v).cart_ram_data = s.cart_ram_data := rfl

@[simp] theorem setSerialRxConn_gb_serial_rx (s : gb_s) (v : Option Nat) : (setSerialRxConn s v).gb_serial_rx = v := rfl

@[simp] theorem setSerialRxConn_gb_halt (s : gb_s) (v : Option Nat) : (setSerialRxConn s v).gb_halt = s.gb_halt := rfl

@[simp] theorem setSerialRxConn_gb_ime (s : gb_s) (v : Option Nat) : (setSerialRxConn s v).gb_ime = s.gb_ime := rfl

@[simp] theorem setSerialRxConn_gb_frame (s : gb_s) (v : Option Nat) : (setSerialRxConn s v).gb_frame = s.gb_frame := rfl

@[simp] theorem setSerialRxConn_lcd_blank (s : gb_s) (v : Option Nat) : (setSerialRxConn s v).lcd_blank = s.lcd_blank := rfl

@[simp] theorem setSerialRxConn_cart_is_mbc3O (s : gb_s) (v : Option Nat) : (setSerialRxConn s v).cart_is_mbc3O = s.cart_is_mbc3O := rfl

@[simp] theorem setSerialRxConn_mbc (s : gb_s) (v : Option Nat) : (setSerialRxConn s v).mbc = s.mbc := rfl

@[simp] theorem setSerialRxConn_cart_ram (s : gb_s) (v : Option Nat) : (setSerialRxConn s v).cart_ram = s.cart_ram := rfl

@[simp] theorem setSerialRxConn_num_rom_banks_mask (s : gb_s) (v : Option Nat) : (setSerialRxConn s v).num_rom_banks_mask = s.num_rom_banks_mask := rfl

@[simp] theorem setSerialRxConn_num_ram_banks (s : gb_s) (v : Option Nat) : (setSerialRxConn s v).num_ram_banks = s.num_ram_banks := rfl

@[simp] theorem setSerialRxConn_selected_rom_bank (s : gb_s) (v : Option Nat) : (setSerialRxConn s v).selected_rom_bank = s.selected_rom_bank := rfl

@[simp] theorem setSerialRxConn_cart_ram_bank (s : gb_s) (v : Option Nat) : (setSerialRxConn s v).cart_ram_bank = s.cart_ram_bank := rfl

@[simp] theorem setSerialRxConn_enable_cart_ram (s : gb_s) (v : Option Nat) : (setSerialRxConn s v).enable_cart_ram = s.enable_cart_ram := rfl

@[simp] theorem setSerialRxConn_cart_mode_select (s : gb_s) (v : Option Nat) : (setSerialRxConn s v).cart_mode_select = s.cart_mode_select := rfl

@[simp] theorem setSerialRxConn_rtc_latched (s : gb_s) (v : Option Nat) : (setSerialRxConn s v).rtc_latched = s.rtc_latched := rfl

@[simp] theorem setSerialRxConn_rtc_real (s : gb_s) (v : Option Nat) : (setSerialRxConn s v).rtc_real = s.rtc_real := rfl

@[simp] theorem setSerialRxConn_cpu_a (s : gb_s) (v : Option Nat) : (setSerialRxConn s v).cpu_a = s.cpu_a := rfl

@[simp] theorem setSerialRxConn_cpu_f_z (s : gb_s) (v : Option Nat) : (setSerialRxConn s v).cpu_f_z = s.cpu_f_z := rfl

@[simp] theorem setSerialRxConn_cpu_f_n (s : gb_s) (v : Option Nat) : (setSerialRxConn s v).cpu_f_n = s.cpu_f_n := rfl

@[simp] theorem setSerialRxConn_cpu_f_h (s : gb_s) (v : Option Nat) : (setSerialRxConn s v).cpu_f_h = s.cpu_f_h := rfl

@[simp] theorem setSerialRxConn_cpu_f_c (s : gb_s) (v : Option Nat) : (setSerialRxConn s v).cpu_f_c = s.cpu_f_c := rfl

@[simp] theorem setSerialRxConn_cpu_bc (s : gb_s) (v : Option Nat) : (setSerialRxConn s v).cpu_bc = s.cpu_bc := rfl

@[simp] theorem setSerialRxConn_cpu_de (s : gb_s) (v : Option Nat) : (setSerialRxConn s v).cpu_de = s.cpu_de := rfl

@[simp] theorem setSerialRxConn_cpu_hl (s : gb_s) (v : Option Nat) : (setSerialRxConn s v).cpu_hl = s.cpu_hl := rfl

@[simp] theorem setSerialRxConn_cpu_sp (s : gb_s) (v : Option Nat) : (setSerialRxConn s v).cpu_sp = s.cpu_sp := rfl

@[simp] theorem setSerialRxConn_cpu_pc (s : gb_s) (v : Option Nat) : (setSerialRxConn s v).cpu_pc = s.cpu_pc := rfl

@[simp] theorem setSerialRxConn_counter_lcd (s : gb_s) (v : Option Nat) : (setSerialRxConn s v).counter_lcd = s.counter_lcd := rfl

@[simp] theorem setSerialRxConn_counter_div (s : gb_s) (v : Option Nat) : (setSerialRxConn s v).counter_div = s.counter_div := rfl

@[simp] theorem setSerialRxConn_counter_tima (s : gb_s) (v : Option Nat) : (setSerialRxConn s v).counter_tima = s.counter_tima := rfl

@[simp] theorem setSerialRxConn_counter_serial (s : gb_s) (v : Option Nat) : (setSerialRxConn s v).counter_serial = s.counter_serial := rfl

@[simp] theorem setSerialRxConn_counter_rtc (s : gb_s) (v : Option Nat) : (setSerialRxConn s v).counter_rtc = s.counter_rtc := rfl

@[simp] theorem setSerialRxConn_counter_lcd_off (s : gb_s) (v : Option Nat) : (setSerialRxConn s v).counter_lcd_off = s.counter_lcd_off := rfl

@[simp] theorem setSerialRxConn_wram (s : gb_s) (v : Option Nat) : (setSerialRxConn s v).wram = s.wram := rfl

@[simp] theorem setSerialRxConn_vram (s : gb_s) (v : Option Nat) : (setSerialRxConn s v).vram = s.vram := rfl

@[simp] theorem setSerialRxConn_oam (s : gb_s) (v : Option Nat) : (setSerialRxConn s v).oam = s.oam := rfl

@[simp] theorem setSerialRxConn_hram_io (s : gb_s) (v : Option Nat) : (setSerialRxConn s v).hram_io = s.hram_io := rfl

@[simp] theorem setSerialRxConn_display_lcd_draw_line (s : gb_s) (v : Option Nat) : (setSerialRxConn s v).display_lcd_draw_line = s.display_lcd_draw_line := rfl

@[simp] theorem setSerialRxConn_display_bg_palette (s : gb_s) (v : Option Nat) : (setSerialRxConn s v).display_bg_palette = s.display_bg_palette := rfl

@[simp] theorem setSerialRxConn_display_sp_palette (s : gb_s) (v : Option Nat) : (setSerialRxConn s v).display_sp_palette = s.display_sp_palette := rfl

@[simp] theorem setSerialRxConn_display_window_clear (s : gb_s) (v : Option Nat) : (setSerialRxConn s v).display_window_clear = s.display_window_clear := rfl

@[simp] theorem setSerialRxConn_display_WY (s : gb_s) (v : Option Nat) : (setSerialRxConn s v).display_WY = s.display_WY := rfl

@[simp] theorem setSerialRxConn_display_frame_skip_count (s : gb_s) (v : Option Nat) : (setSerialRxConn s v).display_frame_skip_count = s.display_frame_skip_count := rfl

@[simp] theorem setSerialRxConn_display_interlace_count (s : gb_s) (v : Option Nat) : (setSerialRxConn s v).display_interlace_count = s.display_interlace_count := rfl

@[simp] theorem setSerialRxConn_direct_interlace (s : gb_s) (v : Option Nat) : (setSerialRxConn s v).direct_interlace = s.direct_interlace := rfl

@[simp] theorem setSerialRxConn_direct_frame_skip (s : gb_s) (v : Option Nat) : (setSerialRxConn s v).direct_frame_skip = s.direct_frame_skip := rfl

@[simp] theorem setSerialRxConn_direct_joypad (s : gb_s) (v : Option Nat) : (setSerialRxConn s v).direct_joypad = s.direct_joypad := rfl

@[simp] theorem setHasBootrom_gb_rom_read (s : gb_s) (v : Bool) : (setHasBootrom s v).gb_rom_read = s.gb_rom_read := rfl

@[simp] theorem setHasBootrom_gb_bootrom_read (s : gb_s) (v : Bool) : (setHasBootrom s v).gb_bootrom_read = s.gb_bootrom_read := rfl

@[simp] theorem setHasBootrom_has_bootrom (s : gb_s) (v : Bool) : (setHasBootrom s v).has_bootrom = v := rfl

@[simp] theorem setHasBootrom_cart_ram_data (s : gb_s) (v : Bool) : (setHasBootrom s v).cart_ram_data = s.cart_ram_data := rfl

@[simp] theorem setHasBootrom_gb_serial_rx (s : gb_s) (v : Bool) : (setHasBootrom s v).gb_serial_rx = s.gb_serial_rx := rfl

@[simp] theorem setHasBootrom_gb_halt (s : gb_s) (v : Bool) : (setHasBootrom s v).gb_halt = s.gb_halt := rfl

@[simp] theorem setHasBootrom_gb_ime (s : gb_s) (v : Bool) : (setHasBootrom s v).gb_ime = s.gb_ime := rfl

@[simp] theorem setHasBootrom_gb_frame (s : gb_s) (v : Bool) : (setHasBootrom s v).gb_frame = s.gb_frame := rfl

@[simp] theorem setHasBootrom_lcd_blank (s : gb_s) (v : Bool) : (setHasBootrom s v).lcd_blank = s.lcd_blank := rfl

@[simp] theorem setHasBootrom_cart_is_mbc3O (s : gb_s) (v : Bool) : (setHasBootrom s v).cart_is_mbc3O = s.cart_is_mbc3O := rfl

@[simp] theorem setHasBootrom_mbc (s : gb_s) (v : Bool) : (setHasBootrom s v).mbc = s.mbc := rfl

@[simp] theorem setHasBootrom_cart_ram (s : gb_s) (v : Bool) : (setHasBootrom s v).cart_ram = s.cart_ram := rfl

@[simp] theorem setHasBootrom_num_rom_banks_mask (s : gb_s) (v : Bool) : (setHasBootrom s v).num_rom_banks_mask = s.num_rom_banks_mask := rfl

@[simp] theorem setHasBootrom_num_ram_banks (s : gb_s) (v : Bool) : (setHasBootrom s v).num_ram_banks = s.num_ram_banks := rfl

@[simp] theorem setHasBootrom_selected_rom_bank (s : gb_s) (v : Bool) : (setHasBootrom s v).selected_rom_bank = s.selected_rom_bank := rfl

@[simp] theorem setHasBootrom_cart_ram_bank (s : gb_s) (v : Bool) : (setHasBootrom s v).cart_ram_bank = s.cart_ram_bank := rfl

@[simp] theorem setHasBootrom_enable_cart_ram (s : gb_s) (v : Bool) : (setHasBootrom s v).enable_cart_ram = s.enable_cart_ram := rfl

@[simp] theorem setHasBootrom_cart_mode_select (s : gb_s) (v : Bool) : (setHasBootrom s v).cart_mode_select = s.cart_mode_select := rfl

@[simp] theorem setHasBootrom_rtc_latched (s : gb_s) (v : Bool) : (setHasBootrom s v).rtc_latched = s.rtc_latched := rfl

@[simp] theorem setHasBootrom_rtc_real (s : gb_s) (v : Bool) : (setHasBootrom s v).rtc_real = s.rtc_real := rfl

@[simp] theorem setHasBootrom_cpu_a (s : gb_s) (v : Bool) : (setHasBootrom s v).cpu_a = s.cpu_a := rfl

@[simp] theorem setHasBootrom_cpu_f_z (s : gb_s) (v : Bool) : (setHasBootrom s v).cpu_f_z = s.cpu_f_z := rfl

@[simp] theorem setHasBootrom_cpu_f_n (s : gb_s) (v : Bool) : (setHasBootrom s v).cpu_f_n = s.cpu_f_n := rfl

@[simp] theorem setHasBootrom_cpu_f_h (s : gb_s) (v : Bool) : (setHasBootrom s v).cpu_f_h = s.cpu_f_h := rfl

@[simp] theorem setHasBootrom_cpu_f_c (s : gb_s) (v : Bool) : (setHasBootrom s v).cpu_f_c = s.cpu_f_c := rfl

@[simp] theorem setHasBootrom_cpu_bc (s : gb_s) (v : Bool) : (setHasBootrom s v).cpu_bc = s.cpu_bc := rfl

@[simp] theorem setHasBootrom_cpu_de (s : gb_s) (v : Bool) : (setHasBootrom s v).cpu_de = s.cpu_de := rfl

@[simp] theorem setHasBootrom_cpu_hl (s : gb_s) (v : Bool) : (setHasBootrom s v).cpu_hl = s.cpu_hl := rfl

@[simp] theorem setHasBootrom_cpu_sp (s : gb_s) (v : Bool) : (setHasBootrom s v).cpu_sp = s.cpu_sp := rfl

@[simp] theorem setHasBootrom_cpu_pc (s : gb_s) (v : Bool) : (setHasBootrom s v).cpu_pc = s.cpu_pc := rfl

@[simp] theorem setHasBootrom_counter_lcd (s : gb_s) (v : Bool) : (setHasBootrom s v).counter_lcd = s.counter_lcd := rfl

@[simp] theorem setHasBootrom_counter_div (s : gb_s) (v : Bool) : (setHasBootrom s v).counter_div = s.counter_div := rfl

@[simp] theorem setHasBootrom_counter_tima (s : gb_s) (v : Bool) : (setHasBootrom s v).counter_tima = s.counter_tima := rfl

@[simp] theorem setHasBootrom_counter_serial (s : gb_s) (v : Bool) : (setHasBootrom s v).counter_serial = s.counter_serial := rfl

@[simp] theorem setHasBootrom_counter_rtc (s : gb_s) (v : Bool) : (setHasBootrom s v).counter_rtc = s.counter_rtc := rfl

@[simp] theorem setHasBootrom_counter_lcd_off (s : gb_s) (v : Bool) : (setHasBootrom s v).counter_lcd_off = s.counter_lcd_off := rfl

@[simp] theorem setHasBootrom_wram (s : gb_s) (v : Bool) : (setHasBootrom s v).wram = s.wram := rfl

@[simp] theorem setHasBootrom_vram (s : gb_s) (v : Bool) : (setHasBootrom s v).vram = s.vram := rfl

@[simp] theorem setHasBootrom_oam (s : gb_s) (v : Bool) : (setHasBootrom s v).oam = s.oam := rfl

@[simp] theorem setHasBootrom_hram_io (s : gb_s) (v : Bool) : (setHasBootrom s v).hram_io = s.hram_io := rfl

@[simp] theorem setHasBootrom_display_lcd_draw_line (s : gb_s) (v : Bool) : (setHasBootrom s v).display_lcd_draw_line = s.display_lcd_draw_line := rfl

@[simp] theorem setHasBootrom_display_bg_palette (s : gb_s) (v : Bool) : (setHasBootrom s v).display_bg_palette = s.display_bg_palette := rfl

@[simp] theorem setHasBootrom_display_sp_palette (s : gb_s) (v : Bool) : (setHasBootrom s v).display_sp_palette = s.display_sp_palette := rfl

@[simp] theorem setHasBootrom_display_window_clear (s : gb_s) (v : Bool) : (setHasBootrom s v).display_window_clear = s.display_window_clear := rfl

@[simp] theorem setHasBootrom_display_WY (s : gb_s) (v : Bool) : (setHasBootrom s v).display_WY = s.display_WY := rfl

@[simp] theorem setHasBootrom_display_frame_skip_count (s : gb_s) (v : Bool) : (setHasBootrom s v).display_frame_skip_count = s.display_frame_skip_count := rfl

@[simp] theorem setHasBootrom_display_interlace_count (s : gb_s) (v : Bool) : (setHasBootrom s v).display_interlace_count = s.display_interlace_count := rfl

@[simp] theorem setHasBootrom_direct_interlace (s : gb_s) (v : Bool) : (setHasBootrom s v).direct_interlace = s.direct_interlace := rfl

@[simp] theorem setHasBootrom_direct_frame_skip (s : gb_s) (v : Bool) : (setHasBootrom s v).direct_frame_skip = s.direct_frame_skip := rfl

@[simp] theorem setHasBootrom_direct_joypad (s : gb_s) (v : Bool) : (setHasBootrom s v).direct_joypad = s.direct_joypad := rfl

@[simp] theorem setCpuF_gb_rom_read (s : gb_s) (z n h c : Bool) : (setCpuF s z n h c).gb_rom_read = s.gb_rom_read := rfl

@[simp] theorem setCpuF_gb_bootrom_read (s : gb_s) (z n h c : Bool) : (setCpuF s z n h c).gb_bootrom_read = s.gb_bootrom_read := rfl

@[simp] theorem setCpuF_has_bootrom (s : gb_s) (z n h c : Bool) : (setCpuF s z n h c).has_bootrom = s.has_bootrom := rfl

@[simp] theorem setCpuF_cart_ram_data (s : gb_s) (z n h c : Bool) : (setCpuF s z n h c).cart_ram_data = s.cart_ram_data := rfl

@[simp] theorem setCpuF_gb_serial_rx (s : gb_s) (z n h c : Bool) : (setCpuF s z n h c).gb_serial_rx = s.gb_serial_rx := rfl

@[simp] theorem setCpuF_gb_halt (s : gb_s) (z n h c : Bool) : (setCpuF s z n h c).gb_halt = s.gb_halt := rfl

@[simp] theorem setCpuF_gb_ime (s : gb_s) (z n h c : Bool) : (setCpuF s z n h c).gb_ime = s.gb_ime := rfl

@[simp] theorem setCpuF_gb_frame (s : gb_s) (z n h c : Bool) : (setCpuF s z n h c).gb_frame = s.gb_frame := rfl

@[simp] theorem setCpuF_lcd_blank (s : gb_s) (z n h c : Bool) : (setCpuF s z n h c).lcd_blank = s.lcd_blank := rfl

@[simp] theorem setCpuF_cart_is_mbc3O (s : gb_s) (z n h c : Bool) : (setCpuF s z n h c).cart_is_mbc3O = s.cart_is_mbc3O := rfl

@[simp] theorem setCpuF_mbc (s : gb_s) (z n h c : Bool) : (setCpuF s z n h c).mbc = s.mbc := rfl

@[simp] theorem setCpuF_cart_ram (s : gb_s) (z n h c : Bool) : (setCpuF s z n h c).cart_ram = s.cart_ram := rfl

@[simp] theorem setCpuF_num_rom_banks_mask (s : gb_s) (z n h c : Bool) : (setCpuF s z n h c).num_rom_banks_mask = s.num_rom_banks_mask := rfl

@[simp] theorem setCpuF_num_ram_banks (s : gb_s) (z n h c : Bool) : (setCpuF s z n h c).num_ram_banks = s.num_ram_banks := rfl

@[simp] theorem setCpuF_selected_rom_bank (s : gb_s) (z n h c : Bool) : (setCpuF s z n h c).selected_rom_bank = s.selected_rom_bank := rfl

@[simp] theorem setCpuF_cart_ram_bank (s : gb_s) (z n h c : Bool) : (setCpuF s z n h c).cart_ram_bank = s.cart_ram_bank := rfl

@[simp] theorem setCpuF_enable_cart_ram (s : gb_s) (z n h c : Bool) : (setCpuF s z n h c).enable_cart_ram = s.enable_cart_ram := rfl

@[simp] theorem setCpuF_cart_mode_select (s : gb_s) (z n h c : Bool) : (setCpuF s z n h c).cart_mode_select = s.cart_mode_select := rfl

@[simp] theorem setCpuF_rtc_latched (s : gb_s) (z n h c : Bool) : (setCpuF s z n h c).rtc_latched = s.rtc_latched := rfl

@[simp] theorem setCpuF_rtc_real (s : gb_s) (z n h c : Bool) : (setCpuF s z n h c).rtc_real = s.rtc_real := rfl

@[simp] theorem setCpuF_cpu_a (s : gb_s) (z n h c : Bool) : (setCpuF s z n h c).cpu_a = s.cpu_a := rfl

@[simp] theorem setCpuF_cpu_f_z (s : gb_s) (z n h c : Bool) : (setCpuF s z n h c).cpu_f_z = z := rfl

@[simp] theorem setCpuF_cpu_f_n (s : gb_s) (z n h c : Bool) : (setCpuF s z n h c).cpu_f_n = n := rfl

@[simp] theorem setCpuF_cpu_f_h (s : gb_s) (z n h c : Bool) : (setCpuF s z n h c).cpu_f_h = h := rfl

@[simp] theorem setCpuF_cpu_f_c (s : gb_s) (z n h c : Bool) : (setCpuF s z n h c).cpu_f_c = c := rfl

@[simp] theorem setCpuF_cpu_bc (s : gb_s) (z n h c : Bool) : (setCpuF s z n h c).cpu_bc = s.cpu_bc := rfl

@[simp] theorem setCpuF_cpu_de (s : gb_s) (z n h c : Bool) : (setCpuF s z n h c).cpu_de = s.cpu_de := rfl

@[simp] theorem setCpuF_cpu_hl (s : gb_s) (z n h c : Bool) : (setCpuF s z n h c).cpu_hl = s.cpu_hl := rfl

@[simp] theorem setCpuF_cpu_sp (s : gb_s) (z n h c : Bool) : (setCpuF s z n h c).cpu_sp = s.cpu_sp := rfl

@[simp] theorem setCpuF_cpu_pc (s : gb_s) (z n h c : Bool) : (setCpuF s z n h c).cpu_pc = s.cpu_pc := rfl

@[simp] theorem setCpuF_counter_lcd (s : gb_s) (z n h c : Bool) : (setCpuF s z n h c).counter_lcd = s.counter_lcd := rfl

@[simp] theorem setCpuF_counter_div (s : gb_s) (z n h c : Bool) : (setCpuF s z n h c).counter_div = s.counter_div := rfl

@[simp] theorem setCpuF_counter_tima (s : gb_s) (z n h c : Bool) : (setCpuF s z n h c).counter_tima = s.counter_tima := rfl

@[simp] theorem setCpuF_counter_serial (s : gb_s) (z n h c : Bool) : (setCpuF s z n h c).counter_serial = s.counter_serial := rfl

@[simp] theorem setCpuF_counter_rtc (s : gb_s) (z n h c : Bool) : (setCpuF s z n h c).counter_rtc = s.counter_rtc := rfl

@[simp] theorem setCpuF_counter_lcd_off (s : gb_s) (z n h c : Bool) : (setCpuF s z n h c).counter_lcd_off = s.counter_lcd_off := rfl

@[simp] theorem setCpuF_wram (s : gb_s) (z n h c : Bool) : (setCpuF s z n h c).wram = s.wram := rfl

@[simp] theorem setCpuF_vram (s : gb_s) (z n h c : Bool) : (setCpuF s z n h c).vram = s.vram := rfl

@[simp] theorem setCpuF_oam (s : gb_s) (z n h c : Bool) : (setCpuF s z n h c).oam = s.oam := rfl

@[simp] theorem setCpuF_hram_io (s : gb_s) (z n h c : Bool) : (setCpuF s z n h c).hram_io = s.hram_io := rfl

@[simp] theorem setCpuF_display_lcd_draw_line (s : gb_s) (z n h c : Bool) : (setCpuF s z n h c).display_lcd_draw_line = s.display_lcd_draw_line := rfl

@[simp] theorem setCpuF_display_bg_palette (s : gb_s) (z n h c : Bool) : (setCpuF s z n h c).display_bg_palette = s.display_bg_palette := rfl

@[simp] theorem setCpuF_display_sp_palette (s : gb_s) (z n h c : Bool) : (setCpuF s z n h c).display_sp_palette = s.display_sp_palette := rfl

@[simp] theorem setCpuF_display_window_clear (s : gb_s) (z n h c : Bool) : (setCpuF s z n h c).display_window_clear = s.display_window_clear := rfl

@[simp] theorem setCpuF_display_WY (s : gb_s) (z n h c : Bool) : (setCpuF s z n h c).display_WY = s.display_WY := rfl

@[simp] theorem setCpuF_display_frame_skip_count (s : gb_s) (z n h c : Bool) : (setCpuF s z n h c).display_frame_skip_count = s.display_frame_skip_count := rfl

@[simp] theorem setCpuF_display_interlace_count (s : gb_s) (z n h c : Bool) : (setCpuF s z n h c).display_interlace_count = s.display_interlace_count := rfl

@[simp] theorem setCpuF_direct_interlace (s : gb_s) (z n h c : Bool) : (setCpuF s z n h c).direct_interlace = s.direct_interlace := rfl

@[simp] theorem setCpuF_direct_frame_skip (s : gb_s) (z n h c : Bool) : (setCpuF s z n h c).direct_frame_skip = s.direct_frame_skip := rfl

@[simp] theorem setCpuF_direct_joypad (s : gb_s) (z n h c : Bool) : (setCpuF s z n h c).direct_joypad = s.direct_joypad := rfl

/-! ## `__gb_read` -/

/-- The `ortab` or-mask table used for APU register reads when sound is
disabled (`__gb_read`, case 0xF).  The C code indexes it with
`addr - IO_ADDR`, which for `addr ≥ 0xFF30` runs past the 48 entries of the
array (undefined behaviour in C); the model returns 0 there. -/
def ortab : List Nat :=
  [0x80, 0x3f, 0x00, 0xff, 0xbf,
   0xff, 0x3f, 0x00, 0xff, 0xbf,
   0x7f, 0xff, 0x9f, 0xff, 0xbf,
   0xff, 0xff, 0x00, 0x00, 0xbf,
   0x00, 0x00, 0x70,
   0xff, 0xff, 0xff, 0xff, 0xff, 0xff, 0xff, 0xff, 0xff,
   0x00, 0x00, 0x00, 0x00, 0x00, 0x00, 0x00, 0x00,
   0x00, 0x00, 0x00, 0x00, 0x00, 0x00, 0x00, 0x00]

/-- ROM address served for a read in 0x4000–0x7FFF (`__gb_read`, cases 0x4–0x7).
In C the bank offset arithmetic is done in unsigned integers; a bank value of
0 would wrap.  In every state reachable through the MBC write paths the used
bank value is ≥ 1 (bank 0 is promoted), so natural subtraction agrees with
the C computation. -/
def rom_bank_addr (s : gb_s) (addr : Nat) : Nat :=
  if s.mbc = 1 ∧ s.cart_mode_select ≠ 0 then
    addr + ((s.selected_rom_bank &&& 0x1F) - 1) * ROM_BANK_SIZE
  else
    addr + (s.selected_rom_bank - 1) * ROM_BANK_SIZE

/-- `__gb_read`.  The switch on the top nibble of `addr` becomes a chain of
range tests.  The final `gb_error(GB_INVALID_READ)` branch of the C function
is unreachable (the 0xF case covers all remaining addresses). -/
def gb_read (s : gb_s) (addr : Nat) : Nat :=
  if addr < 0x1000 then
    if s.hram_io IO_BOOT = 0 ∧ addr < 0x0100 then s.gb_bootrom_read addr % 256
    else s.gb_rom_read addr % 256
  else if addr < 0x4000 then
    s.gb_rom_read addr % 256
  else if addr < 0x8000 then
    s.gb_rom_read (rom_bank_addr s addr) % 256
  else if addr < 0xA000 then
    s.vram (addr - VRAM_ADDR)
  else if addr < 0xC000 then
    if s.mbc = 3 ∧ 0x08 ≤ s.cart_ram_bank then
      s.rtc_latched.bytes (s.cart_ram_bank - 0x08)
    else if s.cart_ram ∧ s.enable_cart_ram then
      if s.mbc = 2 then
        s.cart_ram_data (addr &&& 0x1FF) % 256
      else if (s.cart_mode_select ≠ 0 ∨ s.mbc ≠ 1) ∧
          s.cart_ram_bank < s.num_ram_banks then
        s.cart_ram_data (addr - CART_RAM_ADDR + s.cart_ram_bank * CRAM_BANK_SIZE) % 256
      else
        s.cart_ram_data (addr - CART_RAM_ADDR) % 256
    else
      0xFF
  else if addr < 0xE000 then
    s.wram (addr - WRAM_0_ADDR)
  else if addr < 0xF000 then
    s.wram (addr - ECHO_ADDR)
  else if addr < OAM_ADDR then
    s.wram (addr - ECHO_ADDR)
  else if addr < UNUSED_ADDR then
    s.oam (addr - OAM_ADDR)
  else if addr < IO_ADDR then
    0xFF
  else if 0xFF10 ≤ addr ∧ addr ≤ 0xFF3F then
    s.hram_io (addr - IO_ADDR) ||| ortab.getD (addr - IO_ADDR) 0
  else
    s.hram_io (addr - IO_ADDR)

/-! ## `__gb_write` -/

/-- The OAM DMA copy triggered by a write to 0xFF46: `0xA0` sequential byte
reads through `__gb_read`, each written to `oam[i]` before the next read. -/
def dma_copy (s : gb_s) (dma_addr : Nat) : gb_s :=
  (List.range OAM_SIZE).foldl
    (fun t i => { t with oam := upd8 t.oam i (gb_read t (dma_addr + i)) }) s

/-- `rtc_reg_mask[5] = {0x3F, 0x3F, 0x1F, 0xFF, 0xC1}` (`__gb_write`, RTC
register writes).  Indices beyond 4 are undefined behaviour in C; the model
returns 0. -/
def rtc_reg_mask (i : Nat) : Nat :=
  if i = 0 then 0x3F else if i = 1 then 0x3F else if i = 2 then 0x1F
  else if i = 3 then 0xFF else if i = 4 then 0xC1 else 0

/-- `__gb_write`, 0x0000–0x1FFF (switch cases 0x0, 0x1): cart-RAM enable,
with the MBC2/other fall-through into ROM-bank select. -/
def gbw_ram_enable (s : gb_s) (addr v : Nat) : gb_s :=
  if 0 < s.mbc ∧ s.mbc ≠ 2 ∧ s.cart_ram then
    setEnableCartRam s ((v &&& 0x0F) = 0x0A)
  else if s.mbc = 5 then
    let b := (s.selected_rom_bank &&& 0x100) ||| (v % 256)
    setSelectedRomBank s (b &&& s.num_rom_banks_mask)
  else if s.mbc = 1 then
    let b := (v &&& 0x1F) ||| (s.selected_rom_bank &&& 0x60)
    let b := if b &&& 0x1F = 0 then b + 1 else b
    setSelectedRomBank s (b &&& s.num_rom_banks_mask)
  else if s.mbc = 2 then
    if addr &&& 0x100 ≠ 0 then
      let b := v &&& 0x0F
      let b := if b = 0 then b + 1 else b
      setSelectedRomBank s (b &&& s.num_rom_banks_mask)
    else
      setEnableCartRam s ((v &&& 0x0F) = 0x0A)
  else if s.mbc = 3 then
    let b := if s.cart_is_mbc3O then v % 256 else v &&& 0x7F
    let b := if b = 0 then b + 1 else b
    setSelectedRomBank s (b &&& s.num_rom_banks_mask)
  else
    setSelectedRomBank s (s.selected_rom_bank &&& s.num_rom_banks_mask)

/-- `__gb_write`, 0x2000–0x2FFF (switch case 0x2): MBC5 low ROM-bank byte,
otherwise the shared ROM-bank select. -/
def gbw_bank_low2 (s : gb_s) (addr v : Nat) : gb_s :=
  if s.mbc = 5 then
    let b := (s.selected_rom_bank &&& 0x100) ||| (v % 256)
    setSelectedRomBank s (b &&& s.num_rom_banks_mask)
  else if s.mbc = 1 then
    let b := (v &&& 0x1F) ||| (s.selected_rom_bank &&& 0x60)
    let b := if b &&& 0x1F = 0 then b + 1 else b
    setSelectedRomBank s (b &&& s.num_rom_banks_mask)
  else if s.mbc = 2 then
    if addr &&& 0x100 ≠ 0 then
      let b := v &&& 0x0F
      let b := if b = 0 then b + 1 else b
      setSelectedRomBank s (b &&& s.num_rom_banks_mask)
    else
      setEnableCartRam s ((v &&& 0x0F) = 0x0A)
  else if s.mbc = 3 then
    let b := if s.cart_is_mbc3O then v % 256 else v &&& 0x7F
    let b := if b = 0 then b + 1 else b
    setSelectedRomBank s (b &&& s.num_rom_banks_mask)
  else
    setSelectedRomBank s (s.selected_rom_bank &&& s.num_rom_banks_mask)

/-- `__gb_write`, 0x3000–0x3FFF (switch case 0x3): ROM-bank select, with the
MBC5 high ROM-bank bit. -/
def gbw_bank3 (s : gb_s) (addr v : Nat) : gb_s :=
  if s.mbc = 1 then
    let b := (v &&& 0x1F) ||| (s.selected_rom_bank &&& 0x60)
    let b := if b &&& 0x1F = 0 then b + 1 else b
    setSelectedRomBank s (b &&& s.num_rom_banks_mask)
  else if s.mbc = 2 then
    if addr &&& 0x100 ≠ 0 then
      let b := v &&& 0x0F
      let b := if b = 0 then b + 1 else b
      setSelectedRomBank s (b &&& s.num_rom_banks_mask)
    else
      setEnableCartRam s ((v &&& 0x0F) = 0x0A)
  else if s.mbc = 3 then
    let b := if s.cart_is_mbc3O then v % 256 else v &&& 0x7F
    let b := if b = 0 then b + 1 else b
    setSelectedRomBank s (b &&& s.num_rom_banks_mask)
  else if s.mbc = 5 then
    let b := ((v &&& 0x01) <<< 8) ||| (s.selected_rom_bank &&& 0xFF)
    setSelectedRomBank s (b &&& s.num_rom_banks_mask)
  else
    setSelectedRomBank s (s.selected_rom_bank &&& s.num_rom_banks_mask)

/-- `__gb_write`, 0x4000–0x5FFF (switch cases 0x4, 0x5): RAM-bank / upper
ROM-bank select. -/
def gbw_ram_bank (s : gb_s) (v : Nat) : gb_s :=
  if s.mbc = 1 then
    let b := ((v &&& 3) <<< 5) ||| (s.selected_rom_bank &&& 0x1F)
    setSelectedRomBank (setCartRamBank s (v &&& 3)) (b &&& s.num_rom_banks_mask)
  else if s.mbc = 3 then
    let bank := v % 256
    if ¬ s.cart_is_mbc3O ∧ bank < 0x8 then
      setCartRamBank s (bank &&& 0x3)
    else
      setCartRamBank s bank
  else if s.mbc = 5 then
    setCartRamBank s (v &&& 0x0F)
  else
    s

/-- `__gb_write`, 0x6000–0x7FFF (switch cases 0x6, 0x7): RTC latch edge /
banking mode select. -/
def gbw_mode (s : gb_s) (v : Nat) : gb_s :=
  let v1 := v &&& 1
  if s.mbc = 3 ∧ v1 ≠ 0 ∧ s.cart_mode_select = 0 then
    setCartModeSelect (setRtcLatched s s.rtc_real) v1
  else
    setCartModeSelect s v1

/-- `__gb_write`, 0xA000–0xBFFF (switch cases 0xA, 0xB): cart RAM / RTC
register writes. -/
def gbw_cram (s : gb_s) (addr v : Nat) : gb_s :=
  if s.mbc = 3 ∧ 0x08 ≤ s.cart_ram_bank then
    let reg := s.cart_ram_bank - 0x08
    setRtcReal s (s.rtc_real.setByte reg (v &&& rtc_reg_mask reg))
  else if s.cart_ram ∧ s.enable_cart_ram then
    if s.mbc = 2 then
      setCartRamData s (upd8 s.cart_ram_data (addr &&& 0x1FF) ((v &&& 0x0F) ||| 0xF0))
    else if ((s.mbc = 1 ∧ s.cart_mode_select ≠ 0) ∨ s.mbc ≠ 1) ∧
        s.cart_ram_bank < s.num_ram_banks then
      let off := addr - CART_RAM_ADDR + s.cart_ram_bank * CRAM_BANK_SIZE
      setCartRamData s (upd8 s.cart_ram_data off v)
    else if s.num_ram_banks ≠ 0 then
      setCartRamData s (upd8 s.cart_ram_data (addr - CART_RAM_ADDR) v)
    else
      s
  else
    s

/-- `__gb_write`, IO case 0x00: JOYP. -/
def gbw_joyp (s : gb_s) (v : Nat) : gb_s :=
  let j := upd8 s.hram_io IO_JOYP v
  if j IO_JOYP &&& 0x10 = 0 then
    setHram s (upd8 j IO_JOYP (j IO_JOYP ||| (s.direct_joypad >>> 4)))
  else
    setHram s (upd8 j IO_JOYP (j IO_JOYP ||| (s.direct_joypad &&& 0x0F)))

/-- `__gb_write`, IO case 0x40: LCDC, with the LCD on/off transitions. -/
def gbw_lcdc (s : gb_s) (v : Nat) : gb_s :=
  let lcd_enabled := s.hram_io IO_LCDC &&& LCDC_ENABLE
  let s := setHram s (upd8 s.hram_io IO_LCDC v)
  if lcd_enabled = 0 ∧ v &&& LCDC_ENABLE ≠ 0 then
    setLcdBlank s true
  else if lcd_enabled ≠ 0 ∧ v &&& LCDC_ENABLE = 0 then
    let stat := (s.hram_io IO_STAT &&& (0xFF ^^^ STAT_MODE)) ||| IO_STAT_MODE_HBLANK
    let s := setHram s (upd8 s.hram_io IO_STAT stat)
    let s := setHram s (upd8 s.hram_io IO_LY 0)
    setCounterLcd (setCounterLcdOff s (s.counter_lcd_off + s.counter_lcd)) 0
  else
    s

/-- `__gb_write`, IO case 0x46: OAM DMA. -/
def gbw_dma (s : gb_s) (v : Nat) : gb_s :=
  let dma_addr := (v % 256) <<< 8
  let s := setHram s (upd8 s.hram_io IO_DMA v)
  dma_copy s dma_addr

/-- `__gb_write`, IO case 0x47: BGP. -/
def gbw_bgp (s : gb_s) (v : Nat) : gb_s :=
  let s := setHram s (upd8 s.hram_io IO_BGP v)
  setDispBgPalette s (fun i =>
    if i = 0 then s.hram_io IO_BGP &&& 0x03
    else if i = 1 then (s.hram_io IO_BGP >>> 2) &&& 0x03
    else if i = 2 then (s.hram_io IO_BGP >>> 4) &&& 0x03
    else if i = 3 then (s.hram_io IO_BGP >>> 6) &&& 0x03
    else s.display_bg_palette i)

/-- `__gb_write`, IO case 0x48: OBP0. -/
def gbw_obp0 (s : gb_s) (v : Nat) : gb_s :=
  let s := setHram s (upd8 s.hram_io IO_OBP0 v)
  setDispSpPalette s (fun i =>
    if i = 0 then s.hram_io IO_OBP0 &&& 0x03
    else if i = 1 then (s.hram_io IO_OBP0 >>> 2) &&& 0x03
    else if i = 2 then (s.hram_io IO_OBP0 >>> 4) &&& 0x03
    else if i = 3 then (s.hram_io IO_OBP0 >>> 6) &&& 0x03
    else s.display_sp_palette i)

/-- `__gb_write`, IO case 0x49: OBP1. -/
def gbw_obp1 (s : gb_s) (v : Nat) : gb_s :=
  let s := setHram s (upd8 s.hram_io IO_OBP1 v)
  setDispSpPalette s (fun i =>
    if i = 4 then s.hram_io IO_OBP1 &&& 0x03
    else if i = 5 then (s.hram_io IO_OBP1 >>> 2) &&& 0x03
    else if i = 6 then (s.hram_io IO_OBP1 >>> 4) &&& 0x03
    else if i = 7 then (s.hram_io IO_OBP1 >>> 6) &&& 0x03
    else s.display_sp_palette i)

/-- `__gb_write`, the `switch(PEANUT_GB_GET_LSB16(addr))` over the IO
registers. -/
def gbw_io (s : gb_s) (addr v : Nat) : gb_s :=
  let lsb := addr &&& 0xFF
  if lsb = 0x00 then gbw_joyp s v
  else if lsb = 0x01 then setHram s (upd8 s.hram_io IO_SB v)
  else if lsb = 0x02 then setHram s (upd8 s.hram_io IO_SC v)
  else if lsb = 0x04 then setHram s (upd8 s.hram_io IO_DIV 0x00)
  else if lsb = 0x05 then setHram s (upd8 s.hram_io IO_TIMA v)
  else if lsb = 0x06 then setHram s (upd8 s.hram_io IO_TMA v)
  else if lsb = 0x07 then setHram s (upd8 s.hram_io IO_TAC v)
  else if lsb = 0x0F then setHram s (upd8 s.hram_io IO_IF (v ||| 0xE0))
  else if lsb = 0x40 then gbw_lcdc s v
  else if lsb = 0x41 then
    let stat := (v &&& STAT_USER_BITS) ||| (s.hram_io IO_STAT &&& STAT_MODE) ||| 0x80
    setHram s (upd8 s.hram_io IO_STAT stat)
  else if lsb = 0x42 then setHram s (upd8 s.hram_io IO_SCY v)
  else if lsb = 0x43 then setHram s (upd8 s.hram_io IO_SCX v)
  else if lsb = 0x45 then setHram s (upd8 s.hram_io IO_LYC v)
  else if lsb = 0x46 then gbw_dma s v
  else if lsb = 0x47 then gbw_bgp s v
  else if lsb = 0x48 then gbw_obp0 s v
  else if lsb = 0x49 then gbw_obp1 s v
  else if lsb = 0x4A then setHram s (upd8 s.hram_io IO_WY v)
  else if lsb = 0x4B then setHram s (upd8 s.hram_io IO_WX v)
  else if lsb = 0x50 then setHram s (upd8 s.hram_io IO_BOOT 0x01)
  else if lsb = 0xFF then setHram s (upd8 s.hram_io IO_IE v)
  else s

/-- `__gb_write`.  Fall-through chains of the C switch are unfolded into the
equivalent range tests; the per-region bodies live in the `gbw_*` helpers
above.  Writes that the C code silently ignores return the state unchanged. -/
def gb_write (s : gb_s) (addr v : Nat) : gb_s :=
  if addr < 0x2000 then gbw_ram_enable s addr v
  else if addr < 0x3000 then gbw_bank_low2 s addr v
  else if addr < 0x4000 then gbw_bank3 s addr v
  else if addr < 0x6000 then gbw_ram_bank s v
  else if addr < 0x8000 then gbw_mode s v
  else if addr < 0xA000 then setVram s (upd8 s.vram (addr - VRAM_ADDR) v)
  else if addr < 0xC000 then gbw_cram s addr v
  else if addr < 0xD000 then setWram s (upd8 s.wram (addr - WRAM_0_ADDR) v)
  else if addr < 0xE000 then setWram s (upd8 s.wram (addr - WRAM_1_ADDR + 0x1000) v)
  else if addr < 0xF000 then setWram s (upd8 s.wram (addr - ECHO_ADDR) v)
  else if addr < OAM_ADDR then setWram s (upd8 s.wram (addr - ECHO_ADDR) v)
  else if addr < UNUSED_ADDR then setOam s (upd8 s.oam (addr - OAM_ADDR) v)
  else if addr < IO_ADDR then s
  else if HRAM_ADDR ≤ addr ∧ addr < INTR_EN_ADDR then
    setHram s (upd8 s.hram_io (addr - IO_ADDR) v)
  else if 0xFF10 ≤ addr ∧ addr ≤ 0xFF3F then
    setHram s (upd8 s.hram_io (addr - IO_ADDR) v)
  else
    gbw_io s addr v


/-! ## `gb_reset` and `gb_init` -/

/-- `gb_reset`: post-boot DMG startup values (or boot-ROM entry values when a
boot ROM is installed). -/
def gb_reset (s : gb_s) : gb_s :=
  let s := setHalt s false
  let s := setIme s true
  let s := setSelectedRomBank s 1
  let s := setCartRamBank s 0
  let s := setEnableCartRam s false
  let s := setCartModeSelect s 0
  let s :=
    if ¬ s.has_bootrom then
      let hdr_chk := s.gb_rom_read ROM_HEADER_CHECKSUM_LOC % 256 ≠ 0
      let s := setCpuA s 0x01
      let s := setCpuF s true false hdr_chk hdr_chk
      let s := setCpuBC s 0x0013
      let s := setCpuDE s 0x00D8
      let s := setCpuHL s 0x014D
      let s := setCpuSP s 0xFFFE
      let s := setCpuPC s 0x0100
      let s := setHram s (upd8 s.hram_io IO_DIV 0xAB)
      let s := setHram s (upd8 s.hram_io IO_LCDC 0x91)
      let s := setHram s (upd8 s.hram_io IO_STAT 0x85)
      let s := setHram s (upd8 s.hram_io IO_BOOT 0x01)
      let s := gb_write s 0xFF26 0xF1
      setVram s (fun _ => 0x00)
    else
      let s := setCpuPC s 0x0000
      let s := setHram s (upd8 s.hram_io IO_DIV 0x00)
      let s := setHram s (upd8 s.hram_io IO_LCDC 0x00)
      let s := setHram s (upd8 s.hram_io IO_STAT 0x84)
      setHram s (upd8 s.hram_io IO_BOOT 0x00)
  let s := setCounterLcd s 0
  let s := setCounterDiv s 0
  let s := setCounterTima s 0
  let s := setCounterSerial s 0
  let s := setCounterRtc s 0
  let s := setCounterLcdOff s 0
  let s := setDirectJoypad s 0xFF
  let s := setHram s (upd8 s.hram_io IO_JOYP 0xCF)
  let s := setHram s (upd8 s.hram_io IO_SB 0x00)
  let s := setHram s (upd8 s.hram_io IO_SC 0x7E)
  let s := setHram s (upd8 s.hram_io IO_TIMA 0x00)
  let s := setHram s (upd8 s.hram_io IO_TMA 0x00)
  let s := setHram s (upd8 s.hram_io IO_TAC 0xF8)
  let s := setHram s (upd8 s.hram_io IO_IF 0xE1)
  let s := setHram s (upd8 s.hram_io IO_SCY 0x00)
  let s := setHram s (upd8 s.hram_io IO_SCX 0x00)
  let s := setHram s (upd8 s.hram_io IO_LY 0x00)
  let s := setHram s (upd8 s.hram_io IO_LYC 0x00)
  let s := gb_write s 0xFF47 0xFC
  let s := gb_write s 0xFF48 0xFF
  let s := gb_write s 0xFF49 0xFF
  let s := setHram s (upd8 s.hram_io IO_WY 0x00)
  let s := setHram s (upd8 s.hram_io IO_WX 0x00)
  let s := setHram s (upd8 s.hram_io IO_IE 0x00)
  setHram s (upd8 s.hram_io IO_IF 0xE1)

/-- `enum gb_init_error_e`. -/
inductive gb_init_error_e where
  | GB_INIT_NO_ERROR
  | GB_INIT_CARTRIDGE_UNSUPPORTED
  | GB_INIT_INVALID_CHECKSUM
deriving DecidableEq

/-- `cart_mbc[]` table from `gb_init` (−1 marks an unsupported type). -/
def cart_mbc : List Int :=
  [0, 1, 1, 1, -1, 2, 2, -1, 0, 0, -1, 0, 0, 0, -1, 3,
   3, 3, 3, 3, -1, -1, -1, -1, -1, 5, 5, 5, 5, 5, 5, -1]

/-- `cart_ram[]` table from `gb_init`. -/
def cart_ram_table : List Nat :=
  [0, 0, 1, 1, 0, 1, 1, 0, 1, 1, 0, 0, 0, 0, 0, 0,
   1, 0, 1, 1, 0, 0, 0, 0, 0, 0, 1, 1, 0, 0, 0, 0]

/-- `num_rom_banks_mask[]` table from `gb_init` (bank counts; the mask is the
count minus one).  An out-of-range ROM-size byte indexes past the array in C
(undefined behaviour, not validated by `gb_init`); the model reads 0 there. -/
def num_rom_banks_mask_table : List Nat := [2, 4, 8, 16, 32, 64, 128, 256, 512]

/-- `num_ram_banks[]` table from `gb_init`; same caveat for out-of-range
RAM-size bytes. -/
def num_ram_banks_table : List Nat := [0, 1, 1, 4, 16, 8]

/-- The header-checksum loop of `gb_init`:
`x = 0; for(i = 0x0134; i <= 0x014C; i++) x = x - rom[i] - 1;` in `uint8_t`
arithmetic. -/
def gb_header_checksum (rom : Nat → Nat) : Nat :=
  (List.range 25).foldl (fun x i => (x + 255 - rom (0x0134 + i) % 256) % 256) 0

/-- `gb_init`.  Returns the error code together with the final state (the
state component is meaningful only on `GB_INIT_NO_ERROR`, as in C where the
context is partially assigned on the early error returns). -/
def gb_init (g : gb_s) (rom : Nat → Nat) : gb_init_error_e × gb_s :=
  let s := setHasBootrom (setSerialRxConn (setRomRead g rom) none) false
  if gb_header_checksum rom ≠ rom ROM_HEADER_CHECKSUM_LOC % 256 then
    (.GB_INIT_INVALID_CHECKSUM, s)
  else
    let mbc_value := rom 0x0147 % 256
    if 31 < mbc_value ∨ cart_mbc.getD mbc_value 0 = -1 then
      (.GB_INIT_CARTRIDGE_UNSUPPORTED, s)
    else
      let s := setMbc s (cart_mbc.getD mbc_value 0)
      let s := setNumRomBanksMask s (num_rom_banks_mask_table.getD (rom 0x0148 % 256) 0 - 1)
      let s := setCartRamFlag s (cart_ram_table.getD mbc_value 0 ≠ 0)
      let s := setNumRamBanks s (num_ram_banks_table.getD (rom 0x0149 % 256) 0)
      let s := if ¬ s.cart_ram ∨ s.num_ram_banks = 0 then
                 setNumRamBanks (setCartRamFlag s false) 0
               else s
      let s := if s.mbc = 3 then
                 setMbc3O s (128 < s.num_rom_banks_mask ∨ 4 < s.num_ram_banks)
               else s
      let s := setDispDrawLine (setLcdBlank s false) false
      (.GB_INIT_NO_ERROR, gb_reset s)

/-! ## Interrupt service (`__gb_step_cpu`, lines 1818–1865) -/

/-- The `if`-chain that vectors to the highest-priority pending, enabled
interrupt: set PC to its handler address and clear its IF bit (`IF ^= bit`). -/
def intr_dispatch (s : gb_s) : gb_s :=
  if s.hram_io IO_IF &&& s.hram_io IO_IE &&& VBLANK_INTR ≠ 0 then
    setHram (setCpuPC s VBLANK_INTR_ADDR)
      (upd8 s.hram_io IO_IF (s.hram_io IO_IF ^^^ VBLANK_INTR))
  else if s.hram_io IO_IF &&& s.hram_io IO_IE &&& LCDC_INTR ≠ 0 then
    setHram (setCpuPC s LCDC_INTR_ADDR)
      (upd8 s.hram_io IO_IF (s.hram_io IO_IF ^^^ LCDC_INTR))
  else if s.hram_io IO_IF &&& s.hram_io IO_IE &&& TIMER_INTR ≠ 0 then
    setHram (setCpuPC s TIMER_INTR_ADDR)
      (upd8 s.hram_io IO_IF (s.hram_io IO_IF ^^^ TIMER_INTR))
  else if s.hram_io IO_IF &&& s.hram_io IO_IE &&& SERIAL_INTR ≠ 0 then
    setHram (setCpuPC s SERIAL_INTR_ADDR)
      (upd8 s.hram_io IO_IF (s.hram_io IO_IF ^^^ SERIAL_INTR))
  else if s.hram_io IO_IF &&& s.hram_io IO_IE &&& CONTROL_INTR ≠ 0 then
    setHram (setCpuPC s CONTROL_INTR_ADDR)
      (upd8 s.hram_io IO_IF (s.hram_io IO_IF ^^^ CONTROL_INTR))
  else s

/-- The interrupt-service prologue at the top of `__gb_step_cpu`.  The C
`while` here executes its body at most once (every path ends in `break`), so
it is modelled as a conditional.  `uint16_t` wrap-around of `--sp` is modelled
with `% 0x10000`. -/
def gb_step_interrupt (s : gb_s) : gb_s :=
  if s.gb_halt ∨ (s.gb_ime ∧ s.hram_io IO_IF &&& s.hram_io IO_IE &&& ANY_INTR ≠ 0) then
    let s := setHalt s false
    if ¬ s.gb_ime then s
    else
      let s := setIme s false
      let sp1 := (s.cpu_sp + 0xFFFF) % 0x10000
      let s := gb_write (setCpuSP s sp1) sp1 (s.cpu_pc / 256 % 256)
      let sp2 := (s.cpu_sp + 0xFFFF) % 0x10000
      let s := gb_write (setCpuSP s sp2) sp2 (s.cpu_pc % 256)
      intr_dispatch s
  else s

/-! ## The per-instruction cycle advance (`__gb_step_cpu`, do-while body) -/

/-- `while(div_count >= DIV_CYCLES) { hram_io[IO_DIV]++; div_count -= DIV_CYCLES; }`,
with an explicit iteration bound (each iteration removes `DIV_CYCLES`). -/
def div_loop : Nat → Nat → Nat → Nat × Nat
  | 0, dv, c => (dv, c)
  | fuel+1, dv, c =>
    if DIV_CYCLES ≤ c then div_loop fuel ((dv + 1) % 256) (c - DIV_CYCLES)
    else (dv, c)

/-- DIV register timing (`__gb_step_cpu`, lines 3277–3283). -/
def div_phase (s : gb_s) (ic : Nat) : gb_s :=
  let c := s.counter_div + ic
  let p := div_loop (c / DIV_CYCLES + 1) (s.hram_io IO_DIV) c
  setCounterDiv (setHram s (upd8 s.hram_io IO_DIV p.1)) p.2

/-- One RTC second tick: the body of the RTC `while` loop
(`__gb_step_cpu`, lines 3293–3328).  `++reg != K` is modelled as the
incremented value compared with `K`; a field left at the wrapped value by the
C code keeps that value here. -/
def rtc_tick (r : cart_rtc) : cart_rtc :=
  if r.sec = 63 then { r with sec := 0 }
  else if (r.sec + 1) % 256 ≠ 60 then { r with sec := (r.sec + 1) % 256 }
  else
    let r := { r with sec := 0 }
    if r.rmin = 63 then { r with rmin := 0 }
    else if (r.rmin + 1) % 256 ≠ 60 then { r with rmin := (r.rmin + 1) % 256 }
    else
      let r := { r with rmin := 0 }
      if r.hour = 31 then { r with hour := 0 }
      else if (r.hour + 1) % 256 ≠ 24 then { r with hour := (r.hour + 1) % 256 }
      else
        let r := { r with hour := 0 }
        if (r.yday + 1) % 256 ≠ 0 then { r with yday := (r.yday + 1) % 256 }
        else
          let r := { r with yday := 0 }
          let r := if r.high &&& 1 ≠ 0 then { r with high := (r.high ||| 0x80) % 256 }
                   else r
          { r with high := (r.high ^^^ 1) % 256 }

/-- `while(rtc_count >= RTC_CYCLES) { rtc_count -= RTC_CYCLES; <tick> }`. -/
def rtc_loop : Nat → cart_rtc → Nat → cart_rtc × Nat
  | 0, r, c => (r, c)
  | fuel+1, r, c =>
    if RTC_CYCLES ≤ c then rtc_loop fuel (rtc_tick r) (c - RTC_CYCLES)
    else (r, c)

/-- RTC timing (`__gb_step_cpu`, lines 3285–3330): only for MBC3 and only
while the HALT flag (bit 6 of the day-high register) is clear. -/
def rtc_phase (s : gb_s) (ic : Nat) : gb_s :=
  if s.mbc = 3 ∧ s.rtc_real.high &&& 0x40 = 0 then
    let c := s.counter_rtc + ic
    let p := rtc_loop (c / RTC_CYCLES + 1) s.rtc_real c
    setCounterRtc (setRtcReal s p.1) p.2
  else s

/-- Serial transfer timing (`__gb_step_cpu`, lines 3332–3380).  The TX
callback does not modify the emulator state and is omitted. -/
def serial_phase (s : gb_s) (ic : Nat) : gb_s :=
  if s.hram_io IO_SC &&& SERIAL_SC_TX_START ≠ 0 then
    let s := setCounterSerial s (s.counter_serial + ic)
    if SERIAL_CYCLES ≤ s.counter_serial then
      match s.gb_serial_rx with
      | some rx =>
        let s := setHram s (upd8 s.hram_io IO_SB rx)
        let s := setHram s (upd8 s.hram_io IO_SC (s.hram_io IO_SC &&& 0x01))
        let s := setHram s (upd8 s.hram_io IO_IF (s.hram_io IO_IF ||| SERIAL_INTR))
        setCounterSerial s 0
      | none =>
        if s.hram_io IO_SC &&& SERIAL_SC_CLOCK_SRC ≠ 0 then
          let s := setHram s (upd8 s.hram_io IO_SB 0xFF)
          let s := setHram s (upd8 s.hram_io IO_SC (s.hram_io IO_SC &&& 0x01))
          let s := setHram s (upd8 s.hram_io IO_IF (s.hram_io IO_IF ||| SERIAL_INTR))
          setCounterSerial s 0
        else
          setCounterSerial s 0
    else s
  else s

/-- `while(tima_count >= TAC_CYCLES[TAC & 3]) { ... ++TIMA ... }` over the
`hram_io` array.  Every rate is ≥ 16, so `c / 16 + 1` iterations suffice. -/
def tima_loop : Nat → (Nat → Nat) → Nat → (Nat → Nat) × Nat
  | 0, h, c => (h, c)
  | fuel+1, h, c =>
    let rate := TAC_CYCLES (h IO_TAC &&& IO_TAC_RATE_MASK)
    if rate ≤ c then
      let t := (h IO_TIMA + 1) % 256
      let h' := if t = 0 then
                  upd8 (upd8 h IO_IF (h IO_IF ||| TIMER_INTR)) IO_TIMA (h IO_TMA)
                else
                  upd8 h IO_TIMA t
      tima_loop fuel h' (c - rate)
    else (h, c)

/-- TIMA timing (`__gb_step_cpu`, lines 3382–3401). -/
def tima_phase (s : gb_s) (ic : Nat) : gb_s :=
  if s.hram_io IO_TAC &&& IO_TAC_ENABLE_MASK ≠ 0 then
    let c := s.counter_tima + ic
    let p := tima_loop (c / 16 + 1) s.hram_io c
    setCounterTima (setHram s p.1) p.2
  else s

/-- The emulator-state effects of `__gb_draw_line`: the early-return guards
and the window-line-counter updates.  The composed pixel line lives in a local
buffer handed to the host callback and is not part of the emulator state;
the per-line sprite selection is modelled separately (`select_sprites`). -/
def gb_draw_line_state (s : gb_s) : gb_s :=
  if ¬ s.display_lcd_draw_line then s
  else if s.direct_frame_skip ∧ ¬ s.display_frame_skip_count then s
  else if s.direct_interlace ∧
      ((¬ s.display_interlace_count ∧ s.hram_io IO_LY % 2 = 0) ∨
       (s.display_interlace_count ∧ s.hram_io IO_LY % 2 = 1)) then
    if s.hram_io IO_LCDC &&& LCDC_WINDOW_ENABLE ≠ 0 ∧
        s.display_WY ≤ s.hram_io IO_LY ∧ s.hram_io IO_WX ≤ 166 then
      setDispWindowClear s ((s.display_window_clear + 1) % 256)
    else s
  else
    if s.hram_io IO_LCDC &&& LCDC_WINDOW_ENABLE ≠ 0 ∧
        s.display_WY ≤ s.hram_io IO_LY ∧ s.hram_io IO_WX ≤ 166 then
      setDispWindowClear s ((s.display_window_clear + 1) % 256)
    else s

/-- LCD timing (`__gb_step_cpu`, lines 3403–3526).  Returns the new state,
the possibly updated `inst_cycles`, and whether the halted-forever `break`
on VBlank entry was taken. -/
def lcd_phase_off (s : gb_s) (ic : Nat) : gb_s × Nat × Bool :=
  let c := s.counter_lcd_off + ic
  if LCD_FRAME_CYCLES ≤ c then
    (setFrame (setCounterLcdOff s (c - LCD_FRAME_CYCLES)) true, ic, false)
  else
    (setCounterLcdOff s c, ic, false)

/-- New-line handling: increment LY mod 154 and update the STAT LY=LYC
coincidence flag, raising the LCDC interrupt when enabled. -/
def lcd_new_line (s : gb_s) : gb_s :=
  let ly0 := (s.hram_io IO_LY + 1) % 256
  let ly := if ly0 = LCD_VERT_LINES then 0 else ly0
  let s := setHram s (upd8 s.hram_io IO_LY ly)
  if s.hram_io IO_LY = s.hram_io IO_LYC then
    let s := setHram s (upd8 s.hram_io IO_STAT (s.hram_io IO_STAT ||| STAT_LYC_COINC))
    if s.hram_io IO_STAT &&& STAT_LYC_INTR ≠ 0 then
      setHram s (upd8 s.hram_io IO_IF (s.hram_io IO_IF ||| LCDC_INTR))
    else s
  else
    setHram s (upd8 s.hram_io IO_STAT (s.hram_io IO_STAT &&& 0xFB))

/-- Entry into VBlank (LY = 144): mode change, frame flag, VBLANK interrupt,
frame-skip / interlace bookkeeping, and the halted-forever `break` test. -/
def lcd_vblank_entry (s : gb_s) (ic : Nat) : gb_s × Nat × Bool :=
  let stat := (s.hram_io IO_STAT &&& (0xFF ^^^ STAT_MODE)) ||| IO_STAT_MODE_VBLANK
  let s := setHram s (upd8 s.hram_io IO_STAT stat)
  let s := setFrame s true
  let s := setHram s (upd8 s.hram_io IO_IF (s.hram_io IO_IF ||| VBLANK_INTR))
  let s := setLcdBlank s false
  let s := if s.hram_io IO_STAT &&& STAT_MODE_1_INTR ≠ 0 then
             setHram s (upd8 s.hram_io IO_IF (s.hram_io IO_IF ||| LCDC_INTR))
           else s
  let s := if s.direct_frame_skip then
             setDispFrameSkipCount s (¬ s.display_frame_skip_count)
           else s
  let s := if s.direct_interlace ∧
              (¬ s.direct_frame_skip ∨ s.display_frame_skip_count) then
             setDispInterlaceCount s (¬ s.display_interlace_count)
           else s
  if s.gb_halt ∧ s.hram_io IO_IE = 0 then (s, ic, true) else (s, ic, false)

/-- Entry into mode 2 (OAM scan) on a visible line (LY < 144). -/
def lcd_mode2_entry (s : gb_s) : gb_s × Nat × Bool :=
  let s := if s.hram_io IO_LY = 0 then
             setDispWindowClear (setDispWY s (s.hram_io IO_WY)) 0
           else s
  let stat := (s.hram_io IO_STAT &&& (0xFF ^^^ STAT_MODE)) ||| IO_STAT_MODE_OAM_SCAN
  let s := setHram s (upd8 s.hram_io IO_STAT stat)
  let s := setCounterLcd s 0
  let s := if s.hram_io IO_STAT &&& STAT_MODE_2_INTR ≠ 0 then
             setHram s (upd8 s.hram_io IO_IF (s.hram_io IO_IF ||| LCDC_INTR))
           else s
  (s, LCD_MODE2_OAM_SCAN_DURATION, false)

/-- Transition mode 3 → mode 0 (HBlank) within a line. -/
def lcd_mode0_entry (s : gb_s) (ic : Nat) : gb_s × Nat × Bool :=
  let stat := (s.hram_io IO_STAT &&& (0xFF ^^^ STAT_MODE)) ||| IO_STAT_MODE_HBLANK
  let s := setHram s (upd8 s.hram_io IO_STAT stat)
  let s := if s.hram_io IO_STAT &&& STAT_MODE_0_INTR ≠ 0 then
             setHram s (upd8 s.hram_io IO_IF (s.hram_io IO_IF ||| LCDC_INTR))
           else s
  let ic := if s.counter_lcd < LCD_MODE0_HBLANK_MAX_DRUATION then
              LCD_MODE0_HBLANK_MAX_DRUATION - s.counter_lcd
            else ic
  (s, ic, false)

/-- Transition mode 2 → mode 3 (LCD draw), rendering the line unless
`lcd_blank` is set. -/
def lcd_mode3_entry (s : gb_s) (ic : Nat) : gb_s × Nat × Bool :=
  let stat := (s.hram_io IO_STAT &&& (0xFF ^^^ STAT_MODE)) ||| IO_STAT_MODE_LCD_DRAW
  let s := setHram s (upd8 s.hram_io IO_STAT stat)
  let s := if ¬ s.lcd_blank then gb_draw_line_state s else s
  let ic := if s.counter_lcd < LCD_MODE3_LCD_DRAW_MIN_DURATION then
              LCD_MODE3_LCD_DRAW_MIN_DURATION - s.counter_lcd
            else ic
  (s, ic, false)

def lcd_phase (s : gb_s) (ic : Nat) : gb_s × Nat × Bool :=
  if s.hram_io IO_LCDC &&& LCDC_ENABLE = 0 then
    lcd_phase_off s ic
  else
    let s := setCounterLcd s (s.counter_lcd + ic)
    if LCD_LINE_CYCLES ≤ s.counter_lcd then
      let s := setCounterLcd s (s.counter_lcd - LCD_LINE_CYCLES)
      let s := lcd_new_line s
      if s.hram_io IO_LY = LCD_HEIGHT then
        lcd_vblank_entry s ic
      else if s.hram_io IO_LY < LCD_HEIGHT then
        lcd_mode2_entry s
      else
        (s, ic, false)
    else if s.hram_io IO_STAT &&& STAT_MODE = IO_STAT_MODE_LCD_DRAW ∧
        LCD_MODE3_LCD_DRAW_END ≤ s.counter_lcd then
      lcd_mode0_entry s ic
    else if s.hram_io IO_STAT &&& STAT_MODE = IO_STAT_MODE_OAM_SCAN ∧
        LCD_MODE2_OAM_SCAN_END ≤ s.counter_lcd then
      lcd_mode3_entry s ic
    else
      (s, ic, false)

/-- One iteration of the do-while body at the end of `__gb_step_cpu`:
DIV, RTC, serial and TIMA advance followed by the LCD state machine. -/
def cycle_advance (s : gb_s) (ic : Nat) : gb_s × Nat × Bool :=
  lcd_phase (tima_phase (serial_phase (rtc_phase (div_phase s ic) ic) ic) ic) ic

/-- `do { ... } while(gb_halt && (IF & IE) == 0)`, with the halted-forever
`break` on VBlank entry, as a fuel-indexed loop.  `none` means the loop has
not exited within `fuel` iterations. -/
def halt_loop : Nat → gb_s → Nat → Option gb_s
  | 0, _, _ => none
  | fuel+1, s, ic =>
    let p := cycle_advance s ic
    if p.2.2 then some p.1
    else if p.1.gb_halt ∧ p.1.hram_io IO_IF &&& p.1.hram_io IO_IE = 0 then
      halt_loop fuel p.1 p.2.1
    else some p.1

/-! ## Sprite selection (`compare_sprites` / `__gb_draw_line`) -/

/-- `struct sprite_data`. -/
structure sprite_data where
  sprite_number : Nat
  x : Nat
deriving DecidableEq

/-- `compare_sprites`: X difference, ties broken by OAM index difference. -/
def compare_sprites (sd1 sd2 : sprite_data) : Int :=
  let x_res : Int := (sd1.x : Int) - (sd2.x : Int)
  if x_res ≠ 0 then x_res else (sd1.sprite_number : Int) - (sd2.sprite_number : Int)

/-- The downward `place` scan of the sprite-collection loop, on the reversed
array (top entry first): starting at `place = number_of_sprites`, decrement
while the entry below does not compare strictly less than `current`. -/
def place_rev : List sprite_data → sprite_data → Nat
  | [], _ => 0
  | sd :: rest, c => if compare_sprites sd c < 0 then rest.length + 1 else place_rev rest c

/-- `place` as computed by the collection loop of `__gb_draw_line`. -/
def sprite_place (arr : List sprite_data) (c : sprite_data) : Nat :=
  place_rev arr.reverse c

/-- On-this-line test: the negation of the `continue` condition
`LY + (LCDC & LCDC_OBJ_SIZE ? 0 : 8) >= OY || LY + 16 < OY`. -/
def sprite_on_line (ly lcdc oy : Nat) : Bool :=
  decide (¬ (oy ≤ ly + (if lcdc &&& LCDC_OBJ_SIZE ≠ 0 then 0 else 8) ∨ ly + 16 < oy))

/-- One iteration of the sprite-collection loop (`__gb_draw_line`,
lines 1665–1685): if `place` is past the 10-entry array the sprite is
dropped, otherwise the tail is shifted (`memmove`), the entry count grows to
at most 10, and the sprite is stored at `place`.  On the list of live
entries this is exactly: insert at `place`, truncate to 10. -/
def insert_sprite (arr : List sprite_data) (c : sprite_data) : List sprite_data :=
  let place := sprite_place arr c
  if MAX_SPRITES_LINE ≤ place then arr
  else ((arr.take place) ++ c :: (arr.drop place)).take MAX_SPRITES_LINE

/-- The per-scanline sprite selection of `__gb_draw_line`
(`PEANUT_GB_HIGH_LCD_ACCURACY` path, lines 1650–1686): scan the 40 OAM
entries in index order and collect the on-line ones, capped at 10. -/
def select_sprites (oam : Nat → Nat) (ly lcdc : Nat) : List sprite_data :=
  (List.range NUM_SPRITES).foldl
    (fun arr n =>
      let oy := oam (4 * n) % 256
      let ox := oam (4 * n + 1) % 256
      if sprite_on_line ly lcdc oy then insert_sprite arr ⟨n, ox⟩ else arr)
    []

/-! ## Concrete states for closed-form runs -/

/-- An all-zero pre-`gb_init` context (in C, the front-end's `struct gb_s`
before `gb_init` assigns it). -/
def g0 : gb_s where
  gb_rom_read := fun _ => 0
  gb_bootrom_read := fun _ => 0
  has_bootrom := false
  cart_ram_data := fun _ => 0
  gb_serial_rx := none
  gb_halt := false
  gb_ime := false
  gb_frame := false
  lcd_blank := false
  cart_is_mbc3O := false
  mbc := 0
  cart_ram := false
  num_rom_banks_mask := 0
  num_ram_banks := 0
  selected_rom_bank := 0
  cart_ram_bank := 0
  enable_cart_ram := false
  cart_mode_select := 0
  rtc_latched := ⟨0, 0, 0, 0, 0⟩
  rtc_real := ⟨0, 0, 0, 0, 0⟩
  cpu_a := 0
  cpu_f_z := false
  cpu_f_n := false
  cpu_f_h := false
  cpu_f_c := false
  cpu_bc := 0
  cpu_de := 0
  cpu_hl := 0
  cpu_sp := 0
  cpu_pc := 0
  counter_lcd := 0
  counter_div := 0
  counter_tima := 0
  counter_serial := 0
  counter_rtc := 0
  counter_lcd_off := 0
  wram := fun _ => 0
  vram := fun _ => 0
  oam := fun _ => 0
  hram_io := fun _ => 0
  display_lcd_draw_line := false
  display_bg_palette := fun _ => 0
  display_sp_palette := fun _ => 0
  display_window_clear := 0
  display_WY := 0
  display_frame_skip_count := false
  display_interlace_count := false
  direct_interlace := false
  direct_frame_skip := false
  direct_joypad := 0

/-- A plain 32 KiB ROM image: cartridge type 0x00 (no MBC), all header bytes
zero except the header checksum, which the code's loop computes as
`(-25 - 0) mod 256 = 0xE7`. -/
def rom_plain : Nat → Nat := fun a => if a = 0x014D then 0xE7 else 0

/-- An MBC1 ROM image: type 0x01, ROM-size code 0x06 (128 banks, so
`num_rom_banks_mask = 0x7F`), valid header checksum. -/
def rom_mbc1 : Nat → Nat := fun a =>
  if a = 0x0147 then 0x01 else if a = 0x0148 then 0x06
  else if a = 0x014D then 0xE0 else 0

/-- An MBC3+RTC ROM image: type 0x0F (MBC3 with timer), valid header
checksum. -/
def rom_mbc3 : Nat → Nat := fun a =>
  if a = 0x0147 then 0x0F else if a = 0x014D then 0xD8 else 0

/-! ## Generic byte-arithmetic helpers -/

theorem lt256_lor {a b : Nat} (ha : a < 256) (hb : b < 256) : a ||| b < 256 :=
  Nat.or_lt_two_pow (n := 8) ha hb

theorem lt256_land_right (a : Nat) {b : Nat} (hb : b < 256) : a &&& b < 256 :=
  Nat.and_lt_two_pow (n := 8) a hb

theorem mod256_of_lt {a : Nat} (h : a < 256) : a % 256 = a := Nat.mod_eq_of_lt h

/-! ## Claim C5 (STAT register write, 0xFF41) -/

/-- A CPU write to 0xFF41 stores
`(v & STAT_USER_BITS) | (STAT & STAT_MODE) | 0x80` (`__gb_write`, the
`case 0x41` branch), and a read of 0xFF41 returns the stored byte. -/
theorem stat_write_read (s : gb_s) (v : Nat) :
    gb_read (gb_write s 0xFF41 v) 0xFF41 =
      (v &&& STAT_USER_BITS) ||| (s.hram_io IO_STAT &&& STAT_MODE) ||| 0x80 := by
  have hlt : (v &&& STAT_USER_BITS) ||| (s.hram_io IO_STAT &&& STAT_MODE) ||| 0x80 < 256 :=
    lt256_lor (lt256_lor (lt256_land_right _ (by norm_num [STAT_USER_BITS]))
      (lt256_land_right _ (by norm_num [STAT_MODE]))) (by norm_num)
  show ((v &&& STAT_USER_BITS) ||| (s.hram_io IO_STAT &&& STAT_MODE) ||| 0x80) % 256 = _
  exact mod256_of_lt hlt

/-- Claim C5, counterexample.  From the post-`gb_init` state of a plain ROM
the STAT register holds 0x85, so its bit 2 (the LY=LYC coincidence flag) is
set; a CPU write of 0x00 to 0xFF41 makes a subsequent read return 0x81 —
bit 2 has been cleared by the write, contradicting the claim that bits 0–2
are unchanged by every STAT write. -/
theorem claim_C5_counterexample :
    (gb_read (gb_init g0 rom_plain).2 0xFF41).testBit 2 = true ∧
    gb_read (gb_write (gb_init g0 rom_plain).2 0xFF41 0x00) 0xFF41 = 0x81 ∧
    (gb_read (gb_write (gb_init g0 rom_plain).2 0xFF41 0x00) 0xFF41).testBit 2 = false := by
  refine ⟨by decide, by decide, by decide⟩

/-- Claim C5, amended: for every write of `v` to 0xFF41, bits 0–1 of STAT
(the PPU mode field) are unchanged, bit 2 (the LY=LYC coincidence flag) is
cleared — it is neither preserved nor taken from `v` — bits 3–6 become
bits 3–6 of `v`, and bit 7 reads as 1 afterwards. -/
theorem claim_C5_stat_write (s : gb_s) (v : Nat) :
    ((gb_read (gb_write s 0xFF41 v) 0xFF41).testBit 0 = (s.hram_io IO_STAT).testBit 0) ∧
    ((gb_read (gb_write s 0xFF41 v) 0xFF41).testBit 1 = (s.hram_io IO_STAT).testBit 1) ∧
    ((gb_read (gb_write s 0xFF41 v) 0xFF41).testBit 2 = false) ∧
    ((gb_read (gb_write s 0xFF41 v) 0xFF41).testBit 3 = v.testBit 3) ∧
    ((gb_read (gb_write s 0xFF41 v) 0xFF41).testBit 4 = v.testBit 4) ∧
    ((gb_read (gb_write s 0xFF41 v) 0xFF41).testBit 5 = v.testBit 5) ∧
    ((gb_read (gb_write s 0xFF41 v) 0xFF41).testBit 6 = v.testBit 6) ∧
    ((gb_read (gb_write s 0xFF41 v) 0xFF41).testBit 7 = true) := by
  rw [stat_write_read]
  simp only [STAT_USER_BITS, STAT_MODE, Nat.testBit_lor, Nat.testBit_land]
  refine ⟨?_, ?_, ?_, ?_, ?_, ?_, ?_, ?_⟩ <;>
    simp [show ((0xF8 : Nat).testBit 0) = false from by decide,
          show ((0xF8 : Nat).testBit 1) = false from by decide,
          show ((0xF8 : Nat).testBit 2) = false from by decide,
          show ((0xF8 : Nat).testBit 3) = true from by decide,
          show ((0xF8 : Nat).testBit 4) = true from by decide,
          show ((0xF8 : Nat).testBit 5) = true from by decide,
          show ((0xF8 : Nat).testBit 6) = true from by decide,
          show ((0xF8 : Nat).testBit 7) = true from by decide,
          show ((0x03 : Nat).testBit 0) = true from by decide,
          show ((0x03 : Nat).testBit 1) = true from by decide,
          show ((0x03 : Nat).testBit 2) = false from by decide,
          show ((0x03 : Nat).testBit 3) = false from by decide,
          show ((0x03 : Nat).testBit 4) = false from by decide,
          show ((0x03 : Nat).testBit 5) = false from by decide,
          show ((0x03 : Nat).testBit 6) = false from by decide,
          show ((0x03 : Nat).testBit 7) = false from by decide,
          show ((0x80 : Nat).testBit 0) = false from by decide,
          show ((0x80 : Nat).testBit 1) = false from by decide,
          show ((0x80 : Nat).testBit 2) = false from by decide,
          show ((0x80 : Nat).testBit 3) = false from by decide,
          show ((0x80 : Nat).testBit 4) = false from by decide,
          show ((0x80 : Nat).testBit 5) = false from by decide,
          show ((0x80 : Nat).testBit 6) = false from by decide,
          show ((0x80 : Nat).testBit 7) = true from by decide]

/-! ## Claim C2 (`gb_init` header checksum) -/

/-- Spec-side: the header-checksum equation exactly as the specification
writes it, `(-1 - Σ rom[0x0134..=0x014C]) mod 256 == rom[0x014D]`
(the `256 * 26` summand keeps the `Nat` subtraction non-truncating). -/
def spec_checksum_eq (rom : Nat → Nat) : Prop :=
  (256 * 26 - 1 - ((List.range 25).map (fun i => rom (0x0134 + i) % 256)).sum) % 256 =
    rom ROM_HEADER_CHECKSUM_LOC % 256

/-- The equation the code's loop actually enforces:
`(-25 - Σ rom[0x0134..=0x014C]) mod 256 == rom[0x014D]`. -/
def code_checksum_eq (rom : Nat → Nat) : Prop :=
  (256 * 26 - 25 - ((List.range 25).map (fun i => rom (0x0134 + i) % 256)).sum) % 256 =
    rom ROM_HEADER_CHECKSUM_LOC % 256

/-- The cartridge-type byte maps to a supported MBC in `cart_mbc`. -/
def mbc_supported (rom : Nat → Nat) : Prop :=
  rom 0x0147 % 256 ≤ 31 ∧ cart_mbc.getD (rom 0x0147 % 256) 0 ≠ -1

theorem header_byte_sum_le (rom : Nat → Nat) (n : Nat) :
    ((List.range n).map (fun i => rom (0x0134 + i) % 256)).sum ≤ 255 * n := by
  induction n with
  | zero => simp
  | succ k ih =>
    rw [List.range_succ, List.map_append, List.sum_append]
    have hb : rom (0x0134 + k) % 256 < 256 := Nat.mod_lt _ (by norm_num)
    simp only [List.map_cons, List.map_nil, List.sum_cons, List.sum_nil]
    omega

theorem checksum_fold_closed (rom : Nat → Nat) (n : Nat) (hn : n ≤ 25) :
    (List.range n).foldl (fun x i => (x + 255 - rom (0x0134 + i) % 256) % 256) 0 =
      (256 * 26 - n - ((List.range n).map (fun i => rom (0x0134 + i) % 256)).sum) % 256 := by
  induction n with
  | zero => simp
  | succ k ih =>
    have hk : k ≤ 25 := by omega
    rw [List.range_succ, List.foldl_append, List.map_append, List.sum_append, ih hk]
    have hb : rom (0x0134 + k) % 256 < 256 := Nat.mod_lt _ (by norm_num)
    have hS := header_byte_sum_le rom k
    simp only [List.foldl_cons, List.foldl_nil, List.map_cons, List.map_nil,
      List.sum_cons, List.sum_nil]
    omega

/-- The checksum computed by `gb_init`'s loop, in closed form: `-25 - Σ`
modulo 256. -/
theorem gb_header_checksum_closed (rom : Nat → Nat) :
    gb_header_checksum rom =
      (256 * 26 - 25 - ((List.range 25).map (fun i => rom (0x0134 + i) % 256)).sum) % 256 :=
  checksum_fold_closed rom 25 le_rfl

/-- Claim C2, counterexample.  A ROM whose header satisfies the equation in
the exact form the claim states it (`(-1 - Σ) mod 256 = rom[0x14D]`, here
`Σ = 0` and `rom[0x14D] = 0xFF`), with a supported cartridge type, on which
`gb_init` nevertheless fails with `GB_INIT_INVALID_CHECKSUM` (the code's
loop subtracts 1 *per byte*, computing `-25 - Σ`, which is 0xE7 here). -/
theorem claim_C2_counterexample :
    spec_checksum_eq (fun a => if a = 0x014D then 0xFF else 0) ∧
    mbc_supported (fun a => if a = 0x014D then 0xFF else 0) ∧
    (gb_init g0 (fun a => if a = 0x014D then 0xFF else 0)).1 ≠ .GB_INIT_NO_ERROR ∧
    (gb_init g0 (fun a => if a = 0x014D then 0xFF else 0)).1 = .GB_INIT_INVALID_CHECKSUM := by
  refine ⟨?_, ?_, by decide, by decide⟩
  · unfold spec_checksum_eq
    decide
  · unfold mbc_supported
    decide

/-- The error code `gb_init` returns, isolated from the state effects. -/
theorem gb_init_fst (g : gb_s) (rom : Nat → Nat) :
    (gb_init g rom).1 =
      (if gb_header_checksum rom ≠ rom ROM_HEADER_CHECKSUM_LOC % 256 then
        gb_init_error_e.GB_INIT_INVALID_CHECKSUM
      else if 31 < rom 0x0147 % 256 ∨ cart_mbc.getD (rom 0x0147 % 256) 0 = -1 then
        gb_init_error_e.GB_INIT_CARTRIDGE_UNSUPPORTED
      else gb_init_error_e.GB_INIT_NO_ERROR) := by
  by_cases h1 : gb_header_checksum rom ≠ rom ROM_HEADER_CHECKSUM_LOC % 256
  · simp only [gb_init]
    rw [if_pos h1, if_pos h1]
  · simp only [gb_init]
    rw [if_neg h1, if_neg h1]
    by_cases h2 : 31 < rom 0x0147 % 256 ∨ cart_mbc.getD (rom 0x0147 % 256) 0 = -1
    · rw [if_pos h2, if_pos h2]
    · rw [if_neg h2, if_neg h2]

/-- Claim C2, amended: for every ROM image, `gb_init` returns success iff
the code's 8-bit header-checksum equation `(-25 - Σ rom[0x0134..=0x014C])
mod 256 == rom[0x014D]` holds *and* the cartridge-type byte maps to a
supported MBC; whenever the checksum equation fails, the error is
`GB_INIT_INVALID_CHECKSUM`. -/
theorem claim_C2_init_checksum (g : gb_s) (rom : Nat → Nat) :
    ((gb_init g rom).1 = .GB_INIT_NO_ERROR ↔ code_checksum_eq rom ∧ mbc_supported rom) ∧
    (¬ code_checksum_eq rom → (gb_init g rom).1 = .GB_INIT_INVALID_CHECKSUM) := by
  have hcs : (gb_header_checksum rom = rom ROM_HEADER_CHECKSUM_LOC % 256) ↔
      code_checksum_eq rom := by
    rw [gb_header_checksum_closed]; exact Iff.rfl
  rw [gb_init_fst]
  by_cases h1 : gb_header_checksum rom = rom ROM_HEADER_CHECKSUM_LOC % 256
  · rw [if_neg (by exact fun h => h h1)]
    by_cases h2 : 31 < rom 0x0147 % 256 ∨ cart_mbc.getD (rom 0x0147 % 256) 0 = -1
    · rw [if_pos h2]
      refine ⟨⟨fun h => absurd h (by simp), ?_⟩, fun hne => absurd (hcs.mp h1) hne⟩
      rintro ⟨-, ha, hb⟩
      rcases h2 with h2 | h2
      · exact absurd h2 (by omega)
      · exact absurd h2 hb
    · rw [if_neg h2]
      push_neg at h2
      exact ⟨⟨fun _ => ⟨hcs.mp h1, by omega, h2.2⟩, fun _ => rfl⟩,
        fun hne => absurd (hcs.mp h1) hne⟩
  · rw [if_pos h1]
    refine ⟨⟨fun h => absurd h (by simp), ?_⟩, fun _ => rfl⟩
    rintro ⟨hc, -⟩
    exact absurd (hcs.mpr hc) h1

/-- Claim C2 witness: a plain valid ROM on which `gb_init` succeeds, with
both sides of the amended equivalence evaluated. -/
theorem claim_C2_witness :
    code_checksum_eq rom_plain ∧ mbc_supported rom_plain ∧
    (gb_init g0 rom_plain).1 = .GB_INIT_NO_ERROR :=
  ⟨by unfold code_checksum_eq; decide, by unfold mbc_supported; decide,
    (claim_C2_init_checksum g0 rom_plain).1.mpr
      ⟨by unfold code_checksum_eq; decide, by unfold mbc_supported; decide⟩⟩

/-! ## Claim C3 (MBC1 ROM-bank select / bank-zero promotion) -/

/-- Post-`gb_init` (reset) state of an MBC1 cartridge with
`num_rom_banks_mask = 0x7F`. -/
def mbc1_reset : gb_s := (gb_init g0 rom_mbc1).2

/-- Claim C3, counterexample.  On the MBC1 reset state with mask 0x7F:
writing 0x00 to 0x2000 selects bank 1 (as the claim says), but then writing
0x20 to 0x2000 selects bank 1 again — not bank 0x21 — because the write
only replaces the low 5 bits (`val & 0x1F = 0`), the upper-bank register is
still 0, and the zero value is promoted to 1.  A read of 0x4000 is served
from flat ROM address 0x4000 (bank 1), not from bank 0x21. -/
theorem claim_C3_counterexample :
    (gb_write mbc1_reset 0x2000 0x00).selected_rom_bank = 1 ∧
    rom_bank_addr (gb_write mbc1_reset 0x2000 0x00) 0x4000 = 0x4000 ∧
    (gb_write (gb_write mbc1_reset 0x2000 0x00) 0x2000 0x20).selected_rom_bank = 1 ∧
    rom_bank_addr (gb_write (gb_write mbc1_reset 0x2000 0x00) 0x2000 0x20) 0x4000 = 0x4000 ∧
    0x4000 / ROM_BANK_SIZE = 1 ∧
    rom_bank_addr (gb_write (gb_write mbc1_reset 0x2000 0x00) 0x2000 0x20) 0x4000 / ROM_BANK_SIZE
      ≠ 0x21 := by
  refine ⟨by decide, by decide, by decide, by decide, by decide, by decide⟩

/-- Claim C3, amended: on the MBC1 reset state (mask 0x7F, mode 0, upper-bank
register 0), a write of `v` to 0x2000 selects ROM bank
`if v & 0x1F = 0 then 1 else v & 0x1F`; every read in 0x4000–0x7FFF is then
served from that bank.  In particular `v = 0x00` gives bank 1 (as the claim
states) and `v = 0x20` gives bank 1 — bank 0x21 would additionally require
the upper-bank register (0x4000–0x5FFF) to hold 1. -/
theorem claim_C3_bank_select (v : Nat) :
    ((gb_write mbc1_reset 0x2000 v).selected_rom_bank
        = (if v &&& 0x1F = 0 then 1 else v &&& 0x1F)) ∧
    (∀ addr, 0x4000 ≤ addr → addr ≤ 0x7FFF →
      rom_bank_addr (gb_write mbc1_reset 0x2000 v) addr
          = addr + ((gb_write mbc1_reset 0x2000 v).selected_rom_bank - 1) * ROM_BANK_SIZE ∧
      rom_bank_addr (gb_write mbc1_reset 0x2000 v) addr / ROM_BANK_SIZE
          = (gb_write mbc1_reset 0x2000 v).selected_rom_bank) := by
  have hm : mbc1_reset.mbc = 1 := by decide
  have hb : mbc1_reset.selected_rom_bank = 1 := by decide
  have hmask : mbc1_reset.num_rom_banks_mask = 127 := by decide
  have hmode : mbc1_reset.cart_mode_select = 0 := by decide
  have h31 : (0x1F : Nat) = 2 ^ 5 - 1 := by norm_num
  have hv31 : v &&& 0x1F = v % 32 := by
    rw [h31, Nat.and_pow_two_sub_one_eq_mod]
  have hw : gb_write mbc1_reset 0x2000 v
      = setSelectedRomBank mbc1_reset
          ((if (v &&& 0x1F ||| mbc1_reset.selected_rom_bank &&& 0x60) &&& 0x1F = 0 then
              (v &&& 0x1F ||| mbc1_reset.selected_rom_bank &&& 0x60) + 1
            else v &&& 0x1F ||| mbc1_reset.selected_rom_bank &&& 0x60)
            &&& mbc1_reset.num_rom_banks_mask) := by
    simp only [gb_write]
    rw [if_neg (by norm_num), if_pos (by norm_num)]
    simp only [gbw_bank_low2]
    rw [if_neg (by rw [hm]; decide), if_pos hm]
  have hb60 : mbc1_reset.selected_rom_bank &&& 0x60 = 0 := by rw [hb]; decide
  rw [hb60, Nat.or_zero] at hw
  rw [hw]
  have hband : (v &&& 0x1F) &&& 0x1F = v &&& 0x1F := by
    rw [hv31, h31, Nat.and_pow_two_sub_one_eq_mod,
        show (2 : Nat) ^ 5 = 32 from by norm_num]
    omega
  have hsel : (setSelectedRomBank mbc1_reset
      (((if (v &&& 0x1F) &&& 0x1F = 0 then (v &&& 0x1F) + 1 else v &&& 0x1F))
        &&& mbc1_reset.num_rom_banks_mask)).selected_rom_bank
      = (if v &&& 0x1F = 0 then 1 else v &&& 0x1F) := by
    simp only [setSelectedRomBank]
    rw [hband, hmask]
    by_cases h0 : v &&& 0x1F = 0
    · rw [if_pos h0, if_pos h0, h0]
      decide
    · rw [if_neg h0, if_neg h0,
        show (127 : Nat) = 2 ^ 7 - 1 from by norm_num,
        Nat.and_pow_two_sub_one_eq_mod]
      exact Nat.mod_eq_of_lt (by rw [hv31]; omega)
  refine ⟨hsel, fun addr h1 h2 => ?_⟩
  constructor
  · unfold rom_bank_addr
    rw [if_neg (by simp [setSelectedRomBank, hmode])]
  · unfold rom_bank_addr
    rw [if_neg (by simp [setSelectedRomBank, hmode])]
    rw [hsel]
    by_cases h0 : v &&& 0x1F = 0
    · rw [if_pos h0]
      unfold ROM_BANK_SIZE
      omega
    · rw [if_neg h0]
      have hlt : v &&& 0x1F < 32 := by rw [hv31]; omega
      have hge : 1 ≤ v &&& 0x1F := by omega
      unfold ROM_BANK_SIZE
      omega

/-- Claim C3 witness: the amended statement applied at `v = 0x20`,
`addr = 0x4000`. -/
theorem claim_C3_witness :
    ((gb_write mbc1_reset 0x2000 0x20).selected_rom_bank = 1) ∧
    rom_bank_addr (gb_write mbc1_reset 0x2000 0x20) 0x4000 / ROM_BANK_SIZE
      = (gb_write mbc1_reset 0x2000 0x20).selected_rom_bank := by
  refine ⟨?_, ((claim_C3_bank_select 0x20).2 0x4000 (by norm_num) (by norm_num)).2⟩
  have h := (claim_C3_bank_select 0x20).1
  rw [h]
  decide

/-! ## Claim C10 (MBC3 RTC register write masks; latched reads) -/

theorem rtc_reg_mask_lt (i : Nat) : rtc_reg_mask i < 256 := by
  unfold rtc_reg_mask
  split
  · norm_num
  · split
    · norm_num
    · split
      · norm_num
      · split
        · norm_num
        · split <;> norm_num

theorem setByte_bytes_same (r : cart_rtc) (i v : Nat) (hi : i ≤ 4) (hv : v < 256) :
    (r.setByte i v).bytes i = v := by
  interval_cases i <;>
    simp [cart_rtc.setByte, cart_rtc.bytes, mod256_of_lt hv]

/-- `__gb_write` on 0xA000–0xBFFF with an RTC register selected. -/
theorem gb_write_rtc_reg (s : gb_s) (addr v : Nat) (h1 : 0xA000 ≤ addr)
    (h2 : addr < 0xC000) (hm : s.mbc = 3) (hb : 0x08 ≤ s.cart_ram_bank) :
    gb_write s addr v
      = setRtcReal s (s.rtc_real.setByte (s.cart_ram_bank - 0x08)
          (v &&& rtc_reg_mask (s.cart_ram_bank - 0x08))) := by
  simp only [gb_write]
  repeat rw [if_neg (by omega)]
  rw [if_pos h2]
  simp only [gbw_cram]
  rw [if_pos ⟨hm, hb⟩]

/-- `__gb_read` on 0xA000–0xBFFF with an RTC register selected: the *latched*
register bank is returned. -/
theorem gb_read_rtc_reg (s : gb_s) (addr : Nat) (h1 : 0xA000 ≤ addr)
    (h2 : addr < 0xC000) (hm : s.mbc = 3) (hb : 0x08 ≤ s.cart_ram_bank) :
    gb_read s addr = s.rtc_latched.bytes (s.cart_ram_bank - 0x08) := by
  simp only [gb_read]
  rw [if_neg (by omega), if_neg (by omega), if_neg (by omega), if_neg (by omega),
      if_pos h2, if_pos ⟨hm, hb⟩]

/-- `__gb_write` on 0x6000–0x7FFF with MBC3, odd value, `cart_mode_select`
0: the 0→1 edge copies `rtc_real` into `rtc_latched`. -/
theorem gb_write_latch (s : gb_s) (addr w : Nat) (h1 : 0x6000 ≤ addr)
    (h2 : addr < 0x8000) (hm : s.mbc = 3) (hw : w &&& 1 ≠ 0)
    (hms : s.cart_mode_select = 0) :
    gb_write s addr w = setCartModeSelect (setRtcLatched s s.rtc_real) (w &&& 1) := by
  simp only [gb_write]
  rw [if_neg (by omega), if_neg (by omega), if_neg (by omega), if_neg (by omega),
      if_pos h2]
  simp only [gbw_mode]
  rw [if_pos ⟨hm, hw, hms⟩]

/-- Claim C10: on MBC3 with an RTC register selected
(`cart_ram_bank ∈ [0x08, 0x0C]`), a CPU write of `v` to 0xA000–0xBFFF stores
`v` masked by the per-register mask {0x3F, 0x3F, 0x1F, 0xFF, 0xC1} into the
*real* RTC registers and leaves the latched copy untouched; a CPU read of the
same window returns the latched copy, so the written value becomes readable
only after the next 0→1 latch write to 0x6000–0x7FFF. -/
theorem claim_C10_rtc_write_latch (s : gb_s) (addr v w : Nat)
    (hm : s.mbc = 3) (hb1 : 0x08 ≤ s.cart_ram_bank) (hb2 : s.cart_ram_bank ≤ 0x0C)
    (ha1 : 0xA000 ≤ addr) (ha2 : addr ≤ 0xBFFF)
    (hms : s.cart_mode_select = 0) (hw : w &&& 1 ≠ 0) :
    (gb_write s addr v).rtc_real.bytes (s.cart_ram_bank - 0x08)
        = v &&& rtc_reg_mask (s.cart_ram_bank - 0x08) ∧
    (gb_write s addr v).rtc_latched = s.rtc_latched ∧
    gb_read (gb_write s addr v) addr = s.rtc_latched.bytes (s.cart_ram_bank - 0x08) ∧
    gb_read (gb_write (gb_write s addr v) 0x6000 w) addr
        = v &&& rtc_reg_mask (s.cart_ram_bank - 0x08) := by
  have ha2' : addr < 0xC000 := by omega
  rw [gb_write_rtc_reg s addr v ha1 ha2' hm hb1]
  have hvlt : v &&& rtc_reg_mask (s.cart_ram_bank - 0x08) < 256 :=
    lt256_land_right _ (rtc_reg_mask_lt _)
  refine ⟨?_, by simp [setRtcReal], ?_, ?_⟩
  · simp only [setRtcReal]
    exact setByte_bytes_same _ _ _ (by omega) hvlt
  · rw [gb_read_rtc_reg _ addr ha1 ha2' (by simp [setRtcReal, hm])
        (by simp [setRtcReal]; omega)]
    simp [setRtcReal]
  · rw [gb_write_latch _ 0x6000 w (by norm_num) (by norm_num)
        (by simp [setRtcReal, hm]) hw (by simp [setRtcReal, hms])]
    rw [gb_read_rtc_reg _ addr ha1 ha2'
        (by simp [setRtcReal, setRtcLatched, setCartModeSelect, hm])
        (by simp [setRtcReal, setRtcLatched, setCartModeSelect]; omega)]
    simp only [setRtcReal, setRtcLatched, setCartModeSelect]
    exact setByte_bytes_same _ _ _ (by omega) hvlt

/-- Post-`gb_init` MBC3 state with the RTC seconds register selected
(`cart_ram_bank = 0x08`). -/
def mbc3_rtc_sel : gb_s := gb_write (gb_init g0 rom_mbc3).2 0x4000 0x08

/-- Claim C10 witness: writing 0x77 to the RTC seconds register stores
0x77 & 0x3F = 0x37 in `rtc_real`; after a 0→1 latch write to 0x6000 the
value 0x37 is read back at 0xA000. -/
theorem claim_C10_witness :
    mbc3_rtc_sel.mbc = 3 ∧ mbc3_rtc_sel.cart_ram_bank = 0x08 ∧
    mbc3_rtc_sel.cart_mode_select = 0 ∧
    gb_read (gb_write (gb_write mbc3_rtc_sel 0xA000 0x77) 0x6000 1) 0xA000 = 0x37 :=
  ⟨by decide, by decide, by decide,
    (claim_C10_rtc_write_latch mbc3_rtc_sel 0xA000 0x77 1 (by decide) (by decide)
      (by decide) (by norm_num) (by norm_num) (by decide) (by decide)).2.2.2⟩

/-! ## Claim C4 (MBC3 RTC illegal-value rollover) -/

/-- Post-`gb_init` MBC3 state with the RTC seconds register written to the
illegal value 63. -/
def mbc3_sec63 : gb_s := gb_write (gb_write (gb_init g0 rom_mbc3).2 0x4000 0x08) 0xA000 63

/-- Claim C4, counterexample.  With the seconds register holding the illegal
value 63 and the HALT flag clear, the next one-second RTC tick does *not*
leave the counter frozen at 63: the code's "invalid rollover" branch resets
the seconds register to 0 (without carrying into the minutes register). -/
theorem claim_C4_counterexample :
    mbc3_sec63.rtc_real.sec = 63 ∧
    mbc3_sec63.rtc_real.high &&& 0x40 = 0 ∧
    (rtc_phase mbc3_sec63 RTC_CYCLES).rtc_real.sec = 0 ∧
    (rtc_phase mbc3_sec63 RTC_CYCLES).rtc_real.rmin = mbc3_sec63.rtc_real.rmin := by
  refine ⟨by decide, by decide, by decide, by decide⟩

/-- Claim C4, amended: with the MBC3 RTC running (HALT clear), an illegal
register value is *not* frozen; the next tick that reaches it wraps it to 0
with the carry suppressed.  Concretely, for one RTC second elapsing: seconds
at 63 reset to 0 without touching minutes; at a seconds rollover with
minutes at 63, minutes reset to 0 without touching hours; at a minutes
rollover with hours at 31, hours reset to 0 without touching the day
counter. -/
theorem claim_C4_rtc_illegal_wraps (s : gb_s) (hm : s.mbc = 3)
    (hh : s.rtc_real.high &&& 0x40 = 0) (hc : s.counter_rtc = 0) :
    (s.rtc_real.sec = 63 →
      (rtc_phase s RTC_CYCLES).rtc_real = { s.rtc_real with sec := 0 }) ∧
    (s.rtc_real.sec = 59 → s.rtc_real.rmin = 63 →
      (rtc_phase s RTC_CYCLES).rtc_real = { s.rtc_real with sec := 0, rmin := 0 }) ∧
    (s.rtc_real.sec = 59 → s.rtc_real.rmin = 59 → s.rtc_real.hour = 31 →
      (rtc_phase s RTC_CYCLES).rtc_real
        = { s.rtc_real with sec := 0, rmin := 0, hour := 0 }) := by
  have hstep : (rtc_phase s RTC_CYCLES).rtc_real = rtc_tick s.rtc_real := by
    unfold rtc_phase
    rw [if_pos ⟨hm, hh⟩, hc]
    show (setCounterRtc (setRtcReal s
      (rtc_loop ((0 + RTC_CYCLES) / RTC_CYCLES + 1) s.rtc_real (0 + RTC_CYCLES)).1)
      (rtc_loop ((0 + RTC_CYCLES) / RTC_CYCLES + 1) s.rtc_real (0 + RTC_CYCLES)).2).rtc_real = _
    have : (0 + RTC_CYCLES) / RTC_CYCLES + 1 = 2 := by
      unfold RTC_CYCLES; norm_num
    rw [this]
    show (rtc_loop 2 s.rtc_real (0 + RTC_CYCLES)).1 = _
    unfold rtc_loop
    rw [if_pos (by unfold RTC_CYCLES; omega)]
    unfold rtc_loop
    rw [if_neg (by unfold RTC_CYCLES; omega)]
  refine ⟨fun h63 => ?_, fun h59 hm63 => ?_, fun h59 hm59 hh31 => ?_⟩
  · rw [hstep]
    unfold rtc_tick
    rw [if_pos h63]
  · rw [hstep]
    unfold rtc_tick
    rw [if_neg (by omega), if_neg (by rw [h59]; decide), if_pos (by simp [hm63])]
  · rw [hstep]
    unfold rtc_tick
    rw [if_neg (by omega), if_neg (by rw [h59]; decide), if_neg (by simp [hm59]),
        if_neg (by simp [hm59]), if_pos (by simp [hh31])]

/-- Claim C4 witness: the amended statement applied at the concrete MBC3
state with seconds = 63. -/
theorem claim_C4_witness :
    (rtc_phase mbc3_sec63 RTC_CYCLES).rtc_real = { mbc3_sec63.rtc_real with sec := 0 } :=
  (claim_C4_rtc_illegal_wraps mbc3_sec63 (by decide) (by decide) (by decide)).1 (by decide)

/-! ## Projection lemmas for the cycle-advance phases -/

theorem div_phase_hram_ne (s : gb_s) (ic : Nat) {a : Nat} (h : a ≠ IO_DIV) :
    (div_phase s ic).hram_io a = s.hram_io a := by
  unfold div_phase
  simp [setCounterDiv, setHram, upd8, h]

theorem div_phase_misc (s : gb_s) (ic : Nat) :
    (div_phase s ic).counter_lcd = s.counter_lcd ∧
    (div_phase s ic).counter_lcd_off = s.counter_lcd_off ∧
    (div_phase s ic).gb_halt = s.gb_halt ∧
    (div_phase s ic).lcd_blank = s.lcd_blank ∧
    (div_phase s ic).counter_rtc = s.counter_rtc ∧
    (div_phase s ic).counter_serial = s.counter_serial ∧
    (div_phase s ic).counter_tima = s.counter_tima ∧
    (div_phase s ic).mbc = s.mbc ∧
    (div_phase s ic).rtc_real = s.rtc_real ∧
    (div_phase s ic).gb_serial_rx = s.gb_serial_rx := by
  unfold div_phase
  simp [setCounterDiv, setHram]

theorem rtc_phase_hram (s : gb_s) (ic : Nat) :
    (rtc_phase s ic).hram_io = s.hram_io := by
  unfold rtc_phase
  split
  all_goals first | rfl | simp [setCounterRtc, setRtcReal]

theorem rtc_phase_misc (s : gb_s) (ic : Nat) :
    (rtc_phase s ic).counter_lcd = s.counter_lcd ∧
    (rtc_phase s ic).counter_lcd_off = s.counter_lcd_off ∧
    (rtc_phase s ic).gb_halt = s.gb_halt ∧
    (rtc_phase s ic).lcd_blank = s.lcd_blank ∧
    (rtc_phase s ic).counter_div = s.counter_div ∧
    (rtc_phase s ic).counter_serial = s.counter_serial ∧
    (rtc_phase s ic).counter_tima = s.counter_tima ∧
    (rtc_phase s ic).gb_serial_rx = s.gb_serial_rx := by
  unfold rtc_phase
  split
  all_goals first | rfl | simp [setCounterRtc, setRtcReal]

theorem serial_phase_hram_ne (s : gb_s) (ic : Nat) {a : Nat}
    (h1 : a ≠ IO_SB) (h2 : a ≠ IO_SC) (h3 : a ≠ IO_IF) :
    (serial_phase s ic).hram_io a = s.hram_io a := by
  unfold serial_phase
  dsimp only
  split
  · split
    · rcases hrx : s.gb_serial_rx with _ | rx
      all_goals simp only [setCounterSerial, hrx]
      all_goals try split
      all_goals first | rfl | simp [setHram, setCounterSerial, upd8, h1, h2, h3]
    · rfl
  · rfl

theorem serial_phase_misc (s : gb_s) (ic : Nat) :
    (serial_phase s ic).counter_lcd = s.counter_lcd ∧
    (serial_phase s ic).counter_lcd_off = s.counter_lcd_off ∧
    (serial_phase s ic).gb_halt = s.gb_halt ∧
    (serial_phase s ic).lcd_blank = s.lcd_blank ∧
    (serial_phase s ic).counter_div = s.counter_div ∧
    (serial_phase s ic).counter_tima = s.counter_tima := by
  unfold serial_phase
  dsimp only
  split
  · split
    · rcases hrx : s.gb_serial_rx with _ | rx
      all_goals simp only [setCounterSerial, hrx]
      all_goals try split
      all_goals first | rfl | simp [setHram, setCounterSerial, upd8]
    · simp [setCounterSerial]
  · simp

theorem tima_loop_hram_ne {a : Nat} (h5 : a ≠ IO_TIMA) (hF : a ≠ IO_IF) :
    ∀ (fuel : Nat) (h : Nat → Nat) (c : Nat), (tima_loop fuel h c).1 a = h a := by
  intro fuel
  induction fuel with
  | zero => intro h c; rfl
  | succ k ih =>
    intro h c
    simp only [tima_loop]
    split
    · rw [ih]
      split <;> simp [upd8, h5, hF]
    · rfl

theorem tima_phase_hram_ne (s : gb_s) (ic : Nat) {a : Nat}
    (h5 : a ≠ IO_TIMA) (hF : a ≠ IO_IF) :
    (tima_phase s ic).hram_io a = s.hram_io a := by
  unfold tima_phase
  split
  · simp only [setCounterTima, setHram]
    exact tima_loop_hram_ne h5 hF _ _ _
  · rfl

theorem tima_phase_misc (s : gb_s) (ic : Nat) :
    (tima_phase s ic).counter_lcd = s.counter_lcd ∧
    (tima_phase s ic).counter_lcd_off = s.counter_lcd_off ∧
    (tima_phase s ic).gb_halt = s.gb_halt ∧
    (tima_phase s ic).lcd_blank = s.lcd_blank ∧
    (tima_phase s ic).counter_div = s.counter_div ∧
    (tima_phase s ic).counter_serial = s.counter_serial := by
  unfold tima_phase
  split
  all_goals first | rfl | simp [setCounterTima, setHram]

theorem gb_draw_line_state_most (s : gb_s) :
    (gb_draw_line_state s).hram_io = s.hram_io ∧
    (gb_draw_line_state s).counter_div = s.counter_div ∧
    (gb_draw_line_state s).counter_serial = s.counter_serial ∧
    (gb_draw_line_state s).counter_tima = s.counter_tima ∧
    (gb_draw_line_state s).gb_halt = s.gb_halt := by
  unfold gb_draw_line_state
  repeat' split
  all_goals first | rfl | simp [setDispWindowClear]

theorem lcd_phase_off_hram (s : gb_s) (ic : Nat) :
    (lcd_phase_off s ic).1.hram_io = s.hram_io := by
  unfold lcd_phase_off
  dsimp only
  split
  · show (setFrame (setCounterLcdOff s (s.counter_lcd_off + ic - LCD_FRAME_CYCLES)) true).hram_io
        = s.hram_io
    rw [setFrame_hram_io, setCounterLcdOff_hram_io]
  · show (setCounterLcdOff s (s.counter_lcd_off + ic)).hram_io = s.hram_io
    rw [setCounterLcdOff_hram_io]

theorem lcd_phase_off_misc (s : gb_s) (ic : Nat) :
    (lcd_phase_off s ic).1.counter_div = s.counter_div ∧
    (lcd_phase_off s ic).1.counter_serial = s.counter_serial ∧
    (lcd_phase_off s ic).1.counter_tima = s.counter_tima ∧
    (lcd_phase_off s ic).1.gb_halt = s.gb_halt := by
  unfold lcd_phase_off
  dsimp only
  split
  · refine ⟨?_, ?_, ?_, ?_⟩
    · show (setFrame (setCounterLcdOff s (s.counter_lcd_off + ic - LCD_FRAME_CYCLES))
            true).counter_div = s.counter_div
      rw [setFrame_counter_div, setCounterLcdOff_counter_div]
    · show (setFrame (setCounterLcdOff s (s.counter_lcd_off + ic - LCD_FRAME_CYCLES))
            true).counter_serial = s.counter_serial
      rw [setFrame_counter_serial, setCounterLcdOff_counter_serial]
    · show (setFrame (setCounterLcdOff s (s.counter_lcd_off + ic - LCD_FRAME_CYCLES))
            true).counter_tima = s.counter_tima
      rw [setFrame_counter_tima, setCounterLcdOff_counter_tima]
    · show (setFrame (setCounterLcdOff s (s.counter_lcd_off + ic - LCD_FRAME_CYCLES))
            true).gb_halt = s.gb_halt
      rw [setFrame_gb_halt, setCounterLcdOff_gb_halt]
  · refine ⟨?_, ?_, ?_, ?_⟩
    · show (setCounterLcdOff s (s.counter_lcd_off + ic)).counter_div = s.counter_div
      rw [setCounterLcdOff_counter_div]
    · show (setCounterLcdOff s (s.counter_lcd_off + ic)).counter_serial = s.counter_serial
      rw [setCounterLcdOff_counter_serial]
    · show (setCounterLcdOff s (s.counter_lcd_off + ic)).counter_tima = s.counter_tima
      rw [setCounterLcdOff_counter_tima]
    · show (setCounterLcdOff s (s.counter_lcd_off + ic)).gb_halt = s.gb_halt
      rw [setCounterLcdOff_gb_halt]

theorem lcd_new_line_hram_ne (s : gb_s) {a : Nat}
    (hLY : a ≠ IO_LY) (hST : a ≠ IO_STAT) (hF : a ≠ IO_IF) :
    (lcd_new_line s).hram_io a = s.hram_io a := by
  unfold lcd_new_line
  dsimp
  repeat' split
  all_goals simp [upd8, hLY, hST, hF]

theorem lcd_new_line_misc (s : gb_s) :
    (lcd_new_line s).counter_div = s.counter_div ∧
    (lcd_new_line s).counter_serial = s.counter_serial ∧
    (lcd_new_line s).counter_tima = s.counter_tima ∧
    (lcd_new_line s).counter_lcd = s.counter_lcd ∧
    (lcd_new_line s).gb_halt = s.gb_halt := by
  unfold lcd_new_line
  dsimp
  repeat' split
  all_goals simp

theorem lcd_vblank_entry_hram_ne (s : gb_s) (ic : Nat) {a : Nat}
    (hST : a ≠ IO_STAT) (hF : a ≠ IO_IF) :
    (lcd_vblank_entry s ic).1.hram_io a = s.hram_io a := by
  unfold lcd_vblank_entry
  dsimp
  repeat' split
  all_goals simp [upd8, hST, hF]

theorem lcd_vblank_entry_misc (s : gb_s) (ic : Nat) :
    (lcd_vblank_entry s ic).1.counter_div = s.counter_div ∧
    (lcd_vblank_entry s ic).1.counter_serial = s.counter_serial ∧
    (lcd_vblank_entry s ic).1.counter_tima = s.counter_tima ∧
    (lcd_vblank_entry s ic).1.counter_lcd = s.counter_lcd ∧
    (lcd_vblank_entry s ic).1.gb_halt = s.gb_halt := by
  unfold lcd_vblank_entry
  dsimp
  repeat' split
  all_goals simp

theorem lcd_mode2_entry_hram_ne (s : gb_s) {a : Nat}
    (hST : a ≠ IO_STAT) (hF : a ≠ IO_IF) :
    (lcd_mode2_entry s).1.hram_io a = s.hram_io a := by
  unfold lcd_mode2_entry
  dsimp
  repeat' split
  all_goals simp [upd8, hST, hF]

theorem lcd_mode2_entry_misc (s : gb_s) :
    (lcd_mode2_entry s).1.counter_div = s.counter_div ∧
    (lcd_mode2_entry s).1.counter_serial = s.counter_serial ∧
    (lcd_mode2_entry s).1.counter_tima = s.counter_tima ∧
    (lcd_mode2_entry s).1.gb_halt = s.gb_halt := by
  unfold lcd_mode2_entry
  dsimp
  repeat' split
  all_goals simp

theorem lcd_mode0_entry_hram_ne (s : gb_s) (ic : Nat) {a : Nat}
    (hST : a ≠ IO_STAT) (hF : a ≠ IO_IF) :
    (lcd_mode0_entry s ic).1.hram_io a = s.hram_io a := by
  unfold lcd_mode0_entry
  dsimp
  repeat' split
  all_goals simp [upd8, hST, hF]

theorem lcd_mode0_entry_misc (s : gb_s) (ic : Nat) :
    (lcd_mode0_entry s ic).1.counter_div = s.counter_div ∧
    (lcd_mode0_entry s ic).1.counter_serial = s.counter_serial ∧
    (lcd_mode0_entry s ic).1.counter_tima = s.counter_tima ∧
    (lcd_mode0_entry s ic).1.counter_lcd = s.counter_lcd ∧
    (lcd_mode0_entry s ic).1.gb_halt = s.gb_halt := by
  unfold lcd_mode0_entry
  dsimp
  repeat' split
  all_goals simp

theorem lcd_mode3_entry_hram_ne (s : gb_s) (ic : Nat) {a : Nat}
    (hST : a ≠ IO_STAT) (hF : a ≠ IO_IF) :
    (lcd_mode3_entry s ic).1.hram_io a = s.hram_io a := by
  unfold lcd_mode3_entry
  dsimp
  repeat' split
  all_goals simp [upd8, hST, hF, (gb_draw_line_state_most _).1]

theorem lcd_mode3_entry_misc (s : gb_s) (ic : Nat) :
    (lcd_mode3_entry s ic).1.counter_div = s.counter_div ∧
    (lcd_mode3_entry s ic).1.counter_serial = s.counter_serial ∧
    (lcd_mode3_entry s ic).1.counter_tima = s.counter_tima ∧
    (lcd_mode3_entry s ic).1.gb_halt = s.gb_halt := by
  obtain ⟨h1, h2, h3, h4, h5⟩ := gb_draw_line_state_most (setHram s (upd8 s.hram_io IO_STAT
    ((s.hram_io IO_STAT &&& (0xFF ^^^ STAT_MODE)) ||| IO_STAT_MODE_LCD_DRAW)))
  unfold lcd_mode3_entry
  dsimp
  repeat' split
  all_goals simp [h2, h3, h4, h5]

theorem lcd_phase_hram_ne (s : gb_s) (ic : Nat) {a : Nat}
    (hLY : a ≠ IO_LY) (hST : a ≠ IO_STAT) (hF : a ≠ IO_IF) :
    (lcd_phase s ic).1.hram_io a = s.hram_io a := by
  unfold lcd_phase
  dsimp
  repeat' split
  all_goals simp [lcd_phase_off_hram, lcd_new_line_hram_ne _ hLY hST hF,
    lcd_vblank_entry_hram_ne _ _ hST hF, lcd_mode2_entry_hram_ne _ hST hF,
    lcd_mode0_entry_hram_ne _ _ hST hF, lcd_mode3_entry_hram_ne _ _ hST hF]

theorem lcd_phase_misc (s : gb_s) (ic : Nat) :
    (lcd_phase s ic).1.counter_div = s.counter_div ∧
    (lcd_phase s ic).1.counter_serial = s.counter_serial ∧
    (lcd_phase s ic).1.counter_tima = s.counter_tima ∧
    (lcd_phase s ic).1.gb_halt = s.gb_halt := by
  unfold lcd_phase
  dsimp
  repeat' split
  all_goals simp [lcd_phase_off_misc s ic, (lcd_new_line_misc _).1,
    (lcd_new_line_misc _).2.1, (lcd_new_line_misc _).2.2.1,
    (lcd_new_line_misc _).2.2.2.2, lcd_vblank_entry_misc, lcd_mode2_entry_misc,
    lcd_mode0_entry_misc, lcd_mode3_entry_misc]

/-! ## Claim C1: DIV writes and the internal divider count -/

/-- `n` successive executions of the cycle-advance machinery, each fed a
fresh instruction-cycle count `ic` (as when the CPU executes a sequence of
instructions of equal length). -/
def cycle_iter : Nat → gb_s → Nat → gb_s
  | 0, s, _ => s
  | n+1, s, ic => cycle_iter n (cycle_advance s ic).1 ic

theorem gb_write_div (s : gb_s) (v : Nat) :
    (gb_write s 0xFF04 v).hram_io IO_DIV = 0 ∧
    (gb_write s 0xFF04 v).counter_div = s.counter_div :=
  ⟨rfl, rfl⟩

theorem gb_read_ff04 (s : gb_s) : gb_read s 0xFF04 = s.hram_io IO_DIV := rfl

theorem div_loop_closed : ∀ (k c d : Nat), c / DIV_CYCLES < k → d < 256 →
    div_loop k d c = ((d + c / DIV_CYCLES) % 256, c % DIV_CYCLES) := by
  intro k
  induction k with
  | zero => intro c d h _; exact absurd h (Nat.not_lt_zero _)
  | succ n ih =>
    intro c d h hd
    rw [div_loop]
    split
    · rw [ih (c - DIV_CYCLES) ((d + 1) % 256)
        (by simp only [DIV_CYCLES] at *; omega) (Nat.mod_lt _ (by norm_num))]
      refine Prod.ext ?_ ?_
      · show ((d + 1) % 256 + (c - DIV_CYCLES) / DIV_CYCLES) % 256 = _
        rw [Nat.mod_add_mod]
        have : d + 1 + (c - DIV_CYCLES) / DIV_CYCLES = d + c / DIV_CYCLES := by
          simp only [DIV_CYCLES] at *; omega
        rw [this]
      · show (c - DIV_CYCLES) % DIV_CYCLES = c % DIV_CYCLES
        simp only [DIV_CYCLES] at *; omega
    · refine Prod.ext ?_ ?_
      · show d = (d + c / DIV_CYCLES) % 256
        simp only [DIV_CYCLES] at *; omega
      · show c = c % DIV_CYCLES
        simp only [DIV_CYCLES] at *; omega

theorem div_phase_div (s : gb_s) (ic : Nat) (hd : s.hram_io IO_DIV < 256) :
    (div_phase s ic).hram_io IO_DIV
      = (s.hram_io IO_DIV + (s.counter_div + ic) / DIV_CYCLES) % 256 ∧
    (div_phase s ic).counter_div = (s.counter_div + ic) % DIV_CYCLES := by
  unfold div_phase
  dsimp only
  rw [div_loop_closed _ _ _ (Nat.lt_succ_self _) hd]
  constructor
  · simp [setCounterDiv, setHram, upd8,
      Nat.mod_eq_of_lt (a := (s.hram_io IO_DIV + (s.counter_div + ic) / DIV_CYCLES) % 256)
        (Nat.mod_lt _ (by norm_num))]
  · simp [setCounterDiv, setHram]

theorem cycle_advance_div (s : gb_s) (ic : Nat) (hd : s.hram_io IO_DIV < 256) :
    (cycle_advance s ic).1.hram_io IO_DIV
      = (s.hram_io IO_DIV + (s.counter_div + ic) / DIV_CYCLES) % 256 ∧
    (cycle_advance s ic).1.counter_div = (s.counter_div + ic) % DIV_CYCLES := by
  unfold cycle_advance
  constructor
  · rw [lcd_phase_hram_ne _ _ (by decide) (by decide) (by decide),
      tima_phase_hram_ne _ _ (by decide) (by decide),
      serial_phase_hram_ne _ _ (by decide) (by decide) (by decide),
      rtc_phase_hram]
    exact (div_phase_div s ic hd).1
  · rw [(lcd_phase_misc _ _).1, (tima_phase_misc _ _).2.2.2.2.1,
      (serial_phase_misc _ _).2.2.2.2.1, (rtc_phase_misc _ _).2.2.2.2.1]
    exact (div_phase_div s ic hd).2

/-- Claim C1, counterexample.  Starting from the post-`gb_init` state of a
plain ROM, five instruction steps of 20 cycles each bring the internal
divider count to 100.  A CPU write to 0xFF04 makes an immediate read return
0, but the internal count stays at 100: after eight further 20-cycle steps —
only 160 T-cycles after the write, fewer than 256 — a read of 0xFF04 already
returns 1, and the count was never reset to 0 by the write. -/
theorem claim_C1_counterexample :
    (gb_write (cycle_iter 5 (gb_init g0 rom_plain).2 20) 0xFF04 0x7F).counter_div = 100 ∧
    gb_read (gb_write (cycle_iter 5 (gb_init g0 rom_plain).2 20) 0xFF04 0x7F) 0xFF04 = 0 ∧
    gb_read (cycle_iter 8
      (gb_write (cycle_iter 5 (gb_init g0 rom_plain).2 20) 0xFF04 0x7F) 20) 0xFF04 = 1 := by
  refine ⟨by decide, by decide, by decide⟩

/-- Claim C1, amended: a CPU write of any value to 0xFF04 zeroes the DIV
register itself — an immediate read returns 0 — but leaves the internal
divider cycle count unchanged.  After `ic` further T-cycles of the cycle
machinery, DIV reads `(old_count + ic) / 256 % 256` and the count is
`(old_count + ic) % 256`: the first post-write increment happens after
`256 - old_count` T-cycles, not after 256. -/
theorem claim_C1_div_write (s : gb_s) (v ic : Nat) :
    gb_read (gb_write s 0xFF04 v) 0xFF04 = 0 ∧
    (gb_write s 0xFF04 v).counter_div = s.counter_div ∧
    gb_read (cycle_advance (gb_write s 0xFF04 v) ic).1 0xFF04
      = ((s.counter_div + ic) / DIV_CYCLES) % 256 ∧
    (cycle_advance (gb_write s 0xFF04 v) ic).1.counter_div
      = (s.counter_div + ic) % DIV_CYCLES := by
  have h := cycle_advance_div (gb_write s 0xFF04 v) ic
    (by rw [(gb_write_div s v).1]; decide)
  refine ⟨rfl, rfl, ?_, ?_⟩
  · rw [gb_read_ff04, h.1, (gb_write_div s v).1, (gb_write_div s v).2, Nat.zero_add]
  · rw [h.2, (gb_write_div s v).2]

/-! ## Claim C8: the IF register's top three bits -/

/-- The IF-register invariant: the stored byte is in range and its bits 5–7
are all set (mask 0xE0). -/
def IFok (s : gb_s) : Prop :=
  s.hram_io IO_IF < 256 ∧ s.hram_io IO_IF &&& 0xE0 = 0xE0

theorem land_e0_or (x b : Nat) (hx : x &&& 0xE0 = 0xE0) :
    (x ||| b) &&& 0xE0 = 0xE0 := by
  apply Nat.eq_of_testBit_eq
  intro i
  have hi := congrArg (fun y => Nat.testBit y i) hx
  simp only [Nat.testBit_land] at hi
  simp only [Nat.testBit_land, Nat.testBit_lor]
  cases hE : Nat.testBit 0xE0 i
  · simp
  · rw [hE, Bool.and_true] at hi
    simp [hi]

theorem land_e0_xor (x b : Nat) (hx : x &&& 0xE0 = 0xE0) (hb : b < 32) :
    (x ^^^ b) &&& 0xE0 = 0xE0 := by
  apply Nat.eq_of_testBit_eq
  intro i
  have hi := congrArg (fun y => Nat.testBit y i) hx
  simp only [Nat.testBit_land] at hi
  simp only [Nat.testBit_land, Nat.testBit_xor]
  cases hE : Nat.testBit 0xE0 i
  · simp
  · have h5 : 5 ≤ i := by
      by_contra hlt
      push_neg at hlt
      interval_cases i <;> exact absurd hE (by decide)
    have hbf : Nat.testBit b i = false := by
      apply Nat.testBit_lt_two_pow
      calc b < 2 ^ 5 := by norm_num at hb ⊢; omega
        _ ≤ 2 ^ i := Nat.pow_le_pow_right (by norm_num) h5
    rw [hE, Bool.and_true] at hi
    simp [hi, hbf]

theorem IF_or_val {x b : Nat} (h1 : x < 256) (h2 : x &&& 0xE0 = 0xE0) (hb : b < 256) :
    (x ||| b) % 256 < 256 ∧ ((x ||| b) % 256) &&& 0xE0 = 0xE0 := by
  have hlt : x ||| b < 256 := by
    have h8 : (256 : Nat) = 2 ^ 8 := by norm_num
    rw [h8] at h1 hb ⊢
    exact Nat.or_lt_two_pow h1 hb
  rw [Nat.mod_eq_of_lt hlt]
  exact ⟨hlt, land_e0_or x b h2⟩

theorem IF_xor_val {x b : Nat} (h1 : x < 256) (h2 : x &&& 0xE0 = 0xE0) (hb : b < 32) :
    (x ^^^ b) % 256 < 256 ∧ ((x ^^^ b) % 256) &&& 0xE0 = 0xE0 := by
  have hlt : x ^^^ b < 256 := by
    have h8 : (256 : Nat) = 2 ^ 8 := by norm_num
    rw [h8] at h1 ⊢
    exact Nat.xor_lt_two_pow h1 (lt_of_lt_of_le hb (by norm_num))
  rw [Nat.mod_eq_of_lt hlt]
  exact ⟨hlt, land_e0_xor x b h2 hb⟩

theorem IF_write_val (v : Nat) :
    (v ||| 0xE0) % 256 < 256 ∧ ((v ||| 0xE0) % 256) &&& 0xE0 = 0xE0 := by
  refine ⟨Nat.mod_lt _ (by norm_num), ?_⟩
  apply Nat.eq_of_testBit_eq
  intro i
  simp only [Nat.testBit_land, show (256 : Nat) = 2 ^ 8 from by norm_num,
    Nat.testBit_mod_two_pow, Nat.testBit_lor]
  cases hE : Nat.testBit 0xE0 i
  · simp
  · have h8 : i < 8 := by
      by_contra hge
      push_neg at hge
      have hf : Nat.testBit 0xE0 i = false := by
        apply Nat.testBit_lt_two_pow
        calc (0xE0 : Nat) < 2 ^ 8 := by norm_num
          _ ≤ 2 ^ i := Nat.pow_le_pow_right (by norm_num) hge
      rw [hf] at hE
      exact Bool.false_ne_true hE
    simp [h8]

theorem dma_copy_hram (t : gb_s) (d : Nat) : (dma_copy t d).hram_io = t.hram_io := by
  unfold dma_copy
  generalize List.range OAM_SIZE = l
  induction l generalizing t with
  | nil => rfl
  | cons x xs ih =>
    simp only [List.foldl_cons]
    rw [ih]

theorem gbw_ram_enable_hram (s : gb_s) (a v : Nat) :
    (gbw_ram_enable s a v).hram_io = s.hram_io := by
  unfold gbw_ram_enable
  try dsimp only
  repeat' split
  all_goals rfl

theorem gbw_bank_low2_hram (s : gb_s) (a v : Nat) :
    (gbw_bank_low2 s a v).hram_io = s.hram_io := by
  unfold gbw_bank_low2
  try dsimp only
  repeat' split
  all_goals rfl

theorem gbw_bank3_hram (s : gb_s) (a v : Nat) :
    (gbw_bank3 s a v).hram_io = s.hram_io := by
  unfold gbw_bank3
  try dsimp only
  repeat' split
  all_goals rfl

theorem gbw_ram_bank_hram (s : gb_s) (v : Nat) :
    (gbw_ram_bank s v).hram_io = s.hram_io := by
  unfold gbw_ram_bank
  try dsimp only
  repeat' split
  all_goals rfl

theorem gbw_mode_hram (s : gb_s) (v : Nat) :
    (gbw_mode s v).hram_io = s.hram_io := by
  unfold gbw_mode
  try dsimp only
  split
  all_goals rfl

theorem gbw_cram_hram (s : gb_s) (a v : Nat) :
    (gbw_cram s a v).hram_io = s.hram_io := by
  unfold gbw_cram
  try dsimp only
  repeat' split
  all_goals rfl

theorem gbw_joyp_IFok (s : gb_s) (v : Nat) (h : IFok s) : IFok (gbw_joyp s v) := by
  unfold gbw_joyp
  try dsimp only
  split
  all_goals exact h

theorem gbw_lcdc_IFok (s : gb_s) (v : Nat) (h : IFok s) : IFok (gbw_lcdc s v) := by
  unfold gbw_lcdc
  try dsimp only
  repeat' split
  · exact h
  · unfold IFok at h ⊢
    exact h
  · exact h

theorem gbw_dma_IFok (s : gb_s) (v : Nat) (h : IFok s) : IFok (gbw_dma s v) := by
  unfold IFok at h ⊢
  unfold gbw_dma
  try dsimp only
  rw [dma_copy_hram]
  exact h

theorem gbw_bgp_IFok (s : gb_s) (v : Nat) (h : IFok s) : IFok (gbw_bgp s v) := by
  exact h

theorem gbw_obp0_IFok (s : gb_s) (v : Nat) (h : IFok s) : IFok (gbw_obp0 s v) := by
  exact h

theorem gbw_obp1_IFok (s : gb_s) (v : Nat) (h : IFok s) : IFok (gbw_obp1 s v) := by
  exact h

set_option maxHeartbeats 2000000 in
theorem gbw_io_IFok (s : gb_s) (a v : Nat) (h : IFok s) : IFok (gbw_io s a v) := by
  unfold gbw_io
  try dsimp only
  by_cases hc0 : a &&& 255 = 0
  · rw [if_pos hc0]
    exact gbw_joyp_IFok _ _ h
  · rw [if_neg hc0]
    by_cases hc1 : a &&& 255 = 1
    · rw [if_pos hc1]
      exact h
    · rw [if_neg hc1]
      by_cases hc2 : a &&& 255 = 2
      · rw [if_pos hc2]
        exact h
      · rw [if_neg hc2]
        by_cases hc3 : a &&& 255 = 4
        · rw [if_pos hc3]
          exact h
        · rw [if_neg hc3]
          by_cases hc4 : a &&& 255 = 5
          · rw [if_pos hc4]
            exact h
          · rw [if_neg hc4]
            by_cases hc5 : a &&& 255 = 6
            · rw [if_pos hc5]
              exact h
            · rw [if_neg hc5]
              by_cases hc6 : a &&& 255 = 7
              · rw [if_pos hc6]
                exact h
              · rw [if_neg hc6]
                by_cases hc7 : a &&& 255 = 15
                · rw [if_pos hc7]
                  exact IF_write_val v
                · rw [if_neg hc7]
                  by_cases hc8 : a &&& 255 = 64
                  · rw [if_pos hc8]
                    exact gbw_lcdc_IFok _ _ h
                  · rw [if_neg hc8]
                    by_cases hc9 : a &&& 255 = 65
                    · rw [if_pos hc9]
                      exact h
                    · rw [if_neg hc9]
                      by_cases hc10 : a &&& 255 = 66
                      · rw [if_pos hc10]
                        exact h
                      · rw [if_neg hc10]
                        by_cases hc11 : a &&& 255 = 67
                        · rw [if_pos hc11]
                          exact h
                        · rw [if_neg hc11]
                          by_cases hc12 : a &&& 255 = 69
                          · rw [if_pos hc12]
                            exact h
                          · rw [if_neg hc12]
                            by_cases hc13 : a &&& 255 = 70
                            · rw [if_pos hc13]
                              exact gbw_dma_IFok _ _ h
                            · rw [if_neg hc13]
                              by_cases hc14 : a &&& 255 = 71
                              · rw [if_pos hc14]
                                exact gbw_bgp_IFok _ _ h
                              · rw [if_neg hc14]
                                by_cases hc15 : a &&& 255 = 72
                                · rw [if_pos hc15]
                                  exact gbw_obp0_IFok _ _ h
                                · rw [if_neg hc15]
                                  by_cases hc16 : a &&& 255 = 73
                                  · rw [if_pos hc16]
                                    exact gbw_obp1_IFok _ _ h
                                  · rw [if_neg hc16]
                                    by_cases hc17 : a &&& 255 = 74
                                    · rw [if_pos hc17]
                                      exact h
                                    · rw [if_neg hc17]
                                      by_cases hc18 : a &&& 255 = 75
                                      · rw [if_pos hc18]
                                        exact h
                                      · rw [if_neg hc18]
                                        by_cases hc19 : a &&& 255 = 80
                                        · rw [if_pos hc19]
                                          exact h
                                        · rw [if_neg hc19]
                                          by_cases hc20 : a &&& 255 = 255
                                          · rw [if_pos hc20]
                                            exact h
                                          · rw [if_neg hc20]
                                            exact h

set_option maxHeartbeats 2000000 in
theorem gb_write_IFok (s : gb_s) (a v : Nat) (h : IFok s) : IFok (gb_write s a v) := by
  unfold gb_write
  by_cases hc0 : a < 0x2000
  · rw [if_pos hc0]
    unfold IFok at h ⊢; rw [gbw_ram_enable_hram]; exact h
  · rw [if_neg hc0]
    by_cases hc1 : a < 0x3000
    · rw [if_pos hc1]
      unfold IFok at h ⊢; rw [gbw_bank_low2_hram]; exact h
    · rw [if_neg hc1]
      by_cases hc2 : a < 0x4000
      · rw [if_pos hc2]
        unfold IFok at h ⊢; rw [gbw_bank3_hram]; exact h
      · rw [if_neg hc2]
        by_cases hc3 : a < 0x6000
        · rw [if_pos hc3]
          unfold IFok at h ⊢; rw [gbw_ram_bank_hram]; exact h
        · rw [if_neg hc3]
          by_cases hc4 : a < 0x8000
          · rw [if_pos hc4]
            unfold IFok at h ⊢; rw [gbw_mode_hram]; exact h
          · rw [if_neg hc4]
            by_cases hc5 : a < 0xA000
            · rw [if_pos hc5]
              exact h
            · rw [if_neg hc5]
              by_cases hc6 : a < 0xC000
              · rw [if_pos hc6]
                unfold IFok at h ⊢; rw [gbw_cram_hram]; exact h
              · rw [if_neg hc6]
                by_cases hc7 : a < 0xD000
                · rw [if_pos hc7]
                  exact h
                · rw [if_neg hc7]
                  by_cases hc8 : a < 0xE000
                  · rw [if_pos hc8]
                    exact h
                  · rw [if_neg hc8]
                    by_cases hc9 : a < 0xF000
                    · rw [if_pos hc9]
                      exact h
                    · rw [if_neg hc9]
                      by_cases hc10 : a < OAM_ADDR
                      · rw [if_pos hc10]
                        exact h
                      · rw [if_neg hc10]
                        by_cases hc11 : a < UNUSED_ADDR
                        · rw [if_pos hc11]
                          exact h
                        · rw [if_neg hc11]
                          by_cases hc12 : a < IO_ADDR
                          · rw [if_pos hc12]
                            exact h
                          · rw [if_neg hc12]
                            by_cases hc13 : HRAM_ADDR ≤ a ∧ a < INTR_EN_ADDR
                            · rw [if_pos hc13]
                              have hne : (IO_IF : Nat) ≠ a - IO_ADDR := by
                                simp only [IO_IF, IO_ADDR, HRAM_ADDR, INTR_EN_ADDR] at hc13 ⊢
                                omega
                              unfold IFok at h ⊢
                              dsimp only [setHram]
                              rw [upd8_ne _ _ hne]
                              exact h
                            · rw [if_neg hc13]
                              by_cases hc14 : 0xFF10 ≤ a ∧ a ≤ 0xFF3F
                              · rw [if_pos hc14]
                                have hne : (IO_IF : Nat) ≠ a - IO_ADDR := by
                                  simp only [IO_IF, IO_ADDR] at hc14 ⊢
                                  omega
                                unfold IFok at h ⊢
                                dsimp only [setHram]
                                rw [upd8_ne _ _ hne]
                                exact h
                              · rw [if_neg hc14]
                                exact gbw_io_IFok _ _ _ h

theorem div_phase_IFok (s : gb_s) (ic : Nat) (h : IFok s) : IFok (div_phase s ic) := by
  unfold IFok at *
  rw [div_phase_hram_ne s ic (by decide)]
  exact h

theorem rtc_phase_IFok (s : gb_s) (ic : Nat) (h : IFok s) : IFok (rtc_phase s ic) := by
  unfold IFok at *
  rw [rtc_phase_hram]
  exact h

theorem serial_phase_IFok (s : gb_s) (ic : Nat) (h : IFok s) : IFok (serial_phase s ic) := by
  unfold serial_phase
  try dsimp only
  split
  · split
    · rcases hrx : s.gb_serial_rx with _ | rx
      all_goals simp only [setCounterSerial, hrx]
      · split
        · exact IF_or_val h.1 h.2 (show SERIAL_INTR < 256 by decide)
        · exact h
      · exact IF_or_val h.1 h.2 (show SERIAL_INTR < 256 by decide)
    · exact h
  · exact h

theorem tima_loop_IFok :
    ∀ (fuel : Nat) (h : Nat → Nat) (c : Nat),
      h IO_IF < 256 ∧ h IO_IF &&& 0xE0 = 0xE0 →
      (tima_loop fuel h c).1 IO_IF < 256 ∧ (tima_loop fuel h c).1 IO_IF &&& 0xE0 = 0xE0 := by
  intro fuel
  induction fuel with
  | zero => intro h c hok; exact hok
  | succ n ih =>
    intro h c hok
    simp only [tima_loop]
    try dsimp only
    split
    · split
      · exact ih _ _ (IF_or_val hok.1 hok.2 (show TIMER_INTR < 256 by decide))
      · exact ih _ _ hok
    · exact hok

theorem tima_phase_IFok (s : gb_s) (ic : Nat) (h : IFok s) : IFok (tima_phase s ic) := by
  unfold tima_phase
  try dsimp only
  split
  · exact tima_loop_IFok _ _ _ h
  · exact h

theorem lcd_phase_off_IFok (s : gb_s) (ic : Nat) (h : IFok s) : IFok (lcd_phase_off s ic).1 := by
  unfold IFok at *
  rw [lcd_phase_off_hram]
  exact h

theorem lcd_new_line_IFok (s : gb_s) (h : IFok s) : IFok (lcd_new_line s) := by
  unfold lcd_new_line
  try dsimp only
  repeat' split
  all_goals unfold IFok at h ⊢
  · exact IF_or_val h.1 h.2 (show LCDC_INTR < 256 by decide)
  · exact h
  · exact h
  · exact IF_or_val h.1 h.2 (show LCDC_INTR < 256 by decide)
  · exact h
  · exact h

theorem lcd_vblank_entry_IFok (s : gb_s) (ic : Nat) (h : IFok s) :
    IFok (lcd_vblank_entry s ic).1 := by
  have h1 := IF_or_val h.1 h.2 (show VBLANK_INTR < 256 by decide)
  have h2 := IF_or_val h1.1 h1.2 (show LCDC_INTR < 256 by decide)
  unfold lcd_vblank_entry
  try dsimp only
  repeat' split
  all_goals unfold IFok
  all_goals first
  | exact h1
  | exact h2

theorem lcd_mode2_entry_IFok (s : gb_s) (h : IFok s) : IFok (lcd_mode2_entry s).1 := by
  unfold lcd_mode2_entry
  try dsimp only
  repeat' split
  all_goals unfold IFok at h ⊢
  · exact IF_or_val h.1 h.2 (show LCDC_INTR < 256 by decide)
  · exact h
  · exact IF_or_val h.1 h.2 (show LCDC_INTR < 256 by decide)
  · exact h

theorem lcd_mode0_entry_IFok (s : gb_s) (ic : Nat) (h : IFok s) :
    IFok (lcd_mode0_entry s ic).1 := by
  unfold lcd_mode0_entry
  try dsimp only
  repeat' split
  all_goals unfold IFok at h ⊢
  · exact IF_or_val h.1 h.2 (show LCDC_INTR < 256 by decide)
  · exact h

theorem lcd_mode3_entry_IFok (s : gb_s) (ic : Nat) (h : IFok s) :
    IFok (lcd_mode3_entry s ic).1 := by
  unfold lcd_mode3_entry
  try dsimp only
  repeat' split
  all_goals unfold IFok at h ⊢
  · rw [(gb_draw_line_state_most _).1]; exact h
  · exact h

theorem lcd_phase_IFok (s : gb_s) (ic : Nat) (h : IFok s) : IFok (lcd_phase s ic).1 := by
  unfold lcd_phase
  try dsimp only
  repeat' split
  · exact lcd_phase_off_IFok _ _ h
  · refine lcd_vblank_entry_IFok _ _ ?_
    refine lcd_new_line_IFok _ ?_
    unfold IFok at h ⊢
    exact h
  · refine lcd_mode2_entry_IFok _ ?_
    refine lcd_new_line_IFok _ ?_
    unfold IFok at h ⊢
    exact h
  · refine lcd_new_line_IFok _ ?_
    unfold IFok at h ⊢
    exact h
  · refine lcd_mode0_entry_IFok _ _ ?_
    unfold IFok at h ⊢
    exact h
  · refine lcd_mode3_entry_IFok _ _ ?_
    unfold IFok at h ⊢
    exact h
  · unfold IFok at h ⊢
    exact h

theorem cycle_advance_IFok (s : gb_s) (ic : Nat) (h : IFok s) :
    IFok (cycle_advance s ic).1 :=
  lcd_phase_IFok _ _ (tima_phase_IFok _ _ (serial_phase_IFok _ _
    (rtc_phase_IFok _ _ (div_phase_IFok _ _ h))))

theorem intr_dispatch_IFok (t : gb_s) (h : IFok t) : IFok (intr_dispatch t) := by
  unfold intr_dispatch
  repeat' split
  · exact IF_xor_val h.1 h.2 (show VBLANK_INTR < 32 by decide)
  · exact IF_xor_val h.1 h.2 (show LCDC_INTR < 32 by decide)
  · exact IF_xor_val h.1 h.2 (show TIMER_INTR < 32 by decide)
  · exact IF_xor_val h.1 h.2 (show SERIAL_INTR < 32 by decide)
  · exact IF_xor_val h.1 h.2 (show CONTROL_INTR < 32 by decide)
  · exact h

theorem IFok_setCpuSP (t : gb_s) (v : Nat) (h : IFok t) : IFok (setCpuSP t v) := by
  unfold IFok at h ⊢
  exact h

set_option maxHeartbeats 1000000 in
theorem gb_step_interrupt_IFok (s : gb_s) (h : IFok s) : IFok (gb_step_interrupt s) := by
  unfold gb_step_interrupt
  try dsimp only
  split
  · split
    · unfold IFok at h ⊢
      exact h
    · refine intr_dispatch_IFok _ ?_
      refine gb_write_IFok _ _ _ ?_
      refine IFok_setCpuSP _ _ ?_
      refine gb_write_IFok _ _ _ ?_
      refine IFok_setCpuSP _ _ ?_
      unfold IFok at h ⊢
      exact h
  · exact h

theorem gb_reset_IFok (s : gb_s) : IFok (gb_reset s) := by
  unfold gb_reset
  dsimp only
  split
  · exact (⟨by norm_num, by decide⟩ :
      (0xE1 % 256 : Nat) < 256 ∧ (0xE1 % 256 : Nat) &&& 0xE0 = 0xE0)
  · exact (⟨by norm_num, by decide⟩ :
      (0xE1 % 256 : Nat) < 256 ∧ (0xE1 % 256 : Nat) &&& 0xE0 = 0xE0)

/-- Claim C8: reading 0xFF0F always returns a value with bits 5–7 set.  The
invariant `IFok` (stored IF byte in range with mask 0xE0 set) is established
by `gb_reset`, makes every read of 0xFF0F return bits 5–7 as 1, is
(re-)established by every CPU write to 0xFF0F (the code ORs 0xE0 into the
written value), is preserved by every CPU write to any address, by the
interrupt requests raised in the timer/serial/PPU cycle machinery, and by
interrupt service, which only XORs out the serviced bit (bits 0–4). -/
theorem claim_C8_if_invariant :
    (∀ s : gb_s, IFok (gb_reset s)) ∧
    (∀ s : gb_s, IFok s →
      (gb_read s 0xFF0F).testBit 5 = true ∧
      (gb_read s 0xFF0F).testBit 6 = true ∧
      (gb_read s 0xFF0F).testBit 7 = true) ∧
    (∀ (s : gb_s) (v : Nat), IFok (gb_write s 0xFF0F v)) ∧
    (∀ (s : gb_s) (a v : Nat), IFok s → IFok (gb_write s a v)) ∧
    (∀ (s : gb_s) (ic : Nat), IFok s → IFok (cycle_advance s ic).1) ∧
    (∀ s : gb_s, IFok s → IFok (gb_step_interrupt s)) := by
  refine ⟨gb_reset_IFok, ?_, ?_, gb_write_IFok, cycle_advance_IFok, gb_step_interrupt_IFok⟩
  · intro s h
    have hread : gb_read s 0xFF0F = s.hram_io IO_IF := rfl
    have hb := fun i => congrArg (fun y => Nat.testBit y i) h.2
    simp only [Nat.testBit_land] at hb
    refine ⟨?_, ?_, ?_⟩ <;> rw [hread]
    · have h5 := hb 5
      rw [show Nat.testBit 0xE0 5 = true from by decide, Bool.and_true] at h5
      exact h5
    · have h6 := hb 6
      rw [show Nat.testBit 0xE0 6 = true from by decide, Bool.and_true] at h6
      exact h6
    · have h7 := hb 7
      rw [show Nat.testBit 0xE0 7 = true from by decide, Bool.and_true] at h7
      exact h7
  · intro s v
    exact IF_write_val v

/-- Claim C8 witness: the invariant parts applied at the post-`gb_init` state
of a plain ROM. -/
theorem claim_C8_witness :
    IFok (cycle_advance (gb_init g0 rom_plain).2 20).1 ∧
    IFok (gb_step_interrupt (gb_init g0 rom_plain).2) :=
  ⟨claim_C8_if_invariant.2.2.2.2.1 _ 20 (by unfold IFok; decide),
   claim_C8_if_invariant.2.2.2.2.2 _ (by unfold IFok; decide)⟩

/-! ## Claim C6: interrupt service -/

/-- Index of the interrupt bit the service routine's `if`-chain selects: the
lowest-numbered (VBlank-first, i.e. highest-priority) set bit among bits 0–4
of `p`. -/
def lowest_intr_bit (p : Nat) : Nat :=
  if p &&& VBLANK_INTR ≠ 0 then 0
  else if p &&& LCDC_INTR ≠ 0 then 1
  else if p &&& TIMER_INTR ≠ 0 then 2
  else if p &&& SERIAL_INTR ≠ 0 then 3
  else 4

theorem and_two_pow_ne_zero {q k : Nat} : q &&& 2 ^ k ≠ 0 ↔ q.testBit k = true := by
  rw [Nat.and_two_pow]
  cases h : q.testBit k <;> simp [h]

theorem intr_bits_all_clear (q : Nat) (h0 : q &&& VBLANK_INTR = 0)
    (h1 : q &&& LCDC_INTR = 0) (h2 : q &&& TIMER_INTR = 0)
    (h3 : q &&& SERIAL_INTR = 0) (h4 : q &&& CONTROL_INTR = 0) :
    q &&& ANY_INTR = 0 := by
  have b0 : q.testBit 0 = false := by
    have h := congrArg (fun y => Nat.testBit y 0) h0
    simp only [Nat.testBit_land, Nat.zero_testBit,
      show Nat.testBit VBLANK_INTR 0 = true from by decide, Bool.and_true] at h
    exact h
  have b1 : q.testBit 1 = false := by
    have h := congrArg (fun y => Nat.testBit y 1) h1
    simp only [Nat.testBit_land, Nat.zero_testBit,
      show Nat.testBit LCDC_INTR 1 = true from by decide, Bool.and_true] at h
    exact h
  have b2 : q.testBit 2 = false := by
    have h := congrArg (fun y => Nat.testBit y 2) h2
    simp only [Nat.testBit_land, Nat.zero_testBit,
      show Nat.testBit TIMER_INTR 2 = true from by decide, Bool.and_true] at h
    exact h
  have b3 : q.testBit 3 = false := by
    have h := congrArg (fun y => Nat.testBit y 3) h3
    simp only [Nat.testBit_land, Nat.zero_testBit,
      show Nat.testBit SERIAL_INTR 3 = true from by decide, Bool.and_true] at h
    exact h
  have b4 : q.testBit 4 = false := by
    have h := congrArg (fun y => Nat.testBit y 4) h4
    simp only [Nat.testBit_land, Nat.zero_testBit,
      show Nat.testBit CONTROL_INTR 4 = true from by decide, Bool.and_true] at h
    exact h
  apply Nat.eq_of_testBit_eq
  intro i
  simp only [Nat.testBit_land, Nat.zero_testBit]
  by_cases hi : i < 5
  · interval_cases i <;> simp [b0, b1, b2, b3, b4]
  · have hA : Nat.testBit ANY_INTR i = false := by
      apply Nat.testBit_lt_two_pow
      calc ANY_INTR < 2 ^ 5 := by norm_num [ANY_INTR]
        _ ≤ 2 ^ i := Nat.pow_le_pow_right (by norm_num) (by omega)
    simp [hA]

theorem lowest_intr_bit_lt (p : Nat) : lowest_intr_bit p < 5 := by
  unfold lowest_intr_bit
  repeat' split
  all_goals norm_num

theorem lowest_intr_bit_set (q : Nat) (hq : q &&& ANY_INTR ≠ 0) :
    q.testBit (lowest_intr_bit q) = true := by
  unfold lowest_intr_bit
  by_cases h0 : q &&& VBLANK_INTR ≠ 0
  · rw [if_pos h0]
    rw [show VBLANK_INTR = 2 ^ 0 from by norm_num [VBLANK_INTR]] at h0
    exact and_two_pow_ne_zero.mp h0
  · rw [if_neg h0]
    by_cases h1 : q &&& LCDC_INTR ≠ 0
    · rw [if_pos h1]
      rw [show LCDC_INTR = 2 ^ 1 from by norm_num [LCDC_INTR]] at h1
      exact and_two_pow_ne_zero.mp h1
    · rw [if_neg h1]
      by_cases h2 : q &&& TIMER_INTR ≠ 0
      · rw [if_pos h2]
        rw [show TIMER_INTR = 2 ^ 2 from by norm_num [TIMER_INTR]] at h2
        exact and_two_pow_ne_zero.mp h2
      · rw [if_neg h2]
        by_cases h3 : q &&& SERIAL_INTR ≠ 0
        · rw [if_pos h3]
          rw [show SERIAL_INTR = 2 ^ 3 from by norm_num [SERIAL_INTR]] at h3
          exact and_two_pow_ne_zero.mp h3
        · rw [if_neg h3]
          by_cases h4 : q &&& CONTROL_INTR ≠ 0
          · rw [show CONTROL_INTR = 2 ^ 4 from by norm_num [CONTROL_INTR]] at h4
            exact and_two_pow_ne_zero.mp h4
          · exact absurd (intr_bits_all_clear q (not_ne_iff.mp h0) (not_ne_iff.mp h1)
              (not_ne_iff.mp h2) (not_ne_iff.mp h3) (not_ne_iff.mp h4)) hq

theorem gb_write_wram (s : gb_s) (addr v : Nat) (h1 : 0xC000 ≤ addr)
    (h2 : addr < 0xE000) :
    gb_write s addr v = setWram s (upd8 s.wram (addr - 0xC000) v) := by
  simp only [gb_write]
  rcases lt_or_ge addr 0xD000 with hd | hd
  · repeat rw [if_neg (by omega)]
    rw [if_pos hd]
    rfl
  · repeat rw [if_neg (by omega)]
    rw [if_pos h2]
    rw [show addr - WRAM_1_ADDR + 0x1000 = addr - 0xC000 from by
      simp only [WRAM_1_ADDR]; omega]

theorem intr_dispatch_eq (t : gb_s)
    (hp : t.hram_io IO_IF &&& t.hram_io IO_IE &&& ANY_INTR ≠ 0) :
    intr_dispatch t
      = setHram
          (setCpuPC t (0x40 + 8 * lowest_intr_bit (t.hram_io IO_IF &&& t.hram_io IO_IE)))
          (upd8 t.hram_io IO_IF
            (t.hram_io IO_IF ^^^
              2 ^ lowest_intr_bit (t.hram_io IO_IF &&& t.hram_io IO_IE))) := by
  unfold intr_dispatch lowest_intr_bit
  by_cases h0 : t.hram_io IO_IF &&& t.hram_io IO_IE &&& VBLANK_INTR ≠ 0
  · simp only [if_pos h0]
    norm_num [VBLANK_INTR_ADDR, VBLANK_INTR]
  · simp only [if_neg h0]
    by_cases h1 : t.hram_io IO_IF &&& t.hram_io IO_IE &&& LCDC_INTR ≠ 0
    · simp only [if_pos h1]
      norm_num [LCDC_INTR_ADDR, LCDC_INTR]
    · simp only [if_neg h1]
      by_cases h2 : t.hram_io IO_IF &&& t.hram_io IO_IE &&& TIMER_INTR ≠ 0
      · simp only [if_pos h2]
        norm_num [TIMER_INTR_ADDR, TIMER_INTR]
      · simp only [if_neg h2]
        by_cases h3 : t.hram_io IO_IF &&& t.hram_io IO_IE &&& SERIAL_INTR ≠ 0
        · simp only [if_pos h3]
          norm_num [SERIAL_INTR_ADDR, SERIAL_INTR]
        · simp only [if_neg h3]
          by_cases h4 : t.hram_io IO_IF &&& t.hram_io IO_IE &&& CONTROL_INTR ≠ 0
          · simp only [if_pos h4]
            norm_num [CONTROL_INTR_ADDR, CONTROL_INTR]
          · exact absurd (intr_bits_all_clear _ (not_ne_iff.mp h0) (not_ne_iff.mp h1)
              (not_ne_iff.mp h2) (not_ne_iff.mp h3) (not_ne_iff.mp h4)) hp

/-- Post-`gb_init` state of a plain ROM with IE = 0x0C (Timer and Serial
enabled), IF requested for Timer and Serial, and SP moved into WRAM. -/
def c6_state : gb_s :=
  setCpuSP (gb_write (gb_write (gb_init g0 rom_plain).2 0xFFFF 0x0C) 0xFF0F 0x0C) 0xD000

/-- Claim C6, counterexample to the vector choice.  With both the Timer
(bit 2) and Serial (bit 3) interrupts pending and enabled, the service
routine vectors to 0x50 — the Timer handler, the *first* matched entry of
the VBlank-first priority order — and not to 0x58, the vector of the
lowest-priority matched source (Serial). -/
theorem claim_C6_counterexample :
    c6_state.gb_ime = true ∧
    c6_state.hram_io IO_IF &&& c6_state.hram_io IO_IE &&& ANY_INTR = 0x0C ∧
    (gb_step_interrupt c6_state).cpu_pc = 0x50 ∧
    ¬ (gb_step_interrupt c6_state).cpu_pc = 0x58 := by
  refine ⟨by decide, by decide, by decide, by decide⟩

/-- Claim C6, amended: if IME is set and `IF & IE & 0x1F` is non-zero (and SP
points into WRAM so that the pushes are visible in this model's memory), the
interrupt step clears IME (and HALT), decrements SP twice, pushes the old PC
high byte first, sets PC to the vector `0x40 + 8·k` of the *lowest-numbered*
(highest-priority, VBlank-first) matched bit `k`, and clears exactly that bit
of IF, leaving every other IF bit unchanged. -/
theorem claim_C6_interrupt_service (s : gb_s)
    (h_ime : s.gb_ime = true)
    (hp : s.hram_io IO_IF &&& s.hram_io IO_IE &&& ANY_INTR ≠ 0)
    (hsp1 : 0xC002 ≤ s.cpu_sp) (hsp2 : s.cpu_sp ≤ 0xE000)
    (hIF : s.hram_io IO_IF < 256) :
    (gb_step_interrupt s).gb_ime = false ∧
    (gb_step_interrupt s).gb_halt = false ∧
    (gb_step_interrupt s).cpu_sp = s.cpu_sp - 2 ∧
    (gb_step_interrupt s).wram (s.cpu_sp - 1 - 0xC000) = s.cpu_pc / 256 % 256 ∧
    (gb_step_interrupt s).wram (s.cpu_sp - 2 - 0xC000) = s.cpu_pc % 256 ∧
    (gb_step_interrupt s).cpu_pc
      = 0x40 + 8 * lowest_intr_bit (s.hram_io IO_IF &&& s.hram_io IO_IE) ∧
    ((gb_step_interrupt s).hram_io IO_IF).testBit
      (lowest_intr_bit (s.hram_io IO_IF &&& s.hram_io IO_IE)) = false ∧
    (∀ i, i ≠ lowest_intr_bit (s.hram_io IO_IF &&& s.hram_io IO_IE) →
      ((gb_step_interrupt s).hram_io IO_IF).testBit i
        = (s.hram_io IO_IF).testBit i) := by
  unfold gb_step_interrupt
  dsimp only
  rw [if_pos (Or.inr ⟨h_ime, hp⟩), if_neg (by simp [h_ime])]
  simp only [setIme_cpu_sp, setHalt_cpu_sp, setIme_cpu_pc, setHalt_cpu_pc]
  rw [show (s.cpu_sp + 0xFFFF) % 0x10000 = s.cpu_sp - 1 from by omega]
  rw [gb_write_wram _ (s.cpu_sp - 1) _ (by omega) (by omega)]
  simp only [setWram_cpu_sp, setCpuSP_cpu_sp, setWram_cpu_pc, setCpuSP_cpu_pc,
    setIme_cpu_pc, setHalt_cpu_pc, setCpuSP_wram, setIme_wram, setHalt_wram]
  rw [show (s.cpu_sp - 1 + 0xFFFF) % 0x10000 = s.cpu_sp - 2 from by omega]
  rw [gb_write_wram _ (s.cpu_sp - 2) _ (by omega) (by omega)]
  simp only [setCpuSP_wram, setWram_wram]
  rw [intr_dispatch_eq _ (by
    simp only [setWram_hram_io, setCpuSP_hram_io, setIme_hram_io, setHalt_hram_io]
    exact hp)]
  simp only [setHram_gb_ime, setCpuPC_gb_ime, setWram_gb_ime, setCpuSP_gb_ime,
    setIme_gb_ime, setHram_gb_halt, setCpuPC_gb_halt, setWram_gb_halt,
    setCpuSP_gb_halt, setIme_gb_halt, setHalt_gb_halt, setHram_cpu_sp,
    setCpuPC_cpu_sp, setWram_cpu_sp, setCpuSP_cpu_sp, setHram_wram,
    setCpuPC_wram, setWram_wram, setCpuSP_wram, setHram_cpu_pc, setCpuPC_cpu_pc,
    setHram_hram_io, setCpuPC_hram_io, setWram_hram_io, setCpuSP_hram_io,
    setIme_hram_io, setHalt_hram_io]
  have hK5 : lowest_intr_bit (s.hram_io IO_IF &&& s.hram_io IO_IE) < 5 :=
    lowest_intr_bit_lt _
  have hlt : s.hram_io IO_IF ^^^
      2 ^ lowest_intr_bit (s.hram_io IO_IF &&& s.hram_io IO_IE) < 256 := by
    have h8 : (256 : Nat) = 2 ^ 8 := by norm_num
    rw [h8] at hIF ⊢
    refine Nat.xor_lt_two_pow hIF ?_
    calc 2 ^ lowest_intr_bit (s.hram_io IO_IF &&& s.hram_io IO_IE)
        ≤ 2 ^ 4 := Nat.pow_le_pow_right (by norm_num) (by omega)
      _ < 2 ^ 8 := by norm_num
  refine ⟨trivial, trivial, trivial, ?_, ?_, trivial, ?_, ?_⟩
  · rw [upd8_ne _ _ (by omega), upd8_same]
    omega
  · rw [upd8_same]
    omega
  · rw [upd8_same, Nat.mod_eq_of_lt hlt, Nat.testBit_xor]
    have hq := lowest_intr_bit_set _ hp
    simp only [Nat.testBit_land, Bool.and_eq_true] at hq
    rw [hq.1, Nat.testBit_two_pow_self]
    rfl
  · intro i hi
    rw [upd8_same, Nat.mod_eq_of_lt hlt, Nat.testBit_xor,
      Nat.testBit_two_pow_of_ne (Ne.symm hi), Bool.xor_false]

/-- Claim C6 witness: the amended statement applied at the concrete state
with IE = IF = 0x0C and SP = 0xD000. -/
theorem claim_C6_witness :
    (gb_step_interrupt c6_state).gb_ime = false ∧
    (gb_step_interrupt c6_state).cpu_sp = c6_state.cpu_sp - 2 ∧
    (gb_step_interrupt c6_state).cpu_pc
      = 0x40 + 8 * lowest_intr_bit (c6_state.hram_io IO_IF &&& c6_state.hram_io IO_IE) :=
  have h := claim_C6_interrupt_service c6_state (by decide) (by decide) (by decide)
    (by decide) (by decide)
  ⟨h.1, h.2.2.1, h.2.2.2.2.2.1⟩

/-! ## Claim C9: termination of the halted cycle loop -/

theorem lcd_phase_off_brk (u : gb_s) (ic : Nat) : (lcd_phase_off u ic).2.2 = false := by
  unfold lcd_phase_off
  dsimp only
  split <;> rfl

theorem lcd_phase_lcdoff (u : gb_s) (ic : Nat)
    (h : u.hram_io IO_LCDC &&& LCDC_ENABLE = 0) :
    lcd_phase u ic = lcd_phase_off u ic := by
  unfold lcd_phase
  dsimp only
  rw [if_pos h]

/-- With the CPU halted, no interrupts enabled and the LCD disabled, one
`cycle_advance` never takes the VBlank `break` and preserves all three
conditions. -/
theorem cycle_advance_off_step (s : gb_s) (ic : Nat)
    (hh : s.gb_halt = true) (hie : s.hram_io IO_IE = 0)
    (hlcd : s.hram_io IO_LCDC &&& LCDC_ENABLE = 0) :
    (cycle_advance s ic).2.2 = false ∧
    (cycle_advance s ic).1.gb_halt = true ∧
    (cycle_advance s ic).1.hram_io IO_IE = 0 ∧
    (cycle_advance s ic).1.hram_io IO_LCDC &&& LCDC_ENABLE = 0 := by
  unfold cycle_advance
  have hlcd' : (tima_phase (serial_phase (rtc_phase (div_phase s ic) ic) ic) ic).hram_io
      IO_LCDC = s.hram_io IO_LCDC := by
    rw [tima_phase_hram_ne _ _ (by decide) (by decide),
      serial_phase_hram_ne _ _ (by decide) (by decide) (by decide),
      rtc_phase_hram, div_phase_hram_ne _ _ (by decide)]
  rw [lcd_phase_lcdoff _ _ (by rw [hlcd']; exact hlcd)]
  refine ⟨lcd_phase_off_brk _ _, ?_, ?_, ?_⟩
  · rw [(lcd_phase_off_misc _ _).2.2.2, (tima_phase_misc _ _).2.2.1,
      (serial_phase_misc _ _).2.2.1, (rtc_phase_misc _ _).2.2.1,
      (div_phase_misc _ _).2.2.1]
    exact hh
  · rw [lcd_phase_off_hram,
      tima_phase_hram_ne _ _ (by decide) (by decide),
      serial_phase_hram_ne _ _ (by decide) (by decide) (by decide),
      rtc_phase_hram, div_phase_hram_ne _ _ (by decide)]
    exact hie
  · rw [lcd_phase_off_hram, hlcd']
    exact hlcd

theorem halt_loop_off_none : ∀ (fuel : Nat) (s : gb_s) (ic : Nat),
    s.gb_halt = true → s.hram_io IO_IE = 0 →
    s.hram_io IO_LCDC &&& LCDC_ENABLE = 0 →
    halt_loop fuel s ic = none := by
  intro fuel
  induction fuel with
  | zero => intro s ic _ _ _; rfl
  | succ n ih =>
    intro s ic hh hie hlcd
    obtain ⟨hbrk, hh', hie', hlcd'⟩ := cycle_advance_off_step s ic hh hie hlcd
    simp only [halt_loop]
    rw [hbrk]
    rw [if_neg (by simp)]
    rw [if_pos ⟨hh', by rw [hie']; simp⟩]
    exact ih _ _ hh' hie' hlcd'

/-- Post-`gb_init` state of a plain ROM with the LCD switched off (write 0x00
to 0xFF40) and the CPU halted (as after executing HALT). -/
def c9_off_state : gb_s :=
  setHalt (gb_write (gb_init g0 rom_plain).2 0xFF40 0x00) true

/-- Claim C9, counterexample: from the halted, IE = 0, LCD-off state the
do-while cycle loop never exits — `halt_loop` returns `none` for every fuel,
so `gb_run_frame` does not terminate from this state. -/
theorem claim_C9_counterexample :
    c9_off_state.gb_halt = true ∧
    c9_off_state.hram_io IO_IE = 0 ∧
    c9_off_state.hram_io IO_LCDC &&& LCDC_ENABLE = 0 ∧
    ∀ (fuel ic : Nat), halt_loop fuel c9_off_state ic = none :=
  ⟨by decide, by decide, by decide,
   fun fuel ic => halt_loop_off_none fuel _ ic (by decide) (by decide) (by decide)⟩

/-- Number of line advances until LY reaches 144 (VBlank entry), for
LY < 154: 144 − LY for visible lines, wrapping through 153 → 0 otherwise. -/
def ly_dist (y : Nat) : Nat := if y < 144 then 144 - y else 298 - y

theorem ly_dist_pos (y : Nat) (h : y < 154) : 1 ≤ ly_dist y := by
  unfold ly_dist
  split <;> omega

theorem ly_dist_step (y : Nat) (h : y < 154) (h143 : y ≠ 143) :
    ly_dist (if y = 153 then 0 else y + 1) + 1 = ly_dist y := by
  unfold ly_dist
  repeat' split
  all_goals omega

/-- Decreasing measure for the halted cycle loop with the LCD enabled:
line advances remaining to VBlank, then cycles remaining in the line. -/
def halt_measure (s : gb_s) (ic : Nat) : Nat :=
  ly_dist (s.hram_io IO_LY) * 458 + (456 - min (s.counter_lcd + ic) 456)

theorem lcd_new_line_ly (s : gb_s) (hly : s.hram_io IO_LY < 154) :
    (lcd_new_line s).hram_io IO_LY
      = if s.hram_io IO_LY = 153 then 0 else s.hram_io IO_LY + 1 := by
  unfold lcd_new_line
  dsimp
  repeat' split
  all_goals simp_all [upd8, IO_LY, IO_STAT, IO_IF, IO_LYC, LCD_VERT_LINES]
  all_goals omega

theorem lcd_vblank_entry_brk (s : gb_s) (ic : Nat)
    (hh : s.gb_halt = true) (hie : s.hram_io IO_IE = 0) :
    (lcd_vblank_entry s ic).2.2 = true := by
  unfold lcd_vblank_entry
  dsimp
  repeat' split
  all_goals simp_all [upd8, IO_IE, IO_STAT, IO_IF]

theorem lcd_mode2_entry_counter (s : gb_s) :
    (lcd_mode2_entry s).1.counter_lcd = 0 := by
  unfold lcd_mode2_entry
  dsimp
  repeat' split
  all_goals simp

theorem lcd_mode2_entry_ic (s : gb_s) :
    (lcd_mode2_entry s).2.1 = LCD_MODE2_OAM_SCAN_DURATION := by
  unfold lcd_mode2_entry
  dsimp
  repeat' split
  all_goals rfl

theorem lcd_mode0_entry_ic (s : gb_s) (ic : Nat) :
    (lcd_mode0_entry s ic).2.1
      = if s.counter_lcd < LCD_MODE0_HBLANK_MAX_DRUATION
        then LCD_MODE0_HBLANK_MAX_DRUATION - s.counter_lcd else ic := by
  unfold lcd_mode0_entry
  dsimp
  repeat' split
  all_goals simp_all

theorem gb_draw_line_state_counter_lcd (s : gb_s) :
    (gb_draw_line_state s).counter_lcd = s.counter_lcd := by
  unfold gb_draw_line_state
  repeat' split
  all_goals first | rfl | simp [setDispWindowClear]

theorem lcd_mode3_entry_ic (s : gb_s) (ic : Nat) :
    (lcd_mode3_entry s ic).2.1
      = if s.counter_lcd < LCD_MODE3_LCD_DRAW_MIN_DURATION
        then LCD_MODE3_LCD_DRAW_MIN_DURATION - s.counter_lcd else ic := by
  unfold lcd_mode3_entry
  dsimp
  repeat' split
  all_goals simp_all [gb_draw_line_state_counter_lcd]

theorem lcd_mode3_entry_counter (s : gb_s) (ic : Nat) :
    (lcd_mode3_entry s ic).1.counter_lcd = s.counter_lcd := by
  unfold lcd_mode3_entry
  dsimp
  repeat' split
  all_goals simp_all [gb_draw_line_state_counter_lcd]

set_option maxHeartbeats 1000000 in
/-- With the LCD enabled, the CPU halted and IE = 0, one pass of the LCD
state machine either takes the VBlank `break` or preserves all the loop
invariants while strictly decreasing `halt_measure`. -/
theorem lcd_phase_halt_step (t : gb_s) (ic : Nat)
    (hh : t.gb_halt = true) (hie : t.hram_io IO_IE = 0)
    (hlcd : t.hram_io IO_LCDC &&& LCDC_ENABLE ≠ 0) (hly : t.hram_io IO_LY < 154)
    (hic : 1 ≤ ic) :
    (lcd_phase t ic).2.2 = true ∨
    ((lcd_phase t ic).1.gb_halt = true ∧
     (lcd_phase t ic).1.hram_io IO_IE = 0 ∧
     (lcd_phase t ic).1.hram_io IO_LCDC &&& LCDC_ENABLE ≠ 0 ∧
     (lcd_phase t ic).1.hram_io IO_LY < 154 ∧
     1 ≤ (lcd_phase t ic).2.1 ∧
     halt_measure (lcd_phase t ic).1 (lcd_phase t ic).2.1 < halt_measure t ic) := by
  have hd1 := ly_dist_pos (t.hram_io IO_LY) hly
  unfold lcd_phase
  dsimp only
  rw [if_neg hlcd]
  simp only [setCounterLcd_counter_lcd, setCounterLcd_hram_io]
  by_cases hc : LCD_LINE_CYCLES ≤ t.counter_lcd + ic
  · rw [if_pos hc]
    have hXly : (setCounterLcd (setCounterLcd t (t.counter_lcd + ic))
        (t.counter_lcd + ic - LCD_LINE_CYCLES)).hram_io IO_LY = t.hram_io IO_LY := rfl
    have h3ly := lcd_new_line_ly (setCounterLcd (setCounterLcd t (t.counter_lcd + ic))
      (t.counter_lcd + ic - LCD_LINE_CYCLES)) (by rw [hXly]; exact hly)
    rw [hXly] at h3ly
    by_cases h143 : t.hram_io IO_LY = 143
    · left
      rw [if_pos (by rw [h3ly, h143]; decide)]
      apply lcd_vblank_entry_brk
      · rw [(lcd_new_line_misc _).2.2.2.2]
        exact hh
      · rw [lcd_new_line_hram_ne _ (by decide) (by decide) (by decide)]
        exact hie
    · have hd := ly_dist_step (t.hram_io IO_LY) hly h143
      rw [if_neg (by rw [h3ly]; simp only [LCD_HEIGHT]; split <;> omega)]
      by_cases hvis : (lcd_new_line (setCounterLcd (setCounterLcd t (t.counter_lcd + ic))
          (t.counter_lcd + ic - LCD_LINE_CYCLES))).hram_io IO_LY < LCD_HEIGHT
      · rw [if_pos hvis]
        right
        refine ⟨?_, ?_, ?_, ?_, ?_, ?_⟩
        · rw [(lcd_mode2_entry_misc _).2.2.2, (lcd_new_line_misc _).2.2.2.2]
          exact hh
        · rw [lcd_mode2_entry_hram_ne _ (by decide) (by decide),
            lcd_new_line_hram_ne _ (by decide) (by decide) (by decide)]
          exact hie
        · rw [lcd_mode2_entry_hram_ne _ (by decide) (by decide),
            lcd_new_line_hram_ne _ (by decide) (by decide) (by decide)]
          exact hlcd
        · rw [lcd_mode2_entry_hram_ne _ (by decide) (by decide), h3ly]
          split <;> omega
        · rw [lcd_mode2_entry_ic]
          decide
        · unfold halt_measure
          rw [lcd_mode2_entry_counter, lcd_mode2_entry_ic,
            lcd_mode2_entry_hram_ne _ (by decide) (by decide), h3ly]
          simp only [LCD_MODE2_OAM_SCAN_DURATION]
          omega
      · rw [if_neg hvis]
        right
        rw [h3ly] at hvis
        simp only [LCD_HEIGHT] at hvis
        refine ⟨?_, ?_, ?_, ?_, ?_, ?_⟩
        · show (lcd_new_line _).gb_halt = true
          rw [(lcd_new_line_misc _).2.2.2.2]
          exact hh
        · show (lcd_new_line _).hram_io IO_IE = 0
          rw [lcd_new_line_hram_ne _ (by decide) (by decide) (by decide)]
          exact hie
        · show (lcd_new_line _).hram_io IO_LCDC &&& LCDC_ENABLE ≠ 0
          rw [lcd_new_line_hram_ne _ (by decide) (by decide) (by decide)]
          exact hlcd
        · show (lcd_new_line _).hram_io IO_LY < 154
          rw [h3ly]
          split <;> omega
        · exact hic
        · show halt_measure (lcd_new_line _) ic < halt_measure t ic
          unfold halt_measure
          rw [(lcd_new_line_misc _).2.2.2.1, h3ly]
          simp only [setCounterLcd_counter_lcd, LCD_LINE_CYCLES]
          omega
  · rw [if_neg hc]
    have hcn : t.counter_lcd + ic < 456 := by
      simp only [LCD_LINE_CYCLES] at hc
      omega
    by_cases hm0 : t.hram_io IO_STAT &&& STAT_MODE = IO_STAT_MODE_LCD_DRAW ∧
        LCD_MODE3_LCD_DRAW_END ≤ t.counter_lcd + ic
    · rw [if_pos hm0]
      have hm0' : 252 ≤ t.counter_lcd + ic := by
        have h := hm0.2
        simp only [LCD_MODE3_LCD_DRAW_END, LCD_MODE2_OAM_SCAN_END,
          LCD_MODE2_OAM_SCAN_DURATION, LCD_MODE3_LCD_DRAW_MIN_DURATION] at h
        omega
      have hic0 : (lcd_mode0_entry (setCounterLcd t (t.counter_lcd + ic)) ic).2.1 = ic := by
        rw [lcd_mode0_entry_ic]
        rw [if_neg (by simp only [setCounterLcd_counter_lcd,
          LCD_MODE0_HBLANK_MAX_DRUATION]; omega)]
      right
      refine ⟨?_, ?_, ?_, ?_, ?_, ?_⟩
      · rw [(lcd_mode0_entry_misc _ _).2.2.2.2]
        exact hh
      · rw [lcd_mode0_entry_hram_ne _ _ (by decide) (by decide)]
        exact hie
      · rw [lcd_mode0_entry_hram_ne _ _ (by decide) (by decide)]
        exact hlcd
      · rw [lcd_mode0_entry_hram_ne _ _ (by decide) (by decide)]
        exact hly
      · rw [hic0]
        exact hic
      · unfold halt_measure
        rw [(lcd_mode0_entry_misc _ _).2.2.2.1, hic0,
          lcd_mode0_entry_hram_ne _ _ (by decide) (by decide)]
        simp only [setCounterLcd_counter_lcd, setCounterLcd_hram_io]
        omega
    · rw [if_neg hm0]
      by_cases hm2 : t.hram_io IO_STAT &&& STAT_MODE = IO_STAT_MODE_OAM_SCAN ∧
          LCD_MODE2_OAM_SCAN_END ≤ t.counter_lcd + ic
      · rw [if_pos hm2]
        right
        refine ⟨?_, ?_, ?_, ?_, ?_, ?_⟩
        · rw [(lcd_mode3_entry_misc _ _).2.2.2]
          exact hh
        · rw [lcd_mode3_entry_hram_ne _ _ (by decide) (by decide)]
          exact hie
        · rw [lcd_mode3_entry_hram_ne _ _ (by decide) (by decide)]
          exact hlcd
        · rw [lcd_mode3_entry_hram_ne _ _ (by decide) (by decide)]
          exact hly
        · rw [lcd_mode3_entry_ic]
          simp only [setCounterLcd_counter_lcd, LCD_MODE3_LCD_DRAW_MIN_DURATION]
          split <;> omega
        · unfold halt_measure
          rw [lcd_mode3_entry_counter, lcd_mode3_entry_ic,
            lcd_mode3_entry_hram_ne _ _ (by decide) (by decide)]
          simp only [setCounterLcd_counter_lcd, setCounterLcd_hram_io,
            LCD_MODE3_LCD_DRAW_MIN_DURATION]
          split <;> omega
      · rw [if_neg hm2]
        right
        refine ⟨hh, hie, hlcd, hly, hic, ?_⟩
        unfold halt_measure
        simp only [setCounterLcd_counter_lcd, setCounterLcd_hram_io]
        omega

/-- One iteration of the do-while body, halted with IE = 0 and the LCD on:
either the VBlank `break` fires or the invariants persist and the measure
drops. -/
theorem cycle_advance_halt_step (s : gb_s) (ic : Nat)
    (hh : s.gb_halt = true) (hie : s.hram_io IO_IE = 0)
    (hlcd : s.hram_io IO_LCDC &&& LCDC_ENABLE ≠ 0) (hly : s.hram_io IO_LY < 154)
    (hic : 1 ≤ ic) :
    (cycle_advance s ic).2.2 = true ∨
    ((cycle_advance s ic).1.gb_halt = true ∧
     (cycle_advance s ic).1.hram_io IO_IE = 0 ∧
     (cycle_advance s ic).1.hram_io IO_LCDC &&& LCDC_ENABLE ≠ 0 ∧
     (cycle_advance s ic).1.hram_io IO_LY < 154 ∧
     1 ≤ (cycle_advance s ic).2.1 ∧
     halt_measure (cycle_advance s ic).1 (cycle_advance s ic).2.1
       < halt_measure s ic) := by
  unfold cycle_advance
  set t := tima_phase (serial_phase (rtc_phase (div_phase s ic) ic) ic) ic with ht
  have hhram : ∀ a : Nat, a ≠ IO_SB → a ≠ IO_SC → a ≠ IO_IF → a ≠ IO_TIMA →
      a ≠ IO_DIV → t.hram_io a = s.hram_io a := by
    intro a h1 h2 h3 h4 h5
    rw [ht, tima_phase_hram_ne _ _ h4 h3, serial_phase_hram_ne _ _ h1 h2 h3,
      rtc_phase_hram, div_phase_hram_ne _ _ h5]
  have hh' : t.gb_halt = true := by
    rw [ht, (tima_phase_misc _ _).2.2.1, (serial_phase_misc _ _).2.2.1,
      (rtc_phase_misc _ _).2.2.1, (div_phase_misc _ _).2.2.1]
    exact hh
  have hie' : t.hram_io IO_IE = 0 := by
    rw [hhram IO_IE (by decide) (by decide) (by decide) (by decide) (by decide)]
    exact hie
  have hlcd' : t.hram_io IO_LCDC &&& LCDC_ENABLE ≠ 0 := by
    rw [hhram IO_LCDC (by decide) (by decide) (by decide) (by decide) (by decide)]
    exact hlcd
  have hly' : t.hram_io IO_LY < 154 := by
    rw [hhram IO_LY (by decide) (by decide) (by decide) (by decide) (by decide)]
    exact hly
  have hcnt : t.counter_lcd = s.counter_lcd := by
    rw [ht, (tima_phase_misc _ _).1, (serial_phase_misc _ _).1,
      (rtc_phase_misc _ _).1, (div_phase_misc _ _).1]
  have hm : halt_measure t ic = halt_measure s ic := by
    unfold halt_measure
    rw [hcnt, hhram IO_LY (by decide) (by decide) (by decide) (by decide) (by decide)]
  rcases lcd_phase_halt_step t ic hh' hie' hlcd' hly' hic with k | k
  · exact Or.inl k
  · exact Or.inr ⟨k.1, k.2.1, k.2.2.1, k.2.2.2.1, k.2.2.2.2.1, hm ▸ k.2.2.2.2.2⟩

/-- Fueled termination of the halted loop when the LCD is on:
`halt_measure` bounds the number of iterations to the VBlank `break`. -/
theorem halt_loop_terminates : ∀ (n : Nat) (s : gb_s) (ic : Nat),
    halt_measure s ic ≤ n →
    s.gb_halt = true → s.hram_io IO_IE = 0 →
    s.hram_io IO_LCDC &&& LCDC_ENABLE ≠ 0 → s.hram_io IO_LY < 154 → 1 ≤ ic →
    (halt_loop (n + 1) s ic).isSome = true := by
  intro n
  induction n with
  | zero =>
    intro s ic hn _ _ _ hly _
    exfalso
    have h1 := ly_dist_pos (s.hram_io IO_LY) hly
    unfold halt_measure at hn
    omega
  | succ n ih =>
    intro s ic hn hh hie hlcd hly hic
    rcases cycle_advance_halt_step s ic hh hie hlcd hly hic with hbrk |
      ⟨hh', hie', hlcd', hly', hic', hmlt⟩
    · simp only [halt_loop]
      rw [hbrk, if_pos rfl]
      rfl
    · by_cases hbrk2 : (cycle_advance s ic).2.2 = true
      · simp only [halt_loop]
        rw [hbrk2, if_pos rfl]
        rfl
      · rw [Bool.not_eq_true] at hbrk2
        simp only [halt_loop]
        rw [hbrk2, if_neg (by simp), if_pos ⟨hh', by rw [hie']; simp⟩]
        exact ih _ _ (by omega) hh' hie' hlcd' hly' hic'

/-- Claim C9 (amended): when the LCD is enabled, the halted do-while loop of
`__gb_step_cpu` always terminates — with the CPU halted, IE = 0 and LY in
range, it reaches the VBlank-entry `break` within `halt_measure` iterations
(at most one frame of emulated cycles), so `gb_run_frame` returns.  Without
the LCD-enabled hypothesis the statement is false: see
`claim_C9_counterexample`, where the loop never exits. -/
theorem claim_C9_halt_termination (s : gb_s) (ic : Nat)
    (hh : s.gb_halt = true) (hie : s.hram_io IO_IE = 0)
    (hlcd : s.hram_io IO_LCDC &&& LCDC_ENABLE ≠ 0)
    (hly : s.hram_io IO_LY < 154) (hic : 1 ≤ ic) :
    (halt_loop (halt_measure s ic + 1) s ic).isSome = true :=
  halt_loop_terminates (halt_measure s ic) s ic (le_refl _) hh hie hlcd hly hic

/-- Post-`gb_init` state of a plain ROM with the CPU halted; the LCD is on
(LCDC = 0x91 after reset) and IE = 0. -/
def c9_on_state : gb_s := setHalt (gb_init g0 rom_plain).2 true

theorem claim_C9_witness :
    c9_on_state.gb_halt = true ∧ c9_on_state.hram_io IO_IE = 0 ∧
    c9_on_state.hram_io IO_LCDC &&& LCDC_ENABLE ≠ 0 ∧
    c9_on_state.hram_io IO_LY < 154 ∧ 1 ≤ 4 ∧
    (halt_loop (halt_measure c9_on_state 4 + 1) c9_on_state 4).isSome = true :=
  ⟨by decide, by decide, by decide, by decide, by decide,
   claim_C9_halt_termination c9_on_state 4 (by decide) (by decide) (by decide)
     (by decide) (by decide)⟩

/-! ## Claim C7: sprite selection is the 10 lexicographically least on-line
sprites (X first, OAM index as tie-break) -/

/-- Strict lexicographic order on `(x, sprite_number)` — the order
`compare_sprites` implements. -/
def lexLT (a b : sprite_data) : Prop :=
  a.x < b.x ∨ (a.x = b.x ∧ a.sprite_number < b.sprite_number)

theorem compare_sprites_lt_iff (a b : sprite_data) :
    compare_sprites a b < 0 ↔ lexLT a b := by
  unfold compare_sprites lexLT
  dsimp only
  split <;> omega

theorem lexLT_trans {a b c : sprite_data} (h1 : lexLT a b) (h2 : lexLT b c) :
    lexLT a c := by
  unfold lexLT at *
  omega

theorem lexLT_swap {a b : sprite_data} (h : ¬ lexLT a b)
    (hne : a.sprite_number ≠ b.sprite_number) : lexLT b a := by
  unfold lexLT at *
  rcases a with ⟨n1, x1⟩
  rcases b with ⟨n2, x2⟩
  simp only at *
  omega

/-- Sorted insertion after all strictly smaller entries — the reference
order in which `__gb_draw_line` keeps `sprites_to_render`. -/
def sinsert (c : sprite_data) : List sprite_data → List sprite_data
  | [] => [c]
  | e :: l => if compare_sprites e c < 0 then e :: sinsert c l else c :: e :: l

theorem sinsert_all_lt (c : sprite_data) :
    ∀ (m : List sprite_data), (∀ e ∈ m, compare_sprites e c < 0) →
    sinsert c m = m ++ [c] := by
  intro m
  induction m with
  | nil => intro _; rfl
  | cons e l ih =>
    intro h
    simp only [sinsert]
    rw [if_pos (h e (by simp)), ih (fun e' he' => h e' (by simp [he']))]
    rfl

theorem sinsert_append_last (c a : sprite_data) (l : List sprite_data)
    (h : ¬ compare_sprites a c < 0) :
    sinsert c (l ++ [a]) = sinsert c l ++ [a] := by
  induction l with
  | nil =>
    show sinsert c [a] = sinsert c [] ++ [a]
    unfold sinsert
    rw [if_neg h]
    rfl
  | cons e t ih =>
    show sinsert c (e :: (t ++ [a])) = sinsert c (e :: t) ++ [a]
    unfold sinsert
    by_cases hc : compare_sprites e c < 0
    · rw [if_pos hc, if_pos hc, ih]
      rfl
    · rw [if_neg hc, if_neg hc]
      rfl

theorem place_rev_le (c : sprite_data) :
    ∀ (rl : List sprite_data), place_rev rl c ≤ rl.length := by
  intro rl
  induction rl with
  | nil => simp [place_rev]
  | cons sd rest ih =>
    simp only [place_rev, List.length_cons]
    split
    · omega
    · omega

theorem sprite_place_le (arr : List sprite_data) (c : sprite_data) :
    sprite_place arr c ≤ arr.length := by
  unfold sprite_place
  have h := place_rev_le c arr.reverse
  rwa [List.length_reverse] at h

theorem mem_sinsert (a c : sprite_data) :
    ∀ (l : List sprite_data), (a ∈ sinsert c l ↔ a = c ∨ a ∈ l) := by
  intro l
  induction l with
  | nil => simp [sinsert]
  | cons e t ih =>
    simp only [sinsert]
    split
    · simp only [List.mem_cons, ih]
      tauto
    · simp only [List.mem_cons]

theorem pairwise_sinsert (c : sprite_data) :
    ∀ (l : List sprite_data), l.Pairwise lexLT →
    (∀ e ∈ l, e.sprite_number ≠ c.sprite_number) →
    (sinsert c l).Pairwise lexLT := by
  intro l
  induction l with
  | nil => intro _ _; simp [sinsert]
  | cons e t ih =>
    intro hp hf
    simp only [sinsert]
    by_cases hc : compare_sprites e c < 0
    · rw [if_pos hc]
      refine List.Pairwise.cons ?_ (ih (List.Pairwise.of_cons hp)
        (fun e' he' => hf e' (by simp [he'])))
      intro b hb
      rcases (mem_sinsert b c t).mp hb with rfl | hbt
      · exact (compare_sprites_lt_iff e b).mp hc
      · exact (List.pairwise_cons.mp hp).1 b hbt
    · rw [if_neg hc]
      refine List.Pairwise.cons ?_ hp
      intro b hb
      have hce : lexLT c e := by
        refine lexLT_swap ?_ (hf e (by simp))
        intro hlt
        exact hc ((compare_sprites_lt_iff e c).mpr hlt)
      rcases List.mem_cons.mp hb with rfl | hbt
      · exact hce
      · exact lexLT_trans hce ((List.pairwise_cons.mp hp).1 b hbt)

theorem sprite_place_snoc_lt (l : List sprite_data) (a c : sprite_data)
    (h : compare_sprites a c < 0) :
    sprite_place (l ++ [a]) c = l.length + 1 := by
  unfold sprite_place place_rev
  rw [List.reverse_append]
  show place_rev (a :: l.reverse) c = l.length + 1
  unfold place_rev
  rw [if_pos h, List.length_reverse]

theorem sprite_place_snoc_ge (l : List sprite_data) (a c : sprite_data)
    (h : ¬ compare_sprites a c < 0) :
    sprite_place (l ++ [a]) c = sprite_place l c := by
  unfold sprite_place
  rw [List.reverse_append]
  show place_rev (a :: l.reverse) c = place_rev l.reverse c
  rw [show place_rev (a :: l.reverse) c
      = if compare_sprites a c < 0 then l.reverse.length + 1 else place_rev l.reverse c
    from rfl]
  rw [if_neg h]

/-- On a sorted array, the `place` scan finds exactly the sorted-insertion
point: `sinsert` splits the array at `sprite_place`. -/
theorem sinsert_eq_place_split (c : sprite_data) :
    ∀ (arr : List sprite_data), arr.Pairwise lexLT →
    sinsert c arr
      = arr.take (sprite_place arr c) ++ c :: arr.drop (sprite_place arr c) := by
  intro arr
  induction arr using List.reverseRecOn with
  | nil => intro _; rfl
  | append_singleton l a ih =>
    intro hp
    by_cases hac : compare_sprites a c < 0
    · rw [sprite_place_snoc_lt l a c hac]
      have hall : ∀ e ∈ l ++ [a], compare_sprites e c < 0 := by
        intro e he
        rcases List.mem_append.mp he with hel | hea
        · refine (compare_sprites_lt_iff e c).mpr
            (lexLT_trans ?_ ((compare_sprites_lt_iff a c).mp hac))
          have hcross := (List.pairwise_append.mp hp).2.2
          exact hcross e hel a (by simp)
        · rw [List.mem_singleton.mp hea]
          exact hac
      rw [sinsert_all_lt c _ hall]
      rw [show l.length + 1 = (l ++ [a]).length by simp]
      rw [List.take_length, List.drop_length]
    · rw [sprite_place_snoc_ge l a c hac]
      rw [sinsert_append_last c a l hac]
      rw [ih (List.pairwise_append.mp hp).1]
      have hle : sprite_place l c ≤ l.length := sprite_place_le l c
      rw [List.take_append_of_le_length hle, List.drop_append_of_le_length hle]
      simp

/-- `insert_sprite` on a sorted array of at most 10 entries is sorted
insertion followed by truncation to 10 entries. -/
theorem insert_sprite_eq (arr : List sprite_data) (c : sprite_data)
    (hp : arr.Pairwise lexLT) (hlen : arr.length ≤ MAX_SPRITES_LINE) :
    insert_sprite arr c = (sinsert c arr).take MAX_SPRITES_LINE := by
  have hdecomp := sinsert_eq_place_split c arr hp
  have hple := sprite_place_le arr c
  unfold insert_sprite
  dsimp only
  by_cases h10 : MAX_SPRITES_LINE ≤ sprite_place arr c
  · rw [if_pos h10]
    have hpl : sprite_place arr c = arr.length := by omega
    have hlen10 : arr.length = MAX_SPRITES_LINE := by omega
    rw [hdecomp, hpl, List.take_length, List.drop_length,
      List.take_append_eq_append_take, hlen10]
    simp
    exact hlen
  · rw [if_neg h10, hdecomp]

theorem sinsert_take_comm (c : sprite_data) :
    ∀ (l : List sprite_data) (m : Nat),
    (sinsert c (l.take m)).take m = (sinsert c l).take m := by
  intro l
  induction l with
  | nil => intro m; rw [List.take_nil]
  | cons e t ih =>
    intro m
    match m with
    | 0 => rfl
    | m' + 1 =>
      rw [List.take_succ_cons]
      show (sinsert c (e :: t.take m')).take (m' + 1) = (sinsert c (e :: t)).take (m' + 1)
      unfold sinsert
      by_cases hc : compare_sprites e c < 0
      · rw [if_pos hc, if_pos hc, List.take_succ_cons, List.take_succ_cons, ih]
      · rw [if_neg hc, if_neg hc, List.take_succ_cons, List.take_succ_cons]
        have htt : (e :: t.take m').take m' = (e :: t).take m' := by
          match m' with
          | 0 => rfl
          | k + 1 =>
            rw [List.take_succ_cons, List.take_succ_cons, List.take_take]
            have hmin : min k (k + 1) = k := by omega
            rw [hmin]
        rw [htt]

/-- Specification-side order of `__gb_draw_line`'s sprite collection: the
on-line OAM entries among indices `< k`, kept sorted by `(X, OAM index)`. -/
def online_sorted (oam : Nat → Nat) (ly lcdc : Nat) : Nat → List sprite_data
  | 0 => []
  | k + 1 =>
    if sprite_on_line ly lcdc (oam (4 * k) % 256) then
      sinsert ⟨k, oam (4 * k + 1) % 256⟩ (online_sorted oam ly lcdc k)
    else online_sorted oam ly lcdc k

theorem online_sorted_mem (oam : Nat → Nat) (ly lcdc : Nat) :
    ∀ (k : Nat) (e : sprite_data), (e ∈ online_sorted oam ly lcdc k ↔
      ∃ n, n < k ∧ sprite_on_line ly lcdc (oam (4 * n) % 256) = true ∧
        e = ⟨n, oam (4 * n + 1) % 256⟩) := by
  intro k
  induction k with
  | zero => intro e; simp [online_sorted]
  | succ k ih =>
    intro e
    simp only [online_sorted]
    by_cases ho : sprite_on_line ly lcdc (oam (4 * k) % 256)
    · rw [if_pos ho, mem_sinsert, ih]
      constructor
      · rintro (rfl | ⟨n, hn, hon, rfl⟩)
        · exact ⟨k, by omega, ho, rfl⟩
        · exact ⟨n, by omega, hon, rfl⟩
      · rintro ⟨n, hn, hon, rfl⟩
        by_cases hnk : n = k
        · subst hnk
          exact Or.inl rfl
        · exact Or.inr ⟨n, by omega, hon, rfl⟩
    · rw [if_neg ho, ih]
      constructor
      · rintro ⟨n, hn, hon, rfl⟩
        exact ⟨n, by omega, hon, rfl⟩
      · rintro ⟨n, hn, hon, rfl⟩
        by_cases hnk : n = k
        · subst hnk
          exact absurd hon ho
        · exact ⟨n, by omega, hon, rfl⟩

theorem online_sorted_pairwise (oam : Nat → Nat) (ly lcdc : Nat) :
    ∀ (k : Nat), (online_sorted oam ly lcdc k).Pairwise lexLT := by
  intro k
  induction k with
  | zero => simp [online_sorted]
  | succ k ih =>
    simp only [online_sorted]
    by_cases ho : sprite_on_line ly lcdc (oam (4 * k) % 256)
    · rw [if_pos ho]
      refine pairwise_sinsert _ _ ih ?_
      intro e he
      obtain ⟨n, hn, _, rfl⟩ := (online_sorted_mem oam ly lcdc k e).mp he
      simp only
      omega
    · rw [if_neg ho]
      exact ih

theorem select_sprites_upto (oam : Nat → Nat) (ly lcdc : Nat) :
    ∀ (k : Nat),
    (List.range k).foldl
      (fun arr n =>
        let oy := oam (4 * n) % 256
        let ox := oam (4 * n + 1) % 256
        if sprite_on_line ly lcdc oy then insert_sprite arr ⟨n, ox⟩ else arr)
      []
      = (online_sorted oam ly lcdc k).take MAX_SPRITES_LINE := by
  intro k
  induction k with
  | zero => rfl
  | succ k ih =>
    rw [List.range_succ, List.foldl_append, ih]
    simp only [List.foldl_cons, List.foldl_nil, online_sorted]
    by_cases ho : sprite_on_line ly lcdc (oam (4 * k) % 256)
    · rw [if_pos ho, if_pos ho]
      rw [insert_sprite_eq _ _
        (List.Pairwise.sublist (List.take_sublist _ _) (online_sorted_pairwise oam ly lcdc k))
        (List.length_take_le _ _)]
      rw [sinsert_take_comm]
    · rw [if_neg ho, if_neg ho]

theorem select_sprites_eq (oam : Nat → Nat) (ly lcdc : Nat) :
    select_sprites oam ly lcdc
      = (online_sorted oam ly lcdc NUM_SPRITES).take MAX_SPRITES_LINE :=
  select_sprites_upto oam ly lcdc NUM_SPRITES

theorem select_sprites_congr (oam oam' : Nat → Nat) (ly ly' lcdc lcdc' : Nat)
    (h : ∀ n, n < NUM_SPRITES →
      sprite_on_line ly lcdc (oam (4 * n) % 256)
        = sprite_on_line ly' lcdc' (oam' (4 * n) % 256) ∧
      oam (4 * n + 1) % 256 = oam' (4 * n + 1) % 256) :
    select_sprites oam ly lcdc = select_sprites oam' ly' lcdc' := by
  unfold select_sprites
  have main : ∀ (ns : List Nat), (∀ n ∈ ns, n < NUM_SPRITES) →
      ∀ (acc : List sprite_data),
      ns.foldl
        (fun arr n =>
          let oy := oam (4 * n) % 256
          let ox := oam (4 * n + 1) % 256
          if sprite_on_line ly lcdc oy then insert_sprite arr ⟨n, ox⟩ else arr) acc
      = ns.foldl
        (fun arr n =>
          let oy := oam' (4 * n) % 256
          let ox := oam' (4 * n + 1) % 256
          if sprite_on_line ly' lcdc' oy then insert_sprite arr ⟨n, ox⟩ else arr) acc := by
    intro ns
    induction ns with
    | nil => intro _ acc; rfl
    | cons n t ih =>
      intro hb acc
      have hn : n < NUM_SPRITES := hb n (by simp)
      simp only [List.foldl_cons]
      rw [show (if sprite_on_line ly lcdc (oam (4 * n) % 256) then
            insert_sprite acc ⟨n, oam (4 * n + 1) % 256⟩ else acc)
          = (if sprite_on_line ly' lcdc' (oam' (4 * n) % 256) then
            insert_sprite acc ⟨n, oam' (4 * n + 1) % 256⟩ else acc) from by
        rw [(h n hn).1, (h n hn).2]]
      exact ih (fun m hm => hb m (by simp [hm])) _
  exact main (List.range NUM_SPRITES) (fun n hn => List.mem_range.mp hn) []

/-- Claim C7: for every OAM configuration, LY and LCDC, the per-scanline
sprite selection equals sorted-insertion into the `(X, OAM index)` order
truncated to 10; hence it has at most 10 entries, is sorted by X with the
OAM index as tie-break, contains only on-line sprites, omits an on-line
sprite only when 10 strictly lex-smaller sprites are selected, and depends
only on each slot's on-line flag and X — so it is stable under shuffling
OAM entries of equal X. -/
theorem claim_C7_sprite_selection (oam : Nat → Nat) (ly lcdc : Nat) :
    select_sprites oam ly lcdc
      = (online_sorted oam ly lcdc NUM_SPRITES).take MAX_SPRITES_LINE ∧
    (select_sprites oam ly lcdc).length ≤ MAX_SPRITES_LINE ∧
    (select_sprites oam ly lcdc).Pairwise lexLT ∧
    (∀ e ∈ select_sprites oam ly lcdc, ∃ n, n < NUM_SPRITES ∧
      sprite_on_line ly lcdc (oam (4 * n) % 256) = true ∧
      e = ⟨n, oam (4 * n + 1) % 256⟩) ∧
    (∀ n, n < NUM_SPRITES → sprite_on_line ly lcdc (oam (4 * n) % 256) = true →
      (⟨n, oam (4 * n + 1) % 256⟩ : sprite_data) ∈ select_sprites oam ly lcdc ∨
      ((select_sprites oam ly lcdc).length = MAX_SPRITES_LINE ∧
       ∀ e ∈ select_sprites oam ly lcdc, lexLT e ⟨n, oam (4 * n + 1) % 256⟩)) ∧
    (∀ (oam' : Nat → Nat) (ly' lcdc' : Nat),
      (∀ n, n < NUM_SPRITES →
        sprite_on_line ly lcdc (oam (4 * n) % 256)
          = sprite_on_line ly' lcdc' (oam' (4 * n) % 256) ∧
        oam (4 * n + 1) % 256 = oam' (4 * n + 1) % 256) →
      select_sprites oam ly lcdc = select_sprites oam' ly' lcdc') := by
  have heq := select_sprites_eq oam ly lcdc
  have hpS := online_sorted_pairwise oam ly lcdc NUM_SPRITES
  refine ⟨heq, ?_, ?_, ?_, ?_, ?_⟩
  · rw [heq]
    exact List.length_take_le _ _
  · rw [heq]
    exact List.Pairwise.sublist (List.take_sublist _ _) hpS
  · intro e he
    rw [heq] at he
    exact (online_sorted_mem oam ly lcdc NUM_SPRITES e).mp (List.take_subset _ _ he)
  · intro n hn hon
    have hmem : (⟨n, oam (4 * n + 1) % 256⟩ : sprite_data)
        ∈ online_sorted oam ly lcdc NUM_SPRITES :=
      (online_sorted_mem oam ly lcdc NUM_SPRITES _).mpr ⟨n, hn, hon, rfl⟩
    rw [← List.take_append_drop MAX_SPRITES_LINE
      (online_sorted oam ly lcdc NUM_SPRITES)] at hmem
    rcases List.mem_append.mp hmem with h1 | h2
    · left
      rw [heq]
      exact h1
    · right
      have hlen : MAX_SPRITES_LINE ≤ (online_sorted oam ly lcdc NUM_SPRITES).length := by
        by_contra hcon
        push_neg at hcon
        rw [List.drop_eq_nil_of_le (by omega)] at h2
        exact absurd h2 (List.not_mem_nil _)
      have hpsplit := List.pairwise_append.mp (by
        rw [List.take_append_drop MAX_SPRITES_LINE (online_sorted oam ly lcdc NUM_SPRITES)]
        exact hpS)
      refine ⟨?_, ?_⟩
      · rw [heq, List.length_take]
        omega
      · intro e he
        rw [heq] at he
        exact hpsplit.2.2 e he _ h2
  · intro oam' ly' lcdc' h
    exact select_sprites_congr oam oam' ly ly' lcdc lcdc' h
